import Mathlib

/-!
# libCEED code-generation backends: launch planner, field classifier, build lifecycle,
matrix reuse, assembly, composite apply, input order and generated-source constants

A shallow embedding of

* `backends/cuda-gen/ceed-cuda-gen-operator.c` (the operator runner and its launch planner), and
* `backends/hip-gen/ceed-hip-gen-operator-build.cpp` (the kernel builders),

followed by theorems about the embedded functions.

Conventions.

* C `int` / `CeedInt` values are modelled by `Int`.  The quantities of the launch planner are
  device limits, thread counts and element counts, far below `2^31`.  The products of sizes that
  the QFunction assembly computes in `CeedInt` (`num_elem * Q`, `qf_size_in * qf_size_out`) can
  leave the 32-bit range on a large operator: they are modelled by `wrapCeedInt`.
* C integer division truncates toward zero and is undefined for a zero divisor: it is modelled by
  `cdiv`, which returns `none` for a zero divisor.
* Object handles (`CeedBasis`, `CeedVector`, `CeedElemRestriction`) are compared by identity in
  the source; they are modelled by natural-number identifiers.
-/

namespace CeedGen

/-! ## Integer helpers -/

/-- C integer division `a / b`: truncation toward zero, `none` when the divisor is zero. -/
def cdiv (a b : Int) : Option Int :=
  if b = 0 then none else some (Int.tdiv a b)

/-- C remainder `a % b`: sign follows the dividend, `none` when the divisor is zero. -/
def cmod (a b : Int) : Option Int :=
  if b = 0 then none else some (Int.tmod a b)

/-- Modelled from the spec: `CeedIntMin` is a helper of `ceed.h`, which is not part of the
sources at hand; it is the smaller of its two arguments (the spec's `min`, used to clamp). -/
def CeedIntMin (a b : Int) : Int :=
  if a < b then a else b

/-- Modelled from the spec: `CeedIntMax` is a helper of `ceed.h`, which is not part of the
sources at hand; it is the larger of its two arguments (the spec's `clamp(., 1, .)` lower end). -/
def CeedIntMax (a b : Int) : Int :=
  if a > b then a else b

/-- Modelled from the spec: `CeedDivUpInt` is a helper of `ceed.h`, which is not part of the
sources at hand; it is the integer division rounding up (the spec's `ceil(E / k)`, and
`round_up(x, w) = CeedDivUpInt(x, w) * w`), computed in C as `(numer + denom - 1) / denom`. -/
def CeedDivUpInt (numer denom : Int) : Option Int :=
  cdiv (numer + denom - 1) denom

/-- The value a 32-bit `CeedInt` expression yields when its exact value is `x`: `x` itself when
it lies in `-2^31 .. 2^31 - 1`, and the two's-complement wrap `x mod 2^32` taken in that range
otherwise (signed overflow is undefined behaviour in C; the wrap is what the compiled
multiplication yields). -/
def wrapCeedInt (x : Int) : Int :=
  (x + 2147483648) % 4294967296 - 2147483648

/-! ## Launch planner (`ceed-cuda-gen-operator.c`) -/

/-- Embedding of `Waste` (ceed-cuda-gen-operator.c, lines 40-46). -/
def Waste (threads_per_sm warp_size threads_per_elem elems_per_block : Int) : Option Int := do
  let useful_threads_per_block := threads_per_elem * elems_per_block
  -- round up to nearest multiple of warp_size
  let block_size := (← CeedDivUpInt useful_threads_per_block warp_size) * warp_size
  let blocks_per_sm ← cdiv threads_per_sm block_size
  pure (threads_per_sm - useful_threads_per_block * blocks_per_sm)

/-- The body of the `for` loop of `BlockGridCalculate` (lines 82-91), run for `n` consecutive
values of the loop variable starting at `i`, on the loop state `(elems_per_block, waste)`. -/
def wasteSearchLoop (threads_per_sm warp_size threads_per_elem : Int) :
    Nat → Int → Int → Int → Option (Int × Int)
  | 0, _, elems_per_block, waste => some (elems_per_block, waste)
  | n + 1, i, elems_per_block, waste => do
    let i_waste ← Waste threads_per_sm warp_size threads_per_elem i
    if i_waste < waste ∨ (i_waste = waste ∧ threads_per_elem * i ≤ 128) then
      wasteSearchLoop threads_per_sm warp_size threads_per_elem n (i + 1) i i_waste
    else
      wasteSearchLoop threads_per_sm warp_size threads_per_elem n (i + 1) elems_per_block waste

/-- The waste search of `BlockGridCalculate` (lines 77-91): the value of `elems_per_block` when
the loop `for (i = 2; i <= CeedIntMin(max_threads_per_block / threads_per_elem, num_elem); i++)`
is left.  The loop runs for `i = 2, ..., bound`, that is `bound - 1` times when `bound >= 2`. -/
def searchElemsPerBlock (num_elem blocks_per_sm max_threads_per_block warp_size
    threads_per_elem : Int) : Option Int := do
  let threads_per_sm := blocks_per_sm * max_threads_per_block
  let waste ← Waste threads_per_sm warp_size threads_per_elem 1
  let bound := CeedIntMin (← cdiv max_threads_per_block threads_per_elem) num_elem
  let r ← wasteSearchLoop threads_per_sm warp_size threads_per_elem (bound - 1).toNat 2 1 waste
  pure r.1

/-- A kernel launch shape: the three block dimensions and the grid size. -/
structure LaunchDims where
  block0 : Int
  block1 : Int
  block2 : Int
  grid : Int
  deriving DecidableEq, Repr

/-- Embedding of `BlockGridCalculate` (ceed-cuda-gen-operator.c, lines 75-97).  `block0` and
`block1` are the entries `block[0]`, `block[1]` given on input; the result carries the
`block[2]` and `*grid` the function writes. -/
def BlockGridCalculate (num_elem blocks_per_sm max_threads_per_block max_threads_z warp_size
    block0 block1 : Int) : Option LaunchDims := do
  let threads_per_elem := block0 * block1
  let elems_per_block ←
    searchElemsPerBlock num_elem blocks_per_sm max_threads_per_block warp_size threads_per_elem
  -- clamp to the z-dimension limit of the device
  let block2 := CeedIntMin elems_per_block max_threads_z
  let grid ← CeedDivUpInt num_elem elems_per_block
  pure { block0 := block0, block1 := block1, block2 := block2, grid := grid }

/-- Embedding of `dynamicSMemSize` (line 100), in units of bytes; `scalar_size` is
`sizeof(CeedScalar)`. -/
def dynamicSMemSize (scalar_size threads : Int) : Int :=
  threads * scalar_size

/-! ## Planner: proof-side definitions -/

/-- Closed form of `Waste` for a positive block: C division written with `Int.tdiv`. -/
def wasteVal (threads_per_sm warp_size threads_per_elem elems_per_block : Int) : Int :=
  threads_per_sm - threads_per_elem * elems_per_block *
    Int.tdiv threads_per_sm
      (Int.tdiv (threads_per_elem * elems_per_block + warp_size - 1) warp_size * warp_size)

/-- Invariant of the waste search before the loop variable takes the value `i`: the state holds a
candidate `e < i` with its waste `w`, `w` is minimal over the candidates below `i`, and `e` is
placed among the minimum-waste candidates as the tie-break dictates. -/
def SearchInv (tps ws tpe i e w : Int) : Prop :=
  1 ≤ e ∧ e < i ∧ wasteVal tps ws tpe e = w ∧
  (∀ j, 1 ≤ j → j < i → w ≤ wasteVal tps ws tpe j) ∧
  (∀ j, 1 ≤ j → j < i → wasteVal tps ws tpe j = w →
    (tpe * j ≤ 128 → j ≤ e ∧ tpe * e ≤ 128) ∧ (¬ tpe * e ≤ 128 → e ≤ j))

/-- Follows the spec's words: `round_up(x, w)`, the least multiple of `w` that is not below `x`. -/
def spec_round_up (x w : Int) : Int :=
  (x + w - 1) / w * w

/-- Follows the spec's words: `wasted = budget - round_up(tpe*k, warp) * blocks_that_fit` with
`blocks_that_fit = budget / round_up(tpe*k, warp)`. -/
def spec_wasted (threads_per_sm warp_size threads_per_elem k : Int) : Int :=
  threads_per_sm - spec_round_up (threads_per_elem * k) warp_size *
    (threads_per_sm / spec_round_up (threads_per_elem * k) warp_size)

/-- The candidate `j` of the range `1..N` has the least waste of the range. -/
def IsMinWasteCandidate (tps ws tpe N j : Int) : Prop :=
  1 ≤ j ∧ j ≤ N ∧ ∃ wj, Waste tps ws tpe j = some wj ∧
    ∀ i, 1 ≤ i → i ≤ N → ∃ wi, Waste tps ws tpe i = some wi ∧ wj ≤ wi

/-! ## Operator description read by the builders and the runner -/

/-- The evaluation modes `CeedEvalMode`. -/
inductive CeedEvalMode where
  | NONE
  | INTERP
  | GRAD
  | DIV
  | CURL
  | WEIGHT
  deriving DecidableEq, Repr

/-- A `CeedBasis` handle; the source compares handles by identity (`basis_i == basis_j`). -/
abbrev CeedBasis := Nat

/-- The handle `CEED_BASIS_NONE`. -/
def CEED_BASIS_NONE : CeedBasis := 0

/-- A `CeedElemRestriction` handle, compared by identity. -/
abbrev CeedElemRestriction := Nat

/-- The handle `CEED_ELEMRESTRICTION_NONE`. -/
def CEED_ELEMRESTRICTION_NONE : CeedElemRestriction := 0

/-- A `CeedVector` handle of an operator field: `CEED_VECTOR_ACTIVE`, `CEED_VECTOR_NONE` or a
passive vector, compared by identity. -/
inductive CeedVector where
  | ACTIVE
  | NONE
  | passive (id : Nat)
  deriving DecidableEq, Repr

/-- What the builders query from a basis handle. -/
structure BasisInfo where
  /-- `CeedBasisIsTensor` -/
  is_tensor : Bool
  /-- `CeedBasisGetDimension` -/
  dim : Int
  /-- `CeedBasisGetNumNodes` -/
  num_nodes : Int
  /-- `CeedBasisGetNumNodes1D` -/
  num_nodes_1d : Int
  /-- `CeedBasisGetNumQuadraturePoints` -/
  num_qpts : Int
  /-- `CeedBasisGetNumQuadraturePoints1D` -/
  num_qpts_1d : Int
  /-- whether `basis_data->d_collo_grad_1d` is set -/
  has_collo_grad : Bool
  /-- whether the resource root of the basis' `Ceed` is `/gpu/hip/shared` -/
  is_shared : Bool
  deriving DecidableEq, Repr

/-- What the builders query from an element restriction handle. -/
structure RestrictionInfo where
  /-- `CeedElemRestrictionGetElementSize` -/
  elem_size : Int
  /-- `CeedElemRestrictionGetNumComponents` -/
  num_comp : Int
  deriving DecidableEq, Repr

/-- One field slot of an operator: the `CeedOperatorField` together with the
`CeedQFunctionField` of the same index. -/
structure OperatorField where
  /-- `CeedOperatorFieldGetName` -/
  field_name : String
  /-- `CeedOperatorFieldGetBasis` -/
  basis : CeedBasis
  /-- `CeedOperatorFieldGetElemRestriction` -/
  elem_rstr : CeedElemRestriction
  /-- `CeedOperatorFieldGetVector` -/
  vec : CeedVector
  /-- `CeedQFunctionFieldGetEvalMode` -/
  eval_mode : CeedEvalMode
  /-- `CeedQFunctionFieldGetSize` -/
  size : Int
  deriving DecidableEq, Repr

/-! ## Basis-matrix reuse analysis (`ceed-hip-gen-operator-build.cpp`) -/

/-- Embedding of `struct FieldReuse_Hip` (lines 25-29).  The source sets only `index = -1`
before a scan and leaves `is_input` and `eval_mode` unset; they are read only behind
`index != -1`.  The unset members are given the values `false` and `NONE` here. -/
structure FieldReuse_Hip where
  index : Int
  is_input : Bool
  eval_mode : CeedEvalMode
  deriving DecidableEq, Repr

/-- The state of a reuse record before a scan: `index = -1`. -/
def FieldReuse_Hip.unset : FieldReuse_Hip :=
  { index := -1, is_input := false, eval_mode := CeedEvalMode.NONE }

/-- One reuse scan `for (j = j0; (reuse.index == -1) && (j < j0 + fields.length); j++)` over the
candidate fields `fields`, as written three times in `CeedOperatorBuildKernel_Hip_gen` (lines
1354-1376, 1393-1415, 1416-1439).  `is_tensor` is the value of the local of that name when the
comparison is made, `target_is_input` the value stored in `is_input` on a match. -/
def reuseScan (is_tensor : Bool) (eval_mode_i : CeedEvalMode) (basis_i : CeedBasis)
    (target_is_input : Bool) : List OperatorField → Nat → FieldReuse_Hip → FieldReuse_Hip
  | [], _, reuse => reuse
  | field_j :: rest, j, reuse =>
    if reuse.index ≠ -1 then reuse
    else if field_j.eval_mode = CeedEvalMode.WEIGHT then
      reuseScan is_tensor eval_mode_i basis_i target_is_input rest (j + 1) reuse
    else if basis_i = field_j.basis then
      if is_tensor then
        reuseScan is_tensor eval_mode_i basis_i target_is_input rest (j + 1)
          { index := j, is_input := target_is_input, eval_mode := field_j.eval_mode }
      else if eval_mode_i = field_j.eval_mode then
        -- For non-tensor can only re-use with the same eval mode
        reuseScan is_tensor eval_mode_i basis_i target_is_input rest (j + 1)
          { index := j, is_input := target_is_input, eval_mode := field_j.eval_mode }
      else
        reuseScan is_tensor eval_mode_i basis_i target_is_input rest (j + 1) reuse
    else
      reuseScan is_tensor eval_mode_i basis_i target_is_input rest (j + 1) reuse

/-- The record `input_matrix_reuse[i]` computed by `CeedOperatorBuildKernel_Hip_gen` (lines
1342-1378) for the input field `field_i` of index `i`: a field of eval mode WEIGHT is skipped,
any other is scanned against the inputs `0..i-1` with `is_tensor` read from its basis. -/
def inputMatrixReuse (basis_info : CeedBasis → BasisInfo) (inputs : List OperatorField)
    (i : Nat) (field_i : OperatorField) : FieldReuse_Hip :=
  if field_i.eval_mode = CeedEvalMode.WEIGHT then FieldReuse_Hip.unset
  else
    reuseScan (basis_info field_i.basis).is_tensor field_i.eval_mode field_i.basis true
      (inputs.take i) 0 FieldReuse_Hip.unset

/-- The array `input_matrix_reuse` of `CeedOperatorBuildKernel_Hip_gen`. -/
def input_matrix_reuse (basis_info : CeedBasis → BasisInfo) (inputs : List OperatorField) :
    List FieldReuse_Hip :=
  inputs.enum.map fun p => inputMatrixReuse basis_info inputs p.1 p.2

/-- The record `output_matrix_reuse[i]` computed by `CeedOperatorBuildKernel_Hip_gen` (lines
1383-1441) for the output field `field_i` of index `i`.  The local `is_tensor` is initialised
to `true` and is assigned from the basis only inside the second loop (line 1423), so the scan
against the inputs runs with `is_tensor = true` and the scan against the outputs `0..i-1` with
the value read from the basis. -/
def outputMatrixReuse (basis_info : CeedBasis → BasisInfo) (inputs outputs : List OperatorField)
    (i : Nat) (field_i : OperatorField) : FieldReuse_Hip :=
  let after_inputs :=
    reuseScan true field_i.eval_mode field_i.basis true inputs 0 FieldReuse_Hip.unset
  reuseScan (basis_info field_i.basis).is_tensor field_i.eval_mode field_i.basis false
    (outputs.take i) 0 after_inputs

/-- The array `output_matrix_reuse` of `CeedOperatorBuildKernel_Hip_gen`. -/
def output_matrix_reuse (basis_info : CeedBasis → BasisInfo)
    (inputs outputs : List OperatorField) : List FieldReuse_Hip :=
  outputs.enum.map fun p => outputMatrixReuse basis_info inputs outputs p.1 p.2

/-- The record `output_matrix_reuse[i]` computed by
`CeedOperatorBuildKernelLinearAssembleQFunction_Hip_gen` (lines 2298-2356), the sibling of
`outputMatrixReuse`: here `is_tensor` is read from the basis before both scans (line 2308). -/
def outputMatrixReuseQFunctionAssembly (basis_info : CeedBasis → BasisInfo)
    (inputs outputs : List OperatorField) (i : Nat) (field_i : OperatorField) : FieldReuse_Hip :=
  let is_tensor := (basis_info field_i.basis).is_tensor
  let after_inputs :=
    reuseScan is_tensor field_i.eval_mode field_i.basis true inputs 0 FieldReuse_Hip.unset
  reuseScan is_tensor field_i.eval_mode field_i.basis false (outputs.take i) 0 after_inputs

/-! ## Generated source: field constants and basis matrices -/

/-- The two shared-memory matrices of a field: interpolation `s_B` and gradient `s_G`. -/
inductive Matrix where
  | B
  | G
  deriving DecidableEq, Repr

/-- Names a field in generated identifiers: the suffix `_in_<index>` or `_out_<index>`. -/
structure FieldRef where
  is_input : Bool
  index : Int
  deriving DecidableEq, Repr

/-- The device matrix bound to `data->B` or `data->G` for a field. -/
inductive DeviceMatrix where
  | d_interp_1d
  | d_chebyshev_interp_1d
  | d_grad_1d
  | d_collo_grad_1d
  deriving DecidableEq, Repr

/-- A line of generated source emitted by `CeedOperatorBuildKernelFieldData_Hip_gen`. -/
inductive CodeLine where
  /-- `// -- Input field <i>: <name>` (or `Output`) -/
  | fieldComment (self : FieldRef) (field_name : String)
  /-- `const CeedInt <name> = <value>;` -/
  | constInt (name : String) (value : Int)
  /-- `// EvalMode: <mode>` -/
  | evalModeComment (eval_mode : CeedEvalMode)
  /-- `CeedScalar *s_B_in_<i> = s_B_in_<j>;`: the matrix of `self` is the buffer of `target` -/
  | aliasMatrix (m : Matrix) (self target : FieldRef)
  /-- `__shared__ CeedScalar s_B_in_<i>[<size>];` -/
  | sharedMatrix (m : Matrix) (self : FieldRef) (size : String)
  /-- `LoadMatrix<<dims>>(data, B.inputs[<i>], s_B_in_<i>);` -/
  | loadMatrix (m : Matrix) (self : FieldRef) (dims : String)
  deriving DecidableEq, Repr

/-- The suffix `var_suffix` of a field: `_in_<i>` or `_out_<i>`. -/
def FieldRef.var_suffix (r : FieldRef) : String :=
  (if r.is_input then "_in_" else "_out_") ++ toString r.index

/-- The identifier prefix of a matrix: `s_B` or `s_G`. -/
def Matrix.var (m : Matrix) : String :=
  match m with
  | Matrix.B => "s_B"
  | Matrix.G => "s_G"

/-- The member of the kernel argument a matrix is loaded from: `B` or `G`. -/
def Matrix.arg (m : Matrix) : String :=
  match m with
  | Matrix.B => "B"
  | Matrix.G => "G"

/-- The entry of the table `CeedEvalModes` for an eval mode. -/
def CeedEvalModes (eval_mode : CeedEvalMode) : String :=
  match eval_mode with
  | CeedEvalMode.NONE => "CEED_EVAL_NONE"
  | CeedEvalMode.INTERP => "CEED_EVAL_INTERP"
  | CeedEvalMode.GRAD => "CEED_EVAL_GRAD"
  | CeedEvalMode.DIV => "CEED_EVAL_DIV"
  | CeedEvalMode.CURL => "CEED_EVAL_CURL"
  | CeedEvalMode.WEIGHT => "CEED_EVAL_WEIGHT"

/-- The text of a generated line (without the indentation `tab`). -/
def CodeLine.render (l : CodeLine) : String :=
  match l with
  | CodeLine.fieldComment self field_name =>
    "// -- " ++ (if self.is_input then "Input" else "Output") ++ " field " ++
      toString self.index ++ ": " ++ field_name ++ "\n"
  | CodeLine.constInt name value => "const CeedInt " ++ name ++ " = " ++ toString value ++ ";\n"
  | CodeLine.evalModeComment eval_mode => "// EvalMode: " ++ CeedEvalModes eval_mode ++ "\n"
  | CodeLine.aliasMatrix m self target =>
    "CeedScalar *" ++ m.var ++ self.var_suffix ++ " = " ++ m.var ++ target.var_suffix ++ ";\n"
  | CodeLine.sharedMatrix m self size =>
    "__shared__ CeedScalar " ++ m.var ++ self.var_suffix ++ "[" ++ size ++ "];\n"
  | CodeLine.loadMatrix m self dims =>
    "LoadMatrix<" ++ dims ++ ">(data, " ++ m.arg ++ "." ++
      (if self.is_input then "inputs" else "outputs") ++ "[" ++ toString self.index ++ "], " ++
      m.var ++ self.var_suffix ++ ");\n"

/-- The declaration of one matrix of a field in `CeedOperatorBuildKernelFieldData_Hip_gen`:
an alias of the reuse target's buffer when `use_alias`, else a shared array and its
`LoadMatrix`. -/
def declareMatrix (m : Matrix) (self : FieldRef) (use_alias : Bool) (field_reuse : FieldReuse_Hip)
    (size dims : String) : List CodeLine :=
  if use_alias then
    [CodeLine.aliasMatrix m self { is_input := field_reuse.is_input, index := field_reuse.index }]
  else
    [CodeLine.sharedMatrix m self size, CodeLine.loadMatrix m self dims]

/-- The result of `CeedOperatorBuildKernelFieldData_Hip_gen` for one field: the lines appended
to `code` and the device matrices stored in `data->B` and `data->G` for the field. -/
structure FieldData where
  code : List CodeLine
  B : Option DeviceMatrix
  G : Option DeviceMatrix
  deriving DecidableEq, Repr

/-- The value of the local `is_tensor` of `CeedOperatorBuildKernelFieldData_Hip_gen` (lines
211-214): `true` unless the field has a basis that is not a tensor basis. -/
def fieldIsTensor (basis_info : CeedBasis → BasisInfo) (field : OperatorField) : Bool :=
  if field.basis ≠ CEED_BASIS_NONE then (basis_info field.basis).is_tensor else true

/-- The lines emitted by `CeedOperatorBuildKernelFieldData_Hip_gen` before the `switch` on the
eval mode (lines 228-260): the field comment, the field constants and the eval mode comment. -/
def fieldConstants (basis_info : CeedBasis → BasisInfo)
    (rstr_info : CeedElemRestriction → RestrictionInfo) (i : Nat) (field : OperatorField)
    (max_dim Q Q_1d : Int) (is_input is_all_tensor : Bool) : List CodeLine :=
  let basis := field.basis
  let is_tensor := fieldIsTensor basis_info field
  let self : FieldRef := { is_input := is_input, index := i }
  let var_suffix := self.var_suffix
  let P_name := (if is_tensor then "P_1d" else "P") ++ var_suffix
  -- Get field data
  let num_comp :=
    if field.elem_rstr ≠ CEED_ELEMRESTRICTION_NONE then (rstr_info field.elem_rstr).num_comp else 0
  let dim := if basis ≠ CEED_BASIS_NONE then (basis_info basis).dim else max_dim
  let P_1d :=
    if basis ≠ CEED_BASIS_NONE then
      (if is_tensor then (basis_info basis).num_nodes_1d else (basis_info basis).num_nodes)
    else 0
  -- Set field constants
  [CodeLine.fieldComment self field.field_name, CodeLine.constInt ("dim" ++ var_suffix) dim] ++
  (if is_tensor && !is_all_tensor then
    [CodeLine.constInt ("P" ++ var_suffix)
      (if basis = CEED_BASIS_NONE then Q else (basis_info basis).num_nodes)]
  else []) ++
  [CodeLine.constInt P_name (if basis = CEED_BASIS_NONE then Q_1d else P_1d)] ++
  (if field.eval_mode ≠ CeedEvalMode.WEIGHT then
    [CodeLine.constInt ("num_comp" ++ var_suffix) num_comp]
  else []) ++
  [CodeLine.evalModeComment field.eval_mode]

/-- The lines emitted by the `switch` on the eval mode in
`CeedOperatorBuildKernelFieldData_Hip_gen` (lines 261-374): the declarations of the matrices
`s_B` and `s_G` of the field. -/
def fieldMatrices (basis_info : CeedBasis → BasisInfo) (i : Nat) (field : OperatorField)
    (field_reuse : FieldReuse_Hip) (is_input is_at_points use_3d_slices : Bool) :
    List CodeLine :=
  let is_tensor := fieldIsTensor basis_info field
  let self : FieldRef := { is_input := is_input, index := i }
  let var_suffix := self.var_suffix
  let P_name := (if is_tensor then "P_1d" else "P") ++ var_suffix
  let Q_name := if is_tensor then "Q_1d" else "Q"
  -- Field reuse info
  let use_previous_field : Bool := decide (field_reuse.index ≠ -1)
  let use_previous_grad : Bool :=
    use_previous_field && decide (field_reuse.eval_mode = CeedEvalMode.GRAD)
  match field.eval_mode with
  | CeedEvalMode.NONE => []
  | CeedEvalMode.INTERP =>
    declareMatrix Matrix.B self use_previous_field field_reuse (P_name ++ "*" ++ Q_name)
      (P_name ++ ", " ++ Q_name)
  | CeedEvalMode.GRAD =>
    (if is_tensor then
      declareMatrix Matrix.B self use_previous_field field_reuse (P_name ++ "*" ++ Q_name)
        (P_name ++ ", " ++ Q_name)
    else []) ++
    (if is_at_points then []  -- No G mat for AtPoints
    else if use_3d_slices then
      declareMatrix Matrix.G self use_previous_grad field_reuse (Q_name ++ "*" ++ Q_name)
        (Q_name ++ ", " ++ Q_name)
    else if (basis_info field.basis).has_collo_grad then
      declareMatrix Matrix.G self use_previous_grad field_reuse (Q_name ++ "*" ++ Q_name)
        (Q_name ++ ", " ++ Q_name)
    else
      declareMatrix Matrix.G self use_previous_grad field_reuse
        (P_name ++ "*" ++ Q_name ++ (if is_tensor then "" else "*dim") ++
          (if is_tensor then "" else var_suffix))
        (P_name ++ ", " ++ Q_name ++ (if is_tensor then "" else "*dim") ++
          (if is_tensor then "" else var_suffix)))
  | CeedEvalMode.WEIGHT => []  -- No action
  | CeedEvalMode.DIV => []  -- TODO: Not implemented
  | CeedEvalMode.CURL => []  -- TODO: Not implemented

/-- The device matrix stored in `data->B` for the field by
`CeedOperatorBuildKernelFieldData_Hip_gen`: set for INTERP and GRAD only. -/
def fieldBindingB (field : OperatorField) (is_at_points : Bool) : Option DeviceMatrix :=
  if field.eval_mode = CeedEvalMode.INTERP ∨ field.eval_mode = CeedEvalMode.GRAD then
    some (if is_at_points then DeviceMatrix.d_chebyshev_interp_1d else DeviceMatrix.d_interp_1d)
  else none

/-- The device matrix stored in `data->G` for the field by
`CeedOperatorBuildKernelFieldData_Hip_gen`: set for GRAD only, and not at points. -/
def fieldBindingG (basis_info : CeedBasis → BasisInfo) (field : OperatorField)
    (is_at_points use_3d_slices : Bool) : Option DeviceMatrix :=
  if field.eval_mode = CeedEvalMode.GRAD ∧ is_at_points = false then
    some (if use_3d_slices then DeviceMatrix.d_collo_grad_1d
      else if (basis_info field.basis).has_collo_grad then DeviceMatrix.d_collo_grad_1d
      else DeviceMatrix.d_grad_1d)
  else none

/-- Embedding of `CeedOperatorBuildKernelFieldData_Hip_gen` (lines 207-377): the lines appended
to `code` and the matrices bound in `data->B`, `data->G`.  The lazy allocation of the Chebyshev
matrix on the device is not modelled, only which matrix is bound. -/
def CeedOperatorBuildKernelFieldData_Hip_gen (basis_info : CeedBasis → BasisInfo)
    (rstr_info : CeedElemRestriction → RestrictionInfo) (i : Nat) (field : OperatorField)
    (field_reuse : FieldReuse_Hip) (max_dim Q Q_1d : Int)
    (is_input is_all_tensor is_at_points use_3d_slices : Bool) : FieldData :=
  { code :=
      fieldConstants basis_info rstr_info i field max_dim Q Q_1d is_input is_all_tensor ++
        fieldMatrices basis_info i field field_reuse is_input is_at_points use_3d_slices,
    B := fieldBindingB field is_at_points,
    G := fieldBindingG basis_info field is_at_points use_3d_slices }

/-- The section `// Input field constants and basis data` of `CeedOperatorBuildKernel_Hip_gen`
(lines 1445-1448): the field data of every input field, in index order, each with its record
of `input_matrix_reuse`. -/
def inputFieldData (basis_info : CeedBasis → BasisInfo)
    (rstr_info : CeedElemRestriction → RestrictionInfo) (inputs : List OperatorField)
    (max_dim Q Q_1d : Int) (is_all_tensor is_at_points use_3d_slices : Bool) : List FieldData :=
  inputs.enum.map fun p =>
    CeedOperatorBuildKernelFieldData_Hip_gen basis_info rstr_info p.1 p.2
      (inputMatrixReuse basis_info inputs p.1 p.2) max_dim Q Q_1d true is_all_tensor is_at_points
      use_3d_slices

/-- The section `// Output field constants and basis data` of `CeedOperatorBuildKernel_Hip_gen`
(lines 1449-1453). -/
def outputFieldData (basis_info : CeedBasis → BasisInfo)
    (rstr_info : CeedElemRestriction → RestrictionInfo) (inputs outputs : List OperatorField)
    (max_dim Q Q_1d : Int) (is_all_tensor is_at_points use_3d_slices : Bool) : List FieldData :=
  outputs.enum.map fun p =>
    CeedOperatorBuildKernelFieldData_Hip_gen basis_info rstr_info p.1 p.2
      (outputMatrixReuse basis_info inputs outputs p.1 p.2) max_dim Q Q_1d false is_all_tensor
      is_at_points use_3d_slices

/-- Number of `LoadMatrix` lines for the matrix `m` in a list of generated lines. -/
def countLoads (m : Matrix) (code : List CodeLine) : Nat :=
  code.countP fun l =>
    match l with
    | CodeLine.loadMatrix m1 _ _ => decide (m1 = m)
    | _ => false

/-- Number of alias declarations of the matrix `m` in a list of generated lines. -/
def countAliases (m : Matrix) (code : List CodeLine) : Nat :=
  code.countP fun l =>
    match l with
    | CodeLine.aliasMatrix m1 _ _ => decide (m1 = m)
    | _ => false

/-- Whether a list of generated lines declares the matrix `m` of the field `self`, by a shared
array or by an alias. -/
def declaresMatrix (m : Matrix) (self : FieldRef) (code : List CodeLine) : Bool :=
  code.any fun l =>
    match l with
    | CodeLine.sharedMatrix m1 s _ => decide (m1 = m ∧ s = self)
    | CodeLine.aliasMatrix m1 s _ => decide (m1 = m ∧ s = self)
    | _ => false

/-- Whether a field of the given eval mode has the matrix `m` in the generated source:
`s_B` for INTERP and for GRAD on a tensor basis, `s_G` for GRAD unless at points. -/
def hasMatrix (m : Matrix) (eval_mode : CeedEvalMode) (is_tensor is_at_points : Bool) : Bool :=
  match m with
  | Matrix.B => decide (eval_mode = CeedEvalMode.INTERP) ||
      (decide (eval_mode = CeedEvalMode.GRAD) && is_tensor)
  | Matrix.G => decide (eval_mode = CeedEvalMode.GRAD) && !is_at_points

/-- The predicate of a reuse scan: the candidate `field_j` is not a WEIGHT field, has the basis
object `basis_i`, and, unless `is_tensor`, the eval mode `eval_mode_i`. -/
def reuseMatch (is_tensor : Bool) (eval_mode_i : CeedEvalMode) (basis_i : CeedBasis)
    (field_j : OperatorField) : Bool :=
  decide (field_j.eval_mode ≠ CeedEvalMode.WEIGHT) && decide (basis_i = field_j.basis) &&
    (is_tensor || decide (eval_mode_i = field_j.eval_mode))

/-- The lines of the input field `field_i` of index `i` in the generated source of
`CeedOperatorBuildKernel_Hip_gen`. -/
def inputFieldCode (basis_info : CeedBasis → BasisInfo)
    (rstr_info : CeedElemRestriction → RestrictionInfo) (inputs : List OperatorField)
    (max_dim Q Q_1d : Int) (is_all_tensor is_at_points use_3d_slices : Bool) (i : Nat)
    (field_i : OperatorField) : List CodeLine :=
  (CeedOperatorBuildKernelFieldData_Hip_gen basis_info rstr_info i field_i
    (inputMatrixReuse basis_info inputs i field_i) max_dim Q Q_1d true is_all_tensor is_at_points
    use_3d_slices).code

/-- The lines of the output field `field_i` of index `i` in the generated source of
`CeedOperatorBuildKernel_Hip_gen`. -/
def outputFieldCode (basis_info : CeedBasis → BasisInfo)
    (rstr_info : CeedElemRestriction → RestrictionInfo) (inputs outputs : List OperatorField)
    (max_dim Q Q_1d : Int) (is_all_tensor is_at_points use_3d_slices : Bool) (i : Nat)
    (field_i : OperatorField) : List CodeLine :=
  (CeedOperatorBuildKernelFieldData_Hip_gen basis_info rstr_info i field_i
    (outputMatrixReuse basis_info inputs outputs i field_i) max_dim Q Q_1d false is_all_tensor
    is_at_points use_3d_slices).code

/-- Whether `CeedOperatorBuildKernelFieldData_Hip_gen` declares the matrix `m` of a field with
the reuse record `field_reuse` as an alias: `s_B` when the record has a target
(`use_previous_field`), `s_G` when moreover the target has eval mode GRAD. -/
def usesAlias (m : Matrix) (field_reuse : FieldReuse_Hip) : Bool :=
  match m with
  | Matrix.B => decide (field_reuse.index ≠ -1)
  | Matrix.G => decide (field_reuse.index ≠ -1) && decide (field_reuse.eval_mode = CeedEvalMode.GRAD)

/-! ## Sample operators -/

/-- Basis table of the samples: handle 1 is a 3-D tensor basis with 4 nodes and 4 quadrature
points per dimension, every other handle a 3-D non-tensor basis with 10 nodes and 4 quadrature
points. -/
def sampleBasisInfo (basis : CeedBasis) : BasisInfo :=
  if basis = 1 then
    { is_tensor := true, dim := 3, num_nodes := 64, num_nodes_1d := 4, num_qpts := 64,
      num_qpts_1d := 4, has_collo_grad := false, is_shared := true }
  else
    { is_tensor := false, dim := 3, num_nodes := 10, num_nodes_1d := 0, num_qpts := 4,
      num_qpts_1d := 0, has_collo_grad := false, is_shared := true }

/-- Restriction table of the samples: 64 nodes per element, one component. -/
def sampleRstrInfo (_rstr : CeedElemRestriction) : RestrictionInfo :=
  { elem_size := 64, num_comp := 1 }

/-- Sample field `u`: INTERP on the tensor basis 1, active vector. -/
def sampleFieldU : OperatorField :=
  { field_name := "u", basis := 1, elem_rstr := 1, vec := CeedVector.ACTIVE,
    eval_mode := CeedEvalMode.INTERP, size := 1 }

/-- Sample field `du`: GRAD on the tensor basis 1, active vector. -/
def sampleFieldDu : OperatorField :=
  { field_name := "du", basis := 1, elem_rstr := 1, vec := CeedVector.ACTIVE,
    eval_mode := CeedEvalMode.GRAD, size := 3 }

/-- Sample field `dw`: GRAD on the tensor basis 1, passive vector. -/
def sampleFieldDw : OperatorField :=
  { field_name := "dw", basis := 1, elem_rstr := 2, vec := CeedVector.passive 7,
    eval_mode := CeedEvalMode.GRAD, size := 3 }

/-- Sample input list: an INTERP field and two GRAD fields, all on the tensor basis 1. -/
def sampleInputsInterpGradGrad : List OperatorField :=
  [sampleFieldU, sampleFieldDu, sampleFieldDw]

/-- Sample input list: two GRAD fields on the tensor basis 1. -/
def sampleInputsGradGrad : List OperatorField :=
  [sampleFieldDu, sampleFieldDw]

/-- Sample input list: one GRAD field on the non-tensor basis 2. -/
def sampleInputsNonTensorGrad : List OperatorField :=
  [{ field_name := "du", basis := 2, elem_rstr := 1, vec := CeedVector.ACTIVE,
     eval_mode := CeedEvalMode.GRAD, size := 3 }]

/-- Sample output list: one INTERP field on the non-tensor basis 2. -/
def sampleOutputsNonTensorInterp : List OperatorField :=
  [{ field_name := "v", basis := 2, elem_rstr := 1, vec := CeedVector.ACTIVE,
     eval_mode := CeedEvalMode.INTERP, size := 1 }]

/-! ## Operators, devices and the per-operator backend data -/

/-- What the builders and the runner query from a `CeedOperator` and its `CeedQFunction`.
An operator is immutable after setup, except for its element count, which is read anew by
every call. -/
structure Operator where
  /-- the input fields, `CeedOperatorGetFields` and `CeedQFunctionGetFields` -/
  inputs : List OperatorField
  /-- the output fields -/
  outputs : List OperatorField
  basis_info : CeedBasis → BasisInfo
  rstr_info : CeedElemRestriction → RestrictionInfo
  /-- `CeedOperatorGetNumElements` -/
  num_elem : Int
  /-- `CeedOperatorGetNumQuadraturePoints` -/
  num_qpts : Int
  /-- `CeedOperatorIsAtPoints` -/
  is_at_points : Bool
  /-- `CeedOperatorHasTensorBases` -/
  has_tensor_bases : Bool
  /-- `CeedElemRestrictionGetMaxPointsInElement` of the points restriction -/
  max_num_points : Int
  /-- `CeedElemRestrictionGetCompStride` of the points restriction -/
  coords_comp_stride : Int
  /-- `CeedElemRestrictionGetNumPointsInElement` of the points restriction -/
  num_points_in_elem : Int → Int
  /-- `CeedQFunctionIsIdentity` -/
  qf_is_identity : Bool
  /-- `CeedQFunctionGetSourcePath`, `none` for a null path -/
  qf_source_path : Option String
  /-- `qf_data->qfunction_name` -/
  qfunction_name : String
  /-- `num_active_bases_in` of `CeedOperatorAssemblyDataGetEvalModes` -/
  num_active_bases_in : Int
  /-- `num_active_bases_out` of `CeedOperatorAssemblyDataGetEvalModes` -/
  num_active_bases_out : Int

/-- The device properties read by the runner (`cuda_data->device_prop`) and the size of a
`CeedScalar` in bytes. -/
structure Device where
  multiProcessorCount : Int
  /-- `maxThreadsDim[2]` -/
  maxThreadsDim2 : Int
  warpSize : Int
  /-- `sizeof(CeedScalar)` -/
  scalar_size : Int
  deriving DecidableEq, Repr

/-- The results of the external calls made during one call of an entry point: the compiler,
the kernel launch and the occupancy query. -/
structure CallEnv where
  /-- `is_compile_good` of `CeedTryCompile` for the operator kernel -/
  compile_good : Bool
  /-- `is_compile_good` of `CeedTryCompile` for an assembly kernel -/
  assembly_compile_good : Bool
  /-- `is_run_good` of `CeedTryRunKernelDimShared` -/
  run_good : Bool
  /-- `min_grid_size` of `cuOccupancyMaxPotentialBlockSize` -/
  min_grid_size : Int
  /-- `max_threads_per_block` of `cuOccupancyMaxPotentialBlockSize` -/
  max_threads_per_block : Int
  deriving DecidableEq, Repr

/-- The four kernel kinds built for an operator. -/
inductive KernelKind where
  | apply
  | assembleQFunction
  | assembleDiagonal
  | assembleFull
  deriving DecidableEq, Repr

/-- The per-operator backend data (`CeedOperator_Cuda_gen`, `CeedOperator_Hip_gen`) as far as
the builders and the runner use it, together with the setup flag of the operator. -/
structure OperatorData where
  /-- Modelled from the spec: the per-operator "setup done" flag read by
  `CeedOperatorIsSetupDone` and set by `CeedOperatorSetSetupDone`, functions of the framework
  that are not part of the sources at hand. -/
  is_setup_done : Bool
  use_fallback : Bool
  use_assembly_fallback : Bool
  /-- whether the kernel handle `data->op` is set -/
  op : Bool
  /-- whether the kernel handle `data->assemble_qfunction` is set -/
  assemble_qfunction : Bool
  /-- whether the kernel handle `data->assemble_diagonal` is set -/
  assemble_diagonal : Bool
  /-- whether the kernel handle `data->assemble_full` is set -/
  assemble_full : Bool
  thread_1d : Int
  dim : Int
  max_P_1d : Int
  Q : Int
  Q_1d : Int
  /-- `data->points.num_elem` -/
  points_num_elem : Int
  /-- the device buffer `data->points.num_per_elem`, `none` for a null pointer -/
  points_num_per_elem : Option (List Int)
  deriving DecidableEq, Repr

/-- The backend data of a freshly created operator: `CeedOperatorCreate_Cuda_gen` allocates it
with `CeedCalloc`, so every member is zero. -/
def OperatorData.init : OperatorData :=
  { is_setup_done := false, use_fallback := false, use_assembly_fallback := false, op := false,
    assemble_qfunction := false, assemble_diagonal := false, assemble_full := false,
    thread_1d := 0, dim := 0, max_P_1d := 0, Q := 0, Q_1d := 0, points_num_elem := 0,
    points_num_per_elem := none }

/-- The errors returned by the embedded functions.  `DIVISION_BY_ZERO` stands for the undefined
behaviour of a C division by zero. -/
inductive CeedError where
  | BACKEND (msg : String)
  | UNSUPPORTED (msg : String)
  | DIVISION_BY_ZERO
  deriving DecidableEq, Repr

/-- The device array bound to a field slot of `data->fields` for a launch. -/
inductive ArrayBinding where
  /-- `NULL` -/
  | null
  /-- the array of the caller's active vector (`input_arr`, `output_arr`) -/
  | active
  /-- the array of the passive vector of the field -/
  | passive (id : Nat)
  deriving DecidableEq, Repr

/-- The externally visible steps of the builders and the runner, recorded in program order
(the instrumentation hook of the spec). -/
inductive Event where
  /-- the field classifier `CeedOperatorBuildKernelData` ran -/
  | classify
  /-- the include lines and the `CEED_Q_VLA` define that open a generated source were written -/
  | preamble (kind : KernelKind)
  /-- the kernel function of the given kind was synthesised for the given exported name -/
  | synthesize (kind : KernelKind) (operator_name : String)
  /-- `CeedTryCompile` was called with the defines `OP_T_1D` and `BLOCK_SIZE` -/
  | compile (kind : KernelKind) (OP_T_1D BLOCK_SIZE : Int) (is_compile_good : Bool)
  /-- the device arrays of the fields were bound -/
  | bind (kind : KernelKind) (inputs outputs : List ArrayBinding)
  /-- the points-per-element buffer was freed if set, allocated and filled -/
  | reallocPoints (num_elem : Int)
  /-- the strided output restriction of the QFunction assembly was created -/
  | createRestriction (num_elem elem_size num_comp l_size : Int) (strides : Int × Int × Int)
  /-- the assembled vector of the QFunction assembly was created -/
  | createVector (l_size : Int)
  /-- the objects created by the QFunction assembly were destroyed -/
  | destroyAssembled
  /-- `CeedTryRunKernelDimShared` was called -/
  | launch (kind : KernelKind) (dims : LaunchDims) (shared_mem : Int) (is_run_good : Bool)
  /-- the bound device arrays were restored -/
  | restore (kind : KernelKind)
  /-- the request was passed to the fallback operator -/
  | fallback (kind : KernelKind)
  deriving DecidableEq, Repr

/-- The result of a call: the backend data after the call, the steps taken, and the value or
the error returned. -/
structure Outcome (α : Type) where
  data : OperatorData
  trace : List Event
  result : Except CeedError α

/-! ## Field classifier (`ceed-hip-gen-operator-build.cpp`) -/

/-- Embedding of `BlockGridCalculate_Hip_gen` (lines 34-57): the array `block_sizes`, which the
caller initialises to zero and which is left alone for a `dim` outside `1..3`. -/
def BlockGridCalculate_Hip_gen (dim _num_elem P_1d Q_1d : Int) : Int × Int × Int :=
  let thread_1d := CeedIntMax Q_1d P_1d
  if dim = 1 then
    let elems_per_block : Int := if 64 * thread_1d > 256 then Int.tdiv 256 thread_1d else 64
    let elems_per_block := if elems_per_block > 0 then elems_per_block else 1
    (thread_1d, 1, elems_per_block)
  else if dim = 2 then
    let elems_per_block : Int := if thread_1d < 4 then 16 else 2
    (thread_1d, thread_1d, elems_per_block)
  else if dim = 3 then
    let elems_per_block : Int := if thread_1d < 6 then 4 else (if thread_1d < 8 then 2 else 1)
    (thread_1d, thread_1d, elems_per_block)
  else (0, 0, 0)

/-- The running values of the second pair of loops of `CeedOperatorBuildKernelData_Hip_gen`
(lines 93-163). -/
structure KernelDataScan where
  is_all_3d : Bool
  max_dim : Int
  max_P : Int
  max_P_1d : Int
  Q : Int
  Q_1d : Int
  deriving DecidableEq, Repr

/-- One iteration of the loops of lines 100-131 and 132-163 of
`CeedOperatorBuildKernelData_Hip_gen`, for a field with the basis `basis`. -/
def kernelDataStep (basis_info : CeedBasis → BasisInfo) (s : KernelDataScan)
    (field : OperatorField) : Except CeedError KernelDataScan :=
  if field.basis ≠ CEED_BASIS_NONE then
    let b := basis_info field.basis
    -- Check if 3D
    let is_all_3d := s.is_all_3d && decide (b.dim = 3)
    let max_dim := CeedIntMax s.max_dim b.dim
    -- Collect P, P_1d, Q, and Q_1d
    let max_P := CeedIntMax s.max_P b.num_nodes
    let max_P_1d := if b.is_tensor then CeedIntMax s.max_P_1d b.num_nodes_1d else s.max_P_1d
    if ¬ (s.Q = 0 ∨ b.num_qpts = s.Q) then
      Except.error (CeedError.BACKEND "Quadrature spaces must be compatible")
    else if b.is_tensor then
      if ¬ (s.Q_1d = 0 ∨ b.num_qpts_1d = s.Q_1d) then
        Except.error (CeedError.BACKEND "Quadrature spaces must be compatible")
      else
        Except.ok { is_all_3d := is_all_3d, max_dim := max_dim, max_P := max_P,
                    max_P_1d := max_P_1d, Q := b.num_qpts, Q_1d := b.num_qpts_1d }
    else
      Except.ok { is_all_3d := is_all_3d, max_dim := max_dim, max_P := max_P,
                  max_P_1d := max_P_1d, Q := b.num_qpts, Q_1d := s.Q_1d }
  else Except.ok s

/-- The loops of lines 100-163 over a list of fields. -/
def kernelDataLoop (basis_info : CeedBasis → BasisInfo) :
    List OperatorField → KernelDataScan → Except CeedError KernelDataScan
  | [], s => Except.ok s
  | field :: rest, s =>
    match kernelDataStep basis_info s field with
    | Except.error e => Except.error e
    | Except.ok s1 => kernelDataLoop basis_info rest s1

/-- One iteration of the loops of lines 170-199: the pair `(use_3d_slices, was_grad_found)`
after a field. -/
def use3dSlicesStep (basis_info : CeedBasis → BasisInfo) (s : Bool × Bool)
    (field : OperatorField) : Bool × Bool :=
  if field.eval_mode = CeedEvalMode.GRAD then
    ((basis_info field.basis).has_collo_grad && (if s.2 then s.1 else true), true)
  else s

/-- The values written by `CeedOperatorBuildKernelData_Hip_gen`. -/
structure KernelData where
  max_P : Int
  max_P_1d : Int
  Q : Int
  Q_1d : Int
  max_dim : Int
  is_all_tensor : Bool
  use_3d_slices : Bool
  deriving DecidableEq, Repr

/-- Embedding of `CeedOperatorBuildKernelData_Hip_gen` (lines 62-202).  `max_dim` is the value
of `*max_dim` on entry, which the function only raises. -/
def CeedOperatorBuildKernelData_Hip_gen (basis_info : CeedBasis → BasisInfo)
    (inputs outputs : List OperatorField) (max_dim : Int) : Except CeedError KernelData :=
  -- Check if all are tensor
  let is_all_tensor := (inputs ++ outputs).all fun field =>
    if field.basis ≠ CEED_BASIS_NONE then (basis_info field.basis).is_tensor else true
  -- Find max_P, max_P_1d, Q, and Q_1d
  match kernelDataLoop basis_info (inputs ++ outputs)
      { is_all_3d := true, max_dim := max_dim, max_P := 0, max_P_1d := 0, Q := 0, Q_1d := 0 } with
  | Except.error e => Except.error e
  | Except.ok s =>
    -- Only use 3D collocated gradient parallelization strategy when gradient is computed
    let use_3d_slices :=
      if s.is_all_3d && is_all_tensor then
        ((inputs ++ outputs).foldl (use3dSlicesStep basis_info) (false, false)).1
      else false
    Except.ok { max_P := s.max_P, max_P_1d := s.max_P_1d, Q := s.Q, Q_1d := s.Q_1d,
                max_dim := s.max_dim, is_all_tensor := is_all_tensor,
                use_3d_slices := use_3d_slices }

/-- The check of lines 1136-1190, repeated in the other builders: whether every basis of the
operator comes from the resource `/gpu/hip/shared`. -/
def hasSharedBases (op : Operator) : Bool :=
  (op.inputs ++ op.outputs).all fun field =>
    if field.basis ≠ CEED_BASIS_NONE then (op.basis_info field.basis).is_shared else true

/-! ## Kernel builders (`ceed-hip-gen-operator-build.cpp`) -/

/-- The exported name of the kernel of a kind (lines 1266, 1663, 1665, 2185). -/
def operatorName (kind : KernelKind) (qfunction_name : String) : String :=
  match kind with
  | KernelKind.apply => "CeedKernelHipGenOperator_" ++ qfunction_name
  | KernelKind.assembleFull => "CeedKernelHipGenOperatorFullAssembly_" ++ qfunction_name
  | KernelKind.assembleDiagonal => "CeedKernelHipGenOperatorDiagonalAssembly_" ++ qfunction_name
  | KernelKind.assembleQFunction => "CeedKernelHipGenQFunctionAssembly_" ++ qfunction_name

/-- The check of lines 1228-1240: whether the operator is a restriction-only identity, that is
its QFunction is the identity and its first input and first output both have eval mode NONE
(the condition under which `CeedCheck` fails). -/
def restrictionOnlyIdentity (op : Operator) : Bool :=
  op.qf_is_identity &&
    !(decide (op.inputs.head?.map (fun f => f.eval_mode) ≠ some CeedEvalMode.NONE) ||
      decide (op.outputs.head?.map (fun f => f.eval_mode) ≠ some CeedEvalMode.NONE))

/-- Embedding of `CeedOperatorBuildKernel_Hip_gen` (lines 1111-1610) as far as the backend data
and the order of its steps go.  The generated text is not part of the outcome: its field
sections are `inputFieldData` and `outputFieldData`.  The step `preamble` stands for the lines
written before the source path check of line 1281 (lines 1242-1274), the step `synthesize` for
the kernel function written after it (lines 1287-1584). -/
def CeedOperatorBuildKernel_Hip_gen (op : Operator) (env : CallEnv) (data : OperatorData) :
    Outcome Bool :=
  if data.is_setup_done then
    { data := data, trace := [], result := Except.ok (!data.use_fallback) }
  -- Check field compatibility: fallback to ref if not all bases are shared
  else if hasSharedBases op = false then
    { data := data, trace := [], result := Except.ok false }
  else
    -- Get operator data
    match CeedOperatorBuildKernelData_Hip_gen op.basis_info op.inputs op.outputs 1 with
    | Except.error e => { data := data, trace := [Event.classify], result := Except.error e }
    | Except.ok kd =>
      let max_dim := if kd.max_dim = 0 then 1 else kd.max_dim
      let Q_1d :=
        if kd.Q_1d = 0 then (if op.is_at_points then op.max_num_points else op.num_qpts)
        else kd.Q_1d
      let Q := if kd.Q = 0 then Q_1d else kd.Q
      let data1 := { data with
        max_P_1d := if kd.is_all_tensor then kd.max_P_1d else kd.max_P,
        dim := max_dim, Q := Q, Q_1d := Q_1d }
      -- Check for restriction only identity operator
      if restrictionOnlyIdentity op then
        { data := data1, trace := [Event.classify],
          result := Except.error
            (CeedError.BACKEND "Backend does not implement restriction only identity operators") }
      -- Add user QFunction source
      else if op.qf_source_path = none then
        { data := data1, trace := [Event.classify, Event.preamble KernelKind.apply],
          result := Except.error
            (CeedError.UNSUPPORTED "/gpu/hip/gen backend requires QFunction source code file") }
      else
        -- Compile
        let block_sizes :=
          BlockGridCalculate_Hip_gen (if kd.is_all_tensor then max_dim else 1) op.num_elem
            data1.max_P_1d (if kd.is_all_tensor then Q_1d else Q)
        let data2 := { data1 with thread_1d := block_sizes.1 }
        let trace :=
          [Event.classify, Event.preamble KernelKind.apply,
           Event.synthesize KernelKind.apply (operatorName KernelKind.apply op.qfunction_name),
           Event.compile KernelKind.apply block_sizes.1
             (block_sizes.1 * block_sizes.2.1 * block_sizes.2.2) env.compile_good]
        if env.compile_good then
          { data := { data2 with op := true, is_setup_done := true }, trace := trace,
            result := Except.ok true }
        else
          { data := { data2 with use_fallback := true, is_setup_done := true }, trace := trace,
            result := Except.ok false }

/-- Embedding of `CeedOperatorBuildKernelAssemblyAtPoints_Hip_gen` (lines 1615-2074) as far as
the backend data and the order of its steps go; `is_full` selects the full assembly kernel,
otherwise the diagonal assembly kernel is built. -/
def CeedOperatorBuildKernelAssemblyAtPoints_Hip_gen (op : Operator) (env : CallEnv)
    (is_full : Bool) (data : OperatorData) : Outcome Bool :=
  let kind := if is_full then KernelKind.assembleFull else KernelKind.assembleDiagonal
  -- Check compatibility
  if op.is_at_points = false then
    { data := data, trace := [],
      result := Except.error (CeedError.BACKEND "Only AtPoints operator assembly supported") }
  -- Add user QFunction source
  else if op.qf_source_path = none then
    { data := data, trace := [Event.preamble kind],
      result := Except.error
        (CeedError.UNSUPPORTED "/gpu/hip/gen backend requires QFunction source code file") }
  else
    -- Compile
    let block_sizes := BlockGridCalculate_Hip_gen data.dim op.num_elem data.max_P_1d data.Q_1d
    let data1 := { data with thread_1d := block_sizes.1 }
    let trace :=
      [Event.preamble kind, Event.synthesize kind (operatorName kind op.qfunction_name),
       Event.compile kind block_sizes.1 (block_sizes.1 * block_sizes.2.1 * block_sizes.2.2)
         env.assembly_compile_good]
    if env.assembly_compile_good then
      { data := if is_full then { data1 with assemble_full := true }
                else { data1 with assemble_diagonal := true },
        trace := trace, result := Except.ok true }
    else
      { data := { data1 with use_assembly_fallback := true }, trace := trace,
        result := Except.ok false }

/-- Embedding of `CeedOperatorBuildKernelDiagonalAssemblyAtPoints_Hip_gen` (lines 2076-2078). -/
def CeedOperatorBuildKernelDiagonalAssemblyAtPoints_Hip_gen (op : Operator) (env : CallEnv)
    (data : OperatorData) : Outcome Bool :=
  CeedOperatorBuildKernelAssemblyAtPoints_Hip_gen op env false data

/-- Embedding of `CeedOperatorBuildKernelFullAssemblyAtPoints_Hip_gen` (lines 2080-2082). -/
def CeedOperatorBuildKernelFullAssemblyAtPoints_Hip_gen (op : Operator) (env : CallEnv)
    (data : OperatorData) : Outcome Bool :=
  CeedOperatorBuildKernelAssemblyAtPoints_Hip_gen op env true data

/-- Embedding of `CeedOperatorBuildKernelLinearAssembleQFunction_Hip_gen` (lines 2086-2643) as
far as the backend data and the order of its steps go.  The function computes
`has_shared_bases` but does not test it. -/
def CeedOperatorBuildKernelLinearAssembleQFunction_Hip_gen (op : Operator) (env : CallEnv)
    (data : OperatorData) : Outcome Bool :=
  -- Check compatibility
  if op.is_at_points then
    { data := data, trace := [],
      result := Except.error (CeedError.BACKEND "AtPoints QFunction assembly is not supported") }
  -- Add user QFunction source
  else if op.qf_source_path = none then
    { data := data, trace := [Event.preamble KernelKind.assembleQFunction],
      result := Except.error
        (CeedError.UNSUPPORTED "/gpu/hip/gen backend requires QFunction source code file") }
  else
    -- Compile
    let block_sizes := BlockGridCalculate_Hip_gen data.dim op.num_elem data.max_P_1d data.Q_1d
    let data1 := { data with thread_1d := block_sizes.1 }
    let trace :=
      [Event.preamble KernelKind.assembleQFunction,
       Event.synthesize KernelKind.assembleQFunction
         (operatorName KernelKind.assembleQFunction op.qfunction_name),
       Event.compile KernelKind.assembleQFunction block_sizes.1
         (block_sizes.1 * block_sizes.2.1 * block_sizes.2.2) env.assembly_compile_good]
    if env.assembly_compile_good then
      { data := { data1 with assemble_qfunction := true }, trace := trace,
        result := Except.ok true }
    else
      { data := { data1 with use_assembly_fallback := true }, trace := trace,
        result := Except.ok false }

/-! ## Builders of the CUDA backend -/

/-- Modelled from the spec: `CeedOperatorBuildKernel_Cuda_gen` is declared in
`ceed-cuda-gen-operator-build.h` but defined outside the sources at hand.  By the spec the
build is "gated by a per-operator setup done flag so repeated evaluation calls short-circuit to
READY/FAILED", and a compiler error "also sets FallbackState for that kernel kind"; the
function is modelled by the builder of the same name of the HIP backend, which is in the
sources. -/
def CeedOperatorBuildKernel_Cuda_gen (op : Operator) (env : CallEnv) (data : OperatorData) :
    Outcome Bool :=
  CeedOperatorBuildKernel_Hip_gen op env data

/-- Modelled from the spec: `CeedOperatorBuildKernelLinearAssembleQFunction_Cuda_gen` is
declared in `ceed-cuda-gen-operator-build.h` but defined outside the sources at hand; a build
failure "sets FallbackState for that kernel kind".  It is modelled by the builder of the same
name of the HIP backend. -/
def CeedOperatorBuildKernelLinearAssembleQFunction_Cuda_gen (op : Operator) (env : CallEnv)
    (data : OperatorData) : Outcome Bool :=
  CeedOperatorBuildKernelLinearAssembleQFunction_Hip_gen op env data

/-- Modelled from the spec: `CeedOperatorBuildKernelDiagonalAssemblyAtPoints_Cuda_gen` is
declared in `ceed-cuda-gen-operator-build.h` but defined outside the sources at hand; it is
modelled by the builder of the same name of the HIP backend. -/
def CeedOperatorBuildKernelDiagonalAssemblyAtPoints_Cuda_gen (op : Operator) (env : CallEnv)
    (data : OperatorData) : Outcome Bool :=
  CeedOperatorBuildKernelDiagonalAssemblyAtPoints_Hip_gen op env data

/-- Modelled from the spec: `CeedOperatorBuildKernelFullAssemblyAtPoints_Cuda_gen` is declared
in `ceed-cuda-gen-operator-build.h` but defined outside the sources at hand; it is modelled by
the builder of the same name of the HIP backend. -/
def CeedOperatorBuildKernelFullAssemblyAtPoints_Cuda_gen (op : Operator) (env : CallEnv)
    (data : OperatorData) : Outcome Bool :=
  CeedOperatorBuildKernelFullAssemblyAtPoints_Hip_gen op env data

/-! ## Operator runner (`ceed-cuda-gen-operator.c`) -/

/-- The launch shape and the shared-memory bytes computed by `CeedOperatorApplyAddCore_Cuda_gen`
(lines 207-220) and `CeedOperatorLinearAssembleQFunctionCore_Cuda_gen` (lines 460-473):
`BlockGridCalculate` on the tensor path, the 512-thread heuristic otherwise.  `none` stands for
a division by zero. -/
def launchConfig (dev : Device) (env : CallEnv) (is_tensor : Bool)
    (thread_1d dim num_elem : Int) : Option (LaunchDims × Int) := do
  let block0 := thread_1d
  let block1 := if !is_tensor || decide (dim = 1) then 1 else thread_1d
  let dims ←
    if is_tensor then do
      let blocks_per_sm ← cdiv env.min_grid_size dev.multiProcessorCount
      BlockGridCalculate num_elem blocks_per_sm env.max_threads_per_block dev.maxThreadsDim2
        dev.warpSize block0 block1
    else do
      let elems_per_block := CeedIntMin dev.maxThreadsDim2 (CeedIntMax (← cdiv 512 thread_1d) 1)
      let grid := (← cdiv num_elem elems_per_block) +
        (if (← cmod num_elem elems_per_block) > 0 then 1 else 0)
      pure { block0 := block0, block1 := block1, block2 := elems_per_block, grid := grid }
  let shared_mem := dims.block0 * dims.block1 * dims.block2 * dev.scalar_size
  pure (dims, shared_mem)

/-- The launch shape and the shared-memory bytes computed by the at-points assembly entry
points (lines 636-641 and 801-806): `BlockGridCalculate` with `max_threads_per_block = 1`. -/
def launchConfigAtPoints (dev : Device) (env : CallEnv) (thread_1d dim num_elem : Int) :
    Option (LaunchDims × Int) := do
  let block0 := thread_1d
  let block1 := if dim = 1 then 1 else thread_1d
  let blocks_per_sm ← cdiv env.min_grid_size dev.multiProcessorCount
  let dims ← BlockGridCalculate num_elem blocks_per_sm 1 dev.maxThreadsDim2 dev.warpSize
    block0 block1
  let shared_mem := dims.block0 * dims.block1 * dims.block2 * dev.scalar_size
  pure (dims, shared_mem)

/-- The array bound to a field by the loops "Input vectors" and "Output vectors": `NULL` for a
WEIGHT field, `active_arr` for the active vector, else the array of the field's vector. -/
def bindField (active_arr : ArrayBinding) (field : OperatorField) : ArrayBinding :=
  if field.eval_mode = CeedEvalMode.WEIGHT then ArrayBinding.null
  else
    match field.vec with
    | CeedVector.ACTIVE => active_arr
    | CeedVector.passive id => ArrayBinding.passive id
    | CeedVector.NONE => ArrayBinding.null

/-- The block "Points per elem" (lines 177-197, 603-623, 766-786): when the element count of
the operator differs from the cached `data->points.num_elem`, the cached count is updated and
the device buffer is freed, allocated anew and filled. -/
def updatePoints (op : Operator) (data : OperatorData) : OperatorData × List Event :=
  if op.num_elem ≠ data.points_num_elem then
    ({ data with
        points_num_elem := op.num_elem,
        points_num_per_elem :=
          some ((List.range op.num_elem.toNat).map fun e => op.num_points_in_elem e) },
     [Event.reallocPoints op.num_elem])
  else (data, [])

/-- Embedding of `CeedOperatorApplyAddCore_Cuda_gen` (lines 105-271); the value returned is
`*is_run_good`. -/
def CeedOperatorApplyAddCore_Cuda_gen (op : Operator) (dev : Device) (env : CallEnv)
    (data : OperatorData) : Outcome Bool :=
  -- Build the operator kernel
  let b := CeedOperatorBuildKernel_Cuda_gen op env data
  match b.result with
  | Except.error e => { data := b.data, trace := b.trace, result := Except.error e }
  | Except.ok false => { data := b.data, trace := b.trace, result := Except.ok false }
  | Except.ok true =>
    -- Input vectors, output vectors
    let bind := Event.bind KernelKind.apply (op.inputs.map (bindField ArrayBinding.active))
      (op.outputs.map (bindField ArrayBinding.active))
    -- Point coordinates, if needed
    let pts := if op.is_at_points then updatePoints op b.data else (b.data, [])
    -- Apply operator
    match launchConfig dev env op.has_tensor_bases pts.1.thread_1d pts.1.dim op.num_elem with
    | none =>
      { data := pts.1, trace := b.trace ++ [bind] ++ pts.2,
        result := Except.error CeedError.DIVISION_BY_ZERO }
    | some cfg =>
      let trace := b.trace ++ [bind] ++ pts.2 ++
        [Event.launch KernelKind.apply cfg.1 cfg.2 env.run_good, Event.restore KernelKind.apply]
      -- Cleanup
      if env.run_good then { data := pts.1, trace := trace, result := Except.ok true }
      else { data := { pts.1 with use_fallback := true }, trace := trace,
             result := Except.ok false }

/-- Embedding of `CeedOperatorApplyAdd_Cuda_gen` (lines 273-294). -/
def CeedOperatorApplyAdd_Cuda_gen (op : Operator) (dev : Device) (env : CallEnv)
    (data : OperatorData) : Outcome Unit :=
  -- Try to run kernel
  let c := CeedOperatorApplyAddCore_Cuda_gen op dev env data
  match c.result with
  | Except.error e => { data := c.data, trace := c.trace, result := Except.error e }
  | Except.ok is_run_good =>
    -- Fallback on unsuccessful run
    if !is_run_good then
      { data := c.data, trace := c.trace ++ [Event.fallback KernelKind.apply],
        result := Except.ok () }
    else { data := c.data, trace := c.trace, result := Except.ok () }

/-- A sub-operator of a composite operator: its description, the results of the external calls
made for it, and its backend data. -/
structure SubOperator where
  op : Operator
  env : CallEnv
  data : OperatorData

/-- The result of a call on a composite operator: the backend data of every sub-operator, the
steps taken, each with the index of its sub-operator, and the value or the error returned. -/
structure CompositeOutcome (α : Type) where
  data : List OperatorData
  trace : List (Nat × Event)
  result : Except CeedError α

/-- The first loop of `CeedOperatorApplyAddComposite_Cuda_gen` (lines 309-320) over the
sub-operators from index `i` on; the value is the array `is_run_good`, whose entries start as
`false` and are written only for a sub-operator with elements. -/
def compositeLaunchLoop (dev : Device) : List SubOperator → Nat → CompositeOutcome (List Bool)
  | [], _ => { data := [], trace := [], result := Except.ok [] }
  | sub :: rest, i =>
    if sub.op.num_elem > 0 then
      let c := CeedOperatorApplyAddCore_Cuda_gen sub.op dev sub.env sub.data
      match c.result with
      | Except.error e =>
        { data := c.data :: rest.map (fun s => s.data), trace := c.trace.map (fun ev => (i, ev)),
          result := Except.error e }
      | Except.ok is_run_good =>
        let r := compositeLaunchLoop dev rest (i + 1)
        { data := c.data :: r.data, trace := c.trace.map (fun ev => (i, ev)) ++ r.trace,
          result := r.result.map (fun goods => is_run_good :: goods) }
    else
      let r := compositeLaunchLoop dev rest (i + 1)
      { data := sub.data :: r.data, trace := r.trace,
        result := r.result.map (fun goods => false :: goods) }

/-- Embedding of `CeedOperatorApplyAddComposite_Cuda_gen` (lines 296-337). -/
def CeedOperatorApplyAddComposite_Cuda_gen (dev : Device) (subs : List SubOperator) :
    CompositeOutcome Unit :=
  let r := compositeLaunchLoop dev subs 0
  match r.result with
  | Except.error e => { data := r.data, trace := r.trace, result := Except.error e }
  | Except.ok is_run_good =>
    -- Fallback on unsuccessful run
    { data := r.data,
      trace := r.trace ++
        (is_run_good.enum.filter (fun p => !p.2)).map
          (fun p => (p.1, Event.fallback KernelKind.apply)),
      result := Except.ok () }

/-- The sum of the sizes of the active fields of a list (lines 405-417 and 423-435). -/
def activeFieldSize (fields : List OperatorField) : Int :=
  (fields.map fun f => if f.vec = CeedVector.ACTIVE then f.size else 0).sum

/-- The block "Fallback, if needed" that ends the three assembly entry points (lines 512-521,
683-692, 848-857), after the steps `run` of the blocks before it. -/
def assemblyFallback (kind : KernelKind) (run : Outcome Unit) : Outcome Unit :=
  match run.result with
  | Except.error e => { data := run.data, trace := run.trace, result := Except.error e }
  | Except.ok () =>
    if run.data.use_assembly_fallback then
      { data := run.data, trace := run.trace ++ [Event.fallback kind], result := Except.ok () }
    else { data := run.data, trace := run.trace, result := Except.ok () }

/-- The block "Build the assembly kernel" of
`CeedOperatorLinearAssembleQFunctionCore_Cuda_gen` (lines 350-357). -/
def qfunctionAssemblyBuild (op : Operator) (env : CallEnv) (data : OperatorData) :
    Outcome Unit :=
  if !data.assemble_qfunction && !data.use_assembly_fallback then
    let b1 := CeedOperatorBuildKernel_Cuda_gen op env data
    match b1.result with
    | Except.error e => { data := b1.data, trace := b1.trace, result := Except.error e }
    | Except.ok false =>
      { data := { b1.data with use_assembly_fallback := true }, trace := b1.trace,
        result := Except.ok () }
    | Except.ok true =>
      let b2 := CeedOperatorBuildKernelLinearAssembleQFunction_Cuda_gen op env b1.data
      match b2.result with
      | Except.error e =>
        { data := b2.data, trace := b1.trace ++ b2.trace, result := Except.error e }
      | Except.ok false =>
        { data := { b2.data with use_assembly_fallback := true },
          trace := b1.trace ++ b2.trace, result := Except.ok () }
      | Except.ok true =>
        { data := b2.data, trace := b1.trace ++ b2.trace, result := Except.ok () }
  else { data := data, trace := [], result := Except.ok () }

/-- The block "Try assembly" of `CeedOperatorLinearAssembleQFunctionCore_Cuda_gen` (lines
359-509), entered with the backend data `data` after the steps `trace`.  The entry
`strides[1] = num_elem * Q` (line 442) and the argument `qf_size_in * qf_size_out` (line 445)
are products of `CeedInt` values computed in `CeedInt`; `l_size` and the L-vector size passed
to the restriction are computed in the 64-bit `CeedSize` (lines 441, 446), which the product of
sizes of an operator that fits a device does not leave. -/
def qfunctionAssemblyTry (op : Operator) (dev : Device) (env : CallEnv) (build_objects : Bool)
    (data : OperatorData) (trace : List Event) : Outcome Unit :=
  if !data.use_assembly_fallback then
    -- Input vectors
    let bind := Event.bind KernelKind.assembleQFunction
      (op.inputs.map (bindField ArrayBinding.null)) []
    -- Build objects if needed
    let qf_size_in := activeFieldSize op.inputs
    let qf_size_out := activeFieldSize op.outputs
    if build_objects ∧ ¬ qf_size_in > 0 then
      { data := data, trace := trace ++ [bind],
        result := Except.error
          (CeedError.BACKEND "Cannot assemble QFunction without active inputs and outputs") }
    else if build_objects ∧ ¬ qf_size_out > 0 then
      { data := data, trace := trace ++ [bind],
        result := Except.error
          (CeedError.BACKEND "Cannot assemble QFunction without active inputs and outputs") }
    else
      let l_size := op.num_elem * op.num_qpts * qf_size_in * qf_size_out
      let objects :=
        if build_objects then
          [Event.createRestriction op.num_elem op.num_qpts
             (wrapCeedInt (qf_size_in * qf_size_out))
             (qf_size_in * qf_size_out * op.num_elem * op.num_qpts)
             (1, wrapCeedInt (op.num_elem * op.num_qpts), op.num_qpts),
           Event.createVector l_size]
        else []
      -- Assemble QFunction
      match launchConfig dev env op.has_tensor_bases data.thread_1d data.dim op.num_elem with
      | none =>
        { data := data, trace := trace ++ [bind] ++ objects,
          result := Except.error CeedError.DIVISION_BY_ZERO }
      | some cfg =>
        let trace1 := trace ++ [bind] ++ objects ++
          [Event.launch KernelKind.assembleQFunction cfg.1 cfg.2 env.run_good,
           Event.restore KernelKind.assembleQFunction]
        -- Cleanup
        if env.run_good then { data := data, trace := trace1, result := Except.ok () }
        else
          { data := { data with use_assembly_fallback := true },
            trace := trace1 ++ (if build_objects then [Event.destroyAssembled] else []),
            result := Except.ok () }
  else { data := data, trace := trace, result := Except.ok () }

/-- Embedding of `CeedOperatorLinearAssembleQFunctionCore_Cuda_gen` (lines 342-522): the blocks
"Build the assembly kernel", "Try assembly" and "Fallback, if needed" in turn. -/
def CeedOperatorLinearAssembleQFunctionCore_Cuda_gen (op : Operator) (dev : Device)
    (env : CallEnv) (build_objects : Bool) (data : OperatorData) : Outcome Unit :=
  let b := qfunctionAssemblyBuild op env data
  match b.result with
  | Except.error e => { data := b.data, trace := b.trace, result := Except.error e }
  | Except.ok () =>
    assemblyFallback KernelKind.assembleQFunction
      (qfunctionAssemblyTry op dev env build_objects b.data b.trace)

/-- Embedding of `CeedOperatorLinearAssembleQFunction_Cuda_gen` (lines 524-526). -/
def CeedOperatorLinearAssembleQFunction_Cuda_gen (op : Operator) (dev : Device) (env : CallEnv)
    (data : OperatorData) : Outcome Unit :=
  CeedOperatorLinearAssembleQFunctionCore_Cuda_gen op dev env true data

/-- Embedding of `CeedOperatorLinearAssembleQFunctionUpdate_Cuda_gen` (lines 528-530). -/
def CeedOperatorLinearAssembleQFunctionUpdate_Cuda_gen (op : Operator) (dev : Device)
    (env : CallEnv) (data : OperatorData) : Outcome Unit :=
  CeedOperatorLinearAssembleQFunctionCore_Cuda_gen op dev env false data

/-- The kernel kind of an at-points assembly entry point. -/
def atPointsKind (is_full : Bool) : KernelKind :=
  if is_full then KernelKind.assembleFull else KernelKind.assembleDiagonal

/-- The block "Build the assembly kernel" of the at-points assembly entry points (lines
542-556 and 705-719); `is_full` selects the full assembly, whose kernel handle is
`data->assemble_full`, otherwise the handle is `data->assemble_diagonal`. -/
def assembleAtPointsBuild (op : Operator) (env : CallEnv) (is_full : Bool)
    (data : OperatorData) : Outcome Unit :=
  let handle := if is_full then data.assemble_full else data.assemble_diagonal
  if !handle && !data.use_assembly_fallback then
    if op.num_active_bases_in = op.num_active_bases_out then
      let b1 := CeedOperatorBuildKernel_Cuda_gen op env data
      match b1.result with
      | Except.error e => { data := b1.data, trace := b1.trace, result := Except.error e }
      | Except.ok false =>
        { data := { b1.data with use_assembly_fallback := true }, trace := b1.trace,
          result := Except.ok () }
      | Except.ok true =>
        let b2 :=
          if is_full then CeedOperatorBuildKernelFullAssemblyAtPoints_Cuda_gen op env b1.data
          else CeedOperatorBuildKernelDiagonalAssemblyAtPoints_Cuda_gen op env b1.data
        match b2.result with
        | Except.error e =>
          { data := b2.data, trace := b1.trace ++ b2.trace, result := Except.error e }
        | Except.ok false =>
          { data := { b2.data with use_assembly_fallback := true },
            trace := b1.trace ++ b2.trace, result := Except.ok () }
        | Except.ok true =>
          { data := b2.data, trace := b1.trace ++ b2.trace, result := Except.ok () }
    else
      { data := { data with use_assembly_fallback := true }, trace := [],
        result := Except.ok () }
  else { data := data, trace := [], result := Except.ok () }

/-- The block "Try assembly" of the at-points assembly entry points (lines 558-680 and
721-845), entered with the backend data `data` after the steps `trace`. -/
def assembleAtPointsTry (op : Operator) (dev : Device) (env : CallEnv) (is_full : Bool)
    (data : OperatorData) (trace : List Event) : Outcome Unit :=
  if !data.use_assembly_fallback then
    -- Input vectors
    let bind := Event.bind (atPointsKind is_full) (op.inputs.map (bindField ArrayBinding.null)) []
    -- Point coordinates
    let pts := updatePoints op data
    -- Assemble
    match launchConfigAtPoints dev env pts.1.thread_1d pts.1.dim op.num_elem with
    | none =>
      { data := pts.1, trace := trace ++ [bind] ++ pts.2,
        result := Except.error CeedError.DIVISION_BY_ZERO }
    | some cfg =>
      let trace1 := trace ++ [bind] ++ pts.2 ++
        [Event.launch (atPointsKind is_full) cfg.1 cfg.2 env.run_good,
         Event.restore (atPointsKind is_full)]
      -- Cleanup
      if env.run_good then { data := pts.1, trace := trace1, result := Except.ok () }
      else
        { data := { pts.1 with use_assembly_fallback := true }, trace := trace1,
          result := Except.ok () }
  else { data := data, trace := trace, result := Except.ok () }

/-- The common body of `CeedOperatorLinearAssembleAddDiagonalAtPoints_Cuda_gen` (lines 535-693,
`is_full = false`) and `CeedSingleOperatorAssembleAtPoints_Cuda_gen` (lines 698-858,
`is_full = true`): the two functions differ in the kernel handle they test, build and launch,
and in the fallback they call. -/
def assembleAtPoints (op : Operator) (dev : Device) (env : CallEnv) (is_full : Bool)
    (data : OperatorData) : Outcome Unit :=
  let b := assembleAtPointsBuild op env is_full data
  match b.result with
  | Except.error e => { data := b.data, trace := b.trace, result := Except.error e }
  | Except.ok () =>
    assemblyFallback (atPointsKind is_full) (assembleAtPointsTry op dev env is_full b.data b.trace)

/-- Embedding of `CeedOperatorLinearAssembleAddDiagonalAtPoints_Cuda_gen` (lines 535-693). -/
def CeedOperatorLinearAssembleAddDiagonalAtPoints_Cuda_gen (op : Operator) (dev : Device)
    (env : CallEnv) (data : OperatorData) : Outcome Unit :=
  assembleAtPoints op dev env false data

/-- Embedding of `CeedSingleOperatorAssembleAtPoints_Cuda_gen` (lines 698-858). -/
def CeedSingleOperatorAssembleAtPoints_Cuda_gen (op : Operator) (dev : Device) (env : CallEnv)
    (data : OperatorData) : Outcome Unit :=
  assembleAtPoints op dev env true data

/-! ## Lifecycle: proof-side definitions -/

/-- Whether a step is a call of the compile routine. -/
def Event.isCompile (ev : Event) : Bool :=
  match ev with
  | Event.compile _ _ _ _ => true
  | _ => false

/-- Whether a step is the synthesis of a kernel source. -/
def Event.isSynthesize (ev : Event) : Bool :=
  match ev with
  | Event.synthesize _ _ => true
  | _ => false

/-- Whether a step is a kernel launch. -/
def Event.isLaunch (ev : Event) : Bool :=
  match ev with
  | Event.launch _ _ _ _ => true
  | _ => false

/-- Whether a step binds device arrays. -/
def Event.isBind (ev : Event) : Bool :=
  match ev with
  | Event.bind _ _ _ => true
  | _ => false

/-- A sequence of calls of `CeedOperatorBuildKernel_Hip_gen` on one operator, one for each
entry of `envs`: the backend data after the last call and the steps of all calls in order. -/
def buildSequence (op : Operator) : List CallEnv → OperatorData → OperatorData × List Event
  | [], data => (data, [])
  | env :: envs, data =>
    let o := CeedOperatorBuildKernel_Hip_gen op env data
    let r := buildSequence op envs o.data
    (r.1, o.trace ++ r.2)

/-- The fallback flags of `d1` are at least those of `d`: a flag that is true in `d` is true
in `d1`. -/
def FlagsMono (d d1 : OperatorData) : Prop :=
  (d.use_fallback = true → d1.use_fallback = true) ∧
  (d.use_assembly_fallback = true → d1.use_assembly_fallback = true)

/-- The fallback flag of the operator kernel is set only on an operator whose setup is done. -/
def SetupInv (d : OperatorData) : Prop :=
  d.use_fallback = true → d.is_setup_done = true

/-- What the block "Build the assembly kernel" of an assembly entry point guarantees for its
outcome `b` on the backend data `d`. -/
def BuildFrame (env : CallEnv) (d : OperatorData) (b : Outcome Unit) : Prop :=
  FlagsMono d b.data ∧
  (d.is_setup_done = true → b.data.is_setup_done = true) ∧
  (SetupInv d → SetupInv b.data) ∧
  (d.use_assembly_fallback = true → b.data = d ∧ b.trace = [] ∧ b.result = Except.ok ()) ∧
  (b.data.use_fallback = true → d.use_fallback = true ∨ env.compile_good = false) ∧
  (∀ kind a c, Event.compile kind a c false ∈ b.trace → b.data.use_assembly_fallback = true) ∧
  (∀ ev ∈ b.trace, ev.isLaunch = false)

/-- What the block "Try assembly" of an assembly entry point guarantees for its outcome `r`
on the backend data `d` after the steps `tr`. -/
def TryFrame (d : OperatorData) (tr : List Event) (r : Outcome Unit) : Prop :=
  (d.use_assembly_fallback = true → r.data = d ∧ r.trace = tr ∧ r.result = Except.ok ()) ∧
  r.data.use_fallback = d.use_fallback ∧
  r.data.is_setup_done = d.is_setup_done ∧
  (∀ kind a c g, Event.compile kind a c g ∈ r.trace → Event.compile kind a c g ∈ tr) ∧
  (∀ kind dims sm, Event.launch kind dims sm false ∈ r.trace →
    Event.launch kind dims sm false ∈ tr ∨ r.data.use_assembly_fallback = true)

/-- What an assembly entry point of kernel kind `kind` guarantees for its outcome `e` on the
backend data `d`. -/
def EntryFrame (kind : KernelKind) (env : CallEnv) (d : OperatorData) (e : Outcome Unit) :
    Prop :=
  FlagsMono d e.data ∧
  (d.is_setup_done = true → e.data.is_setup_done = true) ∧
  (SetupInv d → SetupInv e.data) ∧
  (d.use_assembly_fallback = true →
    e.data = d ∧ e.trace = [Event.fallback kind] ∧ e.result = Except.ok ()) ∧
  (e.data.use_fallback = true → d.use_fallback = true ∨ env.compile_good = false) ∧
  (∀ k a c, Event.compile k a c false ∈ e.trace → e.data.use_assembly_fallback = true) ∧
  (∀ k dims sm, Event.launch k dims sm false ∈ e.trace → e.data.use_assembly_fallback = true) ∧
  (e.result = Except.ok () → e.data.use_assembly_fallback = true →
    Event.fallback kind ∈ e.trace)

/-- One call of a builder or of an entry point of the runner on an operator, with any operator
description, device and results of the external calls, as a step on the backend data. -/
inductive Step : OperatorData → OperatorData → Prop where
  | buildKernel (op : Operator) (env : CallEnv) (d : OperatorData) :
    Step d (CeedOperatorBuildKernel_Hip_gen op env d).data
  | buildAssemblyAtPoints (op : Operator) (env : CallEnv) (is_full : Bool) (d : OperatorData) :
    Step d (CeedOperatorBuildKernelAssemblyAtPoints_Hip_gen op env is_full d).data
  | buildAssembleQFunction (op : Operator) (env : CallEnv) (d : OperatorData) :
    Step d (CeedOperatorBuildKernelLinearAssembleQFunction_Hip_gen op env d).data
  | applyCore (op : Operator) (dev : Device) (env : CallEnv) (d : OperatorData) :
    Step d (CeedOperatorApplyAddCore_Cuda_gen op dev env d).data
  | apply (op : Operator) (dev : Device) (env : CallEnv) (d : OperatorData) :
    Step d (CeedOperatorApplyAdd_Cuda_gen op dev env d).data
  | assembleQFunction (op : Operator) (dev : Device) (env : CallEnv) (build_objects : Bool)
      (d : OperatorData) :
    Step d (CeedOperatorLinearAssembleQFunctionCore_Cuda_gen op dev env build_objects d).data
  | assembleDiagonal (op : Operator) (dev : Device) (env : CallEnv) (d : OperatorData) :
    Step d (CeedOperatorLinearAssembleAddDiagonalAtPoints_Cuda_gen op dev env d).data
  | assembleFull (op : Operator) (dev : Device) (env : CallEnv) (d : OperatorData) :
    Step d (CeedSingleOperatorAssembleAtPoints_Cuda_gen op dev env d).data

/-- The backend data an operator can have: that of a fresh operator, or that after a call on
an operator with reachable backend data. -/
inductive Reachable : OperatorData → Prop where
  | init : Reachable OperatorData.init
  | step {d d1 : OperatorData} : Reachable d → Step d d1 → Reachable d1

/-- Sample operator: an at-points operator with 10 elements, a GRAD input and a GRAD output on
the tensor basis 1, and a QFunction with a source file. -/
def sampleOperator : Operator :=
  { inputs := [sampleFieldDu],
    outputs := [{ field_name := "dv", basis := 1, elem_rstr := 1, vec := CeedVector.ACTIVE,
                  eval_mode := CeedEvalMode.GRAD, size := 3 }],
    basis_info := sampleBasisInfo, rstr_info := sampleRstrInfo, num_elem := 10, num_qpts := 64,
    is_at_points := true, has_tensor_bases := true, max_num_points := 27,
    coords_comp_stride := 1, num_points_in_elem := fun _ => 27, qf_is_identity := false,
    qf_source_path := some "poisson.h", qfunction_name := "Poisson3D",
    num_active_bases_in := 1, num_active_bases_out := 1 }

/-- Sample device: 80 multiprocessors, a z-limit of 64, warp size 32, 8-byte scalars. -/
def sampleDevice : Device :=
  { multiProcessorCount := 80, maxThreadsDim2 := 64, warpSize := 32, scalar_size := 8 }

/-- Sample call: every compilation and the launch succeed. -/
def sampleEnvGood : CallEnv :=
  { compile_good := true, assembly_compile_good := true, run_good := true,
    min_grid_size := 160, max_threads_per_block := 1024 }

/-- Sample call: the compilations succeed, the launch fails. -/
def sampleEnvLaunchFails : CallEnv :=
  { compile_good := true, assembly_compile_good := true, run_good := false,
    min_grid_size := 160, max_threads_per_block := 1024 }

/-- Sample call: one resident block of 1024 threads per multiprocessor of the sample device. -/
def sampleEnvOneBlock : CallEnv :=
  { compile_good := true, assembly_compile_good := true, run_good := true,
    min_grid_size := 80, max_threads_per_block := 1024 }

/-- Sample call: the compilation of the operator kernel fails. -/
def sampleEnvCompileFails : CallEnv :=
  { compile_good := false, assembly_compile_good := true, run_good := true,
    min_grid_size := 160, max_threads_per_block := 1024 }

/-! ## Classifier, launch shapes, layout and composite apply: proof-side definitions -/

/-- The fields of `fields` selected by `p` agree on the value `v`, and with the running value
`q` unless `q` is still zero. -/
def ValuesAgree (p : OperatorField → Prop) (v : OperatorField → Int) (q : Int)
    (fields : List OperatorField) : Prop :=
  (∀ g ∈ fields, p g → q = 0 ∨ v g = q) ∧
  (∀ g ∈ fields, ∀ h ∈ fields, p g → p h → v g = v h)

/-- The quadrature checks of `CeedOperatorBuildKernelData_Hip_gen` pass on `fields` from the
running values `q` of `*Q` and `q1` of `*Q_1d`. -/
def QuadratureAgree (basis_info : CeedBasis → BasisInfo) (q q1 : Int)
    (fields : List OperatorField) : Prop :=
  ValuesAgree (fun f => f.basis ≠ CEED_BASIS_NONE) (fun f => (basis_info f.basis).num_qpts) q
    fields ∧
  ValuesAgree (fun f => f.basis ≠ CEED_BASIS_NONE ∧ (basis_info f.basis).is_tensor = true)
    (fun f => (basis_info f.basis).num_qpts_1d) q1 fields

/-- Two basis-bearing fields of the list report different numbers of quadrature points, or two
fields with a tensor basis report different 1-D quadrature counts. -/
def QuadratureMismatch (basis_info : CeedBasis → BasisInfo) (fields : List OperatorField) :
    Prop :=
  (∃ f ∈ fields, ∃ g ∈ fields, f.basis ≠ CEED_BASIS_NONE ∧ g.basis ≠ CEED_BASIS_NONE ∧
    (basis_info f.basis).num_qpts ≠ (basis_info g.basis).num_qpts) ∨
  (∃ f ∈ fields, ∃ g ∈ fields,
    (f.basis ≠ CEED_BASIS_NONE ∧ (basis_info f.basis).is_tensor = true) ∧
    (g.basis ≠ CEED_BASIS_NONE ∧ (basis_info g.basis).is_tensor = true) ∧
    (basis_info f.basis).num_qpts_1d ≠ (basis_info g.basis).num_qpts_1d)

/-- Whether every basis of the operator is a tensor basis (`is_all_tensor`, lines 66-91). -/
def isAllTensor (op : Operator) : Bool :=
  (op.inputs ++ op.outputs).all fun field =>
    if field.basis ≠ CEED_BASIS_NONE then (op.basis_info field.basis).is_tensor else true

/-- The block sizes computed by the call of `BlockGridCalculate_Hip_gen` in
`CeedOperatorBuildKernel_Hip_gen` (line 1591), in terms of the values `data` the builder stores
in the backend data. -/
def buildBlockSizes (op : Operator) (data : OperatorData) : Int × Int × Int :=
  BlockGridCalculate_Hip_gen (if isAllTensor op then data.dim else 1) op.num_elem data.max_P_1d
    (if isAllTensor op then data.Q_1d else data.Q)

/-- Follows the spec's words: the elements per block `e` of the HIP block shape, by dimension
and thread extent `t`. -/
def spec_elems_per_block (dim t : Int) : Int :=
  if dim = 1 then (if 64 * t ≤ 256 then 64 else max (256 / t) 1)
  else if dim = 2 then (if t < 4 then 16 else 2)
  else (if t < 6 then 4 else if t < 8 then 2 else 1)

/-- Modelled from the spec: the position in the L-vector that a strided element restriction,
created by `CeedElemRestrictionCreateStrided` of the framework (not part of the sources at
hand), gives to node `q`, component `c` of element `e`: with `strides = {node, component,
element}` it is `q*strides[0] + c*strides[1] + e*strides[2]`, the "documented wire format" of
the QFunction assembly output. -/
def stridedIndex (strides : Int × Int × Int) (q c e : Int) : Int :=
  q * strides.1 + c * strides.2.1 + e * strides.2.2

/-- The index triples `(q, c, e)` of a restriction with `elem_size` nodes, `num_comp`
components and `num_elem` elements. -/
def layoutBox (elem_size num_comp num_elem : Int) : Set (Int × Int × Int) :=
  {p | (0 ≤ p.1 ∧ p.1 < elem_size) ∧ (0 ≤ p.2.1 ∧ p.2.1 < num_comp) ∧
    (0 ≤ p.2.2 ∧ p.2.2 < num_elem)}

/-- Whether a step belongs to a kernel build: classification, source generation or
compilation. -/
def Event.isBuildStep (ev : Event) : Bool :=
  match ev with
  | Event.classify => true
  | Event.preamble _ => true
  | Event.synthesize _ _ => true
  | Event.compile _ _ _ _ => true
  | _ => false

/-- The entry `is_run_good[i]` of the composite apply for one sub-operator: `false` unless the
sub-operator has elements and its generated kernel is built and launched with success. -/
def subIsRunGood (dev : Device) (sub : SubOperator) : Bool :=
  if sub.op.num_elem > 0 then
    match (CeedOperatorApplyAddCore_Cuda_gen sub.op dev sub.env sub.data).result with
    | Except.ok true => true
    | _ => false
  else false

/-- The backend data of one sub-operator after the first loop of the composite apply. -/
def subData (dev : Device) (sub : SubOperator) : OperatorData :=
  if sub.op.num_elem > 0 then
    (CeedOperatorApplyAddCore_Cuda_gen sub.op dev sub.env sub.data).data
  else sub.data

/-- The steps taken for one sub-operator by the first loop of the composite apply. -/
def subTrace (dev : Device) (sub : SubOperator) : List Event :=
  if sub.op.num_elem > 0 then
    (CeedOperatorApplyAddCore_Cuda_gen sub.op dev sub.env sub.data).trace
  else []

/-! ## Further samples -/

/-- Basis table with collocated gradients: handle 1 is a 3-D tensor basis with the
collocated-gradient matrix, handle 3 the same basis without it, every other handle a 3-D
non-tensor basis. -/
def sampleBasisInfoCollo (basis : CeedBasis) : BasisInfo :=
  if basis = 1 then
    { is_tensor := true, dim := 3, num_nodes := 64, num_nodes_1d := 4, num_qpts := 64,
      num_qpts_1d := 4, has_collo_grad := true, is_shared := true }
  else if basis = 3 then
    { is_tensor := true, dim := 3, num_nodes := 64, num_nodes_1d := 4, num_qpts := 64,
      num_qpts_1d := 4, has_collo_grad := false, is_shared := true }
  else
    { is_tensor := false, dim := 3, num_nodes := 10, num_nodes_1d := 0, num_qpts := 64,
      num_qpts_1d := 0, has_collo_grad := false, is_shared := true }

/-- Sample field `dq`: GRAD on the tensor basis 3, passive vector. -/
def sampleFieldDq : OperatorField :=
  { field_name := "dq", basis := 3, elem_rstr := 2, vec := CeedVector.passive 8,
    eval_mode := CeedEvalMode.GRAD, size := 3 }

/-- Sample call: the occupancy query reports blocks of at most 256 threads, four of them
resident per multiprocessor of the sample device. -/
def sampleEnvSmallBlock : CallEnv :=
  { compile_good := true, assembly_compile_good := true, run_good := true,
    min_grid_size := 320, max_threads_per_block := 256 }

/-- Sample operator: the sample operator with a quadrature rule instead of points. -/
def sampleOperatorStd : Operator :=
  { sampleOperator with is_at_points := false }

/-- Sample operator without an active input: its only input is the passive field `dw`. -/
def sampleOperatorPassive : Operator :=
  { sampleOperatorStd with inputs := [sampleFieldDw] }

/-- Sample sub-operator list: the sample operator with 10 elements, then the same operator
without elements; every compilation and launch succeeds. -/
def sampleSubOperators : List SubOperator :=
  [{ op := sampleOperator, env := sampleEnvGood, data := OperatorData.init },
   { op := { sampleOperator with num_elem := 0 }, env := sampleEnvGood,
     data := OperatorData.init }]

/-- Sample sub-operator list: the launch of the first sub-operator fails, the second runs. -/
def sampleSubOperatorsLaunchFails : List SubOperator :=
  [{ op := sampleOperator, env := sampleEnvLaunchFails, data := OperatorData.init },
   { op := sampleOperator, env := sampleEnvGood, data := OperatorData.init }]

/-! ## Reuse analysis, input order, scratch buffer, slices: proof-side definitions -/

/-- The candidate `ft` of index `t` is the first field of `fields` that satisfies `p`. -/
def IsFirstMatch (p : OperatorField → Bool) (fields : List OperatorField) (t : Nat)
    (ft : OperatorField) : Prop :=
  fields[t]? = some ft ∧ p ft = true ∧ ∀ s g, s < t → fields[s]? = some g → p g = false

/-! ## Input processing order (`ceed-hip-gen-operator-build.cpp`) -/

/-- The assignment `a[j] = v` on an array given as a function of the index. -/
def setAt {α : Type} (a : Nat → α) (j : Nat) (v : α) : Nat → α :=
  fun k => if k = j then v else a k

/-- The arrays of the block "Determine best input field processing order" (lines 1495-1537,
repeated at lines 1853-1895 and 2410-2452).  `input_field_order` holds the entries written so
far, in the order of their positions: the source writes position `curr_index` and increments
it, so `curr_index` is the length of the list. -/
structure InputOrderState where
  field_rstr_in_buffer : Nat → Int
  is_ordered : Nat → Bool
  input_field_order : List Nat

/-- The arrays before the loop: `field_rstr_in_buffer[i] = -1`, `is_ordered[i] = false`, no
entry of `input_field_order` written. -/
def InputOrderState.init : InputOrderState :=
  { field_rstr_in_buffer := fun _ => -1, is_ordered := fun _ => false, input_field_order := [] }

/-- The four statements `field_rstr_in_buffer[j] = i; is_ordered[j] = true;
input_field_order[curr_index] = j; curr_index++;` that place field `j` under the leader `i`
(lines 1513-1516 with `j = i`, lines 1527-1530). -/
def InputOrderState.place (st : InputOrderState) (j i : Nat) : InputOrderState :=
  { field_rstr_in_buffer := setAt st.field_rstr_in_buffer j (i : Int),
    is_ordered := setAt st.is_ordered j true,
    input_field_order := st.input_field_order ++ [j] }

/-- One iteration of the inner loop `for (j = i + 1; j < num_input_fields; j++)` (lines
1520-1534) for the leader `field_i` of index `i`, at the candidate `p = (j, field_j)`. -/
def orderFollowerStep (i : Nat) (field_i : OperatorField) (st : InputOrderState)
    (p : Nat × OperatorField) : InputOrderState :=
  if field_i.elem_rstr = p.2.elem_rstr ∧ field_i.vec = p.2.vec then st.place p.1 i else st

/-- One iteration of the outer loop `for (i = 0; i < num_input_fields; i++)` (lines
1508-1537), at the field `p = (i, field_i)`. -/
def orderLeaderStep (fields : List OperatorField) (st : InputOrderState)
    (p : Nat × OperatorField) : InputOrderState :=
  if st.is_ordered p.1 then st
  else
    let st1 := st.place p.1 p.1
    -- CEED_EVAL_WEIGHT
    if p.2.vec = CeedVector.NONE then st1
    else ((fields.drop (p.1 + 1)).enumFrom (p.1 + 1)).foldl (orderFollowerStep p.1 p.2) st1

/-- The block "Determine best input field processing order" of the kernel builders on the
input fields `fields`. -/
def inputFieldOrder (fields : List OperatorField) : InputOrderState :=
  (fields.enumFrom 0).foldl (orderLeaderStep fields) InputOrderState.init

/-- The array `input_field_order` after the block. -/
def input_field_order (fields : List OperatorField) : List Nat :=
  (inputFieldOrder fields).input_field_order

/-- The entries `0..num_input_fields-1` of the array `field_rstr_in_buffer` after the
block. -/
def field_rstr_in_buffer (fields : List OperatorField) : List Int :=
  (List.range fields.length).map (inputFieldOrder fields).field_rstr_in_buffer

/-- Sample input list: active fields on the restrictions 1, 2, 1, of sizes 1, 2 and 3. -/
def sampleInputsInterleaved : List OperatorField :=
  [{ field_name := "u", basis := 1, elem_rstr := 1, vec := CeedVector.ACTIVE,
     eval_mode := CeedEvalMode.INTERP, size := 1 },
   { field_name := "p", basis := 1, elem_rstr := 2, vec := CeedVector.ACTIVE,
     eval_mode := CeedEvalMode.INTERP, size := 2 },
   { field_name := "du", basis := 1, elem_rstr := 1, vec := CeedVector.ACTIVE,
     eval_mode := CeedEvalMode.GRAD, size := 3 }]

/-- The restriction types `CeedRestrictionType` the emitters branch on. -/
inductive CeedRestrictionType where
  | STANDARD
  | STRIDED
  | POINTS
  | ORIENTED
  | CURL_ORIENTED
  deriving DecidableEq, Repr

/-- The declaration of the element buffer `r_e` of a field in the generated source. -/
inductive ElemBuffer where
  /-- `CeedScalar *r_e_in_i = r_e_in_L;` -/
  | aliasInput (leader : Int)
  /-- `CeedScalar r_e_in_i[num_comp_in_i*P_name];`, with the values of the two constants -/
  | array (num_comp P : Int)
  /-- `CeedScalar *r_e = r_e_scratch;` -/
  | scratch
  /-- `CeedScalar *r_e_out_i = r_q_out_i;` -/
  | aliasQ
  /-- no declaration of `r_e` is written -/
  | undeclared
  deriving DecidableEq, Repr

/-- The declaration of `r_e_in_i` written by `CeedOperatorBuildKernelRestriction_Hip_gen` for
the input field of index `i` (lines 406-420).  `num_comp` and `P` are the values of the
constants `num_comp_in_i` and `P_1d_in_i` (or `P_in_i`) of the field. -/
def inputElemBuffer (i : Nat) (field_input_buffer : Nat → Int) (eval_mode : CeedEvalMode)
    (rstr_type : CeedRestrictionType) (num_comp P : Int) (is_at_points use_3d_slices : Bool) :
    ElemBuffer :=
  if field_input_buffer i ≠ (i : Int) then
    -- Restriction was already done for previous input
    ElemBuffer.aliasInput (field_input_buffer i)
  else if eval_mode ≠ CeedEvalMode.WEIGHT ∧
      ¬ (eval_mode = CeedEvalMode.NONE ∧ use_3d_slices = true ∧ is_at_points = true) then
    if eval_mode = CeedEvalMode.NONE ∧ rstr_type ≠ CeedRestrictionType.POINTS then
      -- No basis action, so r_e_in_* in also r_q_in_* and needs to be allocated
      ElemBuffer.array num_comp P
    else if rstr_type ≠ CeedRestrictionType.POINTS then
      -- Otherwise we're using the scratch space
      ElemBuffer.scratch
    else ElemBuffer.undeclared
  else ElemBuffer.undeclared

/-- The declaration of `r_e_out_i` written by `CeedOperatorBuildKernelBasis_Hip_gen` for an
output field (lines 629-677). -/
def outputElemBuffer (eval_mode : CeedEvalMode) : ElemBuffer :=
  match eval_mode with
  | CeedEvalMode.NONE => ElemBuffer.aliasQ
  | CeedEvalMode.INTERP => ElemBuffer.scratch
  | CeedEvalMode.GRAD => ElemBuffer.scratch
  | _ => ElemBuffer.undeclared

/-- The length `max_rstr_buffer_size` of `r_e_scratch` (lines 1461-1493, repeated at lines
1819-1851 and 2376-2408): the running maximum over the input fields of eval mode other than
NONE and WEIGHT, then over the output fields of eval mode other than NONE. -/
def max_rstr_buffer_size (rstr_info : CeedElemRestriction → RestrictionInfo)
    (inputs outputs : List OperatorField) (is_all_tensor : Bool) (max_dim Q_1d : Int) : Int :=
  let after_inputs := inputs.foldl (fun (size : Int) field =>
    if field.eval_mode ≠ CeedEvalMode.NONE ∧ field.eval_mode ≠ CeedEvalMode.WEIGHT then
      CeedIntMax size ((rstr_info field.elem_rstr).num_comp *
        (if is_all_tensor && decide (max_dim ≥ 3) then Q_1d else 1))
    else size) 1
  outputs.foldl (fun (size : Int) field =>
    if field.eval_mode ≠ CeedEvalMode.NONE then
      CeedIntMax size ((rstr_info field.elem_rstr).num_comp *
        (if is_all_tensor && decide (max_dim ≥ 3) then Q_1d else 1))
    else size) after_inputs

/-- The array `active_fields_in` of `CeedOperatorBuildKernelLinearAssembleQFunction_Hip_gen`
(lines 2456-2499): the loop runs over `f = input_field_order[i]` and appends `f` when the
vector of the field is `CEED_VECTOR_ACTIVE`. -/
def active_fields_in (fields : List OperatorField) : List Nat :=
  (input_field_order fields).filter fun f =>
    decide ((fields[f]?).map (fun field => field.vec) = some CeedVector.ACTIVE)

/-- The array `field_sizes_in` of the generated QFunction-assembly kernel (lines 2489,
2500-2504): entry `a` is the constant `field_size_in_f` of `f = active_fields_in[a]`, the size
of that QFunction field. -/
def field_sizes_in (fields : List OperatorField) : List Int :=
  (active_fields_in fields).map fun f => ((fields[f]?).map (fun field => field.size)).getD 0

/-- The value of `input_offset` in iteration `a` of the loop over the active inputs of the
generated QFunction-assembly kernel (lines 2542-2607): it starts at zero and grows by
`field_sizes_in[a]` at the end of each iteration. -/
def input_offset (fields : List OperatorField) (a : Nat) : Int :=
  ((field_sizes_in fields).take a).sum

/-- Follows the spec's words: the column offset of the active input field `f` is the sum of
the sizes of the active input fields with smaller index. -/
def spec_input_offset (fields : List OperatorField) (f : Nat) : Int :=
  (((fields.take f).filter fun field => decide (field.vec = CeedVector.ACTIVE)).map
    fun field => field.size).sum

/-- The offset of `data.slice` in the shared array `slice` (lines 1337, 1726, 2252):
`data.t_id_z*OP_T_1D`, times `OP_T_1D` once more unless `!is_all_tensor || max_dim == 1`. -/
def sliceOffset (is_all_tensor : Bool) (max_dim OP_T_1D t_id_z : Int) : Int :=
  if !is_all_tensor || decide (max_dim = 1) then t_id_z * OP_T_1D
  else t_id_z * OP_T_1D * OP_T_1D

/-- The count argument written into the QFunction call: the text `1`, `Q_1d` or `Q`. -/
inductive CountToken where
  | one
  | Q_1d
  | Q
  deriving DecidableEq, Repr

/-- The text of a count argument. -/
def CountToken.render : CountToken → String
  | CountToken.one => "1"
  | CountToken.Q_1d => "Q_1d"
  | CountToken.Q => "Q"

/-- The value of a count argument inside a generated kernel, which declares the constants
`Q_1d` and `Q` with the values `Q_1d` and `Q` of its builder (lines 1319-1324, 1715,
2238-2243). -/
def CountToken.value (Q Q_1d : Int) : CountToken → Int
  | CountToken.one => 1
  | CountToken.Q_1d => Q_1d
  | CountToken.Q => Q

/-- The count argument of the QFunction call written by
`CeedOperatorBuildKernelQFunction_Hip_gen` (lines 698, 994-1003). -/
def qfunctionCallCount (max_dim : Int) (is_all_tensor is_at_points use_3d_slices : Bool) :
    CountToken :=
  let Q_name := if is_all_tensor then CountToken.Q_1d else CountToken.Q
  if max_dim ≠ 3 ∨ is_at_points = true ∨ use_3d_slices = true ∨ is_all_tensor = false then
    CountToken.one
  else Q_name

/-- The value written after `#define CEED_Q_VLA` by the builder of the kernel kind `kind`
(lines 1268-1274 for the operator kernel, 1668-1670 for the at-points assembly kernels,
2187-2193 for the QFunction-assembly kernel). -/
def ceedQVla (kind : KernelKind) (max_dim Q_1d : Int)
    (is_all_tensor is_at_points use_3d_slices : Bool) : Int :=
  match kind with
  | KernelKind.apply =>
    if max_dim ≠ 3 ∨ is_at_points = true ∨ use_3d_slices = true ∨ is_all_tensor = false then 1
    else Q_1d
  | KernelKind.assembleQFunction =>
    if max_dim ≠ 3 ∨ is_at_points = true ∨ use_3d_slices = true ∨ is_all_tensor = false then 1
    else Q_1d
  | KernelKind.assembleDiagonal => 1
  | KernelKind.assembleFull => 1

/-- The locals `is_all_tensor`, `is_at_points` and `use_3d_slices` of a builder. -/
structure BuilderFlags where
  is_all_tensor : Bool
  is_at_points : Bool
  use_3d_slices : Bool
  deriving DecidableEq, Repr

/-- The locals of the builder of the kernel kind `kind`, both where it defines `CEED_Q_VLA`
and where it calls `CeedOperatorBuildKernelQFunction_Hip_gen`, for an operator classified as
`is_all_tensor`, `is_at_points`, `use_3d_slices`: the operator builder clears `use_3d_slices`
at points (line 1218); the at-points assembly builder keeps the initial values
`is_all_tensor = true` and `use_3d_slices = false` (line 1616); the QFunction-assembly builder
computes `is_all_tensor` and keeps `use_3d_slices = false` (line 2087). -/
def builderFlags (kind : KernelKind) (is_all_tensor is_at_points use_3d_slices : Bool) :
    BuilderFlags :=
  match kind with
  | KernelKind.apply =>
    { is_all_tensor := is_all_tensor, is_at_points := is_at_points,
      use_3d_slices := if is_at_points then false else use_3d_slices }
  | KernelKind.assembleQFunction =>
    { is_all_tensor := is_all_tensor, is_at_points := is_at_points, use_3d_slices := false }
  | KernelKind.assembleDiagonal =>
    { is_all_tensor := true, is_at_points := is_at_points, use_3d_slices := false }
  | KernelKind.assembleFull =>
    { is_all_tensor := true, is_at_points := is_at_points, use_3d_slices := false }

/-- Whether the builder of the kernel kind `kind` gets past its compatibility check (lines
1630 and 2101) for an operator that is at points or not. -/
def builderAccepts (kind : KernelKind) (is_at_points : Bool) : Bool :=
  match kind with
  | KernelKind.apply => true
  | KernelKind.assembleQFunction => !is_at_points
  | KernelKind.assembleDiagonal => is_at_points
  | KernelKind.assembleFull => is_at_points

/-- Basis table with more nodes than quadrature points: handle 1 is a 3-D tensor basis with 5
nodes and 4 quadrature points per dimension, every other handle a 3-D non-tensor basis. -/
def sampleBasisInfoWide (basis : CeedBasis) : BasisInfo :=
  if basis = 1 then
    { is_tensor := true, dim := 3, num_nodes := 125, num_nodes_1d := 5, num_qpts := 64,
      num_qpts_1d := 4, has_collo_grad := false, is_shared := true }
  else
    { is_tensor := false, dim := 3, num_nodes := 10, num_nodes_1d := 0, num_qpts := 64,
      num_qpts_1d := 0, has_collo_grad := false, is_shared := true }

/-- Sample output list: one INTERP field on the tensor basis 1, active vector. -/
def sampleOutputsInterp : List OperatorField :=
  [{ field_name := "v", basis := 1, elem_rstr := 1, vec := CeedVector.ACTIVE,
     eval_mode := CeedEvalMode.INTERP, size := 1 }]

/-- Whether a step frees, allocates and fills the points-per-element buffer. -/
def Event.isReallocPoints (ev : Event) : Bool :=
  match ev with
  | Event.reallocPoints _ => true
  | _ => false

/-- The points-per-element buffer and its cached element count are the same in `d` and `d1`. -/
def SamePoints (d d1 : OperatorData) : Prop :=
  d1.points_num_elem = d.points_num_elem ∧ d1.points_num_per_elem = d.points_num_per_elem

/-- Basis table of a large operator: handle 1 is a 3-D tensor basis with 8 nodes and 8
quadrature points per dimension (512 quadrature points), every other handle a 3-D non-tensor
basis. -/
def sampleBasisInfoLarge (basis : CeedBasis) : BasisInfo :=
  if basis = 1 then
    { is_tensor := true, dim := 3, num_nodes := 512, num_nodes_1d := 8, num_qpts := 512,
      num_qpts_1d := 8, has_collo_grad := false, is_shared := true }
  else
    { is_tensor := false, dim := 3, num_nodes := 10, num_nodes_1d := 0, num_qpts := 512,
      num_qpts_1d := 0, has_collo_grad := false, is_shared := true }

/-- Sample operator of a large mesh: a GRAD input of size 3 and an INTERP output of size 1 on
the tensor basis 1, with a quadrature rule of 512 points on `2^22` elements, so that
`num_elem * Q = 2^31`. -/
def sampleOperatorLarge : Operator :=
  { sampleOperatorStd with
    outputs := sampleOutputsInterp, basis_info := sampleBasisInfoLarge, num_elem := 4194304,
    num_qpts := 512 }

/-! ## Planner lemmas and theorems -/

theorem cdiv_of_ne_zero (a b : Int) (hb : b ≠ 0) : cdiv a b = some (Int.tdiv a b) := by
  simp [cdiv, hb]

theorem mul_pos_of_one_le {a b : Int} (ha : 1 ≤ a) (hb : 1 ≤ b) : 1 ≤ a * b := by
  nlinarith

/-- The warp-rounded block size of a positive thread count is positive. -/
theorem block_size_pos {u w : Int} (hu : 1 ≤ u) (hw : 1 ≤ w) :
    1 ≤ Int.tdiv (u + w - 1) w * w := by
  have h0 : (0 : Int) ≤ u + w - 1 := by omega
  rw [Int.tdiv_eq_ediv h0 (by omega)]
  have h1 : 1 ≤ (u + w - 1) / w := by
    apply Int.le_ediv_of_mul_le (by omega)
    omega
  nlinarith

theorem Waste_eq_wasteVal (tps ws tpe k : Int) (hws : 1 ≤ ws) (htpe : 1 ≤ tpe) (hk : 1 ≤ k) :
    Waste tps ws tpe k = some (wasteVal tps ws tpe k) := by
  have hu : 1 ≤ tpe * k := mul_pos_of_one_le htpe hk
  have hb := block_size_pos hu hws
  have hws0 : ws ≠ 0 := by omega
  have hb0 : Int.tdiv (tpe * k + ws - 1) ws * ws ≠ 0 := by omega
  have hq0 : Int.tdiv (tpe * k + ws - 1) ws ≠ 0 := by
    intro h
    rw [h] at hb
    omega
  simp [Waste, CeedDivUpInt, cdiv, hws0, hq0, wasteVal]

theorem SearchInv_init (tps ws tpe : Int) : SearchInv tps ws tpe 2 1 (wasteVal tps ws tpe 1) := by
  refine ⟨by omega, by omega, rfl, ?_, ?_⟩
  · intro j h1 h2
    have : j = 1 := by omega
    subst this
    exact le_refl _
  · intro j h1 h2 _
    have : j = 1 := by omega
    subst this
    exact ⟨fun h => ⟨le_refl _, h⟩, fun _ => le_refl _⟩

theorem SearchInv_step (tps ws tpe i e w : Int) (hi : 1 ≤ i)
    (h : SearchInv tps ws tpe i e w) :
    SearchInv tps ws tpe (i + 1)
      (if wasteVal tps ws tpe i < w ∨ (wasteVal tps ws tpe i = w ∧ tpe * i ≤ 128) then i else e)
      (if wasteVal tps ws tpe i < w ∨ (wasteVal tps ws tpe i = w ∧ tpe * i ≤ 128)
        then wasteVal tps ws tpe i else w) := by
  obtain ⟨he1, hei, hew, hmin, htie⟩ := h
  by_cases hc : wasteVal tps ws tpe i < w ∨ (wasteVal tps ws tpe i = w ∧ tpe * i ≤ 128)
  · simp only [hc, if_true]
    have hle : wasteVal tps ws tpe i ≤ w := by
      rcases hc with hc | hc
      · exact le_of_lt hc
      · exact le_of_eq hc.1
    refine ⟨hi, by omega, rfl, ?_, ?_⟩
    · intro j h1 h2
      by_cases hj : j = i
      · subst hj; exact le_refl _
      · exact le_trans hle (hmin j h1 (by omega))
    · intro j h1 h2 hjw
      by_cases hj : j = i
      · subst hj
        exact ⟨fun h => ⟨le_refl _, h⟩, fun _ => le_refl _⟩
      · have hji : j < i := by omega
        have hwj := hmin j h1 hji
        rcases hc with hc | hc
        · omega
        · exact ⟨fun _ => ⟨by omega, hc.2⟩, fun hn => absurd hc.2 hn⟩
  · simp only [hc, if_false]
    have hc1 : ¬ wasteVal tps ws tpe i < w := fun h => hc (Or.inl h)
    have hc2 : wasteVal tps ws tpe i = w → ¬ tpe * i ≤ 128 := fun h1 h2 => hc (Or.inr ⟨h1, h2⟩)
    refine ⟨he1, by omega, hew, ?_, ?_⟩
    · intro j h1 h2
      by_cases hj : j = i
      · subst hj; omega
      · exact hmin j h1 (by omega)
    · intro j h1 h2 hjw
      by_cases hj : j = i
      · subst hj
        refine ⟨fun h => absurd h (hc2 hjw), fun _ => by omega⟩
      · exact htie j h1 (by omega) hjw

theorem wasteSearchLoop_spec (tps ws tpe : Int) (hws : 1 ≤ ws) (htpe : 1 ≤ tpe) :
    ∀ (n : Nat) (i e w : Int), 1 ≤ i → SearchInv tps ws tpe i e w →
      ∃ e1 w1, wasteSearchLoop tps ws tpe n i e w = some (e1, w1) ∧
        SearchInv tps ws tpe (i + n) e1 w1 := by
  intro n
  induction n with
  | zero =>
    intro i e w _ h
    exact ⟨e, w, rfl, by simpa using h⟩
  | succ n ih =>
    intro i e w hi h
    have hstep := SearchInv_step tps ws tpe i e w hi h
    have hW := Waste_eq_wasteVal tps ws tpe i hws htpe hi
    by_cases hc : wasteVal tps ws tpe i < w ∨ (wasteVal tps ws tpe i = w ∧ tpe * i ≤ 128)
    · simp only [hc, if_true] at hstep
      obtain ⟨e1, w1, h1, h2⟩ := ih (i + 1) i (wasteVal tps ws tpe i) (by omega) hstep
      refine ⟨e1, w1, ?_, ?_⟩
      · simp only [wasteSearchLoop, hW, Option.bind_eq_bind, Option.some_bind, hc, if_true]
        exact h1
      · have : i + ((n + 1 : Nat) : Int) = i + 1 + (n : Int) := by push_cast; ring
        rw [this]; exact h2
    · simp only [hc, if_false] at hstep
      obtain ⟨e1, w1, h1, h2⟩ := ih (i + 1) e w (by omega) hstep
      refine ⟨e1, w1, ?_, ?_⟩
      · simp only [wasteSearchLoop, hW, Option.bind_eq_bind, Option.some_bind, hc, if_false]
        exact h1
      · have : i + ((n + 1 : Nat) : Int) = i + 1 + (n : Int) := by push_cast; ring
        rw [this]; exact h2

theorem CeedIntMin_eq_min (a b : Int) : CeedIntMin a b = min a b := by
  unfold CeedIntMin
  split <;> omega

theorem spec_round_up_spec (x w : Int) (hw : 1 ≤ w) :
    x ≤ spec_round_up x w ∧ spec_round_up x w < x + w ∧ w ∣ spec_round_up x w := by
  unfold spec_round_up
  have h1 := Int.ediv_mul_le (x + w - 1) (show w ≠ 0 by omega)
  have h2 := Int.lt_ediv_add_one_mul_self (x + w - 1) (show 0 < w by omega)
  refine ⟨by nlinarith, by omega, Dvd.intro_left _ rfl⟩

theorem wasteVal_eq (tps ws tpe k : Int) (htps : 0 ≤ tps) (hws : 1 ≤ ws) (htpe : 1 ≤ tpe)
    (hk : 1 ≤ k) :
    wasteVal tps ws tpe k = tps - tpe * k * (tps / spec_round_up (tpe * k) ws) := by
  have hu : 1 ≤ tpe * k := mul_pos_of_one_le htpe hk
  have hb := block_size_pos hu hws
  unfold wasteVal spec_round_up
  rw [Int.tdiv_eq_ediv (show (0 : Int) ≤ tpe * k + ws - 1 by omega) (by omega)] at hb ⊢
  rw [Int.tdiv_eq_ediv htps (by omega)]

theorem wasteVal_nonneg (tps ws tpe k : Int) (htps : 0 ≤ tps) (hws : 1 ≤ ws) (htpe : 1 ≤ tpe)
    (hk : 1 ≤ k) : 0 ≤ wasteVal tps ws tpe k := by
  rw [wasteVal_eq tps ws tpe k htps hws htpe hk]
  have hu : 1 ≤ tpe * k := mul_pos_of_one_le htpe hk
  obtain ⟨h1, _, _⟩ := spec_round_up_spec (tpe * k) ws hws
  have hB : 0 < spec_round_up (tpe * k) ws := by omega
  have h2 := Int.ediv_mul_le tps (show spec_round_up (tpe * k) ws ≠ 0 by omega)
  have h3 : 0 ≤ tps / spec_round_up (tpe * k) ws := Int.ediv_nonneg htps (by omega)
  nlinarith

/-- The search returns a candidate of the range satisfying the search invariant at the end of
the range `1..max 1 (min (mtpb / tpe) num_elem)`. -/
theorem searchElemsPerBlock_spec (num_elem bps mtpb ws tpe : Int) (hws : 1 ≤ ws)
    (htpe : 1 ≤ tpe) (hmtpb : 0 ≤ mtpb) :
    ∃ k, searchElemsPerBlock num_elem bps mtpb ws tpe = some k ∧
      SearchInv (bps * mtpb) ws tpe (max 1 (min (mtpb / tpe) num_elem) + 1) k
        (wasteVal (bps * mtpb) ws tpe k) := by
  have hW := Waste_eq_wasteVal (bps * mtpb) ws tpe 1 hws htpe (le_refl _)
  have hd : cdiv mtpb tpe = some (mtpb / tpe) := by
    rw [cdiv_of_ne_zero _ _ (by omega), Int.tdiv_eq_ediv hmtpb (by omega)]
  obtain ⟨e1, w1, h1, h2⟩ := wasteSearchLoop_spec (bps * mtpb) ws tpe hws htpe
    (CeedIntMin (mtpb / tpe) num_elem - 1).toNat 2 1 (wasteVal (bps * mtpb) ws tpe 1)
    (by omega) (SearchInv_init _ _ _)
  refine ⟨e1, ?_, ?_⟩
  · simp only [searchElemsPerBlock, hW, hd, Option.bind_eq_bind, Option.some_bind, h1,
      Option.pure_def]
  · have hidx : (2 : Int) + ((CeedIntMin (mtpb / tpe) num_elem - 1).toNat : Int)
        = max 1 (min (mtpb / tpe) num_elem) + 1 := by
      rw [CeedIntMin_eq_min]
      omega
    rw [hidx] at h2
    have hw1 : wasteVal (bps * mtpb) ws tpe e1 = w1 := h2.2.2.1
    rw [hw1]
    exact h2

theorem BlockGridCalculate_eq (num_elem bps mtpb mtz ws b0 b1 k : Int) (hk : 1 ≤ k)
    (h : searchElemsPerBlock num_elem bps mtpb ws (b0 * b1) = some k) :
    BlockGridCalculate num_elem bps mtpb mtz ws b0 b1 =
      some ⟨b0, b1, CeedIntMin k mtz, Int.tdiv (num_elem + k - 1) k⟩ := by
  have hd : CeedDivUpInt num_elem k = some (Int.tdiv (num_elem + k - 1) k) := by
    unfold CeedDivUpInt
    exact cdiv_of_ne_zero _ _ (by omega)
  simp only [BlockGridCalculate, h, hd, Option.bind_eq_bind, Option.some_bind, Option.pure_def]

theorem minWaste_of_SearchInv (tps ws tpe N k : Int) (hws : 1 ≤ ws) (htpe : 1 ≤ tpe)
    (h : SearchInv tps ws tpe (N + 1) k (wasteVal tps ws tpe k)) :
    IsMinWasteCandidate tps ws tpe N k := by
  obtain ⟨h1, h2, _, hmin, _⟩ := h
  refine ⟨h1, by omega, wasteVal tps ws tpe k, Waste_eq_wasteVal tps ws tpe k hws htpe h1, ?_⟩
  intro i hi1 hi2
  exact ⟨wasteVal tps ws tpe i, Waste_eq_wasteVal tps ws tpe i hws htpe hi1,
    hmin i hi1 (by omega)⟩

theorem wasteVal_of_minWaste (tps ws tpe N j k : Int) (hws : 1 ≤ ws) (htpe : 1 ≤ tpe)
    (hj : IsMinWasteCandidate tps ws tpe N j) (hk : IsMinWasteCandidate tps ws tpe N k) :
    wasteVal tps ws tpe j = wasteVal tps ws tpe k := by
  obtain ⟨j1, j2, wj, hwj, hjmin⟩ := hj
  obtain ⟨k1, k2, wk, hwk, hkmin⟩ := hk
  rw [Waste_eq_wasteVal tps ws tpe j hws htpe j1] at hwj
  rw [Waste_eq_wasteVal tps ws tpe k hws htpe k1] at hwk
  obtain ⟨a, ha, hale⟩ := hjmin k k1 k2
  obtain ⟨b, hb, hble⟩ := hkmin j j1 j2
  rw [Waste_eq_wasteVal tps ws tpe k hws htpe k1] at ha
  rw [Waste_eq_wasteVal tps ws tpe j hws htpe j1] at hb
  simp only [Option.some.injEq] at hwj hwk ha hb
  omega

/-- C1. For `threads_per_elem = block[0]*block[1] >= 1`, `warp_size >= 1` and
`max_threads_per_block >= 1` (in particular for `blocks_per_sm >= 0` and `num_elem >= 1`, which
the proof does not need), `BlockGridCalculate` returns, and the elements-per-block value `k` selected by its search (the divisor of the grid,
`block[2]` before the clamp to `max_threads_z`) lies in
`1..max(1, min(max_threads_per_block / threads_per_elem, num_elem))` and has the least `Waste`
of all candidates of that range. -/
theorem BlockGridCalculate_selects_min_waste (num_elem blocks_per_sm max_threads_per_block
    max_threads_z warp_size block0 block1 : Int)
    (htpe : 1 ≤ block0 * block1) (hws : 1 ≤ warp_size) (hmtpb : 1 ≤ max_threads_per_block) :
    ∃ k grid,
      searchElemsPerBlock num_elem blocks_per_sm max_threads_per_block warp_size
        (block0 * block1) = some k ∧
      CeedDivUpInt num_elem k = some grid ∧
      BlockGridCalculate num_elem blocks_per_sm max_threads_per_block max_threads_z warp_size
        block0 block1 = some ⟨block0, block1, CeedIntMin k max_threads_z, grid⟩ ∧
      1 ≤ k ∧ k ≤ max 1 (min (max_threads_per_block / (block0 * block1)) num_elem) ∧
      ∀ j, 1 ≤ j → j ≤ max 1 (min (max_threads_per_block / (block0 * block1)) num_elem) →
        ∃ wk wj,
          Waste (blocks_per_sm * max_threads_per_block) warp_size (block0 * block1) k = some wk ∧
          Waste (blocks_per_sm * max_threads_per_block) warp_size (block0 * block1) j = some wj ∧
          wk ≤ wj := by
  obtain ⟨k, hk, hinv⟩ := searchElemsPerBlock_spec num_elem blocks_per_sm max_threads_per_block
    warp_size (block0 * block1) hws htpe (by omega)
  have hk1 : 1 ≤ k := hinv.1
  have hgrid : CeedDivUpInt num_elem k = some (Int.tdiv (num_elem + k - 1) k) := by
    unfold CeedDivUpInt
    exact cdiv_of_ne_zero _ _ (by omega)
  refine ⟨k, _, hk, hgrid, BlockGridCalculate_eq _ _ _ _ _ _ _ k hk1 hk, hk1, ?_, ?_⟩
  · have := hinv.2.1
    omega
  · intro j hj1 hj2
    exact ⟨_, _, Waste_eq_wasteVal _ _ _ k hws htpe hk1, Waste_eq_wasteVal _ _ _ j hws htpe hj1,
      hinv.2.2.2.1 j hj1 (by omega)⟩

/-- Witness of C1 at the 4x4 shape with 1000 elements on a 1024-thread, warp-32 device. -/
theorem BlockGridCalculate_selects_min_waste_witness :
    ∃ k grid,
      searchElemsPerBlock 1000 1 1024 32 (4 * 4) = some k ∧
      CeedDivUpInt 1000 k = some grid ∧
      BlockGridCalculate 1000 1 1024 64 32 4 4 = some ⟨4, 4, CeedIntMin k 64, grid⟩ ∧
      1 ≤ k ∧ k ≤ max 1 (min (1024 / (4 * 4)) 1000) ∧
      ∀ j, 1 ≤ j → j ≤ max 1 (min (1024 / (4 * 4)) 1000) →
        ∃ wk wj,
          Waste (1 * 1024) 32 (4 * 4) k = some wk ∧
          Waste (1 * 1024) 32 (4 * 4) j = some wj ∧
          wk ≤ wj :=
  BlockGridCalculate_selects_min_waste 1000 1 1024 64 32 4 4 (by decide) (by decide)
    (by decide)

set_option maxRecDepth 100000 in
/-- C2 (failing input). On the tensor path with a 3x3 thread shape, 1000 elements, a
1024-thread block limit with one resident block per multiprocessor, warp size 32 and a z-limit
of 64, the waste search selects 113 elements per block (waste 7, against 448 for 64 elements);
`BlockGridCalculate` clamps `block[2]` to 64 but sizes the grid for 113, so the launch shape of
the runner has `block[2]*grid = 64*9 = 576`, below the 1000 elements. -/
theorem BlockGridCalculate_clamped_grid_short :
    BlockGridCalculate 1000 1 1024 64 32 3 3 = some ⟨3, 3, 64, 9⟩ ∧
    searchElemsPerBlock 1000 1 1024 32 (3 * 3) = some 113 ∧
    (64 : Int) * 9 < 1000 ∧
    Waste 1024 32 9 113 = some 7 ∧ Waste 1024 32 9 64 = some 448 ∧
    launchConfig sampleDevice sampleEnvOneBlock true 3 3 1000 = some (⟨3, 3, 64, 9⟩, 4608) := by
  decide

/-- C3 (as stated, refuted). With a 4x4 thread shape, 1000 elements, a 1024-thread block limit
and warp size 32 the search selects `k = 8`, although the candidate `k = 2` has the same least
waste, has `16*2 <= 128` total threads and is smaller. -/
theorem tie_break_not_smallest :
    searchElemsPerBlock 1000 1 1024 32 16 = some 8 ∧
    IsMinWasteCandidate 1024 32 16 (max 1 (min (1024 / 16) 1000)) 2 ∧
    (16 : Int) * 2 ≤ 128 ∧ (2 : Int) < 8 := by
  refine ⟨by decide, ⟨by decide, by decide, 0, by decide, ?_⟩, by decide, by decide⟩
  intro i hi _
  exact ⟨_, Waste_eq_wasteVal 1024 32 16 i (by decide) (by decide) hi,
    wasteVal_nonneg 1024 32 16 i (by decide) (by decide) (by decide) hi⟩

/-- C3 (amended). For `threads_per_elem >= 1`, `warp_size >= 1` and
`max_threads_per_block >= 1` the selected elements-per-block `k` is a
minimum-waste candidate, and among the minimum-waste candidates the tie-break places it as
follows: if some minimum-waste candidate has `threads_per_elem*j <= 128`, then `k` is the
largest minimum-waste candidate with at most 128 total threads; if none has, `k` is the
smallest minimum-waste candidate. -/
theorem BlockGridCalculate_tie_break (num_elem blocks_per_sm max_threads_per_block warp_size
    threads_per_elem : Int)
    (htpe : 1 ≤ threads_per_elem) (hws : 1 ≤ warp_size) (hmtpb : 1 ≤ max_threads_per_block) :
    ∃ k,
      searchElemsPerBlock num_elem blocks_per_sm max_threads_per_block warp_size
        threads_per_elem = some k ∧
      IsMinWasteCandidate (blocks_per_sm * max_threads_per_block) warp_size threads_per_elem
        (max 1 (min (max_threads_per_block / threads_per_elem) num_elem)) k ∧
      ((∃ j, IsMinWasteCandidate (blocks_per_sm * max_threads_per_block) warp_size
            threads_per_elem (max 1 (min (max_threads_per_block / threads_per_elem) num_elem)) j ∧
          threads_per_elem * j ≤ 128) →
        threads_per_elem * k ≤ 128 ∧
        ∀ j, IsMinWasteCandidate (blocks_per_sm * max_threads_per_block) warp_size
            threads_per_elem (max 1 (min (max_threads_per_block / threads_per_elem) num_elem)) j →
          threads_per_elem * j ≤ 128 → j ≤ k) ∧
      ((¬ ∃ j, IsMinWasteCandidate (blocks_per_sm * max_threads_per_block) warp_size
            threads_per_elem (max 1 (min (max_threads_per_block / threads_per_elem) num_elem)) j ∧
          threads_per_elem * j ≤ 128) →
        ∀ j, IsMinWasteCandidate (blocks_per_sm * max_threads_per_block) warp_size
            threads_per_elem (max 1 (min (max_threads_per_block / threads_per_elem) num_elem)) j →
          k ≤ j) := by
  obtain ⟨k, hk, hinv⟩ := searchElemsPerBlock_spec num_elem blocks_per_sm max_threads_per_block
    warp_size threads_per_elem hws htpe (by omega)
  have hkmin := minWaste_of_SearchInv _ _ _ _ k hws htpe hinv
  have htie := hinv.2.2.2.2
  refine ⟨k, hk, hkmin, ?_, ?_⟩
  · rintro ⟨j0, hj0, hT0⟩
    have e0 := wasteVal_of_minWaste _ _ _ _ j0 k hws htpe hj0 hkmin
    have hTk := ((htie j0 hj0.1 (by have := hj0.2.1; omega) e0).1 hT0).2
    refine ⟨hTk, ?_⟩
    intro j hj hT
    have e1 := wasteVal_of_minWaste _ _ _ _ j k hws htpe hj hkmin
    exact ((htie j hj.1 (by have := hj.2.1; omega) e1).1 hT).1
  · intro hno j hj
    have e1 := wasteVal_of_minWaste _ _ _ _ j k hws htpe hj hkmin
    have hTk : ¬ threads_per_elem * k ≤ 128 := fun h => hno ⟨k, hkmin, h⟩
    exact (htie j hj.1 (by have := hj.2.1; omega) e1).2 hTk

/-- Witness of the amended C3 at the 4x4 shape with 1000 elements on a 1024-thread, warp-32
device. -/
theorem BlockGridCalculate_tie_break_witness :
    ∃ k,
      searchElemsPerBlock 1000 1 1024 32 16 = some k ∧
      IsMinWasteCandidate (1 * 1024) 32 16 (max 1 (min (1024 / 16) 1000)) k ∧
      ((∃ j, IsMinWasteCandidate (1 * 1024) 32 16 (max 1 (min (1024 / 16) 1000)) j ∧
          16 * j ≤ 128) →
        16 * k ≤ 128 ∧
        ∀ j, IsMinWasteCandidate (1 * 1024) 32 16 (max 1 (min (1024 / 16) 1000)) j →
          16 * j ≤ 128 → j ≤ k) ∧
      ((¬ ∃ j, IsMinWasteCandidate (1 * 1024) 32 16 (max 1 (min (1024 / 16) 1000)) j ∧
          16 * j ≤ 128) →
        ∀ j, IsMinWasteCandidate (1 * 1024) 32 16 (max 1 (min (1024 / 16) 1000)) j → k ≤ j) :=
  BlockGridCalculate_tie_break 1000 1 1024 32 16 (by decide) (by decide) (by decide)

/-- C4 (as stated, refuted). For a budget of 352 threads, warp size 32 and two elements of 49
threads, `Waste` is `352 - 98*2 = 156`, while the formula of the spec, with the warp-rounded
block size 128 as the factor, gives `352 - 128*2 = 96`. -/
theorem Waste_ne_spec_wasted :
    Waste 352 32 49 2 = some 156 ∧ spec_wasted 352 32 49 2 = 96 ∧
    Waste 352 32 49 2 ≠ some (spec_wasted 352 32 49 2) := by
  decide

/-- C4 (amended). For `threads_per_sm >= 0`, `warp_size >= 1`, `threads_per_elem >= 1` and
`k >= 1`, `Waste` returns `threads_per_sm - (threads_per_elem*k) * (threads_per_sm / B)` with
`B = round_up(threads_per_elem*k, warp_size)` and `/` the integer division: the threads of the
budget that are not useful threads of a resident block (the factor is the useful thread count
of a block, not its warp-rounded size `B`). -/
theorem Waste_eq_useful_formula (threads_per_sm warp_size threads_per_elem k : Int)
    (htps : 0 ≤ threads_per_sm) (hws : 1 ≤ warp_size) (htpe : 1 ≤ threads_per_elem)
    (hk : 1 ≤ k) :
    Waste threads_per_sm warp_size threads_per_elem k =
      some (threads_per_sm - threads_per_elem * k *
        (threads_per_sm / spec_round_up (threads_per_elem * k) warp_size)) := by
  rw [Waste_eq_wasteVal _ _ _ _ hws htpe hk, wasteVal_eq _ _ _ _ htps hws htpe hk]

/-- Witness of the amended C4 at the 7x7 shape of the source comment (budget 352, warp 32). -/
theorem Waste_eq_useful_formula_witness :
    Waste 352 32 49 2 = some (352 - 49 * 2 * (352 / spec_round_up (49 * 2) 32)) :=
  Waste_eq_useful_formula 352 32 49 2 (by decide) (by decide) (by decide) (by decide)

/-! ## Reuse scan lemmas -/

theorem reuseScan_of_set (t : Bool) (e : CeedEvalMode) (b : CeedBasis) (flag : Bool) :
    ∀ (fs : List OperatorField) (j : Nat) (r : FieldReuse_Hip), r.index ≠ -1 →
      reuseScan t e b flag fs j r = r := by
  intro fs j r h
  cases fs with
  | nil => rfl
  | cons f rest => simp [reuseScan, h]

theorem reuseScan_cons_no_match (t : Bool) (e : CeedEvalMode) (b : CeedBasis) (flag : Bool)
    (f : OperatorField) (rest : List OperatorField) (j : Nat) (r : FieldReuse_Hip)
    (hr : r.index = -1) (hf : reuseMatch t e b f = false) :
    reuseScan t e b flag (f :: rest) j r = reuseScan t e b flag rest (j + 1) r := by
  unfold reuseMatch at hf
  by_cases hw : f.eval_mode = CeedEvalMode.WEIGHT
  · simp [reuseScan, hr, hw]
  · by_cases hb : b = f.basis
    · cases t with
      | true => simp [hw, hb] at hf
      | false =>
        have he : ¬ e = f.eval_mode := by simpa [hw, hb] using hf
        simp [reuseScan, hr, hw, hb, he]
    · simp [reuseScan, hr, hw, hb]

theorem reuseScan_cons_match (t : Bool) (e : CeedEvalMode) (b : CeedBasis) (flag : Bool)
    (f : OperatorField) (rest : List OperatorField) (j : Nat) (r : FieldReuse_Hip)
    (hr : r.index = -1) (hf : reuseMatch t e b f = true) :
    reuseScan t e b flag (f :: rest) j r =
      { index := j, is_input := flag, eval_mode := f.eval_mode } := by
  unfold reuseMatch at hf
  simp only [Bool.and_eq_true, Bool.or_eq_true, decide_eq_true_eq] at hf
  obtain ⟨⟨hw, hb⟩, hte⟩ := hf
  have hidx : ((j : Nat) : Int) ≠ -1 := by omega
  cases t with
  | true =>
    simp only [reuseScan, hr, hw, hb]
    simp only [ne_eq, not_true_eq_false, if_false, if_true]
    exact reuseScan_of_set _ _ _ _ _ _ _ hidx
  | false =>
    have he : e = f.eval_mode := by simpa using hte
    simp only [reuseScan, hr, hw, hb, he]
    simp only [ne_eq, not_true_eq_false, if_false, if_true]
    simp only [Bool.false_eq_true, if_false]
    exact reuseScan_of_set _ _ _ _ _ _ _ hidx

/-- A scan without a matching candidate leaves the record unset. -/
theorem reuseScan_no_match (t : Bool) (e : CeedEvalMode) (b : CeedBasis) (flag : Bool) :
    ∀ (fs : List OperatorField) (j : Nat) (r : FieldReuse_Hip), r.index = -1 →
      (∀ f ∈ fs, reuseMatch t e b f = false) → reuseScan t e b flag fs j r = r := by
  intro fs
  induction fs with
  | nil => intro j r _ _; rfl
  | cons f rest ih =>
    intro j r hr hall
    rw [reuseScan_cons_no_match t e b flag f rest j r hr (hall f (List.mem_cons_self _ _))]
    exact ih (j + 1) r hr (fun g hg => hall g (List.mem_cons_of_mem _ hg))

/-- A scan records the first matching candidate. -/
theorem reuseScan_first_match (t : Bool) (e : CeedEvalMode) (b : CeedBasis) (flag : Bool) :
    ∀ (pre : List OperatorField) (f : OperatorField) (post : List OperatorField) (j : Nat)
      (r : FieldReuse_Hip), r.index = -1 → (∀ g ∈ pre, reuseMatch t e b g = false) →
      reuseMatch t e b f = true →
      reuseScan t e b flag (pre ++ f :: post) j r =
        { index := ((j + pre.length : Nat) : Int), is_input := flag, eval_mode := f.eval_mode } := by
  intro pre
  induction pre with
  | nil =>
    intro f post j r hr _ hf
    simpa using reuseScan_cons_match t e b flag f post j r hr hf
  | cons g pre ih =>
    intro f post j r hr hall hf
    rw [List.cons_append,
      reuseScan_cons_no_match t e b flag g _ j r hr (hall g (List.mem_cons_self _ _))]
    rw [ih f post (j + 1) r hr (fun x hx => hall x (List.mem_cons_of_mem _ hx)) hf]
    simp only [List.length_cons]
    congr 2
    omega

/-- A list with a matching candidate splits at its first matching candidate. -/
theorem exists_first_match (p : OperatorField → Bool) :
    ∀ (fs : List OperatorField) (j : Nat) (fj : OperatorField), fs[j]? = some fj → p fj = true →
      ∃ pre f post, fs = pre ++ f :: post ∧ (∀ g ∈ pre, p g = false) ∧ p f = true ∧
        pre.length ≤ j := by
  intro fs
  induction fs with
  | nil => intro j fj h _; simp at h
  | cons g rest ih =>
    intro j fj h hp
    by_cases hg : p g = true
    · exact ⟨[], g, rest, rfl, by simp, hg, Nat.zero_le _⟩
    · have hg' : p g = false := by simpa using hg
      cases j with
      | zero =>
        simp only [List.getElem?_cons_zero, Option.some.injEq] at h
        subst h
        exact absurd hp hg
      | succ j =>
        simp only [List.getElem?_cons_succ] at h
        obtain ⟨pre, f, post, h1, h2, h3, h4⟩ := ih j fj h hp
        refine ⟨g :: pre, f, post, by simp [h1], ?_, h3, by simp; omega⟩
        intro x hx
        rcases List.mem_cons.mp hx with hx | hx
        · subst hx; exact hg'
        · exact h2 x hx

/-! ## Counting the matrix declarations of a field -/

theorem countLoads_append (m : Matrix) (a b : List CodeLine) :
    countLoads m (a ++ b) = countLoads m a + countLoads m b := by
  simp [countLoads, List.countP_append]

theorem countAliases_append (m : Matrix) (a b : List CodeLine) :
    countAliases m (a ++ b) = countAliases m a + countAliases m b := by
  simp [countAliases, List.countP_append]

theorem countLoads_fieldConstants (m : Matrix) (basis_info : CeedBasis → BasisInfo)
    (rstr_info : CeedElemRestriction → RestrictionInfo) (i : Nat) (field : OperatorField)
    (max_dim Q Q_1d : Int) (is_input is_all_tensor : Bool) :
    countLoads m (fieldConstants basis_info rstr_info i field max_dim Q Q_1d is_input
      is_all_tensor) = 0 := by
  simp only [fieldConstants, countLoads]
  split <;> split <;> simp [List.countP_cons, List.countP_nil]

theorem countAliases_fieldConstants (m : Matrix) (basis_info : CeedBasis → BasisInfo)
    (rstr_info : CeedElemRestriction → RestrictionInfo) (i : Nat) (field : OperatorField)
    (max_dim Q Q_1d : Int) (is_input is_all_tensor : Bool) :
    countAliases m (fieldConstants basis_info rstr_info i field max_dim Q Q_1d is_input
      is_all_tensor) = 0 := by
  simp only [fieldConstants, countAliases]
  split <;> split <;> simp [List.countP_cons, List.countP_nil]

theorem countLoads_declareMatrix (m m1 : Matrix) (self : FieldRef) (use_alias : Bool)
    (r : FieldReuse_Hip) (size dims : String) :
    countLoads m (declareMatrix m1 self use_alias r size dims) =
      if m1 = m ∧ use_alias = false then 1 else 0 := by
  cases use_alias <;> by_cases h : m1 = m <;>
    simp [declareMatrix, countLoads, List.countP_cons, List.countP_nil, h]

theorem countAliases_declareMatrix (m m1 : Matrix) (self : FieldRef) (use_alias : Bool)
    (r : FieldReuse_Hip) (size dims : String) :
    countAliases m (declareMatrix m1 self use_alias r size dims) =
      if m1 = m ∧ use_alias = true then 1 else 0 := by
  cases use_alias <;> by_cases h : m1 = m <;>
    simp [declareMatrix, countAliases, List.countP_cons, List.countP_nil, h]

theorem countLoads_nil (m : Matrix) : countLoads m [] = 0 := rfl

theorem countAliases_nil (m : Matrix) : countAliases m [] = 0 := rfl

/-- The `LoadMatrix` lines of a field: one for each matrix the field has and does not alias. -/
theorem countLoads_fieldMatrices (m : Matrix) (basis_info : CeedBasis → BasisInfo) (i : Nat)
    (field : OperatorField) (r : FieldReuse_Hip) (is_input is_at_points use_3d_slices : Bool) :
    countLoads m (fieldMatrices basis_info i field r is_input is_at_points use_3d_slices) =
      if hasMatrix m field.eval_mode (fieldIsTensor basis_info field) is_at_points = true ∧
        usesAlias m r = false then 1 else 0 := by
  unfold fieldMatrices
  cases hm : field.eval_mode <;> cases m <;>
    cases hT : fieldIsTensor basis_info field <;> cases is_at_points <;> cases use_3d_slices <;>
    cases hC : (basis_info field.basis).has_collo_grad <;>
    simp only [hasMatrix, usesAlias, countLoads_append, countLoads_declareMatrix, countLoads_nil,
      if_true, if_false, Bool.false_eq_true] <;>
    simp

/-- The alias lines of a field: one for each matrix the field has and aliases. -/
theorem countAliases_fieldMatrices (m : Matrix) (basis_info : CeedBasis → BasisInfo) (i : Nat)
    (field : OperatorField) (r : FieldReuse_Hip) (is_input is_at_points use_3d_slices : Bool) :
    countAliases m (fieldMatrices basis_info i field r is_input is_at_points use_3d_slices) =
      if hasMatrix m field.eval_mode (fieldIsTensor basis_info field) is_at_points = true ∧
        usesAlias m r = true then 1 else 0 := by
  unfold fieldMatrices
  cases hm : field.eval_mode <;> cases m <;>
    cases hT : fieldIsTensor basis_info field <;> cases is_at_points <;> cases use_3d_slices <;>
    cases hC : (basis_info field.basis).has_collo_grad <;>
    simp only [hasMatrix, usesAlias, countAliases_append, countAliases_declareMatrix,
      countAliases_nil, if_true, if_false, Bool.false_eq_true] <;>
    simp

theorem alias_target_declareMatrix (m1 : Matrix) (self : FieldRef) (use_alias : Bool)
    (r : FieldReuse_Hip) (size dims : String) (l : CodeLine)
    (hl : l ∈ declareMatrix m1 self use_alias r size dims) (m : Matrix) (s tg : FieldRef)
    (h : l = CodeLine.aliasMatrix m s tg) :
    tg = { is_input := r.is_input, index := r.index } := by
  subst h
  cases use_alias <;> simp [declareMatrix] at hl
  exact hl.2.2

theorem alias_target_fieldMatrices (basis_info : CeedBasis → BasisInfo) (i : Nat)
    (field : OperatorField) (r : FieldReuse_Hip) (is_input is_at_points use_3d_slices : Bool)
    (l : CodeLine)
    (hl : l ∈ fieldMatrices basis_info i field r is_input is_at_points use_3d_slices)
    (m : Matrix) (s tg : FieldRef) (h : l = CodeLine.aliasMatrix m s tg) :
    tg = { is_input := r.is_input, index := r.index } := by
  unfold fieldMatrices at hl
  cases hm : field.eval_mode <;> rw [hm] at hl <;> simp only [List.not_mem_nil] at hl
  · exact alias_target_declareMatrix _ _ _ r _ _ l hl m s tg h
  · rcases List.mem_append.mp hl with hl | hl
    · split at hl
      · exact alias_target_declareMatrix _ _ _ r _ _ l hl m s tg h
      · simp at hl
    · split at hl
      · simp at hl
      · split at hl
        · exact alias_target_declareMatrix _ _ _ r _ _ l hl m s tg h
        · split at hl
          · exact alias_target_declareMatrix _ _ _ r _ _ l hl m s tg h
          · exact alias_target_declareMatrix _ _ _ r _ _ l hl m s tg h

theorem not_alias_fieldConstants (basis_info : CeedBasis → BasisInfo)
    (rstr_info : CeedElemRestriction → RestrictionInfo) (i : Nat) (field : OperatorField)
    (max_dim Q Q_1d : Int) (is_input is_all_tensor : Bool) (l : CodeLine)
    (hl : l ∈ fieldConstants basis_info rstr_info i field max_dim Q Q_1d is_input is_all_tensor)
    (m : Matrix) (s tg : FieldRef) : l ≠ CodeLine.aliasMatrix m s tg := by
  intro h
  subst h
  simp only [fieldConstants] at hl
  split at hl <;> split at hl <;> simp at hl

/-- Counting over the lines of one field: only the matrix declarations count. -/
theorem countLoads_fieldData (m : Matrix) (basis_info : CeedBasis → BasisInfo)
    (rstr_info : CeedElemRestriction → RestrictionInfo) (i : Nat) (field : OperatorField)
    (r : FieldReuse_Hip) (max_dim Q Q_1d : Int)
    (is_input is_all_tensor is_at_points use_3d_slices : Bool) :
    countLoads m (CeedOperatorBuildKernelFieldData_Hip_gen basis_info rstr_info i field r max_dim
      Q Q_1d is_input is_all_tensor is_at_points use_3d_slices).code =
      if hasMatrix m field.eval_mode (fieldIsTensor basis_info field) is_at_points = true ∧
        usesAlias m r = false then 1 else 0 := by
  simp only [CeedOperatorBuildKernelFieldData_Hip_gen, countLoads_append,
    countLoads_fieldConstants, countLoads_fieldMatrices, Nat.zero_add]

theorem countAliases_fieldData (m : Matrix) (basis_info : CeedBasis → BasisInfo)
    (rstr_info : CeedElemRestriction → RestrictionInfo) (i : Nat) (field : OperatorField)
    (r : FieldReuse_Hip) (max_dim Q Q_1d : Int)
    (is_input is_all_tensor is_at_points use_3d_slices : Bool) :
    countAliases m (CeedOperatorBuildKernelFieldData_Hip_gen basis_info rstr_info i field r
      max_dim Q Q_1d is_input is_all_tensor is_at_points use_3d_slices).code =
      if hasMatrix m field.eval_mode (fieldIsTensor basis_info field) is_at_points = true ∧
        usesAlias m r = true then 1 else 0 := by
  simp only [CeedOperatorBuildKernelFieldData_Hip_gen, countAliases_append,
    countAliases_fieldConstants, countAliases_fieldMatrices, Nat.zero_add]

theorem alias_target_fieldData (basis_info : CeedBasis → BasisInfo)
    (rstr_info : CeedElemRestriction → RestrictionInfo) (i : Nat) (field : OperatorField)
    (r : FieldReuse_Hip) (max_dim Q Q_1d : Int)
    (is_input is_all_tensor is_at_points use_3d_slices : Bool) (l : CodeLine)
    (hl : l ∈ (CeedOperatorBuildKernelFieldData_Hip_gen basis_info rstr_info i field r max_dim
      Q Q_1d is_input is_all_tensor is_at_points use_3d_slices).code)
    (m : Matrix) (s tg : FieldRef) (h : l = CodeLine.aliasMatrix m s tg) :
    tg = { is_input := r.is_input, index := r.index } := by
  simp only [CeedOperatorBuildKernelFieldData_Hip_gen] at hl
  rcases List.mem_append.mp hl with hl | hl
  · exact absurd h (not_alias_fieldConstants _ _ _ _ _ _ _ _ _ l hl m s tg)
  · exact alias_target_fieldMatrices _ _ _ r _ _ _ l hl m s tg h

/-- The predicate of the scan of a matching candidate agrees with the predicate of the scanning
field on every other candidate. -/
theorem reuseMatch_of_target (t : Bool) (e : CeedEvalMode) (b : CeedBasis)
    (f g : OperatorField) (hf : reuseMatch t e b f = true) :
    reuseMatch t f.eval_mode f.basis g = reuseMatch t e b g := by
  unfold reuseMatch at hf ⊢
  simp only [Bool.and_eq_true, Bool.or_eq_true, decide_eq_true_eq] at hf
  obtain ⟨⟨_, hb⟩, hte⟩ := hf
  cases t with
  | true => simp [hb]
  | false =>
    have he : e = f.eval_mode := by simpa using hte
    simp [hb, he]

/-- The input scan of a field with an earlier matching input records the first matching input,
and that input owns its matrices. -/
theorem inputMatrixReuse_first_match (basis_info : CeedBasis → BasisInfo)
    (inputs : List OperatorField) (i j : Nat) (fi fj : OperatorField)
    (hj : inputs[j]? = some fj) (hji : j < i)
    (hw : fi.eval_mode ≠ CeedEvalMode.WEIGHT)
    (hmatch : reuseMatch (basis_info fi.basis).is_tensor fi.eval_mode fi.basis fj = true) :
    ∃ t ft, t ≤ j ∧ inputs[t]? = some ft ∧
      reuseMatch (basis_info fi.basis).is_tensor fi.eval_mode fi.basis ft = true ∧
      (∀ s fs, s < t → inputs[s]? = some fs →
        reuseMatch (basis_info fi.basis).is_tensor fi.eval_mode fi.basis fs = false) ∧
      inputMatrixReuse basis_info inputs i fi =
        { index := (t : Int), is_input := true, eval_mode := ft.eval_mode } ∧
      inputMatrixReuse basis_info inputs t ft = FieldReuse_Hip.unset := by
  have hj' : (inputs.take i)[j]? = some fj := by
    rw [List.getElem?_take_of_lt hji]; exact hj
  obtain ⟨pre, ft, post, hsplit, hpre, hft, hlen⟩ :=
    exists_first_match (reuseMatch (basis_info fi.basis).is_tensor fi.eval_mode fi.basis)
      (inputs.take i) j fj hj' hmatch
  have hpre_take : inputs.take pre.length = pre := by
    have h1 : (inputs.take i).take pre.length = pre := by
      rw [hsplit]; simp
    rw [List.take_take] at h1
    rwa [Nat.min_eq_left (by omega)] at h1
  have hget : inputs[pre.length]? = some ft := by
    have h1 : (inputs.take i)[pre.length]? = some ft := by
      rw [hsplit, List.getElem?_append_right (le_refl _)]; simp
    rwa [List.getElem?_take_of_lt (by omega)] at h1
  have hftb : fi.basis = ft.basis := by
    unfold reuseMatch at hft
    simp only [Bool.and_eq_true, Bool.or_eq_true, decide_eq_true_eq] at hft
    exact hft.1.2
  have hftw : ft.eval_mode ≠ CeedEvalMode.WEIGHT := by
    unfold reuseMatch at hft
    simp only [Bool.and_eq_true, Bool.or_eq_true, decide_eq_true_eq] at hft
    exact hft.1.1
  refine ⟨pre.length, ft, hlen, hget, hft, ?_, ?_, ?_⟩
  · intro s fs hs hsget
    apply hpre
    rw [← hpre_take]
    have : (inputs.take pre.length)[s]? = some fs := by
      rw [List.getElem?_take_of_lt hs]; exact hsget
    exact List.getElem?_mem this
  · unfold inputMatrixReuse
    rw [if_neg hw, hsplit,
      reuseScan_first_match _ _ _ _ pre ft post 0 FieldReuse_Hip.unset rfl hpre hft]
    simp
  · unfold inputMatrixReuse
    rw [if_neg hftw, hpre_take, ← hftb]
    apply reuseScan_no_match _ _ _ _ _ _ _ rfl
    intro g hg
    rw [hftb, reuseMatch_of_target _ _ _ ft g (by rw [← hftb]; exact hft)]
    rw [← hftb]
    exact hpre g hg

/-! ## Matrix reuse of the input fields (C9) and of the output fields (C10) -/

/-- C9 (as stated, refuted). In the input list INTERP, GRAD, GRAD on one tensor basis the
fields 1 and 2 share the basis object and the eval mode GRAD, yet both record the INTERP field
0 as reuse target and each loads its own `s_G`: the pair has two `LoadMatrix` lines for `s_G`
and field 2 declares no alias for it. -/
theorem grad_pair_loads_gradient_twice :
    sampleInputsInterpGradGrad[1]?.map (fun f => (f.basis, f.eval_mode)) =
      some (1, CeedEvalMode.GRAD) ∧
    sampleInputsInterpGradGrad[2]?.map (fun f => (f.basis, f.eval_mode)) =
      some (1, CeedEvalMode.GRAD) ∧
    input_matrix_reuse sampleBasisInfo sampleInputsInterpGradGrad =
      [FieldReuse_Hip.unset, ⟨0, true, CeedEvalMode.INTERP⟩, ⟨0, true, CeedEvalMode.INTERP⟩] ∧
    ((inputFieldData sampleBasisInfo sampleRstrInfo sampleInputsInterpGradGrad 3 64 4 true false
      false).map fun d => (countLoads Matrix.G d.code, countAliases Matrix.G d.code)) =
      [(0, 0), (1, 0), (1, 0)] := by
  decide

/-- C9 (amended). For every input-field list and every input field `i` of eval mode INTERP or
GRAD:

* if an earlier input field shares its basis object and its eval mode, field `i` records as
  reuse target the first earlier non-WEIGHT input `t` with that basis object (and, for a
  non-tensor basis, that eval mode); `t` owns its matrices; field `i` emits no `LoadMatrix` for
  `s_B`, and every alias it declares refers to the buffers of `t`; it emits a `LoadMatrix` for
  `s_G` exactly when it is a GRAD field, not at points, and `t` is not a GRAD field; when `t`
  has the eval mode of field `i`, field `i` emits no `LoadMatrix`, declares each of its
  matrices as an alias, and `t` and `i` together contain one `LoadMatrix` per matrix;
* if its basis object differs from that of every earlier non-WEIGHT input, field `i` has no
  reuse target, declares no alias and emits one `LoadMatrix` for each of its matrices. -/
theorem input_fields_matrix_reuse (basis_info : CeedBasis → BasisInfo)
    (rstr_info : CeedElemRestriction → RestrictionInfo) (inputs : List OperatorField)
    (max_dim Q Q_1d : Int) (is_all_tensor is_at_points use_3d_slices : Bool) (i : Nat)
    (fi : OperatorField) (_hi : inputs[i]? = some fi)
    (hmode : fi.eval_mode = CeedEvalMode.INTERP ∨ fi.eval_mode = CeedEvalMode.GRAD) :
    (∀ j fj, j < i → inputs[j]? = some fj → fj.basis = fi.basis →
      fj.eval_mode = fi.eval_mode →
      ∃ t ft, t ≤ j ∧ inputs[t]? = some ft ∧ ft.basis = fi.basis ∧
        inputMatrixReuse basis_info inputs i fi =
          { index := (t : Int), is_input := true, eval_mode := ft.eval_mode } ∧
        inputMatrixReuse basis_info inputs t ft = FieldReuse_Hip.unset ∧
        countLoads Matrix.B (inputFieldCode basis_info rstr_info inputs max_dim Q Q_1d
          is_all_tensor is_at_points use_3d_slices i fi) = 0 ∧
        countLoads Matrix.G (inputFieldCode basis_info rstr_info inputs max_dim Q Q_1d
          is_all_tensor is_at_points use_3d_slices i fi) =
          (if fi.eval_mode = CeedEvalMode.GRAD ∧ is_at_points = false ∧
            ft.eval_mode ≠ CeedEvalMode.GRAD then 1 else 0) ∧
        (∀ l ∈ inputFieldCode basis_info rstr_info inputs max_dim Q Q_1d is_all_tensor
            is_at_points use_3d_slices i fi,
          ∀ m s tg, l = CodeLine.aliasMatrix m s tg →
            tg = { is_input := true, index := (t : Int) }) ∧
        (ft.eval_mode = fi.eval_mode → ∀ m,
          countLoads m (inputFieldCode basis_info rstr_info inputs max_dim Q Q_1d is_all_tensor
            is_at_points use_3d_slices i fi) = 0 ∧
          countAliases m (inputFieldCode basis_info rstr_info inputs max_dim Q Q_1d
            is_all_tensor is_at_points use_3d_slices i fi) =
            (if hasMatrix m fi.eval_mode (fieldIsTensor basis_info fi) is_at_points = true
              then 1 else 0) ∧
          countLoads m (inputFieldCode basis_info rstr_info inputs max_dim Q Q_1d is_all_tensor
              is_at_points use_3d_slices t ft ++
            inputFieldCode basis_info rstr_info inputs max_dim Q Q_1d is_all_tensor
              is_at_points use_3d_slices i fi) =
            (if hasMatrix m fi.eval_mode (fieldIsTensor basis_info fi) is_at_points = true
              then 1 else 0))) ∧
    ((∀ j fj, j < i → inputs[j]? = some fj → fj.eval_mode ≠ CeedEvalMode.WEIGHT →
        fj.basis ≠ fi.basis) →
      inputMatrixReuse basis_info inputs i fi = FieldReuse_Hip.unset ∧
      ∀ m,
        countAliases m (inputFieldCode basis_info rstr_info inputs max_dim Q Q_1d is_all_tensor
          is_at_points use_3d_slices i fi) = 0 ∧
        countLoads m (inputFieldCode basis_info rstr_info inputs max_dim Q Q_1d is_all_tensor
          is_at_points use_3d_slices i fi) =
          (if hasMatrix m fi.eval_mode (fieldIsTensor basis_info fi) is_at_points = true
            then 1 else 0)) := by
  have hw : fi.eval_mode ≠ CeedEvalMode.WEIGHT := by
    rcases hmode with h | h <;> rw [h] <;> decide
  constructor
  · intro j fj hji hj hb he
    have hmatch : reuseMatch (basis_info fi.basis).is_tensor fi.eval_mode fi.basis fj = true := by
      unfold reuseMatch
      simp [hb, he, hw]
    obtain ⟨t, ft, htj, hget, hft, _, hreuse, hown⟩ :=
      inputMatrixReuse_first_match basis_info inputs i j fi fj hj hji hw hmatch
    have hftb : fi.basis = ft.basis := by
      unfold reuseMatch at hft
      simp only [Bool.and_eq_true, Bool.or_eq_true, decide_eq_true_eq] at hft
      exact hft.1.2
    have hidx : ((t : Nat) : Int) ≠ -1 := by omega
    have hTt : fieldIsTensor basis_info ft = fieldIsTensor basis_info fi := by
      unfold fieldIsTensor; rw [hftb]
    refine ⟨t, ft, htj, hget, hftb.symm, hreuse, hown, ?_, ?_, ?_, ?_⟩
    · unfold inputFieldCode
      rw [countLoads_fieldData, hreuse]
      simp [usesAlias, hidx]
    · unfold inputFieldCode
      rw [countLoads_fieldData, hreuse]
      by_cases hg : fi.eval_mode = CeedEvalMode.GRAD <;> cases is_at_points <;>
        by_cases hgt : ft.eval_mode = CeedEvalMode.GRAD <;>
        simp [usesAlias, hasMatrix, hidx, hg, hgt]
    · intro l hl m s tg hlt
      unfold inputFieldCode at hl
      have := alias_target_fieldData _ _ _ _ _ _ _ _ _ _ _ _ l hl m s tg hlt
      rw [hreuse] at this
      exact this
    · intro hsame m
      have hua : usesAlias m { index := (t : Int), is_input := true, eval_mode := fi.eval_mode }
          = true ∨ hasMatrix m fi.eval_mode (fieldIsTensor basis_info fi) is_at_points
          = false := by
        cases m with
        | B => left; simp [usesAlias, hidx]
        | G =>
          by_cases hg : fi.eval_mode = CeedEvalMode.GRAD
          · left; simp [usesAlias, hidx, hg]
          · right; simp [hasMatrix, hg]
      unfold inputFieldCode
      rw [countLoads_append, countLoads_fieldData, countLoads_fieldData, countAliases_fieldData,
        hreuse, hown, hTt, hsame]
      have hunset : usesAlias m FieldReuse_Hip.unset = false := by
        cases m <;> simp [usesAlias, FieldReuse_Hip.unset]
      rw [hunset]
      rcases hua with h | h
      · rw [h]; simp
      · rw [h]; simp
  · intro hall
    have hunset : inputMatrixReuse basis_info inputs i fi = FieldReuse_Hip.unset := by
      unfold inputMatrixReuse
      rw [if_neg hw]
      apply reuseScan_no_match _ _ _ _ _ _ _ rfl
      intro g hg
      obtain ⟨n, hn⟩ := List.mem_iff_getElem?.mp hg
      have hlt : n < i := by
        by_contra hc
        rw [List.getElem?_take_eq_none (by omega)] at hn
        exact absurd hn (by simp)
      rw [List.getElem?_take_of_lt hlt] at hn
      unfold reuseMatch
      by_cases hgw : g.eval_mode = CeedEvalMode.WEIGHT
      · simp [hgw]
      · have := hall n g hlt hn hgw
        have hne : ¬ fi.basis = g.basis := fun h => this h.symm
        simp [hne]
    refine ⟨hunset, ?_⟩
    intro m
    have hu : usesAlias m FieldReuse_Hip.unset = false := by
      cases m <;> simp [usesAlias, FieldReuse_Hip.unset]
    unfold inputFieldCode
    rw [countLoads_fieldData, countAliases_fieldData, hunset, hu]
    simp

/-- Witness of the amended C9: field 1 of the sample list GRAD, GRAD on one tensor basis
records field 0 as its reuse target. -/
theorem input_fields_matrix_reuse_witness :
    sampleInputsGradGrad[1]? = some sampleFieldDw ∧
    inputMatrixReuse sampleBasisInfo sampleInputsGradGrad 1 sampleFieldDw =
      { index := 0, is_input := true, eval_mode := CeedEvalMode.GRAD } := by
  refine ⟨by decide, ?_⟩
  obtain ⟨t, ft, ht, hget, _, hreuse, _⟩ :=
    (input_fields_matrix_reuse sampleBasisInfo sampleRstrInfo sampleInputsGradGrad 3 64 4 true
      false false 1 sampleFieldDw (by decide) (Or.inr rfl)).1 0 sampleFieldDu (by decide)
      (by decide) rfl rfl
  have ht0 : t = 0 := by omega
  subst ht0
  have h0 : sampleInputsGradGrad[0]? = some sampleFieldDu := by decide
  rw [h0] at hget
  have hft : ft = sampleFieldDu := (Option.some.inj hget).symm
  rw [hreuse, hft]
  rfl

/-- C10 (failing input). With one GRAD input and one INTERP output on the same non-tensor
basis, the output-against-inputs scan of `CeedOperatorBuildKernel_Hip_gen` runs with
`is_tensor` still `true` and gives the non-tensor output field the GRAD input as reuse target,
although their eval modes differ; the output then declares `s_B_out_0` as an alias of
`s_B_in_0`, a buffer the generated source never declares.  The same scan in the builder of
the QFunction assembly kernel, which reads `is_tensor` from the basis first, records no
target. -/
theorem output_scan_ignores_non_tensor :
    (sampleBasisInfo 2).is_tensor = false ∧
    output_matrix_reuse sampleBasisInfo sampleInputsNonTensorGrad sampleOutputsNonTensorInterp =
      [⟨0, true, CeedEvalMode.GRAD⟩] ∧
    sampleOutputsNonTensorInterp.map (fun f => f.eval_mode) = [CeedEvalMode.INTERP] ∧
    ((outputFieldData sampleBasisInfo sampleRstrInfo sampleInputsNonTensorGrad
      sampleOutputsNonTensorInterp 3 4 0 false false false).map fun d =>
        decide (CodeLine.aliasMatrix Matrix.B ⟨false, 0⟩ ⟨true, 0⟩ ∈ d.code)) = [true] ∧
    ((inputFieldData sampleBasisInfo sampleRstrInfo sampleInputsNonTensorGrad 3 4 0 false false
      false).map fun d => declaresMatrix Matrix.B ⟨true, 0⟩ d.code) = [false] ∧
    (sampleOutputsNonTensorInterp.enum.map fun p =>
      outputMatrixReuseQFunctionAssembly sampleBasisInfo sampleInputsNonTensorGrad
        sampleOutputsNonTensorInterp p.1 p.2) = [FieldReuse_Hip.unset] := by
  decide

/-! ## Build lifecycle (C5) -/

/-- A call of the builder on an operator whose setup is done returns at once. -/
theorem build_setup_done (op : Operator) (env : CallEnv) (data : OperatorData)
    (h : data.is_setup_done = true) :
    (CeedOperatorBuildKernel_Hip_gen op env data).data = data ∧
    (CeedOperatorBuildKernel_Hip_gen op env data).trace = [] ∧
    (CeedOperatorBuildKernel_Hip_gen op env data).result = Except.ok (!data.use_fallback) := by
  simp [CeedOperatorBuildKernel_Hip_gen, h]

/-- A call of the builder returns at once (setup done), or stops before the compiler and
leaves the setup flag and the fallback flags alone, or compiles once and sets the setup flag. -/
theorem build_cases (op : Operator) (env : CallEnv) (data : OperatorData) :
    (data.is_setup_done = true ∧
      (CeedOperatorBuildKernel_Hip_gen op env data).data = data ∧
      (CeedOperatorBuildKernel_Hip_gen op env data).trace = [] ∧
      (CeedOperatorBuildKernel_Hip_gen op env data).result = Except.ok (!data.use_fallback)) ∨
    (data.is_setup_done = false ∧
      (CeedOperatorBuildKernel_Hip_gen op env data).trace.countP Event.isCompile = 0 ∧
      (CeedOperatorBuildKernel_Hip_gen op env data).trace.countP Event.isSynthesize = 0 ∧
      (CeedOperatorBuildKernel_Hip_gen op env data).data.is_setup_done = false ∧
      (CeedOperatorBuildKernel_Hip_gen op env data).data.use_fallback = data.use_fallback ∧
      (CeedOperatorBuildKernel_Hip_gen op env data).data.use_assembly_fallback =
        data.use_assembly_fallback ∧
      (CeedOperatorBuildKernel_Hip_gen op env data).result ≠ Except.ok true) ∨
    (data.is_setup_done = false ∧
      (CeedOperatorBuildKernel_Hip_gen op env data).trace.countP Event.isCompile = 1 ∧
      (CeedOperatorBuildKernel_Hip_gen op env data).trace.countP Event.isSynthesize = 1 ∧
      (CeedOperatorBuildKernel_Hip_gen op env data).data.is_setup_done = true ∧
      (CeedOperatorBuildKernel_Hip_gen op env data).data.use_fallback =
        (data.use_fallback || !env.compile_good) ∧
      (CeedOperatorBuildKernel_Hip_gen op env data).data.use_assembly_fallback =
        data.use_assembly_fallback ∧
      (CeedOperatorBuildKernel_Hip_gen op env data).result = Except.ok env.compile_good) := by
  by_cases h1 : data.is_setup_done = true
  · left
    exact ⟨h1, build_setup_done op env data h1⟩
  · right
    have h1' : data.is_setup_done = false := by simpa using h1
    unfold CeedOperatorBuildKernel_Hip_gen
    by_cases h2 : hasSharedBases op = false
    · left; simp [h1', h2]
    · cases h3 : CeedOperatorBuildKernelData_Hip_gen op.basis_info op.inputs op.outputs 1 with
      | error e => left; simp [h1', h2, Event.isCompile, Event.isSynthesize]
      | ok kd =>
        simp only [h1', h2, Bool.false_eq_true, if_false]
        cases h4 : restrictionOnlyIdentity op
        · by_cases h5 : op.qf_source_path = none
          · left; simp [h5, h1', Event.isCompile, Event.isSynthesize]
          · right
            cases h6 : env.compile_good <;>
              simp [h5, h1', Event.isCompile, Event.isSynthesize]
        · left; simp [h1', Event.isCompile, Event.isSynthesize]

/-- A sequence of builder calls on an operator whose setup is done does nothing. -/
theorem buildSequence_setup_done (op : Operator) :
    ∀ (envs : List CallEnv) (data : OperatorData), data.is_setup_done = true →
      buildSequence op envs data = (data, []) := by
  intro envs
  induction envs with
  | nil => intro data _; rfl
  | cons env envs ih =>
    intro data h
    obtain ⟨h1, h2, _⟩ := build_setup_done op env data h
    simp only [buildSequence, h1, h2, ih data h, List.append_nil]

/-- A sequence of builder calls compiles and synthesises at most once. -/
theorem buildSequence_count (op : Operator) :
    ∀ (envs : List CallEnv) (data : OperatorData),
      (buildSequence op envs data).2.countP Event.isCompile ≤ 1 ∧
      (buildSequence op envs data).2.countP Event.isSynthesize ≤ 1 := by
  intro envs
  induction envs with
  | nil => intro data; simp [buildSequence]
  | cons env envs ih =>
    intro data
    simp only [buildSequence, List.countP_append]
    rcases build_cases op env data with h | h | h
    · obtain ⟨_, h1, h2, _⟩ := h
      rw [h1, h2]
      simpa using ih data
    · obtain ⟨_, h1, h2, _⟩ := h
      rw [h1, h2]
      simpa using ih (CeedOperatorBuildKernel_Hip_gen op env data).data
    · obtain ⟨_, h1, h2, h3, _⟩ := h
      rw [h1, h2, buildSequence_setup_done op envs _ h3]
      simp

/-- C5. Across any sequence of calls of `CeedOperatorBuildKernel_Hip_gen` on one operator,
from any backend data and with any compiler results, the compile routine is called at most
once and the kernel function is synthesised at most once (a call that fails the source path
check writes the include preamble only and returns an error); a call that reaches the
compiler sets the setup-done flag whether the compilation succeeds or fails; and a call on an
operator whose setup is done returns at once with `is_good_build = !use_fallback`, without a
step and without a change to the backend data. -/
theorem build_kernel_at_most_once (op : Operator) (envs : List CallEnv) (data : OperatorData) :
    (buildSequence op envs data).2.countP Event.isCompile ≤ 1 ∧
    (buildSequence op envs data).2.countP Event.isSynthesize ≤ 1 ∧
    (∀ (env : CallEnv) (d : OperatorData),
      (CeedOperatorBuildKernel_Hip_gen op env d).trace.any Event.isCompile = true →
        (CeedOperatorBuildKernel_Hip_gen op env d).data.is_setup_done = true) ∧
    (∀ (env : CallEnv) (d : OperatorData), d.is_setup_done = true →
      (CeedOperatorBuildKernel_Hip_gen op env d).data = d ∧
      (CeedOperatorBuildKernel_Hip_gen op env d).trace = [] ∧
      (CeedOperatorBuildKernel_Hip_gen op env d).result = Except.ok (!d.use_fallback)) := by
  refine ⟨(buildSequence_count op envs data).1, (buildSequence_count op envs data).2, ?_, ?_⟩
  · intro env d hany
    rcases build_cases op env d with h | h | h
    · rw [h.2.1]; exact h.1
    · exfalso
      have h0 := h.2.1
      rw [List.countP_eq_zero] at h0
      obtain ⟨ev, hev, hc⟩ := List.any_eq_true.mp hany
      exact h0 ev hev hc
    · exact h.2.2.2.1
  · intro env d hd
    exact build_setup_done op env d hd

/-! ## Runner lemmas -/

theorem FlagsMono_refl (d : OperatorData) : FlagsMono d d :=
  ⟨fun h => h, fun h => h⟩

theorem FlagsMono_trans {a b c : OperatorData} (h1 : FlagsMono a b) (h2 : FlagsMono b c) :
    FlagsMono a c :=
  ⟨fun h => h2.1 (h1.1 h), fun h => h2.2 (h1.2 h)⟩

/-- The operator-kernel builder: flags grow, the setup flag grows, the setup invariant is kept,
and a good build leaves an operator whose setup is done and whose fallback flag is as before. -/
theorem build_frame (op : Operator) (env : CallEnv) (d : OperatorData) :
    FlagsMono d (CeedOperatorBuildKernel_Cuda_gen op env d).data ∧
    (CeedOperatorBuildKernel_Cuda_gen op env d).data.use_assembly_fallback =
      d.use_assembly_fallback ∧
    (d.is_setup_done = true → (CeedOperatorBuildKernel_Cuda_gen op env d).data.is_setup_done
      = true) ∧
    (SetupInv d → SetupInv (CeedOperatorBuildKernel_Cuda_gen op env d).data) ∧
    ((CeedOperatorBuildKernel_Cuda_gen op env d).result = Except.ok true →
      (CeedOperatorBuildKernel_Cuda_gen op env d).data.is_setup_done = true ∧
      (CeedOperatorBuildKernel_Cuda_gen op env d).data.use_fallback = d.use_fallback) ∧
    ((CeedOperatorBuildKernel_Cuda_gen op env d).data.use_fallback = true →
      d.use_fallback = true ∨
      (env.compile_good = false ∧
        (CeedOperatorBuildKernel_Cuda_gen op env d).trace.any Event.isCompile = true)) := by
  unfold CeedOperatorBuildKernel_Cuda_gen SetupInv FlagsMono
  rcases build_cases op env d with h | h | h
  · obtain ⟨h0, h1, h2, h3⟩ := h
    rw [h1, h2, h3]
    simp_all
  · obtain ⟨h0, h1, h2, h3, h4, h5, h6⟩ := h
    rw [h3, h4, h5]
    simp_all
  · obtain ⟨h0, h1, h2, h3, h4, h5, h6⟩ := h
    rw [h3, h4, h5, h6]
    have hany : (CeedOperatorBuildKernel_Hip_gen op env d).trace.any Event.isCompile = true := by
      by_contra hc
      have : (CeedOperatorBuildKernel_Hip_gen op env d).trace.countP Event.isCompile = 0 := by
        rw [List.countP_eq_zero]
        intro ev hev hcomp
        exact hc (List.any_eq_true.mpr ⟨ev, hev, hcomp⟩)
      omega
    cases hcg : env.compile_good <;> simp_all

theorem updatePoints_flags (op : Operator) (d : OperatorData) :
    (updatePoints op d).1.is_setup_done = d.is_setup_done ∧
    (updatePoints op d).1.use_fallback = d.use_fallback ∧
    (updatePoints op d).1.use_assembly_fallback = d.use_assembly_fallback ∧
    (updatePoints op d).1.assemble_full = d.assemble_full ∧
    (updatePoints op d).1.assemble_diagonal = d.assemble_diagonal ∧
    (updatePoints op d).1.assemble_qfunction = d.assemble_qfunction := by
  unfold updatePoints
  split <;> simp

/-- The apply core after the builder: unless the build is good the outcome is that of the
builder; after a good build only a failed launch sets the fallback flag. -/
theorem core_frame (op : Operator) (dev : Device) (env : CallEnv) (d : OperatorData) :
    ((CeedOperatorBuildKernel_Cuda_gen op env d).result ≠ Except.ok true →
      (CeedOperatorApplyAddCore_Cuda_gen op dev env d).data =
        (CeedOperatorBuildKernel_Cuda_gen op env d).data ∧
      (CeedOperatorApplyAddCore_Cuda_gen op dev env d).trace =
        (CeedOperatorBuildKernel_Cuda_gen op env d).trace ∧
      (CeedOperatorApplyAddCore_Cuda_gen op dev env d).result =
        (CeedOperatorBuildKernel_Cuda_gen op env d).result) ∧
    (CeedOperatorApplyAddCore_Cuda_gen op dev env d).data.is_setup_done =
      (CeedOperatorBuildKernel_Cuda_gen op env d).data.is_setup_done ∧
    (CeedOperatorApplyAddCore_Cuda_gen op dev env d).data.use_assembly_fallback =
      (CeedOperatorBuildKernel_Cuda_gen op env d).data.use_assembly_fallback ∧
    ((CeedOperatorBuildKernel_Cuda_gen op env d).data.use_fallback = true →
      (CeedOperatorApplyAddCore_Cuda_gen op dev env d).data.use_fallback = true) ∧
    ((CeedOperatorApplyAddCore_Cuda_gen op dev env d).data.use_fallback = true →
      (CeedOperatorBuildKernel_Cuda_gen op env d).data.use_fallback = true ∨
      ((CeedOperatorBuildKernel_Cuda_gen op env d).result = Except.ok true ∧
        env.run_good = false ∧
        (CeedOperatorApplyAddCore_Cuda_gen op dev env d).trace.any Event.isLaunch = true)) := by
  unfold CeedOperatorApplyAddCore_Cuda_gen
  generalize CeedOperatorBuildKernel_Cuda_gen op env d = b
  obtain ⟨bd, bt, br⟩ := b
  cases br with
  | error e => simp
  | ok v =>
    cases v with
    | false => simp
    | true =>
      simp only []
      have hp1 : ∀ dd : OperatorData,
          (if op.is_at_points = true then updatePoints op dd else (dd, [])).1.is_setup_done
            = dd.is_setup_done ∧
          (if op.is_at_points = true then updatePoints op dd else (dd, [])).1.use_fallback
            = dd.use_fallback ∧
          (if op.is_at_points = true then updatePoints op dd else (dd, [])).1.use_assembly_fallback
            = dd.use_assembly_fallback := by
        intro dd
        have := updatePoints_flags op dd
        split <;> simp [this]
      obtain ⟨q1, q2, q3⟩ := hp1 bd
      cases hl : launchConfig dev env op.has_tensor_bases
          (if op.is_at_points = true then updatePoints op bd else (bd, [])).1.thread_1d
          (if op.is_at_points = true then updatePoints op bd else (bd, [])).1.dim op.num_elem with
      | none =>
        simp [q1, q2, q3]
        intro h
        exact Or.inl h
      | some cfg =>
        cases hr : env.run_good <;> simp [q1, q2, q3, Event.isLaunch]

/-- The at-points assembly builders touch neither the fallback flag of the operator kernel nor
the setup flag; they set the assembly fallback flag exactly when the compilation fails. -/
theorem assemblyBuild_frame (op : Operator) (env : CallEnv) (is_full : Bool)
    (d : OperatorData) :
    (CeedOperatorBuildKernelAssemblyAtPoints_Hip_gen op env is_full d).data.use_fallback =
      d.use_fallback ∧
    (CeedOperatorBuildKernelAssemblyAtPoints_Hip_gen op env is_full d).data.is_setup_done =
      d.is_setup_done ∧
    (d.use_assembly_fallback = true →
      (CeedOperatorBuildKernelAssemblyAtPoints_Hip_gen op env is_full d).data.use_assembly_fallback
        = true) ∧
    ((CeedOperatorBuildKernelAssemblyAtPoints_Hip_gen op env is_full d).result = Except.ok true →
      (CeedOperatorBuildKernelAssemblyAtPoints_Hip_gen op env is_full d).data.use_assembly_fallback
        = d.use_assembly_fallback) ∧
    (∀ kind a b, Event.compile kind a b false ∈
        (CeedOperatorBuildKernelAssemblyAtPoints_Hip_gen op env is_full d).trace →
      (CeedOperatorBuildKernelAssemblyAtPoints_Hip_gen op env is_full d).result
        = Except.ok false) ∧
    (∀ ev ∈ (CeedOperatorBuildKernelAssemblyAtPoints_Hip_gen op env is_full d).trace,
      ev.isLaunch = false) := by
  unfold CeedOperatorBuildKernelAssemblyAtPoints_Hip_gen
  cases h1 : op.is_at_points
  · simp
  · by_cases h2 : op.qf_source_path = none
    · simp [h2, Event.isLaunch]
    · cases h3 : env.assembly_compile_good <;> cases is_full <;> simp [h2, Event.isLaunch]

/-- The QFunction assembly builder touches neither the fallback flag of the operator kernel nor
the setup flag; it sets the assembly fallback flag exactly when the compilation fails. -/
theorem qfunctionBuild_frame (op : Operator) (env : CallEnv) (d : OperatorData) :
    (CeedOperatorBuildKernelLinearAssembleQFunction_Hip_gen op env d).data.use_fallback =
      d.use_fallback ∧
    (CeedOperatorBuildKernelLinearAssembleQFunction_Hip_gen op env d).data.is_setup_done =
      d.is_setup_done ∧
    (d.use_assembly_fallback = true →
      (CeedOperatorBuildKernelLinearAssembleQFunction_Hip_gen op env d).data.use_assembly_fallback
        = true) ∧
    ((CeedOperatorBuildKernelLinearAssembleQFunction_Hip_gen op env d).result = Except.ok true →
      (CeedOperatorBuildKernelLinearAssembleQFunction_Hip_gen op env d).data.use_assembly_fallback
        = d.use_assembly_fallback) ∧
    (∀ kind a b, Event.compile kind a b false ∈
        (CeedOperatorBuildKernelLinearAssembleQFunction_Hip_gen op env d).trace →
      (CeedOperatorBuildKernelLinearAssembleQFunction_Hip_gen op env d).result
        = Except.ok false) ∧
    (∀ ev ∈ (CeedOperatorBuildKernelLinearAssembleQFunction_Hip_gen op env d).trace,
      ev.isLaunch = false) := by
  unfold CeedOperatorBuildKernelLinearAssembleQFunction_Hip_gen
  cases h1 : op.is_at_points
  · by_cases h2 : op.qf_source_path = none
    · simp [h2, Event.isLaunch]
    · cases h3 : env.assembly_compile_good <;> simp [h2, Event.isLaunch]
  · simp

theorem updatePoints_use_fallback (op : Operator) (d : OperatorData) :
    (updatePoints op d).1.use_fallback = d.use_fallback :=
  (updatePoints_flags op d).2.1

theorem updatePoints_use_assembly_fallback (op : Operator) (d : OperatorData) :
    (updatePoints op d).1.use_assembly_fallback = d.use_assembly_fallback :=
  (updatePoints_flags op d).2.2.1

theorem updatePoints_is_setup_done (op : Operator) (d : OperatorData) :
    (updatePoints op d).1.is_setup_done = d.is_setup_done :=
  (updatePoints_flags op d).1

theorem updatePoints_trace (op : Operator) (d : OperatorData) :
    ∀ ev ∈ (updatePoints op d).2, ev = Event.reallocPoints op.num_elem := by
  unfold updatePoints
  split <;> simp

/-- A failed compilation recorded by the operator-kernel builder makes the build fail. -/
theorem build_compile_false (op : Operator) (env : CallEnv) (d : OperatorData)
    (kind : KernelKind) (a b : Int)
    (h : Event.compile kind a b false ∈ (CeedOperatorBuildKernel_Cuda_gen op env d).trace) :
    (CeedOperatorBuildKernel_Cuda_gen op env d).result = Except.ok false ∧
    env.compile_good = false := by
  unfold CeedOperatorBuildKernel_Cuda_gen CeedOperatorBuildKernel_Hip_gen at h ⊢
  by_cases h1 : d.is_setup_done = true
  · simp [h1] at h
  · have h1' : d.is_setup_done = false := by simpa using h1
    by_cases h2 : hasSharedBases op = false
    · simp [h1', h2] at h
    · cases h3 : CeedOperatorBuildKernelData_Hip_gen op.basis_info op.inputs op.outputs 1 with
      | error e => simp [h1', h2, h3] at h
      | ok kd =>
        simp only [h1', h2, h3, Bool.false_eq_true, if_false] at h ⊢
        cases h4 : restrictionOnlyIdentity op
        · by_cases h5 : op.qf_source_path = none
          · simp [h4, h5] at h
          · cases h6 : env.compile_good
            · simp [h5]
            · simp [h4, h5, h6] at h
        · simp [h4] at h

/-- The operator-kernel builder launches nothing. -/
theorem build_no_launch (op : Operator) (env : CallEnv) (d : OperatorData) :
    ∀ ev ∈ (CeedOperatorBuildKernel_Cuda_gen op env d).trace, ev.isLaunch = false := by
  unfold CeedOperatorBuildKernel_Cuda_gen CeedOperatorBuildKernel_Hip_gen
  by_cases h1 : d.is_setup_done = true
  · simp [h1]
  · have h1' : d.is_setup_done = false := by simpa using h1
    by_cases h2 : hasSharedBases op = false
    · simp [h1', h2]
    · cases h3 : CeedOperatorBuildKernelData_Hip_gen op.basis_info op.inputs op.outputs 1 with
      | error e => simp [h1', h2, Event.isLaunch]
      | ok kd =>
        simp only [h1', h2, Bool.false_eq_true, if_false]
        cases h4 : restrictionOnlyIdentity op
        · by_cases h5 : op.qf_source_path = none
          · simp [h5, Event.isLaunch]
          · cases h6 : env.compile_good <;> simp [h5, Event.isLaunch]
        · simp [Event.isLaunch]

theorem assemblyBuilder_eq (op : Operator) (env : CallEnv) (is_full : Bool) (d : OperatorData) :
    (if is_full = true then CeedOperatorBuildKernelFullAssemblyAtPoints_Cuda_gen op env d
      else CeedOperatorBuildKernelDiagonalAssemblyAtPoints_Cuda_gen op env d) =
      CeedOperatorBuildKernelAssemblyAtPoints_Hip_gen op env is_full d := by
  cases is_full <;> rfl

/-- The block "Build the assembly kernel" of the at-points assembly entry points. -/
theorem assembleAtPointsBuild_frame (op : Operator) (env : CallEnv) (is_full : Bool)
    (d : OperatorData) :
    FlagsMono d (assembleAtPointsBuild op env is_full d).data ∧
    (d.is_setup_done = true → (assembleAtPointsBuild op env is_full d).data.is_setup_done = true) ∧
    (SetupInv d → SetupInv (assembleAtPointsBuild op env is_full d).data) ∧
    (d.use_assembly_fallback = true →
      (assembleAtPointsBuild op env is_full d).data = d ∧
      (assembleAtPointsBuild op env is_full d).trace = [] ∧
      (assembleAtPointsBuild op env is_full d).result = Except.ok ()) ∧
    ((assembleAtPointsBuild op env is_full d).data.use_fallback = true →
      d.use_fallback = true ∨ env.compile_good = false) ∧
    (∀ kind a c, Event.compile kind a c false ∈ (assembleAtPointsBuild op env is_full d).trace →
      (assembleAtPointsBuild op env is_full d).data.use_assembly_fallback = true) ∧
    (∀ ev ∈ (assembleAtPointsBuild op env is_full d).trace, ev.isLaunch = false) := by
  unfold assembleAtPointsBuild
  have hb := build_frame op env d
  have hbc := build_compile_false op env d
  have hbl := build_no_launch op env d
  generalize CeedOperatorBuildKernel_Cuda_gen op env d = b1 at hb hbc hbl ⊢
  obtain ⟨bd, bt, br⟩ := b1
  simp only [assemblyBuilder_eq]
  have ha := assemblyBuild_frame op env is_full bd
  generalize CeedOperatorBuildKernelAssemblyAtPoints_Hip_gen op env is_full bd = b2 at ha ⊢
  obtain ⟨ad, atr, ar⟩ := b2
  unfold FlagsMono SetupInv at *
  simp only at hb hbc hbl ha
  obtain ⟨⟨hb1, hb2⟩, hb3, hb4, hb5, hb6, hb7⟩ := hb
  obtain ⟨ha1, ha2, ha3, ha4, ha5, ha6⟩ := ha
  cases hc : (!(if is_full = true then d.assemble_full else d.assemble_diagonal) &&
      !d.use_assembly_fallback)
  · simp only [Bool.false_eq_true, if_false]
    simp
    intro h
    exact Or.inl h
  · have huaf : d.use_assembly_fallback = false := by
      cases hu : d.use_assembly_fallback
      · rfl
      · rw [hu] at hc; simp at hc
    simp only [if_true]
    by_cases hn : op.num_active_bases_in = op.num_active_bases_out
    · simp only [hn, if_true]
      rcases br with e | v
      · simp_all
        intro h
        rcases hb7 h with h1 | h1
        · exact Or.inl h1
        · exact Or.inr h1.1
      · rcases v with _ | _
        · simp_all
          intro h
          rcases hb7 h with h1 | h1
          · exact Or.inl h1
          · exact Or.inr h1.1
        · rcases ar with e | w
          · simp_all [List.mem_append, or_imp, forall_and]
          · rcases w with _ | _
            · simp_all [List.mem_append, or_imp, forall_and]
            · simp_all [List.mem_append, or_imp, forall_and]
    · simp only [hn, if_false]
      simp [huaf]
      intro h
      exact Or.inl h

/-- The block "Build the assembly kernel" of the QFunction assembly entry points. -/
theorem qfunctionAssemblyBuild_frame (op : Operator) (env : CallEnv) (d : OperatorData) :
    FlagsMono d (qfunctionAssemblyBuild op env d).data ∧
    (d.is_setup_done = true → (qfunctionAssemblyBuild op env d).data.is_setup_done = true) ∧
    (SetupInv d → SetupInv (qfunctionAssemblyBuild op env d).data) ∧
    (d.use_assembly_fallback = true →
      (qfunctionAssemblyBuild op env d).data = d ∧
      (qfunctionAssemblyBuild op env d).trace = [] ∧
      (qfunctionAssemblyBuild op env d).result = Except.ok ()) ∧
    ((qfunctionAssemblyBuild op env d).data.use_fallback = true →
      d.use_fallback = true ∨ env.compile_good = false) ∧
    (∀ kind a c, Event.compile kind a c false ∈ (qfunctionAssemblyBuild op env d).trace →
      (qfunctionAssemblyBuild op env d).data.use_assembly_fallback = true) ∧
    (∀ ev ∈ (qfunctionAssemblyBuild op env d).trace, ev.isLaunch = false) := by
  unfold qfunctionAssemblyBuild CeedOperatorBuildKernelLinearAssembleQFunction_Cuda_gen
  have hb := build_frame op env d
  have hbc := build_compile_false op env d
  have hbl := build_no_launch op env d
  generalize CeedOperatorBuildKernel_Cuda_gen op env d = b1 at hb hbc hbl ⊢
  obtain ⟨bd, bt, br⟩ := b1
  have ha := qfunctionBuild_frame op env bd
  simp only
  generalize CeedOperatorBuildKernelLinearAssembleQFunction_Hip_gen op env bd = b2 at ha ⊢
  obtain ⟨ad, atr, ar⟩ := b2
  unfold FlagsMono SetupInv at *
  simp only at hb hbc hbl ha
  obtain ⟨⟨hb1, hb2⟩, hb3, hb4, hb5, hb6, hb7⟩ := hb
  obtain ⟨ha1, ha2, ha3, ha4, ha5, ha6⟩ := ha
  cases hc : (!d.assemble_qfunction && !d.use_assembly_fallback)
  · simp only [Bool.false_eq_true, if_false]
    simp
    intro h
    exact Or.inl h
  · have huaf : d.use_assembly_fallback = false := by
      cases hu : d.use_assembly_fallback
      · rfl
      · rw [hu] at hc; simp at hc
    simp only [if_true]
    rcases br with e | v
    · simp_all
      intro h
      rcases hb7 h with h1 | h1
      · exact Or.inl h1
      · exact Or.inr h1.1
    · rcases v with _ | _
      · simp_all
        intro h
        rcases hb7 h with h1 | h1
        · exact Or.inl h1
        · exact Or.inr h1.1
      · rcases ar with e | w
        · simp_all [List.mem_append, or_imp, forall_and]
        · rcases w with _ | _
          · simp_all [List.mem_append, or_imp, forall_and]
          · simp_all [List.mem_append, or_imp, forall_and]

/-- The block "Try assembly" of the at-points assembly entry points: it is skipped when the
assembly fallback flag is set, it touches neither the fallback flag of the operator kernel nor
the setup flag, it compiles nothing, and a failed launch sets the assembly fallback flag. -/
theorem assembleAtPointsTry_frame (op : Operator) (dev : Device) (env : CallEnv)
    (is_full : Bool) (d : OperatorData) (tr : List Event) :
    TryFrame d tr (assembleAtPointsTry op dev env is_full d tr) := by
  unfold TryFrame assembleAtPointsTry
  have hpt := updatePoints_trace op d
  have hnc : ∀ kind a c g, Event.compile kind a c g ∉ (updatePoints op d).2 := by
    intro kind a c g h
    exact absurd (hpt _ h) (by simp)
  have hnl : ∀ kind dims sm g, Event.launch kind dims sm g ∉ (updatePoints op d).2 := by
    intro kind dims sm g h
    exact absurd (hpt _ h) (by simp)
  cases hu : d.use_assembly_fallback
  · simp only [Bool.not_false, if_true]
    cases hl : launchConfigAtPoints dev env (updatePoints op d).1.thread_1d
        (updatePoints op d).1.dim op.num_elem <;>
      cases hr : env.run_good <;>
      simp [updatePoints_use_fallback, updatePoints_is_setup_done, hnc, hnl] <;>
      (intro _ _ _ h; exact Or.inl h)
  · simp
    intro _ _ _ h
    exact Or.inl h

/-- The block "Try assembly" of the QFunction assembly entry points: it is skipped when the
assembly fallback flag is set, it touches neither the fallback flag of the operator kernel nor
the setup flag, it compiles nothing, and a failed launch sets the assembly fallback flag. -/
theorem qfunctionAssemblyTry_frame (op : Operator) (dev : Device) (env : CallEnv)
    (build_objects : Bool) (d : OperatorData) (tr : List Event) :
    TryFrame d tr (qfunctionAssemblyTry op dev env build_objects d tr) := by
  unfold TryFrame qfunctionAssemblyTry
  cases hu : d.use_assembly_fallback
  · cases build_objects <;>
      cases hl : launchConfig dev env op.has_tensor_bases d.thread_1d d.dim op.num_elem <;>
      cases hr : env.run_good <;>
      by_cases h1 : activeFieldSize op.inputs > 0 <;>
      by_cases h2 : activeFieldSize op.outputs > 0 <;>
      simp [h1, h2] <;>
      (intro _ _ _ h; exact Or.inl h)
  · simp
    intro _ _ _ h
    exact Or.inl h

theorem no_launch_mem (tr : List Event) (hno : ∀ ev ∈ tr, ev.isLaunch = false)
    (kind : KernelKind) (dims : LaunchDims) (sm : Int) (g : Bool) :
    Event.launch kind dims sm g ∉ tr := by
  intro h
  have := hno _ h
  simp [Event.isLaunch] at this

theorem assembleAtPointsBuild_buildFrame (op : Operator) (env : CallEnv) (is_full : Bool)
    (d : OperatorData) : BuildFrame env d (assembleAtPointsBuild op env is_full d) := by
  unfold BuildFrame
  exact assembleAtPointsBuild_frame op env is_full d

theorem qfunctionAssemblyBuild_buildFrame (op : Operator) (env : CallEnv) (d : OperatorData) :
    BuildFrame env d (qfunctionAssemblyBuild op env d) := by
  unfold BuildFrame
  exact qfunctionAssemblyBuild_frame op env d

/-- An assembly entry point, made of its three blocks, satisfies `EntryFrame`. -/
theorem assembly_entry_frame (kind : KernelKind) (env : CallEnv) (d : OperatorData)
    (b : Outcome Unit) (tryf : OperatorData → List Event → Outcome Unit)
    (hB : BuildFrame env d b) (hT : ∀ d1 tr, TryFrame d1 tr (tryf d1 tr)) :
    EntryFrame kind env d
      (match b.result with
      | Except.error e => { data := b.data, trace := b.trace, result := Except.error e }
      | Except.ok () => assemblyFallback kind (tryf b.data b.trace)) := by
  obtain ⟨bd, bt, br⟩ := b
  unfold BuildFrame at hB
  simp only at hB
  obtain ⟨hB1, hB2, hB3, hB4, hB5, hB6, hB7⟩ := hB
  have hnl := no_launch_mem bt hB7
  cases br with
  | error e =>
    unfold EntryFrame
    simp only
    refine ⟨hB1, hB2, hB3, ?_, hB5, hB6, ?_, ?_⟩
    · intro h
      have := (hB4 h).2.2
      simp at this
    · intro k dims sm h
      exact absurd h (hnl k dims sm false)
    · intro h
      simp at h
  | ok u =>
    have hT1 := hT bd bt
    simp only
    generalize tryf bd bt = r at hT1
    obtain ⟨rd, rt, rr⟩ := r
    unfold TryFrame at hT1
    simp only at hT1
    obtain ⟨hT1, hT2, hT3, hT4, hT5⟩ := hT1
    unfold EntryFrame assemblyFallback FlagsMono SetupInv at *
    cases rr with
    | error e =>
      simp only
      refine ⟨⟨fun h => by rw [hT2]; exact hB1.1 h, fun h => ?_⟩,
        fun h => by rw [hT3]; exact hB2 h, ?_, ?_, ?_, ?_, ?_, ?_⟩
      · have := (hT1 (hB1.2 h)).1
        rw [this]; exact hB1.2 h
      · intro hs h; rw [hT3]; rw [hT2] at h; exact hB3 hs h
      · intro h
        have h1 := hB4 h
        have h2 := hT1 (by rw [h1.1]; exact h)
        simp at h2
      · intro h; rw [hT2] at h; exact hB5 h
      · intro k a c h
        have h1 := hB6 k a c (hT4 k a c false h)
        have := (hT1 h1).1
        rw [this]; exact h1
      · intro k dims sm h
        rcases hT5 k dims sm h with h1 | h1
        · exact absurd h1 (hnl k dims sm false)
        · exact h1
      · intro h
        simp at h
    | ok v =>
      cases hru : rd.use_assembly_fallback
      · simp only [Bool.false_eq_true, if_false]
        refine ⟨⟨fun h => by rw [hT2]; exact hB1.1 h, fun h => ?_⟩,
          fun h => by rw [hT3]; exact hB2 h, ?_, ?_, ?_, ?_, ?_, ?_⟩
        · have := (hT1 (hB1.2 h)).1
          rw [this] at hru
          rw [hB1.2 h] at hru
          exact absurd hru (by simp)
        · intro hs h; rw [hT3]; rw [hT2] at h; exact hB3 hs h
        · intro h
          have h1 := hB4 h
          have h2 := hT1 (by rw [h1.1]; exact h)
          rw [h2.1, h1.1, h] at hru
          exact absurd hru (by simp)
        · intro h; rw [hT2] at h; exact hB5 h
        · intro k a c h
          have h1 := hB6 k a c (hT4 k a c false h)
          have := (hT1 h1).1
          rw [this, h1] at hru
          exact absurd hru (by simp)
        · intro k dims sm h
          rcases hT5 k dims sm h with h1 | h1
          · exact absurd h1 (hnl k dims sm false)
          · rw [h1] at hru
            exact absurd hru (by simp)
        · intro _ h
          rw [h] at hru
          exact absurd hru (by simp)
      · simp only [if_true]
        refine ⟨⟨fun h => by rw [hT2]; exact hB1.1 h, fun _ => hru⟩,
          fun h => by rw [hT3]; exact hB2 h, ?_, ?_, ?_, ?_, ?_, ?_⟩
        · intro hs h; rw [hT3]; rw [hT2] at h; exact hB3 hs h
        · intro h
          have h1 := hB4 h
          have h2 := hT1 (by rw [h1.1]; exact h)
          rw [h2.1, h1.1, h2.2.1, h1.2.1]
          simp
        · intro h; rw [hT2] at h; exact hB5 h
        · intro _ _ _ _
          exact hru
        · intro _ _ _ _
          exact hru
        · intro _ _
          simp

theorem assembleAtPoints_entryFrame (op : Operator) (dev : Device) (env : CallEnv)
    (is_full : Bool) (d : OperatorData) :
    EntryFrame (atPointsKind is_full) env d (assembleAtPoints op dev env is_full d) := by
  unfold assembleAtPoints
  exact assembly_entry_frame (atPointsKind is_full) env d (assembleAtPointsBuild op env is_full d)
    (fun d1 tr => assembleAtPointsTry op dev env is_full d1 tr)
    (assembleAtPointsBuild_buildFrame op env is_full d)
    (fun d1 tr => assembleAtPointsTry_frame op dev env is_full d1 tr)

theorem assembleQFunction_entryFrame (op : Operator) (dev : Device) (env : CallEnv)
    (build_objects : Bool) (d : OperatorData) :
    EntryFrame KernelKind.assembleQFunction env d
      (CeedOperatorLinearAssembleQFunctionCore_Cuda_gen op dev env build_objects d) := by
  unfold CeedOperatorLinearAssembleQFunctionCore_Cuda_gen
  exact assembly_entry_frame KernelKind.assembleQFunction env d (qfunctionAssemblyBuild op env d)
    (fun d1 tr => qfunctionAssemblyTry op dev env build_objects d1 tr)
    (qfunctionAssemblyBuild_buildFrame op env d)
    (fun d1 tr => qfunctionAssemblyTry_frame op dev env build_objects d1 tr)

/-- The apply core: flags grow, the setup flag grows, the setup invariant is kept, and the
assembly fallback flag is left alone. -/
theorem applyCore_frame (op : Operator) (dev : Device) (env : CallEnv) (d : OperatorData) :
    FlagsMono d (CeedOperatorApplyAddCore_Cuda_gen op dev env d).data ∧
    (d.is_setup_done = true →
      (CeedOperatorApplyAddCore_Cuda_gen op dev env d).data.is_setup_done = true) ∧
    (SetupInv d → SetupInv (CeedOperatorApplyAddCore_Cuda_gen op dev env d).data) ∧
    (CeedOperatorApplyAddCore_Cuda_gen op dev env d).data.use_assembly_fallback =
      d.use_assembly_fallback := by
  obtain ⟨⟨hb1, hb2⟩, hb3, hb4, hb5, hb6, _⟩ := build_frame op env d
  obtain ⟨hc1, hc2, hc3, hc4, hc5⟩ := core_frame op dev env d
  unfold SetupInv at *
  refine ⟨⟨fun h => hc4 (hb1 h), fun h => by rw [hc3]; exact hb2 h⟩,
    fun h => by rw [hc2]; exact hb4 h, ?_, by rw [hc3, hb3]⟩
  intro hs h
  rw [hc2]
  rcases hc5 h with h1 | h1
  · exact hb5 hs h1
  · exact (hb6 h1.1).1

/-- On an operator whose setup is done and whose fallback flag is set, the apply core returns
`is_run_good = false` at once. -/
theorem applyCore_fallback (op : Operator) (dev : Device) (env : CallEnv) (d : OperatorData)
    (hs : d.is_setup_done = true) (hf : d.use_fallback = true) :
    (CeedOperatorApplyAddCore_Cuda_gen op dev env d).data = d ∧
    (CeedOperatorApplyAddCore_Cuda_gen op dev env d).trace = [] ∧
    (CeedOperatorApplyAddCore_Cuda_gen op dev env d).result = Except.ok false := by
  obtain ⟨h1, h2, h3⟩ := build_setup_done op env d hs
  have hr : (CeedOperatorBuildKernel_Cuda_gen op env d).result = Except.ok false := by
    unfold CeedOperatorBuildKernel_Cuda_gen
    rw [h3, hf]
    rfl
  obtain ⟨hc1, _⟩ := core_frame op dev env d
  have := hc1 (by rw [hr]; simp)
  unfold CeedOperatorBuildKernel_Cuda_gen at this hr
  rw [h1, h2] at this
  exact ⟨this.1, this.2.1, by rw [this.2.2, hr]⟩

theorem apply_data (op : Operator) (dev : Device) (env : CallEnv) (d : OperatorData) :
    (CeedOperatorApplyAdd_Cuda_gen op dev env d).data =
      (CeedOperatorApplyAddCore_Cuda_gen op dev env d).data := by
  unfold CeedOperatorApplyAdd_Cuda_gen
  generalize CeedOperatorApplyAddCore_Cuda_gen op dev env d = c
  obtain ⟨cd, ct, cr⟩ := c
  rcases cr with e | v
  · rfl
  · cases v <;> rfl

theorem step_frame {d d1 : OperatorData} (h : Step d d1) :
    FlagsMono d d1 ∧ (d.is_setup_done = true → d1.is_setup_done = true) ∧
    (SetupInv d → SetupInv d1) := by
  cases h with
  | buildKernel op env =>
    obtain ⟨h1, _, h3, h4, _⟩ := build_frame op env d
    exact ⟨h1, h3, h4⟩
  | buildAssemblyAtPoints op env is_full =>
    obtain ⟨h1, h2, h3, _⟩ := assemblyBuild_frame op env is_full d
    unfold SetupInv FlagsMono
    rw [h1, h2]
    exact ⟨⟨fun h => h, h3⟩, fun h => h, fun h => h⟩
  | buildAssembleQFunction op env =>
    obtain ⟨h1, h2, h3, _⟩ := qfunctionBuild_frame op env d
    unfold SetupInv FlagsMono
    rw [h1, h2]
    exact ⟨⟨fun h => h, h3⟩, fun h => h, fun h => h⟩
  | applyCore op dev env =>
    obtain ⟨h1, h2, h3, _⟩ := applyCore_frame op dev env d
    exact ⟨h1, h2, h3⟩
  | apply op dev env =>
    rw [apply_data]
    obtain ⟨h1, h2, h3, _⟩ := applyCore_frame op dev env d
    exact ⟨h1, h2, h3⟩
  | assembleQFunction op dev env build_objects =>
    obtain ⟨h1, h2, h3, _⟩ := assembleQFunction_entryFrame op dev env build_objects d
    exact ⟨h1, h2, h3⟩
  | assembleDiagonal op dev env =>
    obtain ⟨h1, h2, h3, _⟩ := assembleAtPoints_entryFrame op dev env false d
    exact ⟨h1, h2, h3⟩
  | assembleFull op dev env =>
    obtain ⟨h1, h2, h3, _⟩ := assembleAtPoints_entryFrame op dev env true d
    exact ⟨h1, h2, h3⟩

/-- On reachable backend data the fallback flag of the operator kernel is set only after the
setup was done. -/
theorem reachable_setupInv {d : OperatorData} (h : Reachable d) : SetupInv d := by
  induction h with
  | init =>
    intro h
    simp [OperatorData.init] at h
  | step _ hs ih => exact (step_frame hs).2.2 ih

/-- The first loop of the composite apply only raises the flags of each sub-operator. -/
theorem compositeLaunchLoop_mono (dev : Device) :
    ∀ (subs : List SubOperator) (i : Nat),
      List.Forall₂ FlagsMono (subs.map fun s => s.data) (compositeLaunchLoop dev subs i).data := by
  intro subs
  induction subs with
  | nil => intro i; simp [compositeLaunchLoop]
  | cons sub rest ih =>
    intro i
    unfold compositeLaunchLoop
    by_cases hn : sub.op.num_elem > 0
    · simp only [hn, if_true]
      have hf := (applyCore_frame sub.op dev sub.env sub.data).1
      generalize CeedOperatorApplyAddCore_Cuda_gen sub.op dev sub.env sub.data = c at hf
      obtain ⟨cd, ct, cr⟩ := c
      rcases cr with e | v
      · simp only [List.map_cons]
        refine List.Forall₂.cons hf ?_
        exact List.forall₂_same.mpr (fun x _ => FlagsMono_refl x)
      · simp only [List.map_cons]
        exact List.Forall₂.cons hf (ih (i + 1))
    · simp only [hn, if_false, List.map_cons]
      exact List.Forall₂.cons (FlagsMono_refl _) (ih (i + 1))

theorem composite_data (dev : Device) (subs : List SubOperator) :
    (CeedOperatorApplyAddComposite_Cuda_gen dev subs).data =
      (compositeLaunchLoop dev subs 0).data := by
  unfold CeedOperatorApplyAddComposite_Cuda_gen
  generalize compositeLaunchLoop dev subs 0 = r
  obtain ⟨rd, rt, rr⟩ := r
  rcases rr with e | v <;> rfl

/-! ## Fallback lifecycle (C6, C7, C8) -/

/-- C6. On backend data `d` that an operator can reach: once `use_fallback` is set, every
apply call returns from `CeedOperatorApplyAddCore_Cuda_gen` with `is_run_good = false` without
a step (no build, no binding, no launch) and without a change to the backend data, and
`CeedOperatorApplyAdd_Cuda_gen` passes the request to the fallback operator; once
`use_assembly_fallback` is set, each assembly entry point (QFunction assembly build and update,
at-points diagonal, at-points full) takes the call of the fallback as its only step (no build,
no launch) and leaves the backend data unchanged.  As the backend data is unchanged, the same
holds for every later call. -/
theorem fallback_skips_generated_kernel (d : OperatorData) (hr : Reachable d) (op : Operator)
    (dev : Device) (env : CallEnv) :
    (d.use_fallback = true →
      (CeedOperatorApplyAddCore_Cuda_gen op dev env d).result = Except.ok false ∧
      (CeedOperatorApplyAddCore_Cuda_gen op dev env d).trace = [] ∧
      (CeedOperatorApplyAddCore_Cuda_gen op dev env d).data = d ∧
      (CeedOperatorApplyAdd_Cuda_gen op dev env d).result = Except.ok () ∧
      (CeedOperatorApplyAdd_Cuda_gen op dev env d).trace = [Event.fallback KernelKind.apply] ∧
      (CeedOperatorApplyAdd_Cuda_gen op dev env d).data = d) ∧
    (d.use_assembly_fallback = true →
      ((CeedOperatorLinearAssembleQFunction_Cuda_gen op dev env d).data = d ∧
        (CeedOperatorLinearAssembleQFunction_Cuda_gen op dev env d).trace =
          [Event.fallback KernelKind.assembleQFunction] ∧
        (CeedOperatorLinearAssembleQFunction_Cuda_gen op dev env d).result = Except.ok ()) ∧
      ((CeedOperatorLinearAssembleQFunctionUpdate_Cuda_gen op dev env d).data = d ∧
        (CeedOperatorLinearAssembleQFunctionUpdate_Cuda_gen op dev env d).trace =
          [Event.fallback KernelKind.assembleQFunction] ∧
        (CeedOperatorLinearAssembleQFunctionUpdate_Cuda_gen op dev env d).result =
          Except.ok ()) ∧
      ((CeedOperatorLinearAssembleAddDiagonalAtPoints_Cuda_gen op dev env d).data = d ∧
        (CeedOperatorLinearAssembleAddDiagonalAtPoints_Cuda_gen op dev env d).trace =
          [Event.fallback KernelKind.assembleDiagonal] ∧
        (CeedOperatorLinearAssembleAddDiagonalAtPoints_Cuda_gen op dev env d).result =
          Except.ok ()) ∧
      ((CeedSingleOperatorAssembleAtPoints_Cuda_gen op dev env d).data = d ∧
        (CeedSingleOperatorAssembleAtPoints_Cuda_gen op dev env d).trace =
          [Event.fallback KernelKind.assembleFull] ∧
        (CeedSingleOperatorAssembleAtPoints_Cuda_gen op dev env d).result = Except.ok ())) := by
  constructor
  · intro hf
    have hs := reachable_setupInv hr hf
    obtain ⟨h1, h2, h3⟩ := applyCore_fallback op dev env d hs hf
    refine ⟨h3, h2, h1, ?_, ?_, ?_⟩
    · simp [CeedOperatorApplyAdd_Cuda_gen, h3]
    · simp [CeedOperatorApplyAdd_Cuda_gen, h2, h3]
    · rw [apply_data, h1]
  · intro ha
    exact ⟨(assembleQFunction_entryFrame op dev env true d).2.2.2.1 ha,
      (assembleQFunction_entryFrame op dev env false d).2.2.2.1 ha,
      (assembleAtPoints_entryFrame op dev env false d).2.2.2.1 ha,
      (assembleAtPoints_entryFrame op dev env true d).2.2.2.1 ha⟩

/-- Witness of C6: after an apply call whose compilation failed, the next apply call on the
sample operator goes to the fallback operator as its only step. -/
theorem fallback_skips_generated_kernel_witness :
    (CeedOperatorApplyAdd_Cuda_gen sampleOperator sampleDevice sampleEnvCompileFails
      OperatorData.init).data.use_fallback = true ∧
    (CeedOperatorApplyAdd_Cuda_gen sampleOperator sampleDevice sampleEnvGood
      (CeedOperatorApplyAdd_Cuda_gen sampleOperator sampleDevice sampleEnvCompileFails
        OperatorData.init).data).trace = [Event.fallback KernelKind.apply] :=
  ⟨by decide,
    ((fallback_skips_generated_kernel
      (CeedOperatorApplyAdd_Cuda_gen sampleOperator sampleDevice sampleEnvCompileFails
        OperatorData.init).data
      (Reachable.step Reachable.init
        (Step.apply sampleOperator sampleDevice sampleEnvCompileFails OperatorData.init))
      sampleOperator sampleDevice sampleEnvGood).1 (by decide)).2.2.2.2.1⟩

/-- C7. The fallback flags are monotonic: for every starting backend data, every operator,
device and result of the external calls, a flag (`use_fallback`, `use_assembly_fallback`) that
is true before a call of apply, of the apply core, of the QFunction assembly (build or
update), of the at-points diagonal or full assembly, or of one of the kernel builders, is true
after it; the same holds for each sub-operator of a composite apply. -/
theorem fallback_flags_monotonic (op : Operator) (dev : Device) (env : CallEnv)
    (d : OperatorData) (subs : List SubOperator) :
    FlagsMono d (CeedOperatorApplyAdd_Cuda_gen op dev env d).data ∧
    FlagsMono d (CeedOperatorApplyAddCore_Cuda_gen op dev env d).data ∧
    List.Forall₂ FlagsMono (subs.map fun s => s.data)
      (CeedOperatorApplyAddComposite_Cuda_gen dev subs).data ∧
    FlagsMono d (CeedOperatorLinearAssembleQFunction_Cuda_gen op dev env d).data ∧
    FlagsMono d (CeedOperatorLinearAssembleQFunctionUpdate_Cuda_gen op dev env d).data ∧
    FlagsMono d (CeedOperatorLinearAssembleAddDiagonalAtPoints_Cuda_gen op dev env d).data ∧
    FlagsMono d (CeedSingleOperatorAssembleAtPoints_Cuda_gen op dev env d).data ∧
    FlagsMono d (CeedOperatorBuildKernel_Hip_gen op env d).data ∧
    FlagsMono d (CeedOperatorBuildKernelDiagonalAssemblyAtPoints_Hip_gen op env d).data ∧
    FlagsMono d (CeedOperatorBuildKernelFullAssemblyAtPoints_Hip_gen op env d).data ∧
    FlagsMono d (CeedOperatorBuildKernelLinearAssembleQFunction_Hip_gen op env d).data := by
  refine ⟨(step_frame (Step.apply op dev env d)).1, (step_frame (Step.applyCore op dev env d)).1,
    ?_, (step_frame (Step.assembleQFunction op dev env true d)).1,
    (step_frame (Step.assembleQFunction op dev env false d)).1,
    (step_frame (Step.assembleDiagonal op dev env d)).1,
    (step_frame (Step.assembleFull op dev env d)).1,
    (step_frame (Step.buildKernel op env d)).1,
    (step_frame (Step.buildAssemblyAtPoints op env false d)).1,
    (step_frame (Step.buildAssemblyAtPoints op env true d)).1,
    (step_frame (Step.buildAssembleQFunction op env d)).1⟩
  rw [composite_data]
  exact compositeLaunchLoop_mono dev subs 0

/-- C8 (as stated, refuted). On the sample at-points operator a diagonal assembly whose launch
fails sets `use_assembly_fallback`; the full assembly called next, with a compiler and a launch
that would succeed, neither builds nor launches its kernel: its only step is the call of the
fallback, and `assemble_full` stays unset.  From a fresh operator the same full assembly call
builds and launches its kernel. -/
theorem diagonal_failure_blocks_full_assembly :
    (CeedOperatorLinearAssembleAddDiagonalAtPoints_Cuda_gen sampleOperator sampleDevice
      sampleEnvLaunchFails OperatorData.init).data.use_assembly_fallback = true ∧
    (CeedSingleOperatorAssembleAtPoints_Cuda_gen sampleOperator sampleDevice sampleEnvGood
      (CeedOperatorLinearAssembleAddDiagonalAtPoints_Cuda_gen sampleOperator sampleDevice
        sampleEnvLaunchFails OperatorData.init).data).trace =
      [Event.fallback KernelKind.assembleFull] ∧
    (CeedSingleOperatorAssembleAtPoints_Cuda_gen sampleOperator sampleDevice sampleEnvGood
      (CeedOperatorLinearAssembleAddDiagonalAtPoints_Cuda_gen sampleOperator sampleDevice
        sampleEnvLaunchFails OperatorData.init).data).data.assemble_full = false ∧
    (CeedSingleOperatorAssembleAtPoints_Cuda_gen sampleOperator sampleDevice sampleEnvGood
      OperatorData.init).trace.any Event.isLaunch = true := by
  decide

/-- C8 (amended). A failure is recorded in one of two flags, `use_fallback` for the operator
kernel and `use_assembly_fallback` shared by the assembly kernels.  For the at-points diagonal
assembly and the at-points full assembly alike: a failed compilation or a failed launch
during the call sets `use_assembly_fallback`; once that flag is set, a later call of either
assembly, full or diagonal, takes the call of the fallback as its only step; and the call sets
`use_fallback` only if the compilation of the operator kernel itself fails in it, so that the
failure of an assembly kernel never forces apply to fall back. -/
theorem assembly_failure_sets_shared_flag (op : Operator) (dev : Device) (env : CallEnv)
    (d : OperatorData) :
    ((∀ k a c, Event.compile k a c false ∈
          (CeedOperatorLinearAssembleAddDiagonalAtPoints_Cuda_gen op dev env d).trace →
        (CeedOperatorLinearAssembleAddDiagonalAtPoints_Cuda_gen op dev env
          d).data.use_assembly_fallback = true) ∧
      (∀ k dims sm, Event.launch k dims sm false ∈
          (CeedOperatorLinearAssembleAddDiagonalAtPoints_Cuda_gen op dev env d).trace →
        (CeedOperatorLinearAssembleAddDiagonalAtPoints_Cuda_gen op dev env
          d).data.use_assembly_fallback = true) ∧
      ((CeedOperatorLinearAssembleAddDiagonalAtPoints_Cuda_gen op dev env d).data.use_fallback
          = true → d.use_fallback = true ∨ env.compile_good = false)) ∧
    ((∀ k a c, Event.compile k a c false ∈
          (CeedSingleOperatorAssembleAtPoints_Cuda_gen op dev env d).trace →
        (CeedSingleOperatorAssembleAtPoints_Cuda_gen op dev env
          d).data.use_assembly_fallback = true) ∧
      (∀ k dims sm, Event.launch k dims sm false ∈
          (CeedSingleOperatorAssembleAtPoints_Cuda_gen op dev env d).trace →
        (CeedSingleOperatorAssembleAtPoints_Cuda_gen op dev env
          d).data.use_assembly_fallback = true) ∧
      ((CeedSingleOperatorAssembleAtPoints_Cuda_gen op dev env d).data.use_fallback
          = true → d.use_fallback = true ∨ env.compile_good = false)) ∧
    (d.use_assembly_fallback = true →
      (CeedSingleOperatorAssembleAtPoints_Cuda_gen op dev env d).trace =
        [Event.fallback KernelKind.assembleFull] ∧
      (CeedOperatorLinearAssembleAddDiagonalAtPoints_Cuda_gen op dev env d).trace =
        [Event.fallback KernelKind.assembleDiagonal]) := by
  obtain ⟨_, _, _, f4, f5, f6, f7, _⟩ := assembleAtPoints_entryFrame op dev env true d
  obtain ⟨_, _, _, g4, g5, g6, g7, _⟩ := assembleAtPoints_entryFrame op dev env false d
  exact ⟨⟨g6, g7, g5⟩, ⟨f6, f7, f5⟩, fun h => ⟨(f4 h).2.1, (g4 h).2.1⟩⟩

/-- Witness of the amended C8 on the sample at-points operator: the failed launch of the
diagonal assembly sets the shared flag. -/
theorem assembly_failure_sets_shared_flag_witness :
    (CeedOperatorLinearAssembleAddDiagonalAtPoints_Cuda_gen sampleOperator sampleDevice
      sampleEnvLaunchFails OperatorData.init).data.use_assembly_fallback = true :=
  (assembly_failure_sets_shared_flag sampleOperator sampleDevice sampleEnvLaunchFails
    OperatorData.init).1.2.1 KernelKind.assembleDiagonal ⟨4, 4, 1, 10⟩ 128 (by decide)

/-- A check of C5 on the sample operator: three builder calls, the first with a failing
compiler, compile once, synthesise once and leave the operator in fallback. -/
theorem build_sequence_sample :
    (buildSequence sampleOperator [sampleEnvCompileFails, sampleEnvGood, sampleEnvGood]
      OperatorData.init).2.countP Event.isCompile = 1 ∧
    (buildSequence sampleOperator [sampleEnvCompileFails, sampleEnvGood, sampleEnvGood]
      OperatorData.init).2.countP Event.isSynthesize = 1 ∧
    (buildSequence sampleOperator [sampleEnvCompileFails, sampleEnvGood, sampleEnvGood]
      OperatorData.init).1.use_fallback = true := by
  decide

/-! ## Field classifier: quadrature compatibility (C11) -/

theorem ValuesAgree_nil (p : OperatorField → Prop) (v : OperatorField → Int) (q : Int) :
    ValuesAgree p v q [] :=
  ⟨fun _ h => absurd h (List.not_mem_nil _), fun _ h => absurd h (List.not_mem_nil _)⟩

theorem ValuesAgree_cons_of (p : OperatorField → Prop) (v : OperatorField → Int) (q : Int)
    (f : OperatorField) (rest : List OperatorField) (hp : p f) (hv : 0 < v f) :
    ValuesAgree p v q (f :: rest) ↔ (q = 0 ∨ v f = q) ∧ ValuesAgree p v (v f) rest := by
  constructor
  · rintro ⟨hA, hC⟩
    refine ⟨hA f (List.mem_cons_self _ _) hp, fun g hg hpg => Or.inr ?_, fun g hg h hh => ?_⟩
    · exact hC g (List.mem_cons_of_mem _ hg) f (List.mem_cons_self _ _) hpg hp
    · exact hC g (List.mem_cons_of_mem _ hg) h (List.mem_cons_of_mem _ hh)
  · rintro ⟨h0, hA, hC⟩
    have key : ∀ g ∈ rest, p g → v g = v f := fun g hg hpg =>
      (hA g hg hpg).resolve_left (by omega)
    have key2 : ∀ g ∈ f :: rest, p g → v g = v f := by
      intro g hg hpg
      rcases List.mem_cons.1 hg with h | h
      · rw [h]
      · exact key g h hpg
    refine ⟨fun g hg hpg => ?_, fun g hg h hh hpg hph => ?_⟩
    · rw [key2 g hg hpg]; exact h0
    · rw [key2 g hg hpg, key2 h hh hph]

theorem ValuesAgree_cons_not (p : OperatorField → Prop) (v : OperatorField → Int) (q : Int)
    (f : OperatorField) (rest : List OperatorField) (hp : ¬ p f) :
    ValuesAgree p v q (f :: rest) ↔ ValuesAgree p v q rest := by
  constructor
  · rintro ⟨hA, hC⟩
    exact ⟨fun g hg => hA g (List.mem_cons_of_mem _ hg),
      fun g hg h hh => hC g (List.mem_cons_of_mem _ hg) h (List.mem_cons_of_mem _ hh)⟩
  · rintro ⟨hA, hC⟩
    refine ⟨fun g hg hpg => ?_, fun g hg h hh hpg hph => ?_⟩
    · rcases List.mem_cons.1 hg with e | hg
      · rw [e] at hpg; exact absurd hpg hp
      · exact hA g hg hpg
    · rcases List.mem_cons.1 hg with e | hg
      · rw [e] at hpg; exact absurd hpg hp
      · rcases List.mem_cons.1 hh with e | hh
        · rw [e] at hph; exact absurd hph hp
        · exact hC g hg h hh hpg hph

/-- With no running value yet, the fields agree exactly if no two of them differ. -/
theorem QuadratureAgree_zero_iff (basis_info : CeedBasis → BasisInfo)
    (fields : List OperatorField) :
    QuadratureAgree basis_info 0 0 fields ↔ ¬ QuadratureMismatch basis_info fields := by
  unfold QuadratureAgree ValuesAgree QuadratureMismatch
  constructor
  · rintro ⟨⟨_, h1⟩, ⟨_, h2⟩⟩ hm
    rcases hm with ⟨f, hf, g, hg, bf, bg, hne⟩ | ⟨f, hf, g, hg, bf, bg, hne⟩
    · exact hne (h1 f hf g hg bf bg)
    · exact hne (h2 f hf g hg bf bg)
  · intro hm
    refine ⟨⟨fun _ _ _ => Or.inl rfl, fun f hf g hg bf bg => ?_⟩,
      ⟨fun _ _ _ => Or.inl rfl, fun f hf g hg bf bg => ?_⟩⟩
    · by_contra hne
      exact hm (Or.inl ⟨f, hf, g, hg, bf, bg, hne⟩)
    · by_contra hne
      exact hm (Or.inr ⟨f, hf, g, hg, bf, bg, hne⟩)

theorem kernelDataStep_none (bi : CeedBasis → BasisInfo) (s : KernelDataScan)
    (f : OperatorField) (hb : f.basis = CEED_BASIS_NONE) :
    kernelDataStep bi s f = Except.ok s := by
  simp [kernelDataStep, hb]

theorem kernelDataStep_ok (bi : CeedBasis → BasisInfo) (s : KernelDataScan)
    (f : OperatorField) (hb : f.basis ≠ CEED_BASIS_NONE)
    (hq : s.Q = 0 ∨ (bi f.basis).num_qpts = s.Q)
    (hq1 : (bi f.basis).is_tensor = true → s.Q_1d = 0 ∨ (bi f.basis).num_qpts_1d = s.Q_1d) :
    ∃ s1, kernelDataStep bi s f = Except.ok s1 ∧ s1.Q = (bi f.basis).num_qpts ∧
      s1.Q_1d = (if (bi f.basis).is_tensor = true then (bi f.basis).num_qpts_1d else s.Q_1d) ∧
      s1.is_all_3d = (s.is_all_3d && decide ((bi f.basis).dim = 3)) := by
  by_cases ht : (bi f.basis).is_tensor = true
  · have h1 := hq1 ht
    exact ⟨_, by simp only [kernelDataStep, hb, hq, h1, ht, ne_eq, not_false_eq_true, if_true,
      not_true_eq_false, if_false]; rfl, by simp [ht]⟩
  · exact ⟨_, by simp only [kernelDataStep, hb, hq, ht, ne_eq, not_false_eq_true, if_true,
      not_true_eq_false, if_false]; rfl, by simp [ht]⟩

theorem kernelDataStep_error (bi : CeedBasis → BasisInfo) (s : KernelDataScan)
    (f : OperatorField) (hb : f.basis ≠ CEED_BASIS_NONE)
    (h : ¬ ((s.Q = 0 ∨ (bi f.basis).num_qpts = s.Q) ∧
      ((bi f.basis).is_tensor = true → s.Q_1d = 0 ∨ (bi f.basis).num_qpts_1d = s.Q_1d))) :
    kernelDataStep bi s f =
      Except.error (CeedError.BACKEND "Quadrature spaces must be compatible") := by
  by_cases hq : s.Q = 0 ∨ (bi f.basis).num_qpts = s.Q
  · by_cases ht : (bi f.basis).is_tensor = true
    · have h1 : ¬ (s.Q_1d = 0 ∨ (bi f.basis).num_qpts_1d = s.Q_1d) := fun h1 => h ⟨hq, fun _ => h1⟩
      simp only [kernelDataStep, hb, hq, h1, ht, ne_eq, not_false_eq_true, if_true,
        not_true_eq_false, if_false]
    · exact absurd ⟨hq, fun h1 => absurd h1 ht⟩ h
  · simp only [kernelDataStep, hb, hq, ne_eq, not_false_eq_true, if_true]

/-- The loops of lines 100-163 on fields with positive quadrature counts: they pass exactly if
the fields agree, and then leave the common counts in `*Q` and `*Q_1d`. -/
theorem kernelDataLoop_quadrature (bi : CeedBasis → BasisInfo) :
    ∀ (fields : List OperatorField) (s : KernelDataScan),
      (∀ f ∈ fields, f.basis ≠ CEED_BASIS_NONE → 0 < (bi f.basis).num_qpts) →
      (∀ f ∈ fields, f.basis ≠ CEED_BASIS_NONE → (bi f.basis).is_tensor = true →
        0 < (bi f.basis).num_qpts_1d) →
      (QuadratureAgree bi s.Q s.Q_1d fields →
        ∃ s1, kernelDataLoop bi fields s = Except.ok s1 ∧
          (∀ g ∈ fields, g.basis ≠ CEED_BASIS_NONE → s1.Q = (bi g.basis).num_qpts) ∧
          ((∀ g ∈ fields, g.basis = CEED_BASIS_NONE) → s1.Q = s.Q) ∧
          (∀ g ∈ fields, g.basis ≠ CEED_BASIS_NONE → (bi g.basis).is_tensor = true →
            s1.Q_1d = (bi g.basis).num_qpts_1d) ∧
          ((∀ g ∈ fields, ¬ (g.basis ≠ CEED_BASIS_NONE ∧ (bi g.basis).is_tensor = true)) →
            s1.Q_1d = s.Q_1d)) ∧
      (¬ QuadratureAgree bi s.Q s.Q_1d fields →
        kernelDataLoop bi fields s =
          Except.error (CeedError.BACKEND "Quadrature spaces must be compatible")) := by
  intro fields
  induction fields with
  | nil =>
    intro s _ _
    refine ⟨fun _ => ⟨s, rfl, ?_, fun _ => rfl, ?_, fun _ => rfl⟩, fun h => ?_⟩
    · intro g hg; exact absurd hg (List.not_mem_nil _)
    · intro g hg; exact absurd hg (List.not_mem_nil _)
    · exact absurd ⟨ValuesAgree_nil _ _ _, ValuesAgree_nil _ _ _⟩ h
  | cons f rest ih =>
    intro s hpos hpos1
    have hposr : ∀ g ∈ rest, g.basis ≠ CEED_BASIS_NONE → 0 < (bi g.basis).num_qpts :=
      fun g hg => hpos g (List.mem_cons_of_mem _ hg)
    have hposr1 : ∀ g ∈ rest, g.basis ≠ CEED_BASIS_NONE → (bi g.basis).is_tensor = true →
        0 < (bi g.basis).num_qpts_1d := fun g hg => hpos1 g (List.mem_cons_of_mem _ hg)
    by_cases hb : f.basis = CEED_BASIS_NONE
    · -- a field without a basis is skipped
      have hstep := kernelDataStep_none bi s f hb
      have hagree : QuadratureAgree bi s.Q s.Q_1d (f :: rest) ↔
          QuadratureAgree bi s.Q s.Q_1d rest := by
        unfold QuadratureAgree
        rw [ValuesAgree_cons_not _ _ _ _ _ (by simp [hb]),
          ValuesAgree_cons_not _ _ _ _ _ (by simp [hb])]
      obtain ⟨ihok, iherr⟩ := ih s hposr hposr1
      refine ⟨fun h => ?_, fun h => ?_⟩
      · obtain ⟨s1, h1, p1, p2, p3, p4⟩ := ihok (hagree.1 h)
        refine ⟨s1, by simp only [kernelDataLoop, hstep]; exact h1, ?_, ?_, ?_, ?_⟩
        · intro g hg hbg
          rcases List.mem_cons.1 hg with e | hg
          · rw [e] at hbg; exact absurd hb hbg
          · exact p1 g hg hbg
        · intro hall
          exact p2 fun g hg => hall g (List.mem_cons_of_mem _ hg)
        · intro g hg hbg htg
          rcases List.mem_cons.1 hg with e | hg
          · rw [e] at hbg; exact absurd hb hbg
          · exact p3 g hg hbg htg
        · intro hall
          exact p4 fun g hg => hall g (List.mem_cons_of_mem _ hg)
      · simp only [kernelDataLoop, hstep]
        exact iherr fun h1 => h (hagree.2 h1)
    · have hnq := hpos f (List.mem_cons_self _ _) hb
      by_cases hchk : (s.Q = 0 ∨ (bi f.basis).num_qpts = s.Q) ∧
          ((bi f.basis).is_tensor = true → s.Q_1d = 0 ∨ (bi f.basis).num_qpts_1d = s.Q_1d)
      · obtain ⟨s0, hstep, hQ0, hQ10, _⟩ := kernelDataStep_ok bi s f hb hchk.1 hchk.2
        have hagree : QuadratureAgree bi s.Q s.Q_1d (f :: rest) ↔
            QuadratureAgree bi s0.Q s0.Q_1d rest := by
          unfold QuadratureAgree
          rw [ValuesAgree_cons_of _ _ _ _ _ hb hnq, hQ0, hQ10]
          by_cases ht : (bi f.basis).is_tensor = true
          · rw [ValuesAgree_cons_of _ _ _ _ _ ⟨hb, ht⟩ (hpos1 f (List.mem_cons_self _ _) hb ht)]
            simp only [ht, if_true]
            constructor
            · rintro ⟨⟨_, a⟩, _, b⟩; exact ⟨a, b⟩
            · rintro ⟨a, b⟩; exact ⟨⟨hchk.1, a⟩, hchk.2 ht, b⟩
          · rw [ValuesAgree_cons_not _ _ _ _ _ (fun h => ht h.2)]
            simp only [ht, if_false]
            constructor
            · rintro ⟨⟨_, a⟩, b⟩; exact ⟨a, b⟩
            · rintro ⟨a, b⟩; exact ⟨⟨hchk.1, a⟩, b⟩
        obtain ⟨ihok, iherr⟩ := ih s0 hposr hposr1
        refine ⟨fun h => ?_, fun h => ?_⟩
        · have hr := hagree.1 h
          obtain ⟨s1, h1, p1, p2, p3, p4⟩ := ihok hr
          have hQf : s1.Q = (bi f.basis).num_qpts := by
            by_cases hex : ∀ g ∈ rest, g.basis = CEED_BASIS_NONE
            · rw [p2 hex, hQ0]
            · push_neg at hex
              obtain ⟨g, hg, hbg⟩ := hex
              rw [p1 g hg hbg]
              have hgq : (bi g.basis).num_qpts = s0.Q :=
                (hr.1.1 g hg hbg).resolve_left (by rw [hQ0]; omega)
              rw [hgq, hQ0]
          refine ⟨s1, by simp only [kernelDataLoop, hstep]; exact h1, ?_, ?_, ?_, ?_⟩
          · intro g hg hbg
            rcases List.mem_cons.1 hg with e | hg
            · rw [e]; exact hQf
            · exact p1 g hg hbg
          · intro hall
            exact absurd (hall f (List.mem_cons_self _ _)) hb
          · intro g hg hbg htg
            rcases List.mem_cons.1 hg with e | hg
            · rw [e] at hbg htg
              have hp1 := hpos1 f (List.mem_cons_self _ _) hbg htg
              rw [e]
              have hQ10t : s0.Q_1d = (bi f.basis).num_qpts_1d := by rw [hQ10]; simp [htg]
              by_cases hex : ∀ g ∈ rest,
                  ¬ (g.basis ≠ CEED_BASIS_NONE ∧ (bi g.basis).is_tensor = true)
              · rw [p4 hex, hQ10t]
              · push_neg at hex
                obtain ⟨g1, hg1, hbg1, htg1⟩ := hex
                rw [p3 g1 hg1 hbg1 htg1]
                have hgq : (bi g1.basis).num_qpts_1d = s0.Q_1d :=
                  (hr.2.1 g1 hg1 ⟨hbg1, htg1⟩).resolve_left (by rw [hQ10t]; omega)
                rw [hgq, hQ10t]
            · exact p3 g hg hbg htg
          · intro hall
            have hnt : ¬ (bi f.basis).is_tensor = true :=
              fun ht => hall f (List.mem_cons_self _ _) ⟨hb, ht⟩
            rw [p4 fun g hg => hall g (List.mem_cons_of_mem _ hg), hQ10]
            simp [hnt]
        · simp only [kernelDataLoop, hstep]
          exact iherr fun h1 => h (hagree.2 h1)
      · have hstep := kernelDataStep_error bi s f hb hchk
        refine ⟨fun h => ?_, fun _ => by simp only [kernelDataLoop, hstep]⟩
        exfalso
        apply hchk
        refine ⟨h.1.1 f (List.mem_cons_self _ _) hb, fun ht => ?_⟩
        exact h.2.1 f (List.mem_cons_self _ _) ⟨hb, ht⟩

theorem buildKernelData_of_loop_error (bi : CeedBasis → BasisInfo)
    (inputs outputs : List OperatorField) (max_dim : Int) (e : CeedError)
    (h : kernelDataLoop bi (inputs ++ outputs)
      { is_all_3d := true, max_dim := max_dim, max_P := 0, max_P_1d := 0, Q := 0, Q_1d := 0 } =
        Except.error e) :
    CeedOperatorBuildKernelData_Hip_gen bi inputs outputs max_dim = Except.error e := by
  simp only [CeedOperatorBuildKernelData_Hip_gen, h]

theorem buildKernelData_of_loop_ok (bi : CeedBasis → BasisInfo)
    (inputs outputs : List OperatorField) (max_dim : Int) (s : KernelDataScan)
    (h : kernelDataLoop bi (inputs ++ outputs)
      { is_all_3d := true, max_dim := max_dim, max_P := 0, max_P_1d := 0, Q := 0, Q_1d := 0 } =
        Except.ok s) :
    ∃ kd, CeedOperatorBuildKernelData_Hip_gen bi inputs outputs max_dim = Except.ok kd ∧
      kd.Q = s.Q ∧ kd.Q_1d = s.Q_1d ∧
      kd.is_all_tensor = ((inputs ++ outputs).all fun field =>
        if field.basis ≠ CEED_BASIS_NONE then (bi field.basis).is_tensor else true) ∧
      kd.use_3d_slices = (if s.is_all_3d && kd.is_all_tensor then
        ((inputs ++ outputs).foldl (use3dSlicesStep bi) (false, false)).1 else false) := by
  refine ⟨{ max_P := s.max_P, max_P_1d := s.max_P_1d, Q := s.Q, Q_1d := s.Q_1d,
            max_dim := s.max_dim,
            is_all_tensor := (inputs ++ outputs).all fun field =>
              if field.basis ≠ CEED_BASIS_NONE then (bi field.basis).is_tensor else true,
            use_3d_slices :=
              if s.is_all_3d && ((inputs ++ outputs).all fun field =>
                if field.basis ≠ CEED_BASIS_NONE then (bi field.basis).is_tensor else true) then
                ((inputs ++ outputs).foldl (use3dSlicesStep bi) (false, false)).1
              else false }, ?_, rfl, rfl, rfl, rfl⟩
  simp only [CeedOperatorBuildKernelData_Hip_gen, h]

/-- C11. Provided every basis of a field reports a positive number of quadrature points and
every tensor basis a positive 1-D count, `CeedOperatorBuildKernelData_Hip_gen` returns the
backend error "Quadrature spaces must be compatible" exactly if two basis-bearing fields among
the inputs and outputs report different numbers of quadrature points or two fields with a
tensor basis report different 1-D counts.  Otherwise it succeeds: `Q` is the count common to the
basis-bearing fields, or 0 if no field has a basis, and `Q_1d` is the 1-D count common to the
fields with a tensor basis, or 0 if no field has one. -/
theorem kernel_data_quadrature_compatible (basis_info : CeedBasis → BasisInfo)
    (inputs outputs : List OperatorField) (max_dim : Int)
    (hQ : ∀ f ∈ inputs ++ outputs, f.basis ≠ CEED_BASIS_NONE →
      0 < (basis_info f.basis).num_qpts)
    (hQ1 : ∀ f ∈ inputs ++ outputs, f.basis ≠ CEED_BASIS_NONE →
      (basis_info f.basis).is_tensor = true → 0 < (basis_info f.basis).num_qpts_1d) :
    (CeedOperatorBuildKernelData_Hip_gen basis_info inputs outputs max_dim =
        Except.error (CeedError.BACKEND "Quadrature spaces must be compatible") ↔
      QuadratureMismatch basis_info (inputs ++ outputs)) ∧
    (¬ QuadratureMismatch basis_info (inputs ++ outputs) →
      ∃ kd, CeedOperatorBuildKernelData_Hip_gen basis_info inputs outputs max_dim =
          Except.ok kd ∧
        (∀ f ∈ inputs ++ outputs, f.basis ≠ CEED_BASIS_NONE →
          kd.Q = (basis_info f.basis).num_qpts) ∧
        ((∀ f ∈ inputs ++ outputs, f.basis = CEED_BASIS_NONE) → kd.Q = 0) ∧
        (∀ f ∈ inputs ++ outputs, f.basis ≠ CEED_BASIS_NONE →
          (basis_info f.basis).is_tensor = true → kd.Q_1d = (basis_info f.basis).num_qpts_1d) ∧
        ((∀ f ∈ inputs ++ outputs,
            ¬ (f.basis ≠ CEED_BASIS_NONE ∧ (basis_info f.basis).is_tensor = true)) →
          kd.Q_1d = 0)) := by
  obtain ⟨hok, herr⟩ := kernelDataLoop_quadrature basis_info (inputs ++ outputs)
    { is_all_3d := true, max_dim := max_dim, max_P := 0, max_P_1d := 0, Q := 0, Q_1d := 0 }
    hQ hQ1
  have hiff := QuadratureAgree_zero_iff basis_info (inputs ++ outputs)
  have hsucc : ¬ QuadratureMismatch basis_info (inputs ++ outputs) →
      ∃ kd, CeedOperatorBuildKernelData_Hip_gen basis_info inputs outputs max_dim =
          Except.ok kd ∧
        (∀ f ∈ inputs ++ outputs, f.basis ≠ CEED_BASIS_NONE →
          kd.Q = (basis_info f.basis).num_qpts) ∧
        ((∀ f ∈ inputs ++ outputs, f.basis = CEED_BASIS_NONE) → kd.Q = 0) ∧
        (∀ f ∈ inputs ++ outputs, f.basis ≠ CEED_BASIS_NONE →
          (basis_info f.basis).is_tensor = true → kd.Q_1d = (basis_info f.basis).num_qpts_1d) ∧
        ((∀ f ∈ inputs ++ outputs,
            ¬ (f.basis ≠ CEED_BASIS_NONE ∧ (basis_info f.basis).is_tensor = true)) →
          kd.Q_1d = 0) := by
    intro hm
    obtain ⟨s1, h1, p1, p2, p3, p4⟩ := hok (hiff.2 hm)
    obtain ⟨kd, hkd, e1, e2, _⟩ := buildKernelData_of_loop_ok basis_info inputs outputs max_dim
      s1 h1
    refine ⟨kd, hkd, ?_, ?_, ?_, ?_⟩
    · rw [e1]; exact p1
    · rw [e1]; exact p2
    · rw [e2]; exact p3
    · rw [e2]; exact p4
  refine ⟨⟨fun h => ?_, fun h => ?_⟩, hsucc⟩
  · by_contra hm
    obtain ⟨kd, hkd, _⟩ := hsucc hm
    rw [hkd] at h
    exact absurd h (by simp)
  · exact buildKernelData_of_loop_error basis_info inputs outputs max_dim _
      (herr fun ha => (hiff.1 ha) h)

/-- Witness of C11: two GRAD inputs and an INTERP output, all on the tensor basis 1 with 64
quadrature points, 4 per dimension. -/
theorem kernel_data_quadrature_compatible_witness :
    (CeedOperatorBuildKernelData_Hip_gen sampleBasisInfo sampleInputsGradGrad
          [sampleFieldU] 1 =
        Except.error (CeedError.BACKEND "Quadrature spaces must be compatible") ↔
      QuadratureMismatch sampleBasisInfo (sampleInputsGradGrad ++ [sampleFieldU])) ∧
    (¬ QuadratureMismatch sampleBasisInfo
        (sampleInputsGradGrad ++ [sampleFieldU]) →
      ∃ kd, CeedOperatorBuildKernelData_Hip_gen sampleBasisInfo sampleInputsGradGrad
          [sampleFieldU] 1 = Except.ok kd ∧
        (∀ f ∈ sampleInputsGradGrad ++ [sampleFieldU],
          f.basis ≠ CEED_BASIS_NONE → kd.Q = (sampleBasisInfo f.basis).num_qpts) ∧
        ((∀ f ∈ sampleInputsGradGrad ++ [sampleFieldU],
          f.basis = CEED_BASIS_NONE) → kd.Q = 0) ∧
        (∀ f ∈ sampleInputsGradGrad ++ [sampleFieldU],
          f.basis ≠ CEED_BASIS_NONE → (sampleBasisInfo f.basis).is_tensor = true →
            kd.Q_1d = (sampleBasisInfo f.basis).num_qpts_1d) ∧
        ((∀ f ∈ sampleInputsGradGrad ++ [sampleFieldU],
            ¬ (f.basis ≠ CEED_BASIS_NONE ∧ (sampleBasisInfo f.basis).is_tensor = true)) →
          kd.Q_1d = 0)) :=
  kernel_data_quadrature_compatible sampleBasisInfo sampleInputsGradGrad
    [sampleFieldU] 1 (by decide) (by decide)

/-! ## Field classifier: the 3-D slice strategy (C12) -/

/-- The loops of lines 100-163 fail only with the quadrature error, and leave in `is_all_3d`
whether every basis-bearing field is 3-D. -/
theorem kernelDataLoop_all_3d (bi : CeedBasis → BasisInfo) :
    ∀ (fields : List OperatorField) (s : KernelDataScan),
      (∀ e, kernelDataLoop bi fields s = Except.error e →
        e = CeedError.BACKEND "Quadrature spaces must be compatible") ∧
      (∀ s1, kernelDataLoop bi fields s = Except.ok s1 →
        s1.is_all_3d = (s.is_all_3d && fields.all fun f =>
          if f.basis ≠ CEED_BASIS_NONE then decide ((bi f.basis).dim = 3) else true)) := by
  intro fields
  induction fields with
  | nil =>
    intro s
    refine ⟨fun e h => ?_, fun s1 h => ?_⟩
    · simp [kernelDataLoop] at h
    · simp only [kernelDataLoop, Except.ok.injEq] at h
      simp [h]
  | cons f rest ih =>
    intro s
    by_cases hb : f.basis = CEED_BASIS_NONE
    · have hstep := kernelDataStep_none bi s f hb
      simp only [kernelDataLoop, hstep]
      refine ⟨(ih s).1, fun s1 h => ?_⟩
      rw [(ih s).2 s1 h]
      simp [hb]
    · by_cases hchk : (s.Q = 0 ∨ (bi f.basis).num_qpts = s.Q) ∧
          ((bi f.basis).is_tensor = true → s.Q_1d = 0 ∨ (bi f.basis).num_qpts_1d = s.Q_1d)
      · obtain ⟨s0, hstep, _, _, h3⟩ := kernelDataStep_ok bi s f hb hchk.1 hchk.2
        simp only [kernelDataLoop, hstep]
        refine ⟨(ih s0).1, fun s1 h => ?_⟩
        rw [(ih s0).2 s1 h, h3]
        simp [hb, Bool.and_assoc]
      · have hstep := kernelDataStep_error bi s f hb hchk
        simp only [kernelDataLoop, hstep]
        refine ⟨fun e h => ?_, fun s1 h => ?_⟩
        · simp only [Except.error.injEq] at h
          exact h.symm
        · simp at h

/-- The loops of lines 170-199 from the state `(use_3d_slices, was_grad_found) = (u, w)`. -/
theorem use3dSlices_fold (bi : CeedBasis → BasisInfo) :
    ∀ (fields : List OperatorField) (u w : Bool),
      ((fields.foldl (use3dSlicesStep bi) (u, w)).1 = true ↔
        if ∃ f ∈ fields, f.eval_mode = CeedEvalMode.GRAD then
          (∀ f ∈ fields, f.eval_mode = CeedEvalMode.GRAD → (bi f.basis).has_collo_grad = true) ∧
            (w = true → u = true)
        else u = true) := by
  intro fields
  induction fields with
  | nil => intro u w; simp
  | cons f rest ih =>
    intro u w
    simp only [List.foldl_cons]
    by_cases hg : f.eval_mode = CeedEvalMode.GRAD
    · have hstep : use3dSlicesStep bi (u, w) f =
          ((bi f.basis).has_collo_grad && (if w then u else true), true) := by
        simp [use3dSlicesStep, hg]
      rw [hstep, ih]
      have hex : ∃ g ∈ f :: rest, g.eval_mode = CeedEvalMode.GRAD :=
        ⟨f, List.mem_cons_self _ _, hg⟩
      simp only [hex, if_true]
      by_cases hr : ∃ g ∈ rest, g.eval_mode = CeedEvalMode.GRAD
      · simp only [hr, if_true, List.mem_cons, forall_eq_or_imp, hg, true_implies,
          Bool.and_eq_true]
        cases w <;> simp <;> tauto
      · simp only [hr, if_false, List.mem_cons, forall_eq_or_imp, hg, true_implies,
          Bool.and_eq_true]
        have hall : ∀ a ∈ rest, a.eval_mode = CeedEvalMode.GRAD →
            (bi a.basis).has_collo_grad = true := fun a ha hga => absurd ⟨a, ha, hga⟩ hr
        simp only [iff_true_intro hall, and_true, true_and]
        cases w <;> simp
    · have hstep : use3dSlicesStep bi (u, w) f = (u, w) := by
        simp [use3dSlicesStep, hg]
      rw [hstep, ih]
      have hex : (∃ g ∈ f :: rest, g.eval_mode = CeedEvalMode.GRAD) ↔
          ∃ g ∈ rest, g.eval_mode = CeedEvalMode.GRAD := by
        simp [hg]
      have hall : (∀ g ∈ f :: rest, g.eval_mode = CeedEvalMode.GRAD →
            (bi g.basis).has_collo_grad = true) ↔
          ∀ g ∈ rest, g.eval_mode = CeedEvalMode.GRAD → (bi g.basis).has_collo_grad = true := by
        simp [hg]
      simp only [hex, hall]

/-- C12. Whenever `CeedOperatorBuildKernelData_Hip_gen` returns its values, `use_3d_slices` is
true exactly if every basis-bearing field among the inputs and outputs is 3-D and has a tensor
basis, at least one field has eval mode GRAD, and the basis of every GRAD field has the
collocated-gradient matrix `d_collo_grad_1d`; the order of the fields plays no part. -/
theorem use_3d_slices_iff (basis_info : CeedBasis → BasisInfo)
    (inputs outputs : List OperatorField) (max_dim : Int) (kd : KernelData)
    (h : CeedOperatorBuildKernelData_Hip_gen basis_info inputs outputs max_dim = Except.ok kd) :
    kd.use_3d_slices = true ↔
      (∀ f ∈ inputs ++ outputs, f.basis ≠ CEED_BASIS_NONE →
        (basis_info f.basis).dim = 3 ∧ (basis_info f.basis).is_tensor = true) ∧
      (∃ f ∈ inputs ++ outputs, f.eval_mode = CeedEvalMode.GRAD) ∧
      (∀ f ∈ inputs ++ outputs, f.eval_mode = CeedEvalMode.GRAD →
        (basis_info f.basis).has_collo_grad = true) := by
  cases hloop : kernelDataLoop basis_info (inputs ++ outputs)
      { is_all_3d := true, max_dim := max_dim, max_P := 0, max_P_1d := 0, Q := 0, Q_1d := 0 } with
  | error e =>
    rw [buildKernelData_of_loop_error basis_info inputs outputs max_dim e hloop] at h
    simp at h
  | ok s =>
    obtain ⟨kd1, hkd1, _, _, ht, hu⟩ :=
      buildKernelData_of_loop_ok basis_info inputs outputs max_dim s hloop
    rw [hkd1] at h
    simp only [Except.ok.injEq] at h
    subst h
    have h3 := (kernelDataLoop_all_3d basis_info (inputs ++ outputs) _).2 s hloop
    have hfold := use3dSlices_fold basis_info (inputs ++ outputs) false false
    rw [hu, ht, h3]
    by_cases hex : ∃ f ∈ inputs ++ outputs, f.eval_mode = CeedEvalMode.GRAD
    · simp only [hex, if_true] at hfold
      constructor
      · intro hh
        split at hh
        · rename_i hc
          simp only [Bool.true_and, Bool.and_eq_true, List.all_eq_true] at hc
          refine ⟨fun f hf hb => ?_, hex, (hfold.1 hh).1⟩
          have a := hc.1 f hf
          have b := hc.2 f hf
          simp only [hb, ne_eq, not_false_eq_true, if_true, decide_eq_true_eq] at a b
          exact ⟨a, b⟩
        · simp at hh
      · rintro ⟨hall, _, hcol⟩
        have hc1 : ((inputs ++ outputs).all fun f =>
            if f.basis ≠ CEED_BASIS_NONE then decide ((basis_info f.basis).dim = 3)
            else true) = true := by
          rw [List.all_eq_true]
          intro f hf
          by_cases hb : f.basis = CEED_BASIS_NONE
          · simp [hb]
          · simp [hb, (hall f hf hb).1]
        have hc2 : ((inputs ++ outputs).all fun field =>
            if field.basis ≠ CEED_BASIS_NONE then (basis_info field.basis).is_tensor
            else true) = true := by
          rw [List.all_eq_true]
          intro f hf
          by_cases hb : f.basis = CEED_BASIS_NONE
          · simp [hb]
          · simp [hb, (hall f hf hb).2]
        rw [hc1, hc2]
        simp only [Bool.and_self, if_true]
        exact hfold.2 ⟨hcol, fun h => by simp at h⟩
    · simp only [hex, if_false] at hfold
      constructor
      · intro hh
        split at hh
        · exact absurd (hfold.1 hh) (by simp)
        · simp at hh
      · rintro ⟨_, he, _⟩
        exact absurd he hex

/-- Witness of C12: two GRAD fields on the 3-D tensor basis 1, which has the
collocated-gradient matrix. -/
theorem use_3d_slices_iff_witness :
    CeedOperatorBuildKernelData_Hip_gen sampleBasisInfoCollo [sampleFieldDu] [sampleFieldDw] 1 =
      Except.ok { max_P := 64, max_P_1d := 4, Q := 64, Q_1d := 4, max_dim := 3,
                  is_all_tensor := true, use_3d_slices := true } ∧
    (({ max_P := 64, max_P_1d := 4, Q := 64, Q_1d := 4, max_dim := 3, is_all_tensor := true,
        use_3d_slices := true } : KernelData).use_3d_slices = true ↔
      (∀ f ∈ [sampleFieldDu] ++ [sampleFieldDw], f.basis ≠ CEED_BASIS_NONE →
        (sampleBasisInfoCollo f.basis).dim = 3 ∧ (sampleBasisInfoCollo f.basis).is_tensor = true) ∧
      (∃ f ∈ [sampleFieldDu] ++ [sampleFieldDw], f.eval_mode = CeedEvalMode.GRAD) ∧
      (∀ f ∈ [sampleFieldDu] ++ [sampleFieldDw], f.eval_mode = CeedEvalMode.GRAD →
        (sampleBasisInfoCollo f.basis).has_collo_grad = true)) :=
  ⟨rfl, use_3d_slices_iff sampleBasisInfoCollo [sampleFieldDu] [sampleFieldDw] 1 _ rfl⟩

/-- Sample runs of the field classifier: a GRAD field whose basis lacks the
collocated-gradient matrix disables the slice strategy wherever it stands in the field lists,
fields with 64 and with 4 quadrature points are rejected, and fields on one tensor basis give
its counts. -/
theorem kernel_data_samples :
    (CeedOperatorBuildKernelData_Hip_gen sampleBasisInfoCollo [sampleFieldDu] [sampleFieldDq]
      1).map (fun kd => kd.use_3d_slices) = Except.ok false ∧
    (CeedOperatorBuildKernelData_Hip_gen sampleBasisInfoCollo [sampleFieldDq] [sampleFieldDu]
      1).map (fun kd => kd.use_3d_slices) = Except.ok false ∧
    (CeedOperatorBuildKernelData_Hip_gen sampleBasisInfoCollo [sampleFieldU] [sampleFieldU]
      1).map (fun kd => kd.use_3d_slices) = Except.ok false ∧
    CeedOperatorBuildKernelData_Hip_gen sampleBasisInfo sampleInputsGradGrad
      sampleOutputsNonTensorInterp 1 =
        Except.error (CeedError.BACKEND "Quadrature spaces must be compatible") ∧
    CeedOperatorBuildKernelData_Hip_gen sampleBasisInfo sampleInputsGradGrad [sampleFieldU] 1 =
      Except.ok { max_P := 64, max_P_1d := 4, Q := 64, Q_1d := 4, max_dim := 3,
                  is_all_tensor := true, use_3d_slices := false } :=
  ⟨rfl, rfl, rfl, rfl, rfl⟩

/-! ## Launch shapes: the non-tensor path (C13), shared memory (C14), the example shape (C15) -/

/-- The grid size `n / e + (n % e > 0)` of the non-tensor path, in C arithmetic, is the
quotient rounded up. -/
theorem c_grid_round_up (n e : Int) (he : 1 ≤ e) :
    (Int.tdiv n e + (if Int.tmod n e > 0 then 1 else 0) - 1) * e < n ∧
    n ≤ (Int.tdiv n e + (if Int.tmod n e > 0 then 1 else 0)) * e := by
  have h1 := Int.tmod_add_tdiv n e
  have h2 := Int.tmod_lt_of_pos n (show 0 < e by omega)
  have h3 : -e < Int.tmod n e := by
    by_cases hn : 0 ≤ n
    · have := Int.tmod_nonneg e hn
      omega
    · have h4 := Int.tmod_add_tdiv (-n) e
      have h5 := Int.tmod_lt_of_pos (-n) (show 0 < e by omega)
      rw [Int.neg_tdiv] at h4
      have h6 : Int.tmod n e = -Int.tmod (-n) e := by linarith
      omega
  by_cases hr : Int.tmod n e > 0
  · simp only [hr, if_true]
    constructor <;> nlinarith
  · simp only [hr, if_false]
    constructor <;> nlinarith

theorem c_grid_eq_ceil (n e : Int) (he : 1 ≤ e) :
    Int.tdiv n e + (if Int.tmod n e > 0 then 1 else 0) = ⌈(n : ℚ) / (e : ℚ)⌉ := by
  obtain ⟨h1, h2⟩ := c_grid_round_up n e he
  symm
  rw [Int.ceil_eq_iff]
  have he0 : (0 : ℚ) < (e : ℚ) := by exact_mod_cast (show (0 : Int) < e by omega)
  constructor
  · rw [lt_div_iff₀ he0]
    exact_mod_cast h1
  · rw [div_le_iff₀ he0]
    exact_mod_cast h2

/-- C13. On the non-tensor launch path, for `thread_1d >= 1` and `maxThreadsDim[2] >= 1`, the
runner uses `e = clamp(512 / thread_1d, 1, maxThreadsDim[2])` elements per block (integer
division): the launch shape is `block = {thread_1d, 1, e}` with `grid = ceil(num_elem / e)`,
and the shared-memory request is the block volume times `sizeof(CeedScalar)`.  The shape is
the same whatever the occupancy query returns, and does not involve the warp size or the
multiprocessor count: no waste search takes place. -/
theorem non_tensor_launch_shape (dev : Device) (env : CallEnv) (thread_1d dim num_elem : Int)
    (ht : 1 ≤ thread_1d) (hz : 1 ≤ dev.maxThreadsDim2) :
    launchConfig dev env false thread_1d dim num_elem =
      some ({ block0 := thread_1d, block1 := 1,
              block2 := min (max (512 / thread_1d) 1) dev.maxThreadsDim2,
              grid := ⌈(num_elem : ℚ) /
                ((min (max (512 / thread_1d) 1) dev.maxThreadsDim2 : Int) : ℚ)⌉ },
            thread_1d * 1 * min (max (512 / thread_1d) 1) dev.maxThreadsDim2 *
              dev.scalar_size) ∧
    1 ≤ min (max (512 / thread_1d) 1) dev.maxThreadsDim2 ∧
    ∀ env1 : CallEnv, launchConfig dev env1 false thread_1d dim num_elem =
      launchConfig dev env false thread_1d dim num_elem := by
  have hd : cdiv 512 thread_1d = some (512 / thread_1d) := by
    rw [cdiv_of_ne_zero _ _ (by omega), Int.tdiv_eq_ediv (by omega) (by omega)]
  have he : CeedIntMin dev.maxThreadsDim2 (CeedIntMax (512 / thread_1d) 1) =
      min (max (512 / thread_1d) 1) dev.maxThreadsDim2 := by
    unfold CeedIntMin CeedIntMax
    split <;> split <;> omega
  have he1 : 1 ≤ min (max (512 / thread_1d) 1) dev.maxThreadsDim2 := by omega
  have hg := c_grid_eq_ceil num_elem _ he1
  have hne : min (max (512 / thread_1d) 1) dev.maxThreadsDim2 ≠ 0 := by omega
  have key : ∀ env0 : CallEnv, launchConfig dev env0 false thread_1d dim num_elem =
      some ({ block0 := thread_1d, block1 := 1,
              block2 := min (max (512 / thread_1d) 1) dev.maxThreadsDim2,
              grid := ⌈(num_elem : ℚ) /
                ((min (max (512 / thread_1d) 1) dev.maxThreadsDim2 : Int) : ℚ)⌉ },
            thread_1d * 1 * min (max (512 / thread_1d) 1) dev.maxThreadsDim2 *
              dev.scalar_size) := by
    intro env0
    simp only [launchConfig, hd, Option.bind_eq_bind, Option.some_bind, he]
    simp only [cdiv, cmod, hne, Option.bind_eq_bind, Option.some_bind,
      Option.pure_def, if_false, Bool.not_false, Bool.true_or, if_true, Bool.false_eq_true]
    rw [← hg]
  exact ⟨key env, he1, fun env1 => by rw [key env1, key env]⟩

/-- Witness of C13: 100 threads per element, a z-limit of 64 and 1000 elements give 5
elements per block and a grid of 200 blocks. -/
theorem non_tensor_launch_shape_witness :
    launchConfig sampleDevice sampleEnvGood false 100 3 1000 =
      some ({ block0 := 100, block1 := 1,
              block2 := min (max (512 / 100) 1) sampleDevice.maxThreadsDim2,
              grid := ⌈((1000 : Int) : ℚ) /
                ((min (max (512 / 100) 1) sampleDevice.maxThreadsDim2 : Int) : ℚ)⌉ },
            100 * 1 * min (max (512 / 100) 1) sampleDevice.maxThreadsDim2 *
              sampleDevice.scalar_size) ∧
    1 ≤ min (max (512 / 100) 1) sampleDevice.maxThreadsDim2 ∧
    ∀ env1 : CallEnv, launchConfig sampleDevice env1 false 100 3 1000 =
      launchConfig sampleDevice sampleEnvGood false 100 3 1000 :=
  non_tensor_launch_shape sampleDevice sampleEnvGood 100 3 1000 (by decide) (by decide)

/-- Sample launch shapes of the non-tensor path and of the tensor path on the sample device. -/
theorem launch_samples :
    launchConfig sampleDevice sampleEnvGood false 100 3 1000 = some (⟨100, 1, 5, 200⟩, 4000) ∧
    launchConfig sampleDevice sampleEnvGood false 1000 3 10 = some (⟨1000, 1, 1, 10⟩, 8000) ∧
    launchConfig sampleDevice sampleEnvGood true 4 3 1000 = some (⟨4, 4, 8, 125⟩, 1024) := by
  decide

/-- The shared-memory request of a launch is the block volume times `sizeof(CeedScalar)`. -/
theorem launchConfig_shared_mem (dev : Device) (env : CallEnv) (is_tensor : Bool)
    (thread_1d dim num_elem : Int) (cfg : LaunchDims × Int)
    (h : launchConfig dev env is_tensor thread_1d dim num_elem = some cfg) :
    cfg.2 = cfg.1.block0 * cfg.1.block1 * cfg.1.block2 * dev.scalar_size := by
  cases is_tensor
  · simp only [launchConfig, Bool.false_eq_true, if_false, Option.bind_eq_bind, Option.pure_def,
      Option.bind_eq_some, Option.some.injEq] at h
    obtain ⟨a, _, b, _, c, _, d, _, h2⟩ := h
    rw [← h2]
  · simp only [launchConfig, if_true, Option.bind_eq_bind, Option.pure_def,
      Option.bind_eq_some, Option.some.injEq] at h
    obtain ⟨a, _, b, _, h2⟩ := h
    rw [← h2]

/-- The launch shape of the tensor path, in terms of the result `k` of the waste search. -/
theorem launchConfig_tensor (dev : Device) (env : CallEnv) (thread_1d dim num_elem : Int)
    (ht : 1 ≤ thread_1d) (hws : 1 ≤ dev.warpSize) (hsm : dev.multiProcessorCount ≠ 0)
    (hm : 0 ≤ env.max_threads_per_block) :
    ∃ k, 1 ≤ k ∧
      k ≤ max 1 (min (env.max_threads_per_block /
        (thread_1d * (if dim = 1 then 1 else thread_1d))) num_elem) ∧
      launchConfig dev env true thread_1d dim num_elem =
        some (⟨thread_1d, if dim = 1 then 1 else thread_1d, CeedIntMin k dev.maxThreadsDim2,
                Int.tdiv (num_elem + k - 1) k⟩,
              thread_1d * (if dim = 1 then 1 else thread_1d) *
                CeedIntMin k dev.maxThreadsDim2 * dev.scalar_size) := by
  have hb1 : 1 ≤ (if dim = 1 then 1 else thread_1d) := by split <;> omega
  have htpe : 1 ≤ thread_1d * (if dim = 1 then 1 else thread_1d) := mul_pos_of_one_le ht hb1
  obtain ⟨k, hk, hinv⟩ := searchElemsPerBlock_spec num_elem
    (Int.tdiv env.min_grid_size dev.multiProcessorCount) env.max_threads_per_block dev.warpSize
    (thread_1d * (if dim = 1 then 1 else thread_1d)) hws htpe hm
  have hk1 : 1 ≤ k := hinv.1
  have hk2 := hinv.2.1
  refine ⟨k, hk1, by omega, ?_⟩
  have hbg := BlockGridCalculate_eq num_elem
    (Int.tdiv env.min_grid_size dev.multiProcessorCount) env.max_threads_per_block
    dev.maxThreadsDim2 dev.warpSize thread_1d (if dim = 1 then 1 else thread_1d) k hk1 hk
  have hblock1 : (if (!true || decide (dim = 1)) = true then 1 else thread_1d) =
      (if dim = 1 then 1 else thread_1d) := by simp
  simp only [launchConfig, cdiv_of_ne_zero _ _ hsm, hblock1, if_true, Option.bind_eq_bind,
    Option.some_bind, hbg, Option.pure_def]

/-- C14 (as stated, refuted). On the tensor path with `thread_1d = 17` in 3-D (289 threads per
element) and an occupancy query reporting `max_threads_per_block = 256`, the waste search has no
candidate beyond one element per block: the block volume is 289 and the shared-memory request
is `289*8 = 2312` bytes, above the ceiling `dynamicSMemSize(256) = 2048`.  On the non-tensor
path with 100 threads per element the block holds 5 elements, and the request of 4000 bytes
exceeds the same ceiling as well. -/
theorem shared_memory_exceeds_ceiling :
    BlockGridCalculate 1000 4 256 64 32 17 17 = some ⟨17, 17, 1, 1000⟩ ∧
    launchConfig sampleDevice sampleEnvSmallBlock true 17 3 1000 =
      some (⟨17, 17, 1, 1000⟩, 2312) ∧
    dynamicSMemSize sampleDevice.scalar_size sampleEnvSmallBlock.max_threads_per_block = 2048 ∧
    (256 : Int) < 17 * 17 * 1 ∧ (2048 : Int) < 2312 ∧
    launchConfig sampleDevice sampleEnvSmallBlock false 100 3 1000 =
      some (⟨100, 1, 5, 200⟩, 4000) ∧
    (256 : Int) < 100 * 1 * 5 ∧ (2048 : Int) < 4000 := by
  decide

/-- The launch shape of the non-tensor path: `clamp(512/thread_1d, 1, maxThreadsDim[2])`
elements per block. -/
theorem launchConfig_non_tensor (dev : Device) (env : CallEnv) (thread_1d dim num_elem : Int)
    (ht : 1 ≤ thread_1d) (hz : 1 ≤ dev.maxThreadsDim2) :
    ∃ grid, launchConfig dev env false thread_1d dim num_elem =
      some ({ block0 := thread_1d, block1 := 1,
              block2 := min (max (512 / thread_1d) 1) dev.maxThreadsDim2, grid := grid },
            thread_1d * 1 * min (max (512 / thread_1d) 1) dev.maxThreadsDim2 *
              dev.scalar_size) := by
  have hd : cdiv 512 thread_1d = some (512 / thread_1d) := by
    rw [cdiv_of_ne_zero _ _ (by omega), Int.tdiv_eq_ediv (by omega) (by omega)]
  have he : CeedIntMin dev.maxThreadsDim2 (CeedIntMax (512 / thread_1d) 1) =
      min (max (512 / thread_1d) 1) dev.maxThreadsDim2 := by
    unfold CeedIntMin CeedIntMax
    split <;> split <;> omega
  have hne : min (max (512 / thread_1d) 1) dev.maxThreadsDim2 ≠ 0 := by omega
  refine ⟨Int.tdiv num_elem (min (max (512 / thread_1d) 1) dev.maxThreadsDim2) +
    (if Int.tmod num_elem (min (max (512 / thread_1d) 1) dev.maxThreadsDim2) > 0 then 1
      else 0), ?_⟩
  simp only [launchConfig, hd, Option.bind_eq_bind, Option.some_bind, he]
  simp only [cdiv, cmod, hne, Option.bind_eq_bind, Option.some_bind,
    Option.pure_def, if_false, Bool.not_false, Bool.true_or, if_true, Bool.false_eq_true]

/-- The block volume of the non-tensor path is at most `max(512, thread_1d)`, and it is
`thread_1d` when `thread_1d > 512`. -/
theorem non_tensor_volume (t z : Int) (ht : 1 ≤ t) (hz : 1 ≤ z) :
    t * 1 * min (max (512 / t) 1) z ≤ max 512 t ∧
    (512 < t → t * 1 * min (max (512 / t) 1) z = t) := by
  have hq0 : 0 ≤ 512 / t := Int.ediv_nonneg (by omega) (by omega)
  have hmul := Int.ediv_mul_le 512 (show t ≠ 0 by omega)
  constructor
  · by_cases h : 1 ≤ 512 / t
    · have h1 : min (max (512 / t) 1) z ≤ 512 / t := by omega
      have h2 : t * 1 * min (max (512 / t) 1) z ≤ t * (512 / t) := by
        rw [mul_one]
        exact mul_le_mul_of_nonneg_left h1 (by omega)
      have h3 : t * (512 / t) ≤ 512 := by rw [mul_comm]; exact hmul
      omega
    · have h1 : min (max (512 / t) 1) z = 1 := by omega
      rw [h1]
      omega
  · intro h
    have h0 : 512 / t = 0 := Int.ediv_eq_zero_of_lt (by omega) h
    have h1 : min (max (512 / t) 1) z = 1 := by omega
    rw [h1]
    omega

/-- C14 (amended). The shared-memory request of every launch is
`block[0]*block[1]*block[2]*sizeof(CeedScalar)`.  On the tensor path, when the threads of one
element fit the block reported by the occupancy query,
`block[0]*block[1] <= max_threads_per_block`, the block volume returned by `BlockGridCalculate`
is at most `max_threads_per_block`, and the request is at most
`dynamicSMemSize(max_threads_per_block)`.  On the non-tensor path the block is
`{thread_1d, 1, clamp(512/thread_1d, 1, maxThreadsDim[2])}`, whatever the occupancy query
reports: its volume is at most `max(512, thread_1d)`, that is at most 512 threads when
`thread_1d <= 512` and `thread_1d` threads (one element per block) when `thread_1d > 512`, and
the request is at most `dynamicSMemSize(max(512, thread_1d))`. -/
theorem shared_memory_within_ceiling (dev : Device) (env : CallEnv)
    (thread_1d dim num_elem : Int) (ht : 1 ≤ thread_1d) (hs : 0 ≤ dev.scalar_size) :
    (∀ is_tensor cfg, launchConfig dev env is_tensor thread_1d dim num_elem = some cfg →
      cfg.2 = cfg.1.block0 * cfg.1.block1 * cfg.1.block2 * dev.scalar_size) ∧
    (1 ≤ dev.warpSize → dev.multiProcessorCount ≠ 0 →
      thread_1d * (if dim = 1 then 1 else thread_1d) ≤ env.max_threads_per_block →
      ∃ dims shared_mem,
        launchConfig dev env true thread_1d dim num_elem = some (dims, shared_mem) ∧
        BlockGridCalculate num_elem (Int.tdiv env.min_grid_size dev.multiProcessorCount)
          env.max_threads_per_block dev.maxThreadsDim2 dev.warpSize thread_1d
          (if dim = 1 then 1 else thread_1d) = some dims ∧
        dims.block0 = thread_1d ∧ dims.block1 = (if dim = 1 then 1 else thread_1d) ∧
        shared_mem = dims.block0 * dims.block1 * dims.block2 * dev.scalar_size ∧
        dims.block0 * dims.block1 * dims.block2 ≤ env.max_threads_per_block ∧
        shared_mem ≤ dynamicSMemSize dev.scalar_size env.max_threads_per_block) ∧
    (1 ≤ dev.maxThreadsDim2 →
      ∃ dims shared_mem,
        launchConfig dev env false thread_1d dim num_elem = some (dims, shared_mem) ∧
        dims.block0 = thread_1d ∧ dims.block1 = 1 ∧
        dims.block2 = min (max (512 / thread_1d) 1) dev.maxThreadsDim2 ∧
        shared_mem = dims.block0 * dims.block1 * dims.block2 * dev.scalar_size ∧
        dims.block0 * dims.block1 * dims.block2 ≤ max 512 thread_1d ∧
        (thread_1d ≤ 512 → dims.block0 * dims.block1 * dims.block2 ≤ 512) ∧
        (512 < thread_1d → dims.block0 * dims.block1 * dims.block2 = thread_1d) ∧
        shared_mem ≤ dynamicSMemSize dev.scalar_size (max 512 thread_1d)) := by
  refine ⟨fun is_tensor cfg h => launchConfig_shared_mem dev env is_tensor _ _ _ cfg h, ?_, ?_⟩
  · intro hws hsm hfit
    have hb1 : 1 ≤ (if dim = 1 then 1 else thread_1d) := by split <;> omega
    have htpe : 1 ≤ thread_1d * (if dim = 1 then 1 else thread_1d) := mul_pos_of_one_le ht hb1
    obtain ⟨k, hk1, hk2, hcfg⟩ := launchConfig_tensor dev env thread_1d dim num_elem ht hws hsm
      (by omega)
    have hsearch : BlockGridCalculate num_elem
        (Int.tdiv env.min_grid_size dev.multiProcessorCount)
        env.max_threads_per_block dev.maxThreadsDim2 dev.warpSize thread_1d
        (if dim = 1 then 1 else thread_1d) =
          some ⟨thread_1d, if dim = 1 then 1 else thread_1d, CeedIntMin k dev.maxThreadsDim2,
            Int.tdiv (num_elem + k - 1) k⟩ := by
      have hcfg2 := hcfg
      simp only [launchConfig, cdiv_of_ne_zero _ _ hsm, Option.bind_eq_bind, Option.some_bind,
        if_true, Option.pure_def, Option.bind_eq_some] at hcfg2
      obtain ⟨d, hd, hd2⟩ := hcfg2
      simp only [Option.some.injEq, Prod.mk.injEq] at hd2
      rw [← hd2.1]
      simpa using hd
    have hvol : thread_1d * (if dim = 1 then 1 else thread_1d) *
        CeedIntMin k dev.maxThreadsDim2 ≤ env.max_threads_per_block := by
      have hq : 1 ≤ env.max_threads_per_block /
          (thread_1d * (if dim = 1 then 1 else thread_1d)) :=
        Int.le_ediv_of_mul_le (by omega) (by omega)
      have hmul := Int.ediv_mul_le env.max_threads_per_block
        (show thread_1d * (if dim = 1 then 1 else thread_1d) ≠ 0 by omega)
      have hkq : k ≤ env.max_threads_per_block /
          (thread_1d * (if dim = 1 then 1 else thread_1d)) := by omega
      have hmin : CeedIntMin k dev.maxThreadsDim2 ≤ k := by
        rw [CeedIntMin_eq_min]; omega
      nlinarith
    refine ⟨_, _, hcfg, hsearch, rfl, rfl, rfl, hvol, ?_⟩
    unfold dynamicSMemSize
    exact mul_le_mul_of_nonneg_right hvol hs
  · intro hz
    obtain ⟨grid, hcfg⟩ := launchConfig_non_tensor dev env thread_1d dim num_elem ht hz
    obtain ⟨hv1, hv2⟩ := non_tensor_volume thread_1d dev.maxThreadsDim2 ht hz
    refine ⟨_, _, hcfg, rfl, rfl, rfl, rfl, hv1, ?_, hv2, ?_⟩
    · intro h
      have : max 512 thread_1d = 512 := by omega
      rw [this] at hv1
      exact hv1
    · unfold dynamicSMemSize
      exact mul_le_mul_of_nonneg_right hv1 hs

/-- Witness of the amended C14: on the sample device, the 4x4 tensor shape with 1000 elements
and a 1024-thread block stays within the ceiling, and a non-tensor launch with 1000 threads per
element has a block of 1000 threads. -/
theorem shared_memory_within_ceiling_witness :
    (∃ dims shared_mem,
      launchConfig sampleDevice sampleEnvGood true 4 3 1000 = some (dims, shared_mem) ∧
      BlockGridCalculate 1000 (Int.tdiv sampleEnvGood.min_grid_size
          sampleDevice.multiProcessorCount)
        sampleEnvGood.max_threads_per_block sampleDevice.maxThreadsDim2 sampleDevice.warpSize 4
        (if (3 : Int) = 1 then 1 else 4) = some dims ∧
      dims.block0 = 4 ∧ dims.block1 = (if (3 : Int) = 1 then 1 else 4) ∧
      shared_mem = dims.block0 * dims.block1 * dims.block2 * sampleDevice.scalar_size ∧
      dims.block0 * dims.block1 * dims.block2 ≤ sampleEnvGood.max_threads_per_block ∧
      shared_mem ≤
        dynamicSMemSize sampleDevice.scalar_size sampleEnvGood.max_threads_per_block) ∧
    (∃ dims shared_mem,
      launchConfig sampleDevice sampleEnvGood false 1000 3 10 = some (dims, shared_mem) ∧
      dims.block0 = 1000 ∧ dims.block1 = 1 ∧
      dims.block2 = min (max (512 / 1000) 1) sampleDevice.maxThreadsDim2 ∧
      shared_mem = dims.block0 * dims.block1 * dims.block2 * sampleDevice.scalar_size ∧
      dims.block0 * dims.block1 * dims.block2 ≤ max 512 1000 ∧
      ((1000 : Int) ≤ 512 → dims.block0 * dims.block1 * dims.block2 ≤ 512) ∧
      ((512 : Int) < 1000 → dims.block0 * dims.block1 * dims.block2 = 1000) ∧
      shared_mem ≤ dynamicSMemSize sampleDevice.scalar_size (max 512 1000)) :=
  ⟨(shared_memory_within_ceiling sampleDevice sampleEnvGood 4 3 1000 (by decide)
      (by decide)).2.1 (by decide) (by decide) (by decide),
   (shared_memory_within_ceiling sampleDevice sampleEnvGood 1000 3 10 (by decide)
      (by decide)).2.2 (by decide)⟩

/-- C15. For the example shape `block[0] = block[1] = 4` (16 threads per element) with 1000
elements, `max_threads_per_block = 1024`, warp size 32, any `blocks_per_sm >= 1` and a z-limit
of at least 64, `BlockGridCalculate` returns `block[2] = 8` elements per block and
`grid = 125 = ceil(1000 / 8)`; the waste of 8 elements per block is 0, the least waste of all
candidates `1..64`, none of which has a negative waste. -/
theorem BlockGridCalculate_example_shape (blocks_per_sm max_threads_z : Int)
    (hbps : 1 ≤ blocks_per_sm) (hz : 64 ≤ max_threads_z) :
    BlockGridCalculate 1000 blocks_per_sm 1024 max_threads_z 32 4 4 = some ⟨4, 4, 8, 125⟩ ∧
    searchElemsPerBlock 1000 blocks_per_sm 1024 32 (4 * 4) = some 8 ∧
    Waste (blocks_per_sm * 1024) 32 (4 * 4) 8 = some 0 ∧
    (∀ j, 1 ≤ j → j ≤ 64 →
      ∃ wj, Waste (blocks_per_sm * 1024) 32 (4 * 4) j = some wj ∧ 0 ≤ wj) ∧
    (125 : Int) = ⌈((1000 : Int) : ℚ) / ((8 : Int) : ℚ)⌉ := by
  obtain ⟨k, hk, hinv⟩ := searchElemsPerBlock_spec 1000 blocks_per_sm 1024 32 (4 * 4)
    (by decide) (by decide) (by decide)
  have hN : max 1 (min ((1024 : Int) / (4 * 4)) 1000) + 1 = 65 := by decide
  rw [hN] at hinv
  obtain ⟨hk1, hk2, _, hmin, htie⟩ := hinv
  have hw8 : wasteVal (blocks_per_sm * 1024) 32 (4 * 4) 8 = 0 := by
    unfold wasteVal
    have h1 : Int.tdiv ((4 : Int) * 4 * 8 + 32 - 1) 32 * 32 = 128 := by decide
    rw [h1, Int.tdiv_eq_ediv (by omega) (by omega)]
    omega
  have hnn := wasteVal_nonneg (blocks_per_sm * 1024) 32 (4 * 4) k (by omega) (by decide)
    (by decide) hk1
  have hle := hmin 8 (by decide) (by decide)
  rw [hw8] at hle
  have hwk : wasteVal (blocks_per_sm * 1024) 32 (4 * 4) k = 0 := by omega
  have h8 := (htie 8 (by decide) (by decide) (by rw [hw8, hwk])).1 (by decide)
  have hk8 : k = 8 := by omega
  subst hk8
  have hbg := BlockGridCalculate_eq 1000 blocks_per_sm 1024 max_threads_z 32 4 4 8 (by decide) hk
  have hmin8 : CeedIntMin 8 max_threads_z = 8 := by
    rw [CeedIntMin_eq_min]; omega
  have hgrid : Int.tdiv ((1000 : Int) + 8 - 1) 8 = 125 := by decide
  rw [hmin8, hgrid] at hbg
  refine ⟨hbg, hk, ?_, ?_, ?_⟩
  · rw [Waste_eq_wasteVal _ _ _ _ (by decide) (by decide) (by decide), hw8]
  · intro j hj1 _
    exact ⟨_, Waste_eq_wasteVal _ _ _ j (by decide) (by decide) hj1,
      wasteVal_nonneg _ _ _ j (by omega) (by decide) (by decide) hj1⟩
  · norm_num

/-- Witness of C15: one resident block per multiprocessor and a z-limit of 64. -/
theorem BlockGridCalculate_example_shape_witness :
    BlockGridCalculate 1000 1 1024 64 32 4 4 = some ⟨4, 4, 8, 125⟩ ∧
    searchElemsPerBlock 1000 1 1024 32 (4 * 4) = some 8 ∧
    Waste (1 * 1024) 32 (4 * 4) 8 = some 0 ∧
    (∀ j, 1 ≤ j → j ≤ 64 → ∃ wj, Waste (1 * 1024) 32 (4 * 4) j = some wj ∧ 0 ≤ wj) ∧
    (125 : Int) = ⌈((1000 : Int) : ℚ) / ((8 : Int) : ℚ)⌉ :=
  BlockGridCalculate_example_shape 1 64 (by decide) (by decide)

/-! ## QFunction assembly: the layout of its output (C16) and its checks (C17) -/

theorem mixed_radix_lt (Q M q m : Int) (hq0 : 0 ≤ q) (hq : q < Q) (hm0 : 0 ≤ m) (hm : m < M) :
    0 ≤ q + Q * m ∧ q + Q * m < Q * M := by
  constructor
  · nlinarith
  · nlinarith

theorem mixed_radix_inj (Q q m q1 m1 : Int) (hq0 : 0 ≤ q) (hq : q < Q) (hq10 : 0 ≤ q1)
    (hq1 : q1 < Q) (h : q + Q * m = q1 + Q * m1) : q = q1 ∧ m = m1 := by
  have hm : m = m1 := by
    rcases lt_trichotomy m m1 with hlt | heq | hgt
    · exfalso; nlinarith
    · exact heq
    · exfalso; nlinarith
  subst hm
  exact ⟨by omega, rfl⟩

theorem mixed_radix_surj (Q M i : Int) (hQ : 0 < Q) (hi0 : 0 ≤ i) (hi : i < Q * M) :
    ∃ q m, (0 ≤ q ∧ q < Q) ∧ (0 ≤ m ∧ m < M) ∧ q + Q * m = i := by
  refine ⟨i % Q, i / Q, ⟨Int.emod_nonneg _ (by omega), Int.emod_lt_of_pos _ hQ⟩,
    ⟨Int.ediv_nonneg hi0 (by omega), ?_⟩, Int.emod_add_ediv i Q⟩
  apply Int.ediv_lt_of_lt_mul hQ
  rw [Int.mul_comm]
  exact hi

/-- The layout `strides = {1, num_elem*Q, Q}` fills the indices below `num_elem*Q*num_comp`
without gaps or collisions. -/
theorem strided_layout_bijOn (Q C E : Int) (hQ : 1 ≤ Q) (hE : 1 ≤ E) :
    Set.BijOn (fun p : Int × Int × Int => stridedIndex (1, E * Q, Q) p.1 p.2.1 p.2.2)
      (layoutBox Q C E) (Set.Ico 0 (E * Q * C)) := by
  have hidx : ∀ q c e : Int, stridedIndex (1, E * Q, Q) q c e = q + Q * (e + E * c) := by
    intro q c e
    simp only [stridedIndex]
    ring
  refine ⟨?_, ?_, ?_⟩
  · rintro ⟨q, c, e⟩ ⟨⟨hq0, hq⟩, ⟨hc0, hc⟩, ⟨he0, he⟩⟩
    simp only [hidx, Set.mem_Ico]
    obtain ⟨a0, a1⟩ := mixed_radix_lt E C e c he0 he hc0 hc
    obtain ⟨b0, b1⟩ := mixed_radix_lt Q (E * C) q (e + E * c) hq0 hq a0 a1
    refine ⟨b0, ?_⟩
    calc q + Q * (e + E * c) < Q * (E * C) := b1
      _ = E * Q * C := by ring
  · rintro ⟨q, c, e⟩ ⟨⟨hq0, hq⟩, ⟨hc0, hc⟩, ⟨he0, he⟩⟩ ⟨q1, c1, e1⟩
      ⟨⟨hq10, hq1⟩, ⟨hc10, hc1⟩, ⟨he10, he1⟩⟩ h
    simp only [hidx] at h
    obtain ⟨e1q, h2⟩ := mixed_radix_inj Q q (e + E * c) q1 (e1 + E * c1) hq0 hq hq10 hq1 h
    obtain ⟨e2, e3⟩ := mixed_radix_inj E e c e1 c1 he0 he he10 he1 h2
    rw [e1q, e2, e3]
  · intro i hi
    simp only [Set.mem_Ico] at hi
    obtain ⟨q, m, hq, hm, h1⟩ := mixed_radix_surj Q (E * C) i (by omega) hi.1
      (by have : Q * (E * C) = E * Q * C := by ring
          omega)
    obtain ⟨e, c, he, hc, h2⟩ := mixed_radix_surj E C m (by omega) hm.1 hm.2
    refine ⟨(q, c, e), ⟨hq, hc, he⟩, ?_⟩
    simp only [hidx]
    rw [h2, h1]

/-- The operator-kernel builder takes build steps only. -/
theorem build_steps (op : Operator) (env : CallEnv) (d : OperatorData) :
    ∀ ev ∈ (CeedOperatorBuildKernel_Cuda_gen op env d).trace, ev.isBuildStep = true := by
  unfold CeedOperatorBuildKernel_Cuda_gen CeedOperatorBuildKernel_Hip_gen
  by_cases h1 : d.is_setup_done = true
  · simp [h1]
  · have h1' : d.is_setup_done = false := by simpa using h1
    by_cases h2 : hasSharedBases op = false
    · simp [h1', h2]
    · cases h3 : CeedOperatorBuildKernelData_Hip_gen op.basis_info op.inputs op.outputs 1 with
      | error e => simp [h1', h2, Event.isBuildStep]
      | ok kd =>
        simp only [h1', h2, Bool.false_eq_true, if_false]
        cases h4 : restrictionOnlyIdentity op
        · by_cases h5 : op.qf_source_path = none
          · simp [h5, Event.isBuildStep]
          · cases h6 : env.compile_good <;> simp [h5, Event.isBuildStep]
        · simp [Event.isBuildStep]

/-- The builder of the QFunction assembly kernel takes build steps only. -/
theorem qfunctionBuild_steps (op : Operator) (env : CallEnv) (d : OperatorData) :
    ∀ ev ∈ (CeedOperatorBuildKernelLinearAssembleQFunction_Cuda_gen op env d).trace,
      ev.isBuildStep = true := by
  unfold CeedOperatorBuildKernelLinearAssembleQFunction_Cuda_gen
    CeedOperatorBuildKernelLinearAssembleQFunction_Hip_gen
  cases h1 : op.is_at_points
  · by_cases h5 : op.qf_source_path = none
    · simp [h5, Event.isBuildStep]
    · cases h6 : env.assembly_compile_good <;> simp [h5, Event.isBuildStep]
  · simp

/-- The block "Build the assembly kernel" of the QFunction assembly takes build steps only. -/
theorem qfunctionAssemblyBuild_steps (op : Operator) (env : CallEnv) (d : OperatorData) :
    ∀ ev ∈ (qfunctionAssemblyBuild op env d).trace, ev.isBuildStep = true := by
  unfold qfunctionAssemblyBuild
  have hb := build_steps op env d
  generalize CeedOperatorBuildKernel_Cuda_gen op env d = b1 at hb ⊢
  obtain ⟨bd, bt, br⟩ := b1
  have ha := qfunctionBuild_steps op env bd
  simp only
  generalize CeedOperatorBuildKernelLinearAssembleQFunction_Cuda_gen op env bd = b2 at ha ⊢
  obtain ⟨ad, atr, ar⟩ := b2
  simp only at hb ha
  cases hc : (!d.assemble_qfunction && !d.use_assembly_fallback)
  · simp
  · simp only [if_true]
    rcases br with e | v
    · simpa using hb
    · rcases v with _ | _
      · simpa using hb
      · rcases ar with e | w
        · simp only [List.mem_append]
          rintro ev (h | h)
          · exact hb ev h
          · exact ha ev h
        · rcases w with _ | _ <;>
          · simp only [List.mem_append]
            rintro ev (h | h)
            · exact hb ev h
            · exact ha ev h

/-- When the block "Build the assembly kernel" succeeds, the entry point continues with the
blocks "Try assembly" and "Fallback, if needed". -/
theorem qfunctionCore_of_build_ok (op : Operator) (dev : Device) (env : CallEnv)
    (build_objects : Bool) (d : OperatorData)
    (hb : (qfunctionAssemblyBuild op env d).result = Except.ok ()) :
    CeedOperatorLinearAssembleQFunctionCore_Cuda_gen op dev env build_objects d =
      assemblyFallback KernelKind.assembleQFunction
        (qfunctionAssemblyTry op dev env build_objects (qfunctionAssemblyBuild op env d).data
          (qfunctionAssemblyBuild op env d).trace) := by
  simp only [CeedOperatorLinearAssembleQFunctionCore_Cuda_gen, hb]

/-- The trace of the block "Fallback, if needed" extends that of the blocks before it. -/
theorem assemblyFallback_trace (kind : KernelKind) (run : Outcome Unit) :
    ∀ ev ∈ run.trace, ev ∈ (assemblyFallback kind run).trace := by
  intro ev hev
  unfold assemblyFallback
  rcases hr : run.result with e | u
  · simpa using hev
  · cases hf : run.data.use_assembly_fallback <;> simp [hev]

/-- The block "Try assembly" with `build_objects`, entered without the fallback flag on an
operator with active inputs and outputs, creates the output restriction and the assembled
vector right after binding the inputs. -/
theorem qfunctionAssemblyTry_objects (op : Operator) (dev : Device) (env : CallEnv)
    (d : OperatorData) (tr : List Event) (hfb : d.use_assembly_fallback = false)
    (hin : 0 < activeFieldSize op.inputs) (hout : 0 < activeFieldSize op.outputs) :
    ∃ tail, (qfunctionAssemblyTry op dev env true d tr).trace =
      tr ++ [Event.bind KernelKind.assembleQFunction
          (op.inputs.map (bindField ArrayBinding.null)) []] ++
        [Event.createRestriction op.num_elem op.num_qpts
            (wrapCeedInt (activeFieldSize op.inputs * activeFieldSize op.outputs))
            (activeFieldSize op.inputs * activeFieldSize op.outputs * op.num_elem * op.num_qpts)
            (1, wrapCeedInt (op.num_elem * op.num_qpts), op.num_qpts),
          Event.createVector
            (op.num_elem * op.num_qpts * activeFieldSize op.inputs *
              activeFieldSize op.outputs)] ++ tail := by
  unfold qfunctionAssemblyTry
  simp only [hfb, Bool.not_false, if_true, gt_iff_lt, hin, hout, not_true_eq_false, and_false,
    if_false]
  cases hl : launchConfig dev env op.has_tensor_bases d.thread_1d d.dim op.num_elem with
  | none => exact ⟨[], by simp⟩
  | some cfg =>
    cases hr : env.run_good
    · exact ⟨_, by simp only [Bool.false_eq_true, if_false, if_true, List.append_assoc]; rfl⟩
    · exact ⟨_, by simp only [if_true, List.append_assoc]; rfl⟩

/-- A value of the 32-bit range is the value of the `CeedInt` expression that computes it. -/
theorem wrapCeedInt_of_small (x : Int) (h0 : -2147483648 ≤ x) (h1 : x < 2147483648) :
    wrapCeedInt x = x := by
  unfold wrapCeedInt
  omega

/-- C16 (as stated, refuted). On `2^22` elements with 512 quadrature points, 3 active
components in and 1 out, `CeedOperatorLinearAssembleQFunction_Cuda_gen` creates the assembled
vector with `l_size = 2^22*512*3 = 6442450944` entries, but the entry `strides[1]` it computes
as the `CeedInt` product `num_elem * Q = 2^31` is `-2147483648`: the output restriction is
created with `strides = {1, -2147483648, 512}`, which puts component 1 of node 0 of element 0
at the index `-2147483648`, outside `0..l_size-1`, so the index map of the created restriction
is not a bijection onto `0..l_size-1`. -/
theorem qfunction_assembly_stride_wraps :
    sampleOperatorLarge.num_elem = 4194304 ∧ sampleOperatorLarge.num_qpts = 512 ∧
    activeFieldSize sampleOperatorLarge.inputs = 3 ∧
    activeFieldSize sampleOperatorLarge.outputs = 1 ∧
    Event.createRestriction 4194304 512 3 6442450944 (1, -2147483648, 512) ∈
      (CeedOperatorLinearAssembleQFunction_Cuda_gen sampleOperatorLarge sampleDevice
        sampleEnvGood OperatorData.init).trace ∧
    Event.createVector 6442450944 ∈
      (CeedOperatorLinearAssembleQFunction_Cuda_gen sampleOperatorLarge sampleDevice
        sampleEnvGood OperatorData.init).trace ∧
    stridedIndex (1, -2147483648, 512) 0 1 0 = -2147483648 ∧
    ¬ Set.BijOn (fun p : Int × Int × Int => stridedIndex (1, -2147483648, 512) p.1 p.2.1 p.2.2)
      (layoutBox 512 3 4194304) (Set.Ico 0 6442450944) := by
  refine ⟨rfl, rfl, by decide, by decide, by decide, by decide, by decide, ?_⟩
  intro h
  have hmem : ((0, 1, 0) : Int × Int × Int) ∈ layoutBox 512 3 4194304 := by
    simp [layoutBox]
  have hm := h.mapsTo hmem
  simp [stridedIndex, Set.mem_Ico] at hm

/-- C16 (amended). When `CeedOperatorLinearAssembleQFunction_Cuda_gen` reaches its block
"Build objects" (the kernels are built and the assembly fallback flag is clear) on an operator
with at least one element and one quadrature point whose products `num_elem*Q` and
`qf_size_in*qf_size_out` fit a `CeedInt` (are below `2^31`), the checks on the active fields
give `num_comp = qf_size_in*qf_size_out >= 1`, and the runner creates the output restriction
with `strides = {1, num_elem*Q, Q}` and the assembled vector of length
`l_size = num_elem*Q*qf_size_in*qf_size_out`.  The index map
`(q, c, e) -> q*1 + c*(num_elem*Q) + e*Q` is a bijection from the triples `q < Q`,
`c < num_comp`, `e < num_elem` onto `0..l_size-1`, and it equals `q + Q*(e + num_elem*c)`:
the quadrature point runs fastest, then the element, then the component. -/
theorem qfunction_assembly_layout_bijective (op : Operator) (dev : Device) (env : CallEnv)
    (data : OperatorData)
    (hb : (qfunctionAssemblyBuild op env data).result = Except.ok ())
    (hfb : (qfunctionAssemblyBuild op env data).data.use_assembly_fallback = false)
    (hin : 1 ≤ activeFieldSize op.inputs) (hout : 1 ≤ activeFieldSize op.outputs)
    (hE : 1 ≤ op.num_elem) (hQ : 1 ≤ op.num_qpts)
    (hstride : op.num_elem * op.num_qpts < 2147483648)
    (hcomp : activeFieldSize op.inputs * activeFieldSize op.outputs < 2147483648) :
    ∃ num_comp l_size strides,
      num_comp = activeFieldSize op.inputs * activeFieldSize op.outputs ∧
      l_size = op.num_elem * op.num_qpts * activeFieldSize op.inputs *
        activeFieldSize op.outputs ∧
      strides = (1, op.num_elem * op.num_qpts, op.num_qpts) ∧
      Event.createRestriction op.num_elem op.num_qpts num_comp l_size strides ∈
        (CeedOperatorLinearAssembleQFunction_Cuda_gen op dev env data).trace ∧
      Event.createVector l_size ∈
        (CeedOperatorLinearAssembleQFunction_Cuda_gen op dev env data).trace ∧
      1 ≤ num_comp ∧
      Set.BijOn (fun p : Int × Int × Int => stridedIndex strides p.1 p.2.1 p.2.2)
        (layoutBox op.num_qpts num_comp op.num_elem) (Set.Ico 0 l_size) ∧
      ∀ q c e, stridedIndex strides q c e = q + op.num_qpts * (e + op.num_elem * c) := by
  obtain ⟨tail, htr⟩ := qfunctionAssemblyTry_objects op dev env
    (qfunctionAssemblyBuild op env data).data (qfunctionAssemblyBuild op env data).trace hfb
    (by omega) (by omega)
  have hEQ : 1 ≤ op.num_elem * op.num_qpts := mul_pos_of_one_le hE hQ
  have hC : 1 ≤ activeFieldSize op.inputs * activeFieldSize op.outputs :=
    mul_pos_of_one_le hin hout
  rw [wrapCeedInt_of_small _ (by omega) hstride, wrapCeedInt_of_small _ (by omega) hcomp] at htr
  have hl : activeFieldSize op.inputs * activeFieldSize op.outputs * op.num_elem * op.num_qpts =
      op.num_elem * op.num_qpts * activeFieldSize op.inputs * activeFieldSize op.outputs := by
    ring
  rw [hl] at htr
  have hl2 : op.num_elem * op.num_qpts * activeFieldSize op.inputs * activeFieldSize op.outputs =
      op.num_elem * op.num_qpts * (activeFieldSize op.inputs * activeFieldSize op.outputs) := by
    ring
  refine ⟨_, _, _, rfl, rfl, rfl, ?_, ?_, hC, ?_, ?_⟩
  · unfold CeedOperatorLinearAssembleQFunction_Cuda_gen
    rw [qfunctionCore_of_build_ok op dev env true data hb]
    apply assemblyFallback_trace
    rw [htr]
    simp
  · unfold CeedOperatorLinearAssembleQFunction_Cuda_gen
    rw [qfunctionCore_of_build_ok op dev env true data hb]
    apply assemblyFallback_trace
    rw [htr]
    simp
  · rw [hl2]
    exact strided_layout_bijOn op.num_qpts _ op.num_elem hQ hE
  · intro q c e
    simp only [stridedIndex]
    ring

/-- Witness of the amended C16: the sample operator with a quadrature rule, 10 elements of 64
quadrature points and 3 active components in and out. -/
theorem qfunction_assembly_layout_bijective_witness :
    ∃ num_comp l_size strides,
      num_comp = activeFieldSize sampleOperatorStd.inputs *
        activeFieldSize sampleOperatorStd.outputs ∧
      l_size = sampleOperatorStd.num_elem * sampleOperatorStd.num_qpts *
        activeFieldSize sampleOperatorStd.inputs * activeFieldSize sampleOperatorStd.outputs ∧
      strides = (1, sampleOperatorStd.num_elem * sampleOperatorStd.num_qpts,
        sampleOperatorStd.num_qpts) ∧
      Event.createRestriction sampleOperatorStd.num_elem sampleOperatorStd.num_qpts num_comp
          l_size strides ∈
        (CeedOperatorLinearAssembleQFunction_Cuda_gen sampleOperatorStd sampleDevice
          sampleEnvGood OperatorData.init).trace ∧
      Event.createVector l_size ∈
        (CeedOperatorLinearAssembleQFunction_Cuda_gen sampleOperatorStd sampleDevice
          sampleEnvGood OperatorData.init).trace ∧
      1 ≤ num_comp ∧
      Set.BijOn (fun p : Int × Int × Int => stridedIndex strides p.1 p.2.1 p.2.2)
        (layoutBox sampleOperatorStd.num_qpts num_comp sampleOperatorStd.num_elem)
        (Set.Ico 0 l_size) ∧
      ∀ q c e, stridedIndex strides q c e =
        q + sampleOperatorStd.num_qpts * (e + sampleOperatorStd.num_elem * c) :=
  qfunction_assembly_layout_bijective sampleOperatorStd sampleDevice sampleEnvGood
    OperatorData.init rfl rfl (by decide) (by decide) (by decide) (by decide) (by decide)
    (by decide)

/-- The block "Try assembly" with `build_objects`, entered without the fallback flag on an
operator without an active input or without an active output, stops at the check of the active
fields. -/
theorem qfunctionAssemblyTry_no_active (op : Operator) (dev : Device) (env : CallEnv)
    (d : OperatorData) (tr : List Event) (hfb : d.use_assembly_fallback = false)
    (hno : activeFieldSize op.inputs = 0 ∨ activeFieldSize op.outputs = 0) :
    (qfunctionAssemblyTry op dev env true d tr).data = d ∧
    (qfunctionAssemblyTry op dev env true d tr).trace =
      tr ++ [Event.bind KernelKind.assembleQFunction
        (op.inputs.map (bindField ArrayBinding.null)) []] ∧
    (qfunctionAssemblyTry op dev env true d tr).result =
      Except.error
        (CeedError.BACKEND "Cannot assemble QFunction without active inputs and outputs") := by
  unfold qfunctionAssemblyTry
  simp only [hfb, Bool.not_false, if_true, gt_iff_lt, true_and]
  by_cases h1 : 0 < activeFieldSize op.inputs
  · have h2 : ¬ 0 < activeFieldSize op.outputs := by omega
    simp only [h1, h2, not_true_eq_false, not_false_eq_true, if_false, if_true, and_self]
  · simp only [h1, not_false_eq_true, if_true, and_self]

/-- C17 (as stated, refuted). QFunction assembly with `build_objects` on a fresh operator
without an active input, when the compilation of the operator kernel fails: the kernel is
classified, generated and compiled first, the failure sets the assembly fallback flag, the
block "Try assembly" with the check of the active fields is skipped, and the request is passed
to the fallback operator. -/
theorem qfunction_assembly_check_not_reached :
    activeFieldSize sampleOperatorPassive.inputs = 0 ∧
    OperatorData.init.use_assembly_fallback = false ∧
    (CeedOperatorLinearAssembleQFunction_Cuda_gen sampleOperatorPassive sampleDevice
      sampleEnvCompileFails OperatorData.init).data.use_assembly_fallback = true ∧
    (CeedOperatorLinearAssembleQFunction_Cuda_gen sampleOperatorPassive sampleDevice
      sampleEnvCompileFails OperatorData.init).trace =
      [Event.classify, Event.preamble KernelKind.apply,
       Event.synthesize KernelKind.apply "CeedKernelHipGenOperator_Poisson3D",
       Event.compile KernelKind.apply 4 64 false,
       Event.fallback KernelKind.assembleQFunction] := by
  decide

/-- C17 (amended). When `CeedOperatorLinearAssembleQFunction_Cuda_gen` gets past its block
"Build the assembly kernel" with the assembly fallback flag clear (the kernels are built, now
or by an earlier call) and the operator has no active input (the sizes of the active inputs add
up to 0) or no active output, the request fails with the backend error "Cannot assemble
QFunction without active inputs and outputs".  The steps taken are those of the build block
followed by the binding of the inputs: no output restriction and no assembled vector is
created, nothing is launched, the fallback operator is not called, and the assembly fallback
flag is clear before and after the call. -/
theorem qfunction_assembly_without_active_fields (op : Operator) (dev : Device)
    (env : CallEnv) (data : OperatorData)
    (hb : (qfunctionAssemblyBuild op env data).result = Except.ok ())
    (hfb : (qfunctionAssemblyBuild op env data).data.use_assembly_fallback = false)
    (hno : activeFieldSize op.inputs = 0 ∨ activeFieldSize op.outputs = 0) :
    (CeedOperatorLinearAssembleQFunction_Cuda_gen op dev env data).result =
      Except.error
        (CeedError.BACKEND "Cannot assemble QFunction without active inputs and outputs") ∧
    (CeedOperatorLinearAssembleQFunction_Cuda_gen op dev env data).trace =
      (qfunctionAssemblyBuild op env data).trace ++
        [Event.bind KernelKind.assembleQFunction
          (op.inputs.map (bindField ArrayBinding.null)) []] ∧
    (∀ num_elem elem_size num_comp l_size strides,
      Event.createRestriction num_elem elem_size num_comp l_size strides ∉
        (CeedOperatorLinearAssembleQFunction_Cuda_gen op dev env data).trace) ∧
    (∀ l_size, Event.createVector l_size ∉
      (CeedOperatorLinearAssembleQFunction_Cuda_gen op dev env data).trace) ∧
    (∀ kind dims shared_mem good, Event.launch kind dims shared_mem good ∉
      (CeedOperatorLinearAssembleQFunction_Cuda_gen op dev env data).trace) ∧
    (∀ kind, Event.fallback kind ∉
      (CeedOperatorLinearAssembleQFunction_Cuda_gen op dev env data).trace) ∧
    data.use_assembly_fallback = false ∧
    (CeedOperatorLinearAssembleQFunction_Cuda_gen op dev env data).data.use_assembly_fallback =
      false := by
  obtain ⟨h1, h2, h3⟩ := qfunctionAssemblyTry_no_active op dev env
    (qfunctionAssemblyBuild op env data).data (qfunctionAssemblyBuild op env data).trace hfb hno
  have hcore : CeedOperatorLinearAssembleQFunction_Cuda_gen op dev env data =
      { data := (qfunctionAssemblyBuild op env data).data,
        trace := (qfunctionAssemblyBuild op env data).trace ++
          [Event.bind KernelKind.assembleQFunction
            (op.inputs.map (bindField ArrayBinding.null)) []],
        result := Except.error
          (CeedError.BACKEND "Cannot assemble QFunction without active inputs and outputs") } := by
    unfold CeedOperatorLinearAssembleQFunction_Cuda_gen
    rw [qfunctionCore_of_build_ok op dev env true data hb]
    unfold assemblyFallback
    simp only [h3, h1, h2]
  have hsteps := qfunctionAssemblyBuild_steps op env data
  have hmem : ∀ ev ∈ (CeedOperatorLinearAssembleQFunction_Cuda_gen op dev env data).trace,
      ev.isBuildStep = true ∨ ev.isBind = true := by
    intro ev hev
    rw [hcore] at hev
    simp only [List.mem_append, List.mem_singleton] at hev
    rcases hev with h | h
    · exact Or.inl (hsteps ev h)
    · right; rw [h]; rfl
  have hentry : data.use_assembly_fallback = false := by
    cases hd : data.use_assembly_fallback
    · rfl
    · have := (qfunctionAssemblyBuild_frame op env data).1.2 hd
      rw [hfb] at this
      exact absurd this (by simp)
  refine ⟨by rw [hcore], by rw [hcore], ?_, ?_, ?_, ?_, hentry, by rw [hcore]; exact hfb⟩
  · intro a b c d e h
    have := hmem _ h
    simp [Event.isBuildStep, Event.isBind] at this
  · intro a h
    have := hmem _ h
    simp [Event.isBuildStep, Event.isBind] at this
  · intro a b c d h
    have := hmem _ h
    simp [Event.isBuildStep, Event.isBind] at this
  · intro a h
    have := hmem _ h
    simp [Event.isBuildStep, Event.isBind] at this

/-- Witness of the amended C17: the sample operator without an active input, on a fresh
operator whose kernels compile. -/
theorem qfunction_assembly_without_active_fields_witness :
    (CeedOperatorLinearAssembleQFunction_Cuda_gen sampleOperatorPassive sampleDevice
        sampleEnvGood OperatorData.init).result =
      Except.error
        (CeedError.BACKEND "Cannot assemble QFunction without active inputs and outputs") ∧
    (CeedOperatorLinearAssembleQFunction_Cuda_gen sampleOperatorPassive sampleDevice
        sampleEnvGood OperatorData.init).trace =
      (qfunctionAssemblyBuild sampleOperatorPassive sampleEnvGood OperatorData.init).trace ++
        [Event.bind KernelKind.assembleQFunction
          (sampleOperatorPassive.inputs.map (bindField ArrayBinding.null)) []] ∧
    (∀ num_elem elem_size num_comp l_size strides,
      Event.createRestriction num_elem elem_size num_comp l_size strides ∉
        (CeedOperatorLinearAssembleQFunction_Cuda_gen sampleOperatorPassive sampleDevice
          sampleEnvGood OperatorData.init).trace) ∧
    (∀ l_size, Event.createVector l_size ∉
      (CeedOperatorLinearAssembleQFunction_Cuda_gen sampleOperatorPassive sampleDevice
        sampleEnvGood OperatorData.init).trace) ∧
    (∀ kind dims shared_mem good, Event.launch kind dims shared_mem good ∉
      (CeedOperatorLinearAssembleQFunction_Cuda_gen sampleOperatorPassive sampleDevice
        sampleEnvGood OperatorData.init).trace) ∧
    (∀ kind, Event.fallback kind ∉
      (CeedOperatorLinearAssembleQFunction_Cuda_gen sampleOperatorPassive sampleDevice
        sampleEnvGood OperatorData.init).trace) ∧
    OperatorData.init.use_assembly_fallback = false ∧
    (CeedOperatorLinearAssembleQFunction_Cuda_gen sampleOperatorPassive sampleDevice
      sampleEnvGood OperatorData.init).data.use_assembly_fallback = false :=
  qfunction_assembly_without_active_fields sampleOperatorPassive sampleDevice sampleEnvGood
    OperatorData.init rfl rfl (Or.inl (by decide))

/-- Sample runs of the QFunction assembly on fresh operators: with active fields the objects
are created between the binding and the launch; without an active input the error comes after
both kernels are generated and compiled and the inputs are bound. -/
theorem qfunction_assembly_samples :
    (CeedOperatorLinearAssembleQFunction_Cuda_gen sampleOperatorStd sampleDevice sampleEnvGood
      OperatorData.init).trace =
      [Event.classify, Event.preamble KernelKind.apply,
       Event.synthesize KernelKind.apply "CeedKernelHipGenOperator_Poisson3D",
       Event.compile KernelKind.apply 4 64 true,
       Event.preamble KernelKind.assembleQFunction,
       Event.synthesize KernelKind.assembleQFunction "CeedKernelHipGenQFunctionAssembly_Poisson3D",
       Event.compile KernelKind.assembleQFunction 4 64 true,
       Event.bind KernelKind.assembleQFunction [ArrayBinding.null] [],
       Event.createRestriction 10 64 9 5760 (1, 640, 64),
       Event.createVector 5760,
       Event.launch KernelKind.assembleQFunction ⟨4, 4, 8, 2⟩ 1024 true,
       Event.restore KernelKind.assembleQFunction] ∧
    (CeedOperatorLinearAssembleQFunction_Cuda_gen sampleOperatorPassive sampleDevice
      sampleEnvGood OperatorData.init).trace =
      [Event.classify, Event.preamble KernelKind.apply,
       Event.synthesize KernelKind.apply "CeedKernelHipGenOperator_Poisson3D",
       Event.compile KernelKind.apply 4 64 true,
       Event.preamble KernelKind.assembleQFunction,
       Event.synthesize KernelKind.assembleQFunction "CeedKernelHipGenQFunctionAssembly_Poisson3D",
       Event.compile KernelKind.assembleQFunction 4 64 true,
       Event.bind KernelKind.assembleQFunction [ArrayBinding.passive 7] []] := by
  decide

/-! ## Composite apply (C18) -/

/-- The core of apply never calls the fallback operator itself. -/
theorem applyCore_no_fallback (op : Operator) (dev : Device) (env : CallEnv)
    (d : OperatorData) (kind : KernelKind) :
    Event.fallback kind ∉ (CeedOperatorApplyAddCore_Cuda_gen op dev env d).trace := by
  unfold CeedOperatorApplyAddCore_Cuda_gen
  have hb := build_steps op env d
  generalize CeedOperatorBuildKernel_Cuda_gen op env d = b at hb ⊢
  obtain ⟨bd, bt, br⟩ := b
  simp only at hb ⊢
  have hnb : Event.fallback kind ∉ bt := by
    intro h
    have := hb _ h
    simp [Event.isBuildStep] at this
  have hp : Event.fallback kind ∉ (updatePoints op bd).2 := by
    intro h
    have := updatePoints_trace op bd _ h
    simp at this
  rcases br with e | v
  · simpa using hnb
  · rcases v with _ | _
    · simpa using hnb
    · simp only
      cases hat : op.is_at_points
      · simp only [Bool.false_eq_true, if_false]
        cases hl : launchConfig dev env op.has_tensor_bases bd.thread_1d bd.dim op.num_elem with
        | none => simp [hnb]
        | some cfg => cases hr : env.run_good <;> simp [hnb]
      · simp only [if_true]
        cases hl : launchConfig dev env op.has_tensor_bases (updatePoints op bd).1.thread_1d
            (updatePoints op bd).1.dim op.num_elem with
        | none => simp [hnb, hp]
        | some cfg => cases hr : env.run_good <;> simp [hnb, hp]

/-- The first loop of the composite apply, when no sub-operator raises an error: every
sub-operator is handled by itself. -/
theorem compositeLaunchLoop_ok (dev : Device) :
    ∀ (subs : List SubOperator) (i0 : Nat) (goods : List Bool),
      (compositeLaunchLoop dev subs i0).result = Except.ok goods →
      goods = subs.map (subIsRunGood dev) ∧
      (compositeLaunchLoop dev subs i0).data = subs.map (subData dev) ∧
      (∀ j ev, (j, ev) ∈ (compositeLaunchLoop dev subs i0).trace ↔
        ∃ k sub, subs[k]? = some sub ∧ j = i0 + k ∧ ev ∈ subTrace dev sub) ∧
      (∀ sub ∈ subs, sub.op.num_elem > 0 →
        ∃ good, (CeedOperatorApplyAddCore_Cuda_gen sub.op dev sub.env sub.data).result =
          Except.ok good) := by
  intro subs
  induction subs with
  | nil =>
    intro i0 goods h
    simp only [compositeLaunchLoop, Except.ok.injEq] at h
    subst h
    simp [compositeLaunchLoop]
  | cons s rest ih =>
    intro i0 goods h
    have hmem : ∀ (tr : List Event) (j : Nat) (ev : Event),
        ((j, ev) ∈ tr.map (fun e => (i0, e)) ++ (compositeLaunchLoop dev rest (i0 + 1)).trace ↔
          (j = i0 ∧ ev ∈ tr) ∨ (j, ev) ∈ (compositeLaunchLoop dev rest (i0 + 1)).trace) := by
      intro tr j ev
      simp only [List.mem_append, List.mem_map, Prod.mk.injEq]
      constructor
      · rintro (⟨e, he, rfl, rfl⟩ | h1)
        · exact Or.inl ⟨rfl, he⟩
        · exact Or.inr h1
      · rintro (⟨rfl, he⟩ | h1)
        · exact Or.inl ⟨ev, he, rfl, rfl⟩
        · exact Or.inr h1
    have hidx : ∀ (j : Nat) (ev : Event),
        (∃ k sub, (s :: rest)[k]? = some sub ∧ j = i0 + k ∧ ev ∈ subTrace dev sub) ↔
          (j = i0 ∧ ev ∈ subTrace dev s) ∨
          ∃ k sub, rest[k]? = some sub ∧ j = i0 + 1 + k ∧ ev ∈ subTrace dev sub := by
      intro j ev
      constructor
      · rintro ⟨k, sub, hk, hj, hev⟩
        cases k with
        | zero =>
          simp only [List.getElem?_cons_zero, Option.some.injEq] at hk
          subst hk
          exact Or.inl ⟨by omega, hev⟩
        | succ k =>
          simp only [List.getElem?_cons_succ] at hk
          exact Or.inr ⟨k, sub, hk, by omega, hev⟩
      · rintro (⟨hj, hev⟩ | ⟨k, sub, hk, hj, hev⟩)
        · exact ⟨0, s, by simp, by omega, hev⟩
        · exact ⟨k + 1, sub, by simpa using hk, by omega, hev⟩
    by_cases hn : s.op.num_elem > 0
    · simp only [compositeLaunchLoop, hn, if_true] at h ⊢
      cases hc : (CeedOperatorApplyAddCore_Cuda_gen s.op dev s.env s.data).result with
      | error e => simp [hc] at h
      | ok good =>
        simp only [hc] at h ⊢
        cases hr : (compositeLaunchLoop dev rest (i0 + 1)).result with
        | error e => simp [hr, Except.map] at h
        | ok goods1 =>
          simp only [hr, Except.map, Except.ok.injEq] at h
          obtain ⟨h1, h2, h3, h4⟩ := ih (i0 + 1) goods1 hr
          have hg : subIsRunGood dev s = good := by
            unfold subIsRunGood
            simp only [hn, if_true, hc]
            cases good <;> rfl
          have hd : subData dev s =
              (CeedOperatorApplyAddCore_Cuda_gen s.op dev s.env s.data).data := by
            unfold subData
            simp only [hn, if_true]
          have ht : subTrace dev s =
              (CeedOperatorApplyAddCore_Cuda_gen s.op dev s.env s.data).trace := by
            unfold subTrace
            simp only [hn, if_true]
          refine ⟨?_, ?_, ?_, ?_⟩
          · rw [← h, h1, List.map_cons, hg]
          · rw [h2, List.map_cons, hd]
          · intro j ev
            rw [hmem, hidx, h3, ht]
          · intro sub hsub hpos
            rcases List.mem_cons.1 hsub with e | hsub
            · rw [e]; exact ⟨good, hc⟩
            · exact h4 sub hsub hpos
    · simp only [compositeLaunchLoop, hn, if_false] at h ⊢
      cases hr : (compositeLaunchLoop dev rest (i0 + 1)).result with
      | error e => simp [hr, Except.map] at h
      | ok goods1 =>
        simp only [hr, Except.map, Except.ok.injEq] at h
        obtain ⟨h1, h2, h3, h4⟩ := ih (i0 + 1) goods1 hr
        have hg : subIsRunGood dev s = false := by
          unfold subIsRunGood
          simp only [hn, if_false]
        have hd : subData dev s = s.data := by
          unfold subData
          simp only [hn, if_false]
        have ht : subTrace dev s = [] := by
          unfold subTrace
          simp only [hn, if_false]
        refine ⟨?_, ?_, ?_, ?_⟩
        · rw [← h, h1, List.map_cons, hg]
        · rw [h2, List.map_cons, hd]
        · intro j ev
          rw [hidx, h3, ht]
          simp
        · intro sub hsub hpos
          rcases List.mem_cons.1 hsub with e | hsub
          · rw [e] at hpos; exact absurd hpos hn
          · exact h4 sub hsub hpos

/-- C18 (as stated, refuted). A composite apply on the sample operator and a copy of it
without elements, every compilation and launch being good: for the second sub-operator no
kernel is built or launched, so neither fails, yet it is re-applied through the fallback
operator, because its entry of `is_run_good` keeps the initial value `false`. -/
theorem composite_empty_suboperator_falls_back :
    (CeedOperatorApplyAddComposite_Cuda_gen sampleDevice sampleSubOperators).result =
      Except.ok () ∧
    (1, Event.fallback KernelKind.apply) ∈
      (CeedOperatorApplyAddComposite_Cuda_gen sampleDevice sampleSubOperators).trace ∧
    ((CeedOperatorApplyAddComposite_Cuda_gen sampleDevice sampleSubOperators).trace.filter
      (fun p => p.1 = 1)) = [(1, Event.fallback KernelKind.apply)] ∧
    (CeedOperatorApplyAddComposite_Cuda_gen sampleDevice sampleSubOperators).data.map
      (fun d => (d.is_setup_done, d.op, d.use_fallback)) =
      [(true, true, false), (false, false, false)] :=
  ⟨rfl, by decide, by decide, by decide⟩

/-- C18 (amended). In a composite apply that returns without an error, sub-operator `i` is
re-applied through the fallback operator exactly if it has no elements or the build or the
launch of its own generated kernel failed (`is_run_good` of its core call is false).  Its
backend data after the call, with its fallback flag, and the steps taken for it, the launch
among them, are those of its own core call, or none if it has no elements: they are the same
whatever the siblings are and whether they succeed or fail. -/
theorem composite_fallback_isolated (dev : Device) (subs : List SubOperator)
    (hok : (CeedOperatorApplyAddComposite_Cuda_gen dev subs).result = Except.ok ())
    (i : Nat) (sub : SubOperator) (hi : subs[i]? = some sub) :
    ((i, Event.fallback KernelKind.apply) ∈
        (CeedOperatorApplyAddComposite_Cuda_gen dev subs).trace ↔
      (sub.op.num_elem ≤ 0 ∨
        (CeedOperatorApplyAddCore_Cuda_gen sub.op dev sub.env sub.data).result =
          Except.ok false)) ∧
    (CeedOperatorApplyAddComposite_Cuda_gen dev subs).data[i]? =
      some (if sub.op.num_elem > 0 then
        (CeedOperatorApplyAddCore_Cuda_gen sub.op dev sub.env sub.data).data else sub.data) ∧
    (∀ ev, ev ≠ Event.fallback KernelKind.apply →
      ((i, ev) ∈ (CeedOperatorApplyAddComposite_Cuda_gen dev subs).trace ↔
        (sub.op.num_elem > 0 ∧
          ev ∈ (CeedOperatorApplyAddCore_Cuda_gen sub.op dev sub.env sub.data).trace))) := by
  unfold CeedOperatorApplyAddComposite_Cuda_gen at hok ⊢
  cases hr : (compositeLaunchLoop dev subs 0).result with
  | error e => simp [hr] at hok
  | ok goods =>
    simp only [hr]
    obtain ⟨h1, h2, h3, h4⟩ := compositeLaunchLoop_ok dev subs 0 goods hr
    have hsubmem : sub ∈ subs := List.getElem?_mem hi
    have hloop : ∀ ev, ((i, ev) ∈ (compositeLaunchLoop dev subs 0).trace ↔
        ev ∈ subTrace dev sub) := by
      intro ev
      rw [h3]
      constructor
      · rintro ⟨k, sub1, hk, hj, hev⟩
        have hki : k = i := by omega
        subst hki
        rw [hi] at hk
        simp only [Option.some.injEq] at hk
        rw [hk]; exact hev
      · intro hev
        exact ⟨i, sub, hi, by omega, hev⟩
    have hfb : ∀ ev, ((i, ev) ∈ List.map (fun p : Nat × Bool => (p.1, Event.fallback KernelKind.apply))
          (List.filter (fun p => !p.2) goods.enum) ↔
        (ev = Event.fallback KernelKind.apply ∧ subIsRunGood dev sub = false)) := by
      intro ev
      simp only [List.mem_map, List.mem_filter, Prod.mk.injEq, Bool.not_eq_true',
        List.mem_enum_iff_getElem?]
      rw [h1]
      constructor
      · rintro ⟨⟨k, g⟩, ⟨hk, hg⟩, hki, hev⟩
        simp only at hk hg hki
        subst hki
        subst hg
        rw [List.getElem?_map, hi] at hk
        simp only [Option.map_some', Option.some.injEq] at hk
        exact ⟨hev.symm, hk⟩
      · rintro ⟨hev, hg⟩
        refine ⟨(i, false), ⟨?_, rfl⟩, rfl, hev.symm⟩
        simp only [List.getElem?_map, hi, Option.map_some', hg]
    refine ⟨?_, ?_, ?_⟩
    · simp only [List.mem_append]
      rw [hloop, hfb]
      constructor
      · rintro (h | ⟨_, hg⟩)
        · exfalso
          unfold subTrace at h
          split at h
          · exact applyCore_no_fallback _ _ _ _ _ h
          · simp at h
        · by_cases hn : sub.op.num_elem > 0
          · right
            obtain ⟨good, hgood⟩ := h4 sub hsubmem hn
            unfold subIsRunGood at hg
            simp only [hn, if_true, hgood] at hg
            cases good
            · exact hgood
            · simp at hg
          · left; omega
      · intro h
        right
        refine ⟨rfl, ?_⟩
        unfold subIsRunGood
        rcases h with h | h
        · have hn : ¬ sub.op.num_elem > 0 := by omega
          simp only [hn, if_false]
        · by_cases hn : sub.op.num_elem > 0
          · simp only [hn, if_true, h]
          · simp only [hn, if_false]
    · rw [h2, List.getElem?_map, hi]
      rfl
    · intro ev hne
      simp only [List.mem_append]
      rw [hloop, hfb]
      constructor
      · rintro (h | ⟨h, _⟩)
        · unfold subTrace at h
          split at h
          · exact ⟨by assumption, h⟩
          · simp at h
        · exact absurd h hne
      · rintro ⟨hn, h⟩
        left
        unfold subTrace
        simp only [hn, if_true]
        exact h

/-- Witness of the amended C18: the launch of the first sub-operator fails, the second runs;
the statement is taken at the second. -/
theorem composite_fallback_isolated_witness :
    ((1, Event.fallback KernelKind.apply) ∈
        (CeedOperatorApplyAddComposite_Cuda_gen sampleDevice sampleSubOperatorsLaunchFails).trace ↔
      (sampleOperator.num_elem ≤ 0 ∨
        (CeedOperatorApplyAddCore_Cuda_gen sampleOperator sampleDevice sampleEnvGood
          OperatorData.init).result = Except.ok false)) ∧
    (CeedOperatorApplyAddComposite_Cuda_gen sampleDevice sampleSubOperatorsLaunchFails).data[1]? =
      some (if sampleOperator.num_elem > 0 then
        (CeedOperatorApplyAddCore_Cuda_gen sampleOperator sampleDevice sampleEnvGood
          OperatorData.init).data else OperatorData.init) ∧
    (∀ ev, ev ≠ Event.fallback KernelKind.apply →
      ((1, ev) ∈
          (CeedOperatorApplyAddComposite_Cuda_gen sampleDevice sampleSubOperatorsLaunchFails).trace ↔
        (sampleOperator.num_elem > 0 ∧
          ev ∈ (CeedOperatorApplyAddCore_Cuda_gen sampleOperator sampleDevice sampleEnvGood
            OperatorData.init).trace))) :=
  composite_fallback_isolated sampleDevice sampleSubOperatorsLaunchFails rfl 1
    { op := sampleOperator, env := sampleEnvGood, data := OperatorData.init } rfl

/-- Sample run of the composite apply: the failed launch of the first sub-operator sets its
fallback flag and sends it to the fallback operator; the second runs its generated kernel. -/
theorem composite_samples :
    (CeedOperatorApplyAddComposite_Cuda_gen sampleDevice
      sampleSubOperatorsLaunchFails).trace.filter (fun p => p.2 = Event.fallback KernelKind.apply) =
      [(0, Event.fallback KernelKind.apply)] ∧
    (CeedOperatorApplyAddComposite_Cuda_gen sampleDevice
      sampleSubOperatorsLaunchFails).data.map (fun d => d.use_fallback) = [true, false] := by
  decide

/-! ## Kernel names (C19) and compile-time constants (C20) -/

/-- Every builder generates its kernel function under the exported name of its kind. -/
theorem synthesize_names (op : Operator) (env : CallEnv) (d : OperatorData)
    (kind : KernelKind) (name : String) :
    (Event.synthesize kind name ∈ (CeedOperatorBuildKernel_Hip_gen op env d).trace →
      kind = KernelKind.apply ∧ name = operatorName kind op.qfunction_name) ∧
    (∀ is_full, Event.synthesize kind name ∈
        (CeedOperatorBuildKernelAssemblyAtPoints_Hip_gen op env is_full d).trace →
      kind = atPointsKind is_full ∧ name = operatorName kind op.qfunction_name) ∧
    (Event.synthesize kind name ∈
        (CeedOperatorBuildKernelLinearAssembleQFunction_Hip_gen op env d).trace →
      kind = KernelKind.assembleQFunction ∧ name = operatorName kind op.qfunction_name) := by
  refine ⟨fun h => ?_, fun is_full h => ?_, fun h => ?_⟩
  · unfold CeedOperatorBuildKernel_Hip_gen at h
    by_cases h1 : d.is_setup_done = true
    · simp [h1] at h
    · have h1' : d.is_setup_done = false := by simpa using h1
      by_cases h2 : hasSharedBases op = false
      · simp [h1', h2] at h
      · cases h3 : CeedOperatorBuildKernelData_Hip_gen op.basis_info op.inputs op.outputs 1 with
        | error e => simp [h1', h2, h3] at h
        | ok kd =>
          simp only [h1', h2, h3, Bool.false_eq_true, if_false] at h
          cases h4 : restrictionOnlyIdentity op
          · by_cases h5 : op.qf_source_path = none
            · simp [h4, h5] at h
            · cases h6 : env.compile_good <;>
              · simp only [h4, h5, h6, Bool.false_eq_true, if_false, if_true, List.mem_cons,
                  Event.synthesize.injEq, List.mem_singleton, reduceCtorEq, false_or, or_false,
                  List.not_mem_nil] at h
                obtain ⟨hk, hn⟩ := h
                subst hk
                exact ⟨rfl, hn⟩
          · simp [h4] at h
  · unfold CeedOperatorBuildKernelAssemblyAtPoints_Hip_gen at h
    unfold atPointsKind
    cases h1 : op.is_at_points
    · simp [h1] at h
    · by_cases h5 : op.qf_source_path = none
      · simp [h1, h5] at h
      · cases h6 : env.assembly_compile_good <;>
        · simp only [h1, h5, h6, Bool.false_eq_true, if_false, if_true, List.mem_cons,
            Event.synthesize.injEq, List.mem_singleton, reduceCtorEq, false_or, or_false,
            List.not_mem_nil, Bool.true_eq_false] at h
          obtain ⟨hk, hn⟩ := h
          subst hk
          exact ⟨rfl, hn⟩
  · unfold CeedOperatorBuildKernelLinearAssembleQFunction_Hip_gen at h
    cases h1 : op.is_at_points
    · by_cases h5 : op.qf_source_path = none
      · simp [h1, h5] at h
      · cases h6 : env.assembly_compile_good <;>
        · simp only [h1, h5, h6, Bool.false_eq_true, if_false, if_true, List.mem_cons,
            Event.synthesize.injEq, List.mem_singleton, reduceCtorEq, false_or, or_false,
            List.not_mem_nil, Bool.true_eq_false] at h
          obtain ⟨hk, hn⟩ := h
          subst hk
          exact ⟨rfl, hn⟩
    · simp [h1] at h

/-- C19. The exported kernel name is the prefix of the kernel kind, `CeedKernelHipGenOperator_`,
`CeedKernelHipGenOperatorFullAssembly_`, `CeedKernelHipGenOperatorDiagonalAssembly_` or
`CeedKernelHipGenQFunctionAssembly_`, followed by the QFunction name; two names are equal only
for the same kind and the same QFunction name; and each builder generates its kernel function
under the name of its kind and of the QFunction of the operator. -/
theorem operatorName_injective (k1 k2 : KernelKind) (n1 n2 : String) :
    (operatorName KernelKind.apply n1 = "CeedKernelHipGenOperator_" ++ n1 ∧
     operatorName KernelKind.assembleFull n1 = "CeedKernelHipGenOperatorFullAssembly_" ++ n1 ∧
     operatorName KernelKind.assembleDiagonal n1 =
       "CeedKernelHipGenOperatorDiagonalAssembly_" ++ n1 ∧
     operatorName KernelKind.assembleQFunction n1 =
       "CeedKernelHipGenQFunctionAssembly_" ++ n1) ∧
    (operatorName k1 n1 = operatorName k2 n2 ↔ k1 = k2 ∧ n1 = n2) ∧
    (∀ (op : Operator) (env : CallEnv) (d : OperatorData) (kind : KernelKind) (name : String),
      Event.synthesize kind name ∈ (CeedOperatorBuildKernel_Hip_gen op env d).trace →
        name = operatorName KernelKind.apply op.qfunction_name) ∧
    (∀ (op : Operator) (env : CallEnv) (is_full : Bool) (d : OperatorData) (kind : KernelKind)
        (name : String),
      Event.synthesize kind name ∈
          (CeedOperatorBuildKernelAssemblyAtPoints_Hip_gen op env is_full d).trace →
        name = operatorName
          (if is_full then KernelKind.assembleFull else KernelKind.assembleDiagonal)
          op.qfunction_name) ∧
    (∀ (op : Operator) (env : CallEnv) (d : OperatorData) (kind : KernelKind) (name : String),
      Event.synthesize kind name ∈
          (CeedOperatorBuildKernelLinearAssembleQFunction_Hip_gen op env d).trace →
        name = operatorName KernelKind.assembleQFunction op.qfunction_name) := by
  refine ⟨⟨rfl, rfl, rfl, rfl⟩, ⟨fun h => ?_, fun h => by rw [h.1, h.2]⟩, ?_, ?_, ?_⟩
  · cases k1 <;> cases k2 <;> simp only [operatorName] at h <;>
      first
        | exact ⟨rfl, String.ext (by simpa [String.ext_iff] using h)⟩
        | exact absurd h (by simp [String.ext_iff])
  · intro op env d kind name h
    obtain ⟨hk, hn⟩ := (synthesize_names op env d kind name).1 h
    rw [hn, hk]
  · intro op env is_full d kind name h
    obtain ⟨hk, hn⟩ := (synthesize_names op env d kind name).2.1 is_full h
    rw [hn, hk]
    rfl
  · intro op env d kind name h
    obtain ⟨hk, hn⟩ := (synthesize_names op env d kind name).2.2 h
    rw [hn, hk]

theorem buildKernelData_is_all_tensor (bi : CeedBasis → BasisInfo)
    (inputs outputs : List OperatorField) (max_dim : Int) (kd : KernelData)
    (h : CeedOperatorBuildKernelData_Hip_gen bi inputs outputs max_dim = Except.ok kd) :
    kd.is_all_tensor = ((inputs ++ outputs).all fun field =>
      if field.basis ≠ CEED_BASIS_NONE then (bi field.basis).is_tensor else true) := by
  cases hloop : kernelDataLoop bi (inputs ++ outputs)
      { is_all_3d := true, max_dim := max_dim, max_P := 0, max_P_1d := 0, Q := 0, Q_1d := 0 } with
  | error e =>
    rw [buildKernelData_of_loop_error bi inputs outputs max_dim e hloop] at h
    simp at h
  | ok s =>
    obtain ⟨kd1, hkd1, _, _, ht, _⟩ := buildKernelData_of_loop_ok bi inputs outputs max_dim s hloop
    rw [hkd1] at h
    simp only [Except.ok.injEq] at h
    rw [← h]; exact ht

/-- The operator-kernel builder compiles with the constants computed by
`BlockGridCalculate_Hip_gen` from the values it stores in the backend data. -/
theorem build_compile_constants (op : Operator) (env : CallEnv) (d : OperatorData)
    (kind : KernelKind) (a b : Int) (g : Bool)
    (h : Event.compile kind a b g ∈ (CeedOperatorBuildKernel_Hip_gen op env d).trace) :
    kind = KernelKind.apply ∧
    a = (buildBlockSizes op (CeedOperatorBuildKernel_Hip_gen op env d).data).1 ∧
    b = (buildBlockSizes op (CeedOperatorBuildKernel_Hip_gen op env d).data).1 *
      (buildBlockSizes op (CeedOperatorBuildKernel_Hip_gen op env d).data).2.1 *
      (buildBlockSizes op (CeedOperatorBuildKernel_Hip_gen op env d).data).2.2 := by
  unfold buildBlockSizes
  unfold CeedOperatorBuildKernel_Hip_gen at h ⊢
  by_cases h1 : d.is_setup_done = true
  · simp [h1] at h
  · have h1' : d.is_setup_done = false := by simpa using h1
    by_cases h2 : hasSharedBases op = false
    · simp [h1', h2] at h
    · cases h3 : CeedOperatorBuildKernelData_Hip_gen op.basis_info op.inputs op.outputs 1 with
      | error e => simp [h1', h2, h3] at h
      | ok kd =>
        have hat : kd.is_all_tensor = isAllTensor op :=
          buildKernelData_is_all_tensor op.basis_info op.inputs op.outputs 1 kd h3
        simp only [h1', h2, h3, Bool.false_eq_true, if_false] at h ⊢
        cases h4 : restrictionOnlyIdentity op
        · by_cases h5 : op.qf_source_path = none
          · simp [h4, h5] at h
          · cases h6 : env.compile_good <;>
            · simp only [h4, h5, h6, Bool.false_eq_true, if_false, if_true, List.mem_cons,
                Event.compile.injEq, List.mem_singleton, reduceCtorEq, false_or, or_false,
                List.not_mem_nil] at h ⊢
              obtain ⟨hk, ha, hb, _⟩ := h
              rw [← hat]
              exact ⟨hk, ha, hb⟩
        · simp [h4] at h

/-- The builders of the at-points assembly kernels compile with the constants computed by
`BlockGridCalculate_Hip_gen` from the values stored in the backend data. -/
theorem assemblyBuild_compile_constants (op : Operator) (env : CallEnv) (is_full : Bool)
    (d : OperatorData) (kind : KernelKind) (a b : Int) (g : Bool)
    (h : Event.compile kind a b g ∈
      (CeedOperatorBuildKernelAssemblyAtPoints_Hip_gen op env is_full d).trace) :
    kind = atPointsKind is_full ∧
    a = (BlockGridCalculate_Hip_gen d.dim op.num_elem d.max_P_1d d.Q_1d).1 ∧
    b = (BlockGridCalculate_Hip_gen d.dim op.num_elem d.max_P_1d d.Q_1d).1 *
      (BlockGridCalculate_Hip_gen d.dim op.num_elem d.max_P_1d d.Q_1d).2.1 *
      (BlockGridCalculate_Hip_gen d.dim op.num_elem d.max_P_1d d.Q_1d).2.2 := by
  unfold CeedOperatorBuildKernelAssemblyAtPoints_Hip_gen at h
  unfold atPointsKind
  cases h1 : op.is_at_points
  · simp [h1] at h
  · by_cases h5 : op.qf_source_path = none
    · simp [h1, h5] at h
    · cases h6 : env.assembly_compile_good <;>
      · simp only [h1, h5, h6, Bool.false_eq_true, if_false, if_true, List.mem_cons,
          Event.compile.injEq, List.mem_singleton, reduceCtorEq, false_or, or_false,
          List.not_mem_nil, Bool.true_eq_false] at h
        exact ⟨h.1, h.2.1, h.2.2.1⟩

/-- The builder of the QFunction assembly kernel compiles with the constants computed by
`BlockGridCalculate_Hip_gen` from the values stored in the backend data. -/
theorem qfunctionBuild_compile_constants (op : Operator) (env : CallEnv)
    (d : OperatorData) (kind : KernelKind) (a b : Int) (g : Bool)
    (h : Event.compile kind a b g ∈
      (CeedOperatorBuildKernelLinearAssembleQFunction_Hip_gen op env d).trace) :
    kind = KernelKind.assembleQFunction ∧
    a = (BlockGridCalculate_Hip_gen d.dim op.num_elem d.max_P_1d d.Q_1d).1 ∧
    b = (BlockGridCalculate_Hip_gen d.dim op.num_elem d.max_P_1d d.Q_1d).1 *
      (BlockGridCalculate_Hip_gen d.dim op.num_elem d.max_P_1d d.Q_1d).2.1 *
      (BlockGridCalculate_Hip_gen d.dim op.num_elem d.max_P_1d d.Q_1d).2.2 := by
  unfold CeedOperatorBuildKernelLinearAssembleQFunction_Hip_gen at h
  cases h1 : op.is_at_points
  · by_cases h5 : op.qf_source_path = none
    · simp [h1, h5] at h
    · cases h6 : env.assembly_compile_good <;>
      · simp only [h1, h5, h6, Bool.false_eq_true, if_false, if_true, List.mem_cons,
          Event.compile.injEq, List.mem_singleton, reduceCtorEq, false_or, or_false,
          List.not_mem_nil, Bool.true_eq_false] at h
        exact ⟨h.1, h.2.1, h.2.2.1⟩
  · simp [h1] at h

/-- C20. For `dim` in `{1, 2, 3}`, any `num_elem` and `t = max(P_1d, Q_1d) >= 1`,
`BlockGridCalculate_Hip_gen` returns `block_sizes = {t, 1 if dim = 1 else t, e}` with the
elements per block `e >= 1` of the dimension: 64 if `64*t <= 256` else `max(256 / t, 1)` for
`dim = 1`; 16 if `t < 4` else 2 for `dim = 2`; 4 if `t < 6`, 2 if `t < 8`, else 1 for
`dim = 3`.  The result does not depend on `num_elem`, and the block volume is at least 1.
Each builder passes `OP_T_1D = block_sizes[0]` and
`BLOCK_SIZE = block_sizes[0]*block_sizes[1]*block_sizes[2]` of its call of
`BlockGridCalculate_Hip_gen` to the compiler. -/
theorem hip_compile_constants (dim num_elem P_1d Q_1d : Int)
    (hdim : dim = 1 ∨ dim = 2 ∨ dim = 3) (ht : 1 ≤ max P_1d Q_1d) :
    BlockGridCalculate_Hip_gen dim num_elem P_1d Q_1d =
      (max P_1d Q_1d, if dim = 1 then 1 else max P_1d Q_1d,
        spec_elems_per_block dim (max P_1d Q_1d)) ∧
    1 ≤ spec_elems_per_block dim (max P_1d Q_1d) ∧
    1 ≤ max P_1d Q_1d * (if dim = 1 then 1 else max P_1d Q_1d) *
      spec_elems_per_block dim (max P_1d Q_1d) ∧
    (∀ num_elem1, BlockGridCalculate_Hip_gen dim num_elem1 P_1d Q_1d =
      BlockGridCalculate_Hip_gen dim num_elem P_1d Q_1d) ∧
    (∀ (op : Operator) (env : CallEnv) (d : OperatorData) (kind : KernelKind)
        (OP_T_1D BLOCK_SIZE : Int) (good : Bool),
      Event.compile kind OP_T_1D BLOCK_SIZE good ∈
          (CeedOperatorBuildKernel_Hip_gen op env d).trace →
        OP_T_1D = (buildBlockSizes op (CeedOperatorBuildKernel_Hip_gen op env d).data).1 ∧
        BLOCK_SIZE = (buildBlockSizes op (CeedOperatorBuildKernel_Hip_gen op env d).data).1 *
          (buildBlockSizes op (CeedOperatorBuildKernel_Hip_gen op env d).data).2.1 *
          (buildBlockSizes op (CeedOperatorBuildKernel_Hip_gen op env d).data).2.2) ∧
    (∀ (op : Operator) (env : CallEnv) (is_full : Bool) (d : OperatorData) (kind : KernelKind)
        (OP_T_1D BLOCK_SIZE : Int) (good : Bool),
      Event.compile kind OP_T_1D BLOCK_SIZE good ∈
          (CeedOperatorBuildKernelAssemblyAtPoints_Hip_gen op env is_full d).trace →
        OP_T_1D = (BlockGridCalculate_Hip_gen d.dim op.num_elem d.max_P_1d d.Q_1d).1 ∧
        BLOCK_SIZE = (BlockGridCalculate_Hip_gen d.dim op.num_elem d.max_P_1d d.Q_1d).1 *
          (BlockGridCalculate_Hip_gen d.dim op.num_elem d.max_P_1d d.Q_1d).2.1 *
          (BlockGridCalculate_Hip_gen d.dim op.num_elem d.max_P_1d d.Q_1d).2.2) ∧
    (∀ (op : Operator) (env : CallEnv) (d : OperatorData) (kind : KernelKind)
        (OP_T_1D BLOCK_SIZE : Int) (good : Bool),
      Event.compile kind OP_T_1D BLOCK_SIZE good ∈
          (CeedOperatorBuildKernelLinearAssembleQFunction_Hip_gen op env d).trace →
        OP_T_1D = (BlockGridCalculate_Hip_gen d.dim op.num_elem d.max_P_1d d.Q_1d).1 ∧
        BLOCK_SIZE = (BlockGridCalculate_Hip_gen d.dim op.num_elem d.max_P_1d d.Q_1d).1 *
          (BlockGridCalculate_Hip_gen d.dim op.num_elem d.max_P_1d d.Q_1d).2.1 *
          (BlockGridCalculate_Hip_gen d.dim op.num_elem d.max_P_1d d.Q_1d).2.2) := by
  have hmax : CeedIntMax Q_1d P_1d = max P_1d Q_1d := by
    unfold CeedIntMax
    split <;> omega
  have he : 1 ≤ spec_elems_per_block dim (max P_1d Q_1d) := by
    unfold spec_elems_per_block
    split
    · split <;> omega
    · split
      · split <;> omega
      · split
        · omega
        · split <;> omega
  have hb1 : 1 ≤ (if dim = 1 then 1 else max P_1d Q_1d) := by split <;> omega
  have hval : ∀ n : Int, BlockGridCalculate_Hip_gen dim n P_1d Q_1d =
      (max P_1d Q_1d, if dim = 1 then 1 else max P_1d Q_1d,
        spec_elems_per_block dim (max P_1d Q_1d)) := by
    intro n
    unfold BlockGridCalculate_Hip_gen spec_elems_per_block
    simp only [hmax]
    rcases hdim with h | h | h
    · subst h
      simp only [if_true]
      by_cases hc : 64 * max P_1d Q_1d > 256
      · have hc2 : ¬ 64 * max P_1d Q_1d ≤ 256 := by omega
        have hq : Int.tdiv 256 (max P_1d Q_1d) = 256 / max P_1d Q_1d :=
          Int.tdiv_eq_ediv (by omega) (by omega)
        have hq0 : 0 ≤ 256 / max P_1d Q_1d := Int.ediv_nonneg (by omega) (by omega)
        simp only [hc, hc2, if_true, if_false, hq]
        by_cases hp : 256 / max P_1d Q_1d > 0
        · simp only [hp, if_true]
          congr 2
          omega
        · simp only [hp, if_false]
          congr 2
          omega
      · have hc2 : 64 * max P_1d Q_1d ≤ 256 := by omega
        simp [hc, hc2]
    · subst h
      simp
    · subst h
      simp
  refine ⟨hval num_elem, he, mul_pos_of_one_le (mul_pos_of_one_le ht hb1) he, ?_, ?_, ?_, ?_⟩
  · intro n1
    rw [hval n1, hval num_elem]
  · intro op env d kind a b g h
    exact (build_compile_constants op env d kind a b g h).2
  · intro op env is_full d kind a b g h
    exact (assemblyBuild_compile_constants op env is_full d kind a b g h).2
  · intro op env d kind a b g h
    exact (qfunctionBuild_compile_constants op env d kind a b g h).2

/-- Witness of C20: a 3-D basis with 4 nodes and 4 quadrature points per dimension gives
`block_sizes = {4, 4, 4}`, a block of 64 threads, for any element count. -/
theorem hip_compile_constants_witness :
    BlockGridCalculate_Hip_gen 3 1000 4 4 = (4, 4, 4) ∧
    1 ≤ spec_elems_per_block 3 (max 4 4) ∧
    (1 : Int) ≤ max 4 4 * (if (3 : Int) = 1 then 1 else max 4 4) *
      spec_elems_per_block 3 (max 4 4) ∧
    ∀ num_elem1, BlockGridCalculate_Hip_gen 3 num_elem1 4 4 =
      BlockGridCalculate_Hip_gen 3 1000 4 4 :=
  ⟨(hip_compile_constants 3 1000 4 4 (by decide) (by decide)).1,
   (hip_compile_constants 3 1000 4 4 (by decide) (by decide)).2.1,
   (hip_compile_constants 3 1000 4 4 (by decide) (by decide)).2.2.1,
   (hip_compile_constants 3 1000 4 4 (by decide) (by decide)).2.2.2.1⟩

/-- Sample block shapes of `BlockGridCalculate_Hip_gen`, and the constants of the two
compilations of a QFunction assembly on a fresh sample operator. -/
theorem hip_block_samples :
    BlockGridCalculate_Hip_gen 1 10 3 4 = (4, 1, 64) ∧
    BlockGridCalculate_Hip_gen 1 10 3 5 = (5, 1, 51) ∧
    BlockGridCalculate_Hip_gen 1 10 300 4 = (300, 1, 1) ∧
    BlockGridCalculate_Hip_gen 2 10 3 3 = (3, 3, 16) ∧
    BlockGridCalculate_Hip_gen 2 10 3 4 = (4, 4, 2) ∧
    BlockGridCalculate_Hip_gen 3 10 5 6 = (6, 6, 2) ∧
    BlockGridCalculate_Hip_gen 3 10 8 6 = (8, 8, 1) ∧
    (qfunctionAssemblyBuild sampleOperatorStd sampleEnvGood OperatorData.init).trace.filter
        Event.isCompile =
      [Event.compile KernelKind.apply 4 64 true,
       Event.compile KernelKind.assembleQFunction 4 64 true] := by
  decide

/-! ## Planner safety and the at-points launch shape (C27, C28) -/

/-- The waste of a positive block lies between zero and the thread budget. -/
theorem wasteVal_le (tps ws tpe k : Int) (htps : 0 ≤ tps) (hws : 1 ≤ ws) (htpe : 1 ≤ tpe)
    (hk : 1 ≤ k) : wasteVal tps ws tpe k ≤ tps := by
  rw [wasteVal_eq tps ws tpe k htps hws htpe hk]
  have hu : 1 ≤ tpe * k := mul_pos_of_one_le htpe hk
  obtain ⟨h1, _, _⟩ := spec_round_up_spec (tpe * k) ws hws
  have h3 : 0 ≤ tps / spec_round_up (tpe * k) ws := Int.ediv_nonneg htps (by omega)
  nlinarith

/-- The waste search returns for every element count, occupancy value and thread limit, and
the value it returns is positive. -/
theorem searchElemsPerBlock_total (num_elem bps mtpb ws tpe : Int) (hws : 1 ≤ ws)
    (htpe : 1 ≤ tpe) :
    ∃ k, searchElemsPerBlock num_elem bps mtpb ws tpe = some k ∧ 1 ≤ k := by
  have hW := Waste_eq_wasteVal (bps * mtpb) ws tpe 1 hws htpe (le_refl _)
  have hd : cdiv mtpb tpe = some (Int.tdiv mtpb tpe) := cdiv_of_ne_zero mtpb tpe (by omega)
  obtain ⟨e1, w1, h1, h2⟩ := wasteSearchLoop_spec (bps * mtpb) ws tpe hws htpe
    (CeedIntMin (Int.tdiv mtpb tpe) num_elem - 1).toNat 2 1 (wasteVal (bps * mtpb) ws tpe 1)
    (by omega) (SearchInv_init _ _ _)
  refine ⟨e1, ?_, h2.1⟩
  simp only [searchElemsPerBlock, hW, hd, Option.bind_eq_bind, Option.some_bind, h1,
    Option.pure_def]

/-- With a thread limit of one the loop of the waste search has no iteration and the search
returns one element per block. -/
theorem searchElemsPerBlock_one (num_elem bps ws tpe : Int) (hws : 1 ≤ ws) (htpe : 1 ≤ tpe) :
    (CeedIntMin (Int.tdiv 1 tpe) num_elem - 1).toNat = 0 ∧
      searchElemsPerBlock num_elem bps 1 ws tpe = some 1 := by
  have hW := Waste_eq_wasteVal (bps * 1) ws tpe 1 hws htpe (le_refl _)
  have hd : cdiv 1 tpe = some (Int.tdiv 1 tpe) := cdiv_of_ne_zero 1 tpe (by omega)
  have hq : Int.tdiv 1 tpe ≤ 1 := by
    rw [Int.tdiv_eq_ediv (show (0 : Int) ≤ 1 by omega) (show 0 ≤ tpe by omega)]
    exact Int.ediv_le_self tpe (show (0 : Int) ≤ 1 by omega)
  have hn : (CeedIntMin (Int.tdiv 1 tpe) num_elem - 1).toNat = 0 := by
    rw [CeedIntMin_eq_min]
    omega
  refine ⟨hn, ?_⟩
  simp only [searchElemsPerBlock, hW, hd, Option.bind_eq_bind, Option.some_bind, hn,
    wasteSearchLoop, Option.pure_def]

/-- C27. For `threads_per_sm >= 0`, `warp_size >= 1`, `threads_per_elem >= 1` and
`elems_per_block >= 1`, `Waste` returns a value (no division by zero) between `0` and
`threads_per_sm`; and for `threads_per_elem = block[0]*block[1] >= 1`, `warp_size >= 1` and
`max_threads_z >= 1`, `BlockGridCalculate` returns a launch shape (no division by zero, and
the loop runs a number of times fixed on entry) for every element count, occupancy value and
thread limit, with a positive `block[2]`. -/
theorem planner_no_division_by_zero :
    (∀ threads_per_sm warp_size threads_per_elem elems_per_block : Int,
      0 ≤ threads_per_sm → 1 ≤ warp_size → 1 ≤ threads_per_elem → 1 ≤ elems_per_block →
      ∃ w, Waste threads_per_sm warp_size threads_per_elem elems_per_block = some w ∧
        0 ≤ w ∧ w ≤ threads_per_sm) ∧
    (∀ num_elem blocks_per_sm max_threads_per_block max_threads_z warp_size block0 block1 : Int,
      1 ≤ block0 * block1 → 1 ≤ warp_size → 1 ≤ max_threads_z →
      ∃ dims, BlockGridCalculate num_elem blocks_per_sm max_threads_per_block max_threads_z
          warp_size block0 block1 = some dims ∧ 1 ≤ dims.block2) := by
  constructor
  · intro tps ws tpe k htps hws htpe hk
    exact ⟨wasteVal tps ws tpe k, Waste_eq_wasteVal tps ws tpe k hws htpe hk,
      wasteVal_nonneg tps ws tpe k htps hws htpe hk, wasteVal_le tps ws tpe k htps hws htpe hk⟩
  · intro num_elem bps mtpb mtz ws b0 b1 htpe hws hmtz
    obtain ⟨k, hk, hk1⟩ := searchElemsPerBlock_total num_elem bps mtpb ws (b0 * b1) hws htpe
    refine ⟨_, BlockGridCalculate_eq num_elem bps mtpb mtz ws b0 b1 k hk1 hk, ?_⟩
    show 1 ≤ CeedIntMin k mtz
    rw [CeedIntMin_eq_min]
    omega

/-- The statement C27 at a concrete launch: a budget of 2048 threads, warps of 32, blocks of
16 threads per element. -/
theorem planner_no_division_by_zero_witness :
    (∃ w, Waste 2048 32 16 3 = some w ∧ 0 ≤ w ∧ w ≤ 2048) ∧
    (∃ dims, BlockGridCalculate 10 2 1024 64 32 4 4 = some dims ∧ 1 ≤ dims.block2) :=
  ⟨planner_no_division_by_zero.1 2048 32 16 3 (by decide) (by decide) (by decide) (by decide),
   planner_no_division_by_zero.2 10 2 1024 64 32 4 4 (by decide) (by decide) (by decide)⟩

/-- C28. With `max_threads_per_block = 1`, the value the at-points diagonal-assembly and
full-assembly launches pass, the loop of the waste search has no iteration and
`BlockGridCalculate` returns `block[2] = 1` and `grid = num_elem`, for `threads_per_elem >= 1`,
`warp_size >= 1`, `max_threads_z >= 1` and every element count and occupancy value; so the
launch shape computed by those entry points on such a device, with `block[0] = thread_1d` and
`block[1] = (dim == 1 ? 1 : thread_1d)`, has one element per thread block and one block per
element. -/
theorem at_points_one_element_per_block (num_elem blocks_per_sm max_threads_z warp_size
    block0 block1 : Int) (dev : Device) (env : CallEnv) (dim : Int)
    (htpe : 1 ≤ block0 * block1) (hws : 1 ≤ warp_size) (hmtz : 1 ≤ max_threads_z)
    (hdev : dev.maxThreadsDim2 = max_threads_z ∧ dev.warpSize = warp_size ∧
      dev.multiProcessorCount ≠ 0)
    (hblock : block1 = if dim = 1 then 1 else block0) :
    (CeedIntMin (Int.tdiv 1 (block0 * block1)) num_elem - 1).toNat = 0 ∧
    BlockGridCalculate num_elem blocks_per_sm 1 max_threads_z warp_size block0 block1 =
      some { block0 := block0, block1 := block1, block2 := 1, grid := num_elem } ∧
    launchConfigAtPoints dev env block0 dim num_elem =
      some ({ block0 := block0, block1 := block1, block2 := 1, grid := num_elem },
        block0 * block1 * 1 * dev.scalar_size) := by
  obtain ⟨hn, _⟩ := searchElemsPerBlock_one num_elem blocks_per_sm warp_size (block0 * block1)
    hws htpe
  have hB : ∀ bps : Int, BlockGridCalculate num_elem bps 1 max_threads_z warp_size block0 block1 =
      some { block0 := block0, block1 := block1, block2 := 1, grid := num_elem } := by
    intro bps
    have hs1 := (searchElemsPerBlock_one num_elem bps warp_size (block0 * block1) hws htpe).2
    rw [BlockGridCalculate_eq num_elem bps 1 max_threads_z warp_size block0 block1 1
      (le_refl _) hs1]
    have h1 : CeedIntMin 1 max_threads_z = 1 := by
      rw [CeedIntMin_eq_min]; omega
    have h2 : Int.tdiv (num_elem + 1 - 1) 1 = num_elem := by
      rw [Int.tdiv_one]; omega
    rw [h1, h2]
  refine ⟨hn, hB blocks_per_sm, ?_⟩
  obtain ⟨hz, hw, hm⟩ := hdev
  unfold launchConfigAtPoints
  rw [cdiv_of_ne_zero env.min_grid_size dev.multiProcessorCount hm, hz, hw, ← hblock]
  simp only [Option.bind_eq_bind, Option.some_bind, hB, Option.pure_def]

/-- The statement C28 at the sample device: 10 elements, a 3-D operator with a thread extent
of 4, hence blocks of 4 by 4 threads per element. -/
theorem at_points_one_element_per_block_witness :
    (CeedIntMin (Int.tdiv 1 (4 * 4)) 10 - 1).toNat = 0 ∧
    BlockGridCalculate 10 2 1 64 32 4 4 =
      some { block0 := 4, block1 := 4, block2 := 1, grid := 10 } ∧
    launchConfigAtPoints sampleDevice sampleEnvGood 4 3 10 =
      some ({ block0 := 4, block1 := 4, block2 := 1, grid := 10 },
        4 * 4 * 1 * sampleDevice.scalar_size) :=
  at_points_one_element_per_block 10 2 64 32 4 4 sampleDevice sampleEnvGood 3 (by decide)
    (by decide) (by decide) ⟨rfl, rfl, by decide⟩ (by decide)

/-! ## Reuse analysis: first match, no chains (C22) -/

/-- A scan from an unset record either finds no matching candidate and leaves the record unset,
or records the first matching candidate. -/
theorem reuseScan_cases (t : Bool) (e : CeedEvalMode) (b : CeedBasis) (flag : Bool)
    (fs : List OperatorField) :
    ((∀ g ∈ fs, reuseMatch t e b g = false) ∧
      reuseScan t e b flag fs 0 FieldReuse_Hip.unset = FieldReuse_Hip.unset) ∨
    (∃ n ft, IsFirstMatch (reuseMatch t e b) fs n ft ∧
      (∀ g ∈ fs.take n, reuseMatch t e b g = false) ∧
      reuseScan t e b flag fs 0 FieldReuse_Hip.unset =
        { index := (n : Int), is_input := flag, eval_mode := ft.eval_mode }) := by
  by_cases h : ∀ g ∈ fs, reuseMatch t e b g = false
  · exact Or.inl ⟨h, reuseScan_no_match t e b flag fs 0 _ rfl h⟩
  · right
    push_neg at h
    obtain ⟨g, hg, hgm⟩ := h
    have hgm1 : reuseMatch t e b g = true := by simpa using hgm
    obtain ⟨j, hj⟩ := List.mem_iff_getElem?.mp hg
    obtain ⟨pre, ft, post, hsplit, hpre, hft, _⟩ :=
      exists_first_match (reuseMatch t e b) fs j g hj hgm1
    have htake : fs.take pre.length = pre := by rw [hsplit]; simp
    refine ⟨pre.length, ft, ⟨?_, hft, ?_⟩, ?_, ?_⟩
    · rw [hsplit, List.getElem?_append_right (le_refl _)]; simp
    · intro s g1 hs hsg
      apply hpre
      rw [← htake]
      have : (fs.take pre.length)[s]? = some g1 := by
        rw [List.getElem?_take_of_lt hs]; exact hsg
      exact List.getElem?_mem this
    · rw [htake]; exact hpre
    · rw [hsplit, reuseScan_first_match t e b flag pre ft post 0 _ rfl hpre hft]
      simp

/-- A first match among the first `i` fields is a first match of the whole list, below `i`. -/
theorem IsFirstMatch_take (p : OperatorField → Bool) (fs : List OperatorField) (i t : Nat)
    (ft : OperatorField) (h : IsFirstMatch p (fs.take i) t ft) :
    t < i ∧ IsFirstMatch p fs t ft := by
  obtain ⟨h1, h2, h3⟩ := h
  have hti : t < i := by
    by_contra hc
    rw [List.getElem?_take_eq_none (by omega)] at h1
    exact absurd h1 (by simp)
  refine ⟨hti, ?_, h2, ?_⟩
  · rwa [List.getElem?_take_of_lt hti] at h1
  · intro s g hs hsg
    apply h3 s g hs
    rw [List.getElem?_take_of_lt (by omega)]; exact hsg

/-- The predicate of a scan made with `is_tensor = true` depends on the basis only. -/
theorem reuseMatch_true_of_basis (e e1 : CeedEvalMode) (b : CeedBasis) (g : OperatorField) :
    reuseMatch true e b g = reuseMatch true e1 b g := by
  simp [reuseMatch]

/-- A candidate matching under any value of `is_tensor` matches under `is_tensor = true`. -/
theorem reuseMatch_true_of_match (t : Bool) (e : CeedEvalMode) (b : CeedBasis)
    (g : OperatorField) (h : reuseMatch t e b g = true) : reuseMatch true e b g = true := by
  unfold reuseMatch at h ⊢
  simp only [Bool.and_eq_true, Bool.or_eq_true, decide_eq_true_eq] at h
  simp [h.1.1, h.1.2]

theorem reuseMatch_basis (t : Bool) (e : CeedEvalMode) (b : CeedBasis)
    (g : OperatorField) (h : reuseMatch t e b g = true) :
    b = g.basis ∧ g.eval_mode ≠ CeedEvalMode.WEIGHT := by
  unfold reuseMatch at h
  simp only [Bool.and_eq_true, Bool.or_eq_true, decide_eq_true_eq] at h
  exact ⟨h.1.2, h.1.1⟩

/-- The predicate of the scan of a matching candidate, taken with the basis of the scanning
field, agrees with the predicate of the scanning field. -/
theorem reuseMatch_of_target_eval (t : Bool) (e : CeedEvalMode) (b : CeedBasis)
    (f g : OperatorField) (hf : reuseMatch t e b f = true) :
    reuseMatch t f.eval_mode b g = reuseMatch t e b g := by
  have h := reuseMatch_of_target t e b f g hf
  rwa [← (reuseMatch_basis t e b f hf).1] at h

/-- The first input matching a scan made with the flag `tin`, which is `true` or the tensor flag
of the basis, owns its matrices. -/
theorem input_target_is_owner (basis_info : CeedBasis → BasisInfo) (inputs : List OperatorField)
    (tin : Bool) (e : CeedEvalMode) (b : CeedBasis)
    (htin : tin = true ∨ tin = (basis_info b).is_tensor) (t : Nat) (ft : OperatorField)
    (hpre : ∀ g ∈ inputs.take t, reuseMatch tin e b g = false)
    (hft : reuseMatch tin e b ft = true) :
    inputMatrixReuse basis_info inputs t ft = FieldReuse_Hip.unset := by
  obtain ⟨hb, hw⟩ := reuseMatch_basis tin e b ft hft
  unfold inputMatrixReuse
  rw [if_neg hw]
  apply reuseScan_no_match _ _ _ _ _ _ _ rfl
  intro g hg
  have hg0 := hpre g hg
  rcases htin with h | h
  · subst h
    by_contra hc
    have hc1 : reuseMatch (basis_info ft.basis).is_tensor ft.eval_mode ft.basis g = true := by
      simpa using hc
    have := reuseMatch_true_of_match _ _ _ _ hc1
    rw [← hb, reuseMatch_true_of_basis ft.eval_mode e b g, hg0] at this
    exact absurd this (by simp)
  · rw [← hb, ← h, reuseMatch_of_target_eval tin e b ft g hft]
    exact hg0

/-- The two scans of an output field, the scan of the inputs made with the flag `tin b` and the
scan of the earlier outputs with the tensor flag of the basis. -/
theorem output_scans_first_match (basis_info : CeedBasis → BasisInfo) (tin : CeedBasis → Bool)
    (htin : ∀ b, tin b = true ∨ tin b = (basis_info b).is_tensor)
    (inputs outputs : List OperatorField) (i : Nat) (fi : OperatorField) :
    let scan := fun (k : Nat) (f : OperatorField) =>
      reuseScan (basis_info f.basis).is_tensor f.eval_mode f.basis false (outputs.take k) 0
        (reuseScan (tin f.basis) f.eval_mode f.basis true inputs 0 FieldReuse_Hip.unset)
    (∃ t ft, IsFirstMatch (reuseMatch (tin fi.basis) fi.eval_mode fi.basis) inputs t ft ∧
      scan i fi = { index := (t : Int), is_input := true, eval_mode := ft.eval_mode } ∧
      inputMatrixReuse basis_info inputs t ft = FieldReuse_Hip.unset) ∨
    ((∀ g ∈ inputs, reuseMatch (tin fi.basis) fi.eval_mode fi.basis g = false) ∧
      ∃ t ft, t < i ∧
        IsFirstMatch (reuseMatch (basis_info fi.basis).is_tensor fi.eval_mode fi.basis)
          outputs t ft ∧
        scan i fi = { index := (t : Int), is_input := false, eval_mode := ft.eval_mode } ∧
        scan t ft = FieldReuse_Hip.unset) ∨
    ((∀ g ∈ inputs, reuseMatch (tin fi.basis) fi.eval_mode fi.basis g = false) ∧
      (∀ g ∈ outputs.take i,
        reuseMatch (basis_info fi.basis).is_tensor fi.eval_mode fi.basis g = false) ∧
      scan i fi = FieldReuse_Hip.unset) := by
  intro scan
  rcases reuseScan_cases (tin fi.basis) fi.eval_mode fi.basis true inputs with
    ⟨hin, hinr⟩ | ⟨t, ft, hfm, hpre, hr⟩
  · rcases reuseScan_cases (basis_info fi.basis).is_tensor fi.eval_mode fi.basis false
      (outputs.take i) with ⟨hout, houtr⟩ | ⟨t, ft, hfm, hpre, hr⟩
    · refine Or.inr (Or.inr ⟨hin, hout, ?_⟩)
      show reuseScan _ _ _ false (outputs.take i) 0 (reuseScan _ _ _ true inputs 0 _) = _
      rw [hinr, houtr]
    · obtain ⟨hti, hfm1⟩ := IsFirstMatch_take _ outputs i t ft hfm
      have hft := hfm.2.1
      obtain ⟨hb, hw⟩ := reuseMatch_basis _ _ _ ft hft
      refine Or.inr (Or.inl ⟨hin, t, ft, hti, hfm1, ?_, ?_⟩)
      · show reuseScan _ _ _ false (outputs.take i) 0 (reuseScan _ _ _ true inputs 0 _) = _
        rw [hinr, hr]
      · show reuseScan _ _ _ false (outputs.take t) 0 (reuseScan _ _ _ true inputs 0 _) = _
        have h1 : reuseScan (tin ft.basis) ft.eval_mode ft.basis true inputs 0
            FieldReuse_Hip.unset = FieldReuse_Hip.unset := by
          apply reuseScan_no_match _ _ _ _ _ _ _ rfl
          intro g hg
          have hg0 := hin g hg
          rw [← hb]
          rcases htin fi.basis with h | h
          · rw [h] at hg0 ⊢
            rw [reuseMatch_true_of_basis ft.eval_mode fi.eval_mode]; exact hg0
          · rw [h] at hg0 ⊢
            rw [reuseMatch_of_target_eval _ fi.eval_mode fi.basis ft g hft]; exact hg0
        rw [h1]
        apply reuseScan_no_match _ _ _ _ _ _ _ rfl
        intro g hg
        rw [← hb, reuseMatch_of_target_eval _ fi.eval_mode fi.basis ft g hft]
        apply hpre
        rw [List.take_take, Nat.min_eq_left (by omega)]
        exact hg
  · refine Or.inl ⟨t, ft, hfm, ?_, ?_⟩
    · show reuseScan _ _ _ false (outputs.take i) 0 (reuseScan _ _ _ true inputs 0 _) = _
      rw [hr]
      exact reuseScan_of_set _ _ _ _ _ _ _ (by simp)
    · exact input_target_is_owner basis_info inputs (tin fi.basis) fi.eval_mode fi.basis
        (htin fi.basis) t ft hpre hfm.2.1

/-- C22. The reuse analysis of `CeedOperatorBuildKernel_Hip_gen` and of
`CeedOperatorBuildKernelLinearAssembleQFunction_Hip_gen` is a first-match scan without chains,
for all field lists.

* The record of an input field `i` names the lowest-index earlier non-WEIGHT input that
  satisfies the match of the scan, and that input has no target itself; the record is unset
  when the field is a WEIGHT field or no earlier input matches.
* The record of an output field `i` names the first input that satisfies the match of its scan
  of the inputs, if there is one; otherwise the first earlier output that satisfies the match
  of its scan of the outputs; otherwise it is unset.  The named input or output has no target
  itself.  This holds for the output scans of both builders, which differ in the tensor flag
  used against the inputs (`true` in the operator builder, the flag of the basis in the
  QFunction-assembly builder). -/
theorem reuse_first_match_no_chains (basis_info : CeedBasis → BasisInfo)
    (inputs outputs : List OperatorField) (i : Nat) (fi : OperatorField) :
    (inputs[i]? = some fi →
      (∃ t ft, t < i ∧ fi.eval_mode ≠ CeedEvalMode.WEIGHT ∧
        IsFirstMatch (reuseMatch (basis_info fi.basis).is_tensor fi.eval_mode fi.basis)
          inputs t ft ∧
        inputMatrixReuse basis_info inputs i fi =
          { index := (t : Int), is_input := true, eval_mode := ft.eval_mode } ∧
        inputMatrixReuse basis_info inputs t ft = FieldReuse_Hip.unset) ∨
      ((fi.eval_mode = CeedEvalMode.WEIGHT ∨ ∀ g ∈ inputs.take i,
          reuseMatch (basis_info fi.basis).is_tensor fi.eval_mode fi.basis g = false) ∧
        inputMatrixReuse basis_info inputs i fi = FieldReuse_Hip.unset)) ∧
    (outputs[i]? = some fi →
      ((∃ t ft, IsFirstMatch (reuseMatch true fi.eval_mode fi.basis) inputs t ft ∧
          outputMatrixReuse basis_info inputs outputs i fi =
            { index := (t : Int), is_input := true, eval_mode := ft.eval_mode } ∧
          inputMatrixReuse basis_info inputs t ft = FieldReuse_Hip.unset) ∨
        ((∀ g ∈ inputs, reuseMatch true fi.eval_mode fi.basis g = false) ∧
          ∃ t ft, t < i ∧
            IsFirstMatch (reuseMatch (basis_info fi.basis).is_tensor fi.eval_mode fi.basis)
              outputs t ft ∧
            outputMatrixReuse basis_info inputs outputs i fi =
              { index := (t : Int), is_input := false, eval_mode := ft.eval_mode } ∧
            outputMatrixReuse basis_info inputs outputs t ft = FieldReuse_Hip.unset) ∨
        ((∀ g ∈ inputs, reuseMatch true fi.eval_mode fi.basis g = false) ∧
          (∀ g ∈ outputs.take i,
            reuseMatch (basis_info fi.basis).is_tensor fi.eval_mode fi.basis g = false) ∧
          outputMatrixReuse basis_info inputs outputs i fi = FieldReuse_Hip.unset)) ∧
      ((∃ t ft,
          IsFirstMatch (reuseMatch (basis_info fi.basis).is_tensor fi.eval_mode fi.basis)
            inputs t ft ∧
          outputMatrixReuseQFunctionAssembly basis_info inputs outputs i fi =
            { index := (t : Int), is_input := true, eval_mode := ft.eval_mode } ∧
          inputMatrixReuse basis_info inputs t ft = FieldReuse_Hip.unset) ∨
        ((∀ g ∈ inputs,
            reuseMatch (basis_info fi.basis).is_tensor fi.eval_mode fi.basis g = false) ∧
          ∃ t ft, t < i ∧
            IsFirstMatch (reuseMatch (basis_info fi.basis).is_tensor fi.eval_mode fi.basis)
              outputs t ft ∧
            outputMatrixReuseQFunctionAssembly basis_info inputs outputs i fi =
              { index := (t : Int), is_input := false, eval_mode := ft.eval_mode } ∧
            outputMatrixReuseQFunctionAssembly basis_info inputs outputs t ft =
              FieldReuse_Hip.unset) ∨
        ((∀ g ∈ inputs,
            reuseMatch (basis_info fi.basis).is_tensor fi.eval_mode fi.basis g = false) ∧
          (∀ g ∈ outputs.take i,
            reuseMatch (basis_info fi.basis).is_tensor fi.eval_mode fi.basis g = false) ∧
          outputMatrixReuseQFunctionAssembly basis_info inputs outputs i fi =
            FieldReuse_Hip.unset))) := by
  refine ⟨fun _ => ?_, fun _ => ⟨?_, ?_⟩⟩
  · by_cases hw : fi.eval_mode = CeedEvalMode.WEIGHT
    · exact Or.inr ⟨Or.inl hw, by unfold inputMatrixReuse; rw [if_pos hw]⟩
    · rcases reuseScan_cases (basis_info fi.basis).is_tensor fi.eval_mode fi.basis true
        (inputs.take i) with ⟨hno, hr⟩ | ⟨t, ft, hfm, hpre, hr⟩
      · exact Or.inr ⟨Or.inr hno, by unfold inputMatrixReuse; rw [if_neg hw, hr]⟩
      · obtain ⟨hti, hfm1⟩ := IsFirstMatch_take _ inputs i t ft hfm
        refine Or.inl ⟨t, ft, hti, hw, hfm1, by unfold inputMatrixReuse; rw [if_neg hw, hr], ?_⟩
        apply input_target_is_owner basis_info inputs (basis_info fi.basis).is_tensor
          fi.eval_mode fi.basis (Or.inr rfl) t ft ?_ hfm.2.1
        intro g hg
        apply hpre
        rw [List.take_take, Nat.min_eq_left (by omega)]
        exact hg
  · exact output_scans_first_match basis_info (fun _ => true) (fun _ => Or.inl rfl) inputs
      outputs i fi
  · exact output_scans_first_match basis_info (fun b => (basis_info b).is_tensor)
      (fun _ => Or.inr rfl) inputs outputs i fi

/-- Witness of C22: in the sample list INTERP, GRAD, GRAD on one tensor basis the third input
records the first input, not the second, and the first input has no target. -/
theorem reuse_first_match_no_chains_witness :
    sampleInputsInterpGradGrad[2]? = some sampleFieldDw ∧
    inputMatrixReuse sampleBasisInfo sampleInputsInterpGradGrad 2 sampleFieldDw =
      { index := 0, is_input := true, eval_mode := CeedEvalMode.INTERP } ∧
    inputMatrixReuse sampleBasisInfo sampleInputsInterpGradGrad 0 sampleFieldU =
      FieldReuse_Hip.unset := by
  have h2 : sampleInputsInterpGradGrad[2]? = some sampleFieldDw := by decide
  have hnot : ¬ ((sampleFieldDw.eval_mode = CeedEvalMode.WEIGHT ∨
      ∀ g ∈ sampleInputsInterpGradGrad.take 2,
        reuseMatch (sampleBasisInfo sampleFieldDw.basis).is_tensor sampleFieldDw.eval_mode
          sampleFieldDw.basis g = false) ∧
      inputMatrixReuse sampleBasisInfo sampleInputsInterpGradGrad 2 sampleFieldDw =
        FieldReuse_Hip.unset) := by decide
  rcases (reuse_first_match_no_chains sampleBasisInfo sampleInputsInterpGradGrad [] 2
    sampleFieldDw).1 h2 with ⟨t, ft, _, _, hfm, hr, hown⟩ | h
  · have ht : t = 0 := by
      have hidx : (inputMatrixReuse sampleBasisInfo sampleInputsInterpGradGrad 2
        sampleFieldDw).index = 0 := by decide
      rw [hr] at hidx
      simpa using hidx
    subst ht
    have h0 : sampleInputsInterpGradGrad[0]? = some sampleFieldU := by decide
    have hft : ft = sampleFieldU := by
      have := hfm.1
      rw [h0] at this
      exact (Option.some.inj this).symm
    subst hft
    exact ⟨h2, by rw [hr]; rfl, hown⟩
  · exact absurd h hnot

/-! ## Input processing order: permutation and leaders (C24) -/

/-- The running maximum of a scratch-size loop does not fall below its start value and covers
every field the loop counts. -/
theorem scratch_fold_bound (p : OperatorField → Prop) [DecidablePred p]
    (v : OperatorField → Int) :
    ∀ (fields : List OperatorField) (s : Int),
      s ≤ fields.foldl (fun size field => if p field then CeedIntMax size (v field) else size) s ∧
      ∀ f ∈ fields, p f →
        v f ≤ fields.foldl (fun size field => if p field then CeedIntMax size (v field) else size)
          s := by
  intro fields
  induction fields with
  | nil => intro s; exact ⟨le_refl _, fun f hf => absurd hf (List.not_mem_nil f)⟩
  | cons g rest ih =>
    intro s
    rw [List.foldl_cons]
    have hs : s ≤ (if p g then CeedIntMax s (v g) else s) := by
      unfold CeedIntMax
      split
      · split <;> omega
      · exact le_refl _
    obtain ⟨h1, h2⟩ := ih (if p g then CeedIntMax s (v g) else s)
    refine ⟨le_trans hs h1, ?_⟩
    intro f hf hpf
    rcases List.mem_cons.mp hf with hfg | hfr
    · subst hfg
      refine le_trans ?_ h1
      rw [if_pos hpf]
      unfold CeedIntMax
      split <;> omega
    · exact h2 f hfr hpf

/-- The scratch buffer has at least one entry and at least `num_comp*Q_1d` entries (for an
all-tensor operator with `max_dim >= 3`; `num_comp` entries otherwise) for every input field
of eval mode other than NONE and WEIGHT and every output field of eval mode other than NONE. -/
theorem max_rstr_buffer_size_bound (rstr_info : CeedElemRestriction → RestrictionInfo)
    (inputs outputs : List OperatorField) (is_all_tensor : Bool) (max_dim Q_1d : Int) :
    1 ≤ max_rstr_buffer_size rstr_info inputs outputs is_all_tensor max_dim Q_1d ∧
    (∀ f ∈ inputs, f.eval_mode ≠ CeedEvalMode.NONE → f.eval_mode ≠ CeedEvalMode.WEIGHT →
      (rstr_info f.elem_rstr).num_comp *
          (if is_all_tensor && decide (max_dim ≥ 3) then Q_1d else 1) ≤
        max_rstr_buffer_size rstr_info inputs outputs is_all_tensor max_dim Q_1d) ∧
    (∀ f ∈ outputs, f.eval_mode ≠ CeedEvalMode.NONE →
      (rstr_info f.elem_rstr).num_comp *
          (if is_all_tensor && decide (max_dim ≥ 3) then Q_1d else 1) ≤
        max_rstr_buffer_size rstr_info inputs outputs is_all_tensor max_dim Q_1d) := by
  have hin := scratch_fold_bound
    (fun f => f.eval_mode ≠ CeedEvalMode.NONE ∧ f.eval_mode ≠ CeedEvalMode.WEIGHT)
    (fun f => (rstr_info f.elem_rstr).num_comp *
      (if is_all_tensor && decide (max_dim ≥ 3) then Q_1d else 1)) inputs 1
  have hout := scratch_fold_bound (fun f => f.eval_mode ≠ CeedEvalMode.NONE)
    (fun f => (rstr_info f.elem_rstr).num_comp *
      (if is_all_tensor && decide (max_dim ≥ 3) then Q_1d else 1)) outputs
    (inputs.foldl (fun (size : Int) field =>
      if field.eval_mode ≠ CeedEvalMode.NONE ∧ field.eval_mode ≠ CeedEvalMode.WEIGHT then
        CeedIntMax size ((rstr_info field.elem_rstr).num_comp *
          (if is_all_tensor && decide (max_dim ≥ 3) then Q_1d else 1))
      else size) 1)
  refine ⟨le_trans hin.1 hout.1, ?_, ?_⟩
  · intro f hf h1 h2
    exact le_trans (hin.2 f hf ⟨h1, h2⟩) hout.1
  · intro f hf h1
    exact hout.2 f hf h1

/-- C25 (failing input). An operator with one INTERP input and one INTERP output on a 3-D
tensor basis with 5 nodes and 4 quadrature points per dimension, one component: the classifier
reports an all-tensor operator with `max_dim = 3`, `max_P_1d = 5`, `Q_1d = 4`, and the thread
extent is `max(Q_1d, P_1d) = 5`; `r_e_scratch` is declared with `num_comp*Q_1d = 4` entries;
the element buffers of the input and of the output are both declared as aliases of
`r_e_scratch`; the element vector of either field has `num_comp*P_1d = 5` entries per thread,
the length the builder gives an element buffer it declares as an array. -/
theorem scratch_buffer_shorter_than_element_vector :
    CeedOperatorBuildKernelData_Hip_gen sampleBasisInfoWide [sampleFieldU] sampleOutputsInterp 1 =
      Except.ok { max_P := 125, max_P_1d := 5, Q := 64, Q_1d := 4, max_dim := 3,
                  is_all_tensor := true, use_3d_slices := false } ∧
    BlockGridCalculate_Hip_gen 3 10 5 4 = (5, 5, 4) ∧
    max_rstr_buffer_size sampleRstrInfo [sampleFieldU] sampleOutputsInterp true 3 4 = 4 ∧
    inputElemBuffer 0 (inputFieldOrder [sampleFieldU]).field_rstr_in_buffer
      sampleFieldU.eval_mode CeedRestrictionType.STANDARD
      (sampleRstrInfo sampleFieldU.elem_rstr).num_comp
      (sampleBasisInfoWide sampleFieldU.basis).num_nodes_1d false false = ElemBuffer.scratch ∧
    sampleOutputsInterp.map (fun f => outputElemBuffer f.eval_mode) = [ElemBuffer.scratch] ∧
    inputElemBuffer 0 (inputFieldOrder [sampleFieldU]).field_rstr_in_buffer
      CeedEvalMode.NONE CeedRestrictionType.STANDARD
      (sampleRstrInfo sampleFieldU.elem_rstr).num_comp
      (sampleBasisInfoWide sampleFieldU.basis).num_nodes_1d false false = ElemBuffer.array 1 5 ∧
    (sampleRstrInfo sampleFieldU.elem_rstr).num_comp *
      (sampleBasisInfoWide sampleFieldU.basis).num_nodes_1d = 5 ∧
    max_rstr_buffer_size sampleRstrInfo [sampleFieldU] sampleOutputsInterp true 3 4 <
      (sampleRstrInfo sampleFieldU.elem_rstr).num_comp *
        (sampleBasisInfoWide sampleFieldU.basis).num_nodes_1d :=
  ⟨rfl, by decide, by decide, by decide, by decide, by decide, by decide, by decide⟩

/-! ## Active inputs of the QFunction assembly (C26) -/

/-- C26 (failing input). Three active inputs of sizes 1, 2, 3 on the restrictions 1, 2, 1:
the second and the third field change places in `input_field_order`, the builder enumerates the
active inputs in that order, `active_fields_in = {0, 2, 1}`, and the generated kernel gives
field 2 the column offset 1 and field 1 the column offset 4, where the sums of the sizes of the
active inputs with smaller index are 3 and 1. -/
theorem active_inputs_follow_processing_order :
    input_field_order sampleInputsInterleaved = [0, 2, 1] ∧
    active_fields_in sampleInputsInterleaved = [0, 2, 1] ∧
    field_sizes_in sampleInputsInterleaved = [1, 3, 2] ∧
    (List.range 3).map (input_offset sampleInputsInterleaved) = [0, 1, 4] ∧
    (active_fields_in sampleInputsInterleaved).map (spec_input_offset sampleInputsInterleaved) =
      [0, 3, 1] := by
  decide

/-! ## Shared-memory slices (C29) and `CEED_Q_VLA` (C30) -/

/-- The entries `block[0]` and `block[1]` of a shape returned by `BlockGridCalculate` are the
ones given on input. -/
theorem BlockGridCalculate_block (num_elem bps mtpb mtz ws b0 b1 : Int) (dims : LaunchDims)
    (h : BlockGridCalculate num_elem bps mtpb mtz ws b0 b1 = some dims) :
    dims.block0 = b0 ∧ dims.block1 = b1 := by
  simp only [BlockGridCalculate, Option.bind_eq_bind, Option.pure_def, Option.bind_eq_some,
    Option.some.injEq] at h
  obtain ⟨k, _, g, _, h2⟩ := h
  rw [← h2]
  exact ⟨rfl, rfl⟩

/-- The block of a launch of the apply and QFunction-assembly entry points is
`{thread_1d, (!is_tensor || dim == 1) ? 1 : thread_1d, block[2]}`, and the shared-memory
request is the volume of the block in scalars. -/
theorem launchConfig_block (dev : Device) (env : CallEnv) (is_tensor : Bool)
    (thread_1d dim num_elem : Int) (cfg : LaunchDims × Int)
    (h : launchConfig dev env is_tensor thread_1d dim num_elem = some cfg) :
    cfg.1.block0 = thread_1d ∧
    cfg.1.block1 = (if !is_tensor || decide (dim = 1) then 1 else thread_1d) ∧
    cfg.2 = thread_1d * (if !is_tensor || decide (dim = 1) then 1 else thread_1d) *
      cfg.1.block2 * dev.scalar_size := by
  have hsm := launchConfig_shared_mem dev env is_tensor thread_1d dim num_elem cfg h
  cases is_tensor
  · simp only [launchConfig, Bool.false_eq_true, if_false, Option.bind_eq_bind, Option.pure_def,
      Option.bind_eq_some, Option.some.injEq] at h
    obtain ⟨a, _, b, _, c, _, d, hd, h2⟩ := h
    have h0 : cfg.1.block0 = thread_1d := by rw [← h2, ← hd]
    have h1 : cfg.1.block1 = (if !false || decide (dim = 1) then 1 else thread_1d) := by
      rw [← h2, ← hd]
    refine ⟨h0, h1, ?_⟩
    rw [hsm, h0, h1]
  · simp only [launchConfig, if_true, Option.bind_eq_bind, Option.pure_def,
      Option.bind_eq_some, Option.some.injEq] at h
    obtain ⟨a, _, b, hb, h2⟩ := h
    obtain ⟨hb0, hb1⟩ := BlockGridCalculate_block _ _ _ _ _ _ _ b hb
    have h0 : cfg.1.block0 = thread_1d := by rw [← h2]; exact hb0
    have h1 : cfg.1.block1 = (if !true || decide (dim = 1) then 1 else thread_1d) := by
      rw [← h2]; exact hb1
    refine ⟨h0, h1, ?_⟩
    rw [hsm, h0, h1]

/-- The block of a launch of the at-points assembly entry points is
`{thread_1d, dim == 1 ? 1 : thread_1d, block[2]}`. -/
theorem launchConfigAtPoints_block (dev : Device) (env : CallEnv)
    (thread_1d dim num_elem : Int) (cfg : LaunchDims × Int)
    (h : launchConfigAtPoints dev env thread_1d dim num_elem = some cfg) :
    cfg.1.block0 = thread_1d ∧
    cfg.1.block1 = (if !true || decide (dim = 1) then 1 else thread_1d) ∧
    cfg.2 = thread_1d * (if !true || decide (dim = 1) then 1 else thread_1d) *
      cfg.1.block2 * dev.scalar_size := by
  simp only [launchConfigAtPoints, Option.bind_eq_bind, Option.pure_def,
    Option.bind_eq_some, Option.some.injEq] at h
  obtain ⟨a, _, b, hb, h2⟩ := h
  obtain ⟨hb0, hb1⟩ := BlockGridCalculate_block _ _ _ _ _ _ _ b hb
  have h0 : cfg.1.block0 = thread_1d := by rw [← h2]; exact hb0
  have h1 : cfg.1.block1 = (if !true || decide (dim = 1) then 1 else thread_1d) := by
    rw [← h2]; simp only [hb1]; simp
  refine ⟨h0, h1, ?_⟩
  rw [← h2]
  show b.block0 * b.block1 * b.block2 * dev.scalar_size = _
  rw [← h2] at h0 h1
  simp only at h0 h1
  rw [h0, h1]

/-- C29. The shared-memory request partitions into per-element slices.  With the block
`{T, (!is_tensor || dim == 1) ? 1 : T, Z}` of the runner, `T >= 0`, and the slice base
`slice + t_id_z*OP_T_1D[*OP_T_1D]` of the generated kernel for `OP_T_1D = T` and the same
tensor and dimension classification, `S = block[0]*block[1]`: the slice of every thread layer
`0 <= z < Z` starts at `z*S`, and the range `[z*S, (z+1)*S)` lies inside the `block[0]*
block[1]*Z` scalars of the request; the ranges of two layers `z < z1` do not overlap.  The
launch shapes of the apply and QFunction-assembly entry points, and those of the at-points
assembly entry points, whose builder keeps `is_all_tensor = true`, have this block, and their
shared-memory request is `block[0]*block[1]*block[2]` scalars. -/
theorem shared_slices_partition (is_tensor : Bool) (T dim Z : Int) (hT : 0 ≤ T) :
    (∀ z, 0 ≤ z → z < Z →
      sliceOffset is_tensor dim T z =
        z * (T * (if !is_tensor || decide (dim = 1) then 1 else T)) ∧
      0 ≤ z * (T * (if !is_tensor || decide (dim = 1) then 1 else T)) ∧
      (z + 1) * (T * (if !is_tensor || decide (dim = 1) then 1 else T)) ≤
        T * (if !is_tensor || decide (dim = 1) then 1 else T) * Z) ∧
    (∀ z z1, 0 ≤ z → z < z1 →
      sliceOffset is_tensor dim T z + T * (if !is_tensor || decide (dim = 1) then 1 else T) ≤
        sliceOffset is_tensor dim T z1) ∧
    (∀ (dev : Device) (env : CallEnv) (num_elem : Int) (cfg : LaunchDims × Int),
      launchConfig dev env is_tensor T dim num_elem = some cfg →
      cfg.1.block0 = T ∧
      cfg.1.block1 = (if !is_tensor || decide (dim = 1) then 1 else T) ∧
      cfg.2 = T * (if !is_tensor || decide (dim = 1) then 1 else T) * cfg.1.block2 *
        dev.scalar_size) ∧
    (is_tensor = true →
      ∀ (dev : Device) (env : CallEnv) (num_elem : Int) (cfg : LaunchDims × Int),
      launchConfigAtPoints dev env T dim num_elem = some cfg →
      cfg.1.block0 = T ∧
      cfg.1.block1 = (if !is_tensor || decide (dim = 1) then 1 else T) ∧
      cfg.2 = T * (if !is_tensor || decide (dim = 1) then 1 else T) * cfg.1.block2 *
        dev.scalar_size) := by
  have hS : 0 ≤ T * (if !is_tensor || decide (dim = 1) then 1 else T) := by
    split
    · omega
    · exact mul_nonneg hT hT
  have hoff : ∀ z, sliceOffset is_tensor dim T z =
      z * (T * (if !is_tensor || decide (dim = 1) then 1 else T)) := by
    intro z
    unfold sliceOffset
    split
    · ring
    · ring
  refine ⟨?_, ?_, ?_, ?_⟩
  · intro z hz hzZ
    refine ⟨hoff z, mul_nonneg hz hS, ?_⟩
    have h1 : z + 1 ≤ Z := by omega
    calc (z + 1) * (T * (if !is_tensor || decide (dim = 1) then 1 else T))
        ≤ Z * (T * (if !is_tensor || decide (dim = 1) then 1 else T)) :=
          mul_le_mul_of_nonneg_right h1 hS
      _ = T * (if !is_tensor || decide (dim = 1) then 1 else T) * Z := by ring
  · intro z z1 _ hzz
    rw [hoff z, hoff z1]
    have h1 : z + 1 ≤ z1 := by omega
    calc z * (T * (if !is_tensor || decide (dim = 1) then 1 else T)) +
          T * (if !is_tensor || decide (dim = 1) then 1 else T)
        = (z + 1) * (T * (if !is_tensor || decide (dim = 1) then 1 else T)) := by ring
      _ ≤ z1 * (T * (if !is_tensor || decide (dim = 1) then 1 else T)) :=
          mul_le_mul_of_nonneg_right h1 hS
  · intro dev env num_elem cfg h
    exact launchConfig_block dev env is_tensor T dim num_elem cfg h
  · intro ht dev env num_elem cfg h
    subst ht
    exact launchConfigAtPoints_block dev env T dim num_elem cfg h

/-- The statement C29 at the sample launch of a 3-D tensor operator with `thread_1d = 4` and
1000 elements: blocks of 4 by 4 by 8 threads, 128 scalars of shared memory, and the slices of
the layers 2 and 3 are `[32, 48)` and `[48, 64)`. -/
theorem shared_slices_partition_witness :
    launchConfig sampleDevice sampleEnvGood true 4 3 1000 = some (⟨4, 4, 8, 125⟩, 1024) ∧
    (sliceOffset true 3 4 2 =
        2 * (4 * (if !true || decide ((3 : Int) = 1) then 1 else 4)) ∧
      (0 : Int) ≤ 2 * (4 * (if !true || decide ((3 : Int) = 1) then 1 else 4)) ∧
      ((2 : Int) + 1) * (4 * (if !true || decide ((3 : Int) = 1) then 1 else 4)) ≤
        4 * (if !true || decide ((3 : Int) = 1) then 1 else 4) * 8) ∧
    sliceOffset true 3 4 2 + 4 * (if !true || decide ((3 : Int) = 1) then 1 else 4) ≤
      sliceOffset true 3 4 3 ∧
    sliceOffset true 3 4 2 = 32 ∧ sliceOffset true 3 4 3 = 48 :=
  ⟨by decide,
   (shared_slices_partition true 4 3 8 (by decide)).1 2 (by decide) (by decide),
   (shared_slices_partition true 4 3 8 (by decide)).2.1 2 3 (by decide) (by decide),
   by decide, by decide⟩

/-- C30. In every generated kernel source the quadrature count is consistent.  For every
kernel kind whose builder accepts the operator, every `max_dim`, `Q`, `Q_1d` and every
classification `is_all_tensor`, `is_at_points`, `use_3d_slices` of the operator, the value the
builder writes after `#define CEED_Q_VLA` equals the value of the count argument it writes into
the QFunction call of the same kernel; in the operator kernel and the QFunction-assembly kernel
both are `Q_1d` (the define as a number, the argument as the constant `Q_1d`) when the locals
say all-tensor, `max_dim = 3`, not at points and no 3-D slices, and `1` otherwise; in the
at-points assembly kernels both are `1`. -/
theorem ceed_q_vla_matches_call_count (kind : KernelKind) (max_dim Q Q_1d : Int)
    (is_all_tensor is_at_points use_3d_slices : Bool)
    (haccept : builderAccepts kind is_at_points = true) :
    let f := builderFlags kind is_all_tensor is_at_points use_3d_slices
    ceedQVla kind max_dim Q_1d f.is_all_tensor f.is_at_points f.use_3d_slices =
      (qfunctionCallCount max_dim f.is_all_tensor f.is_at_points f.use_3d_slices).value Q Q_1d ∧
    ceedQVla kind max_dim Q_1d f.is_all_tensor f.is_at_points f.use_3d_slices =
      (if f.is_all_tensor = true ∧ max_dim = 3 ∧ f.is_at_points = false ∧
        f.use_3d_slices = false then Q_1d else 1) ∧
    qfunctionCallCount max_dim f.is_all_tensor f.is_at_points f.use_3d_slices =
      (if f.is_all_tensor = true ∧ max_dim = 3 ∧ f.is_at_points = false ∧
        f.use_3d_slices = false then CountToken.Q_1d else CountToken.one) := by
  by_cases hd : max_dim = 3
  · cases kind <;> cases is_all_tensor <;> cases is_at_points <;> cases use_3d_slices <;>
      simp [builderAccepts] at haccept <;>
      simp [builderFlags, ceedQVla, qfunctionCallCount, CountToken.value, hd]
  · cases kind <;> cases is_all_tensor <;> cases is_at_points <;> cases use_3d_slices <;>
      simp [builderAccepts] at haccept <;>
      simp [builderFlags, ceedQVla, qfunctionCallCount, CountToken.value, hd]

/-- The statement C30 for the operator kernel of an all-tensor 3-D operator with
`Q_1d = 4` that is not at points and does not use 3-D slices: the define is `4` and the count
argument is the constant `Q_1d`. -/
theorem ceed_q_vla_matches_call_count_witness :
    ceedQVla KernelKind.apply 3 4 true false false = 4 ∧
    qfunctionCallCount 3 true false false = CountToken.Q_1d ∧
    ceedQVla KernelKind.apply 3 4 true false false =
      (qfunctionCallCount 3 true false false).value 64 4 :=
  ⟨by decide, by decide,
   (ceed_q_vla_matches_call_count KernelKind.apply 3 64 4 true false false rfl).1⟩

/-! ## Points-per-element buffer (C23) -/

theorem SamePoints_refl (d : OperatorData) : SamePoints d d := ⟨rfl, rfl⟩

theorem SamePoints_trans {d d1 d2 : OperatorData} (h1 : SamePoints d d1)
    (h2 : SamePoints d1 d2) : SamePoints d d2 :=
  ⟨h2.1.trans h1.1, h2.2.trans h1.2⟩

/-- The block "Points per elem": the buffer is allocated anew exactly when the element count
differs from the cached count, and the cached count is the element count afterwards. -/
theorem updatePoints_spec (op : Operator) (data : OperatorData) :
    (Event.reallocPoints op.num_elem ∈ (updatePoints op data).2 ↔
      op.num_elem ≠ data.points_num_elem) ∧
    (∀ ev ∈ (updatePoints op data).2, ev = Event.reallocPoints op.num_elem) ∧
    (updatePoints op data).1.points_num_elem = op.num_elem ∧
    (op.num_elem = data.points_num_elem → updatePoints op data = (data, [])) ∧
    (op.num_elem ≠ data.points_num_elem →
      (updatePoints op data).1.points_num_per_elem =
        some ((List.range op.num_elem.toNat).map fun e => op.num_points_in_elem e)) := by
  unfold updatePoints
  by_cases h : op.num_elem = data.points_num_elem
  · simp [h]
  · simp [h]

/-- The builder of the operator kernel leaves the points buffer alone. -/
theorem build_points (op : Operator) (env : CallEnv) (d : OperatorData) :
    SamePoints d (CeedOperatorBuildKernel_Cuda_gen op env d).data ∧
    ∀ ev ∈ (CeedOperatorBuildKernel_Cuda_gen op env d).trace, ev.isReallocPoints = false := by
  unfold CeedOperatorBuildKernel_Cuda_gen CeedOperatorBuildKernel_Hip_gen SamePoints
  by_cases h1 : d.is_setup_done = true
  · simp [h1]
  · have h1' : d.is_setup_done = false := by simpa using h1
    by_cases h2 : hasSharedBases op = false
    · simp [h1', h2]
    · cases h3 : CeedOperatorBuildKernelData_Hip_gen op.basis_info op.inputs op.outputs 1 with
      | error e => simp [h1', h2, Event.isReallocPoints]
      | ok kd =>
        simp only [h1', h2, Bool.false_eq_true, if_false]
        cases h4 : restrictionOnlyIdentity op
        · by_cases h5 : op.qf_source_path = none
          · simp [h5, Event.isReallocPoints]
          · cases h6 : env.compile_good <;> simp [h5, Event.isReallocPoints]
        · simp [Event.isReallocPoints]

/-- The builder of an at-points assembly kernel leaves the points buffer alone. -/
theorem assemblyBuilder_points (op : Operator) (env : CallEnv) (is_full : Bool)
    (d : OperatorData) :
    SamePoints d (CeedOperatorBuildKernelAssemblyAtPoints_Hip_gen op env is_full d).data ∧
    ∀ ev ∈ (CeedOperatorBuildKernelAssemblyAtPoints_Hip_gen op env is_full d).trace,
      ev.isReallocPoints = false := by
  unfold CeedOperatorBuildKernelAssemblyAtPoints_Hip_gen SamePoints
  by_cases h1 : op.is_at_points = false
  · simp [h1]
  · by_cases h2 : op.qf_source_path = none
    · simp [h1, h2, Event.isReallocPoints]
    · cases h3 : env.assembly_compile_good <;> cases is_full <;>
        simp [h1, h2, Event.isReallocPoints]

/-- The block "Build the assembly kernel" of the at-points assembly entry points leaves the
points buffer alone. -/
theorem assembleAtPointsBuild_points (op : Operator) (env : CallEnv) (is_full : Bool)
    (d : OperatorData) :
    SamePoints d (assembleAtPointsBuild op env is_full d).data ∧
    ∀ ev ∈ (assembleAtPointsBuild op env is_full d).trace, ev.isReallocPoints = false := by
  unfold assembleAtPointsBuild
  have hb := build_points op env d
  generalize CeedOperatorBuildKernel_Cuda_gen op env d = b1 at hb ⊢
  obtain ⟨bd, bt, br⟩ := b1
  simp only [assemblyBuilder_eq]
  have ha := assemblyBuilder_points op env is_full bd
  generalize CeedOperatorBuildKernelAssemblyAtPoints_Hip_gen op env is_full bd = b2 at ha ⊢
  obtain ⟨ad, atr, ar⟩ := b2
  unfold SamePoints at *
  simp only at hb ha
  obtain ⟨⟨hb1, hb2⟩, hb3⟩ := hb
  obtain ⟨⟨ha1, ha2⟩, ha3⟩ := ha
  cases hc : (!(if is_full = true then d.assemble_full else d.assemble_diagonal) &&
      !d.use_assembly_fallback)
  · simp
  · simp only [if_true]
    by_cases hn : op.num_active_bases_in = op.num_active_bases_out
    · simp only [hn, if_true]
      rcases br with e | v
      · exact ⟨⟨hb1, hb2⟩, hb3⟩
      · rcases v with _ | _
        · exact ⟨⟨hb1, hb2⟩, hb3⟩
        · rcases ar with e | w
          · simp_all [List.mem_append, or_imp, forall_and]
          · rcases w with _ | _
            · simp_all [List.mem_append, or_imp, forall_and]
            · simp_all [List.mem_append, or_imp, forall_and]
    · simp [hn]

/-- The fallback block adds no step on the points buffer and leaves the backend data alone. -/
theorem assemblyFallback_points (kind : KernelKind) (run : Outcome Unit) :
    (assemblyFallback kind run).data = run.data ∧
    ∀ n, Event.reallocPoints n ∈ (assemblyFallback kind run).trace ↔
      Event.reallocPoints n ∈ run.trace := by
  unfold assemblyFallback
  obtain ⟨rd, rt, rr⟩ := run
  rcases rr with e | u
  · simp
  · cases hu : rd.use_assembly_fallback <;> simp [hu]

/-- The apply of an at-points operator whose kernel is built refreshes the points buffer
exactly when the element count differs from the cached count. -/
theorem applyCore_points (op : Operator) (dev : Device) (env : CallEnv) (data : OperatorData)
    (hat : op.is_at_points = true)
    (hb : (CeedOperatorBuildKernel_Cuda_gen op env data).result = Except.ok true) :
    (Event.reallocPoints op.num_elem ∈ (CeedOperatorApplyAddCore_Cuda_gen op dev env data).trace ↔
      op.num_elem ≠ data.points_num_elem) ∧
    (CeedOperatorApplyAddCore_Cuda_gen op dev env data).data.points_num_elem = op.num_elem ∧
    (op.num_elem = data.points_num_elem →
      (CeedOperatorApplyAddCore_Cuda_gen op dev env data).data.points_num_per_elem =
        data.points_num_per_elem) ∧
    (op.num_elem ≠ data.points_num_elem →
      (CeedOperatorApplyAddCore_Cuda_gen op dev env data).data.points_num_per_elem =
        some ((List.range op.num_elem.toNat).map fun e => op.num_points_in_elem e)) := by
  unfold CeedOperatorApplyAddCore_Cuda_gen
  have hbp := build_points op env data
  generalize CeedOperatorBuildKernel_Cuda_gen op env data = b at hb hbp ⊢
  obtain ⟨bd, bt, br⟩ := b
  simp only at hb
  subst hb
  obtain ⟨⟨hp1, hp2⟩, hbt⟩ := hbp
  simp only at hp1 hp2 hbt
  have hnb : ∀ n, Event.reallocPoints n ∉ bt := by
    intro n hn
    have := hbt _ hn
    simp [Event.isReallocPoints] at this
  have hu := updatePoints_spec op bd
  simp only [hat, if_true]
  generalize updatePoints op bd = pts at hu ⊢
  obtain ⟨hu1, _, hu3, hu4, hu5⟩ := hu
  rw [hp1] at hu1 hu4 hu5
  have hsame : op.num_elem = data.points_num_elem →
      pts.1.points_num_per_elem = data.points_num_per_elem := by
    intro h
    rw [hu4 h]
    exact hp2
  cases hl : launchConfig dev env op.has_tensor_bases pts.1.thread_1d pts.1.dim op.num_elem with
  | none =>
    simp only
    refine ⟨?_, hu3, hsame, hu5⟩
    rw [← hu1]
    simp [List.mem_append, hnb]
  | some cfg =>
    simp only
    cases hr : env.run_good
    · simp only [Bool.false_eq_true, if_false]
      refine ⟨?_, hu3, hsame, hu5⟩
      rw [← hu1]
      simp [List.mem_append, hnb]
    · simp only [if_true]
      refine ⟨?_, hu3, hsame, hu5⟩
      rw [← hu1]
      simp [List.mem_append, hnb]

/-- An apply whose kernel build does not report a good build leaves the points buffer alone. -/
theorem applyCore_points_fallback (op : Operator) (dev : Device) (env : CallEnv)
    (data : OperatorData)
    (hb : (CeedOperatorBuildKernel_Cuda_gen op env data).result ≠ Except.ok true) :
    SamePoints data (CeedOperatorApplyAddCore_Cuda_gen op dev env data).data ∧
    ∀ ev ∈ (CeedOperatorApplyAddCore_Cuda_gen op dev env data).trace,
      ev.isReallocPoints = false := by
  unfold CeedOperatorApplyAddCore_Cuda_gen
  have hbp := build_points op env data
  generalize CeedOperatorBuildKernel_Cuda_gen op env data = b at hb hbp ⊢
  obtain ⟨bd, bt, br⟩ := b
  simp only at hb
  rcases br with e | v
  · exact hbp
  · rcases v with _ | _
    · exact hbp
    · exact absurd rfl hb

/-- An at-points assembly whose build block leaves the assembly fallback flag clear refreshes
the points buffer exactly when the element count differs from the cached count. -/
theorem assembleAtPoints_points (op : Operator) (dev : Device) (env : CallEnv)
    (is_full : Bool) (data : OperatorData)
    (hb : (assembleAtPointsBuild op env is_full data).result = Except.ok () ∧
      (assembleAtPointsBuild op env is_full data).data.use_assembly_fallback = false) :
    (Event.reallocPoints op.num_elem ∈ (assembleAtPoints op dev env is_full data).trace ↔
      op.num_elem ≠ data.points_num_elem) ∧
    (assembleAtPoints op dev env is_full data).data.points_num_elem = op.num_elem ∧
    (op.num_elem = data.points_num_elem →
      (assembleAtPoints op dev env is_full data).data.points_num_per_elem =
        data.points_num_per_elem) ∧
    (op.num_elem ≠ data.points_num_elem →
      (assembleAtPoints op dev env is_full data).data.points_num_per_elem =
        some ((List.range op.num_elem.toNat).map fun e => op.num_points_in_elem e)) := by
  unfold assembleAtPoints
  have hbp := assembleAtPointsBuild_points op env is_full data
  generalize assembleAtPointsBuild op env is_full data = b at hb hbp ⊢
  obtain ⟨bd, bt, br⟩ := b
  simp only at hb
  obtain ⟨hbr, hbf⟩ := hb
  subst hbr
  obtain ⟨⟨hp1, hp2⟩, hbt⟩ := hbp
  simp only at hp1 hp2 hbt
  have hnb : ∀ n, Event.reallocPoints n ∉ bt := by
    intro n hn
    have := hbt _ hn
    simp [Event.isReallocPoints] at this
  simp only
  obtain ⟨hfd, hft⟩ := assemblyFallback_points (atPointsKind is_full)
    (assembleAtPointsTry op dev env is_full bd bt)
  rw [hfd, hft]
  unfold assembleAtPointsTry
  have hu := updatePoints_spec op bd
  simp only [hbf, Bool.not_false, if_true]
  generalize updatePoints op bd = pts at hu ⊢
  obtain ⟨hu1, _, hu3, hu4, hu5⟩ := hu
  rw [hp1] at hu1 hu4 hu5
  have hsame : op.num_elem = data.points_num_elem →
      pts.1.points_num_per_elem = data.points_num_per_elem := by
    intro h
    rw [hu4 h]
    exact hp2
  cases hl : launchConfigAtPoints dev env pts.1.thread_1d pts.1.dim op.num_elem with
  | none =>
    simp only
    refine ⟨?_, hu3, hsame, hu5⟩
    rw [← hu1]
    simp [List.mem_append, hnb]
  | some cfg =>
    simp only
    cases hr : env.run_good
    · simp only [Bool.false_eq_true, if_false]
      refine ⟨?_, hu3, hsame, hu5⟩
      rw [← hu1]
      simp [List.mem_append, hnb]
    · simp only [if_true]
      refine ⟨?_, hu3, hsame, hu5⟩
      rw [← hu1]
      simp [List.mem_append, hnb]

/-- An at-points assembly that is handed to the fallback before the block "Try assembly"
leaves the points buffer alone. -/
theorem assembleAtPoints_points_fallback (op : Operator) (dev : Device) (env : CallEnv)
    (is_full : Bool) (data : OperatorData)
    (hb : ¬ ((assembleAtPointsBuild op env is_full data).result = Except.ok () ∧
      (assembleAtPointsBuild op env is_full data).data.use_assembly_fallback = false)) :
    SamePoints data (assembleAtPoints op dev env is_full data).data ∧
    ∀ n, Event.reallocPoints n ∉ (assembleAtPoints op dev env is_full data).trace := by
  unfold assembleAtPoints
  have hbp := assembleAtPointsBuild_points op env is_full data
  generalize assembleAtPointsBuild op env is_full data = b at hb hbp ⊢
  obtain ⟨bd, bt, br⟩ := b
  simp only at hb
  obtain ⟨hp, hbt⟩ := hbp
  simp only at hp hbt
  have hnb : ∀ n, Event.reallocPoints n ∉ bt := by
    intro n hn
    have := hbt _ hn
    simp [Event.isReallocPoints] at this
  rcases br with e | u
  · exact ⟨hp, hnb⟩
  · have hf : bd.use_assembly_fallback = true := by
      cases hu : bd.use_assembly_fallback
      · exact absurd ⟨rfl, hu⟩ hb
      · rfl
    simp only
    obtain ⟨hfd, hft⟩ := assemblyFallback_points (atPointsKind is_full)
      (assembleAtPointsTry op dev env is_full bd bt)
    rw [hfd]
    have htry : assembleAtPointsTry op dev env is_full bd bt =
        { data := bd, trace := bt, result := Except.ok () } := by
      unfold assembleAtPointsTry
      simp [hf]
    refine ⟨by rw [htry]; exact hp, ?_⟩
    intro n
    rw [hft, htry]
    exact hnb n

/-- C23 (as stated, refuted). The sample at-points operator has 10 elements and a fresh
backend data caches the count 0; when the compilation of its kernel fails, the apply is handed
to the fallback: no step of the call touches the points-per-element buffer, which stays
unallocated, and the cached count is still 0 after the call, not the element count. -/
theorem points_buffer_not_refreshed_on_fallback :
    sampleOperator.is_at_points = true ∧
    sampleOperator.num_elem = 10 ∧
    OperatorData.init.points_num_elem = 0 ∧
    (CeedOperatorApplyAdd_Cuda_gen sampleOperator sampleDevice sampleEnvCompileFails
      OperatorData.init).trace.all (fun ev => !ev.isReallocPoints) = true ∧
    Event.fallback KernelKind.apply ∈ (CeedOperatorApplyAdd_Cuda_gen sampleOperator sampleDevice
      sampleEnvCompileFails OperatorData.init).trace ∧
    (CeedOperatorApplyAdd_Cuda_gen sampleOperator sampleDevice sampleEnvCompileFails
      OperatorData.init).data.points_num_elem = 0 ∧
    (CeedOperatorApplyAdd_Cuda_gen sampleOperator sampleDevice sampleEnvCompileFails
      OperatorData.init).data.points_num_per_elem = none := by
  decide

/-- C23 (amended). For an at-points operator and a call that reaches the block "Points per
elem" (an apply whose kernel build reports a good build; an at-points diagonal or full assembly
whose build block returns with the assembly fallback flag clear), the points-per-element buffer
is freed, allocated and filled during the call if and only if the element count of the operator
differs from the cached count `data->points.num_elem`; when the counts are equal the buffer is
left as it was; after the call the cached count is the element count, and a buffer allocated by
the call holds the point counts of the elements.  A call that is handed to the fallback before
that block leaves the buffer and the cached count as they were. -/
theorem points_buffer_refresh (op : Operator) (dev : Device) (env : CallEnv)
    (data : OperatorData) (hat : op.is_at_points = true) :
    ((CeedOperatorBuildKernel_Cuda_gen op env data).result = Except.ok true →
      (Event.reallocPoints op.num_elem ∈
          (CeedOperatorApplyAddCore_Cuda_gen op dev env data).trace ↔
        op.num_elem ≠ data.points_num_elem) ∧
      (CeedOperatorApplyAddCore_Cuda_gen op dev env data).data.points_num_elem = op.num_elem ∧
      (op.num_elem = data.points_num_elem →
        (CeedOperatorApplyAddCore_Cuda_gen op dev env data).data.points_num_per_elem =
          data.points_num_per_elem) ∧
      (op.num_elem ≠ data.points_num_elem →
        (CeedOperatorApplyAddCore_Cuda_gen op dev env data).data.points_num_per_elem =
          some ((List.range op.num_elem.toNat).map fun e => op.num_points_in_elem e))) ∧
    ((CeedOperatorBuildKernel_Cuda_gen op env data).result ≠ Except.ok true →
      SamePoints data (CeedOperatorApplyAddCore_Cuda_gen op dev env data).data ∧
      ∀ ev ∈ (CeedOperatorApplyAddCore_Cuda_gen op dev env data).trace,
        ev.isReallocPoints = false) ∧
    (∀ is_full : Bool,
      ((assembleAtPointsBuild op env is_full data).result = Except.ok () ∧
        (assembleAtPointsBuild op env is_full data).data.use_assembly_fallback = false →
        (Event.reallocPoints op.num_elem ∈ (assembleAtPoints op dev env is_full data).trace ↔
          op.num_elem ≠ data.points_num_elem) ∧
        (assembleAtPoints op dev env is_full data).data.points_num_elem = op.num_elem ∧
        (op.num_elem = data.points_num_elem →
          (assembleAtPoints op dev env is_full data).data.points_num_per_elem =
            data.points_num_per_elem) ∧
        (op.num_elem ≠ data.points_num_elem →
          (assembleAtPoints op dev env is_full data).data.points_num_per_elem =
            some ((List.range op.num_elem.toNat).map fun e => op.num_points_in_elem e))) ∧
      (¬ ((assembleAtPointsBuild op env is_full data).result = Except.ok () ∧
          (assembleAtPointsBuild op env is_full data).data.use_assembly_fallback = false) →
        SamePoints data (assembleAtPoints op dev env is_full data).data ∧
        ∀ n, Event.reallocPoints n ∉ (assembleAtPoints op dev env is_full data).trace)) :=
  ⟨fun hb => applyCore_points op dev env data hat hb,
   fun hb => applyCore_points_fallback op dev env data hb,
   fun is_full =>
    ⟨fun hb => assembleAtPoints_points op dev env is_full data hb,
     fun hb => assembleAtPoints_points_fallback op dev env is_full data hb⟩⟩

/-- Witness of the amended C23: the first apply of the sample at-points operator with 10
elements allocates the buffer and caches the count 10; a second apply on the resulting backend
data finds the counts equal and leaves the buffer as it is. -/
theorem points_buffer_refresh_witness :
    (Event.reallocPoints sampleOperator.num_elem ∈
        (CeedOperatorApplyAddCore_Cuda_gen sampleOperator sampleDevice sampleEnvGood
          OperatorData.init).trace ↔
      sampleOperator.num_elem ≠ OperatorData.init.points_num_elem) ∧
    (CeedOperatorApplyAddCore_Cuda_gen sampleOperator sampleDevice sampleEnvGood
      OperatorData.init).data.points_num_elem = sampleOperator.num_elem ∧
    (CeedOperatorApplyAddCore_Cuda_gen sampleOperator sampleDevice sampleEnvGood
      (CeedOperatorApplyAddCore_Cuda_gen sampleOperator sampleDevice sampleEnvGood
        OperatorData.init).data).trace.all (fun ev => !ev.isReallocPoints) = true :=
  ⟨((points_buffer_refresh sampleOperator sampleDevice sampleEnvGood OperatorData.init rfl).1
      rfl).1,
   ((points_buffer_refresh sampleOperator sampleDevice sampleEnvGood OperatorData.init rfl).1
      rfl).2.1,
   by decide⟩

end CeedGen
